import Mathlib

/-! Box (Direct3D 12 sample framework): verification development

Shallow embedding of `Dx12Common.hpp`, `RenderStructs.hpp`, `UploadBuffer.hpp`,
`Timer.cpp`, of `Framework.cpp` (the submission / synchronisation engine, adapter
selection and device creation, the mesh import, the cube, the window procedure)
and of `winMain.cpp`, followed by the theorems about them.

Conventions.
* `UINT` values are naturals below `2 ^ 32`, `UINT64` / `size_t` values are
  naturals below `2 ^ 64`; arithmetic that can leave the range is reduced
  explicitly.
* In the engine, calls into Direct3D / DXGI are taken on their success path: a
  failing `HRESULT` makes `ThrowIfFailed` throw and the operation does not
  complete. The parts on adapter selection, device creation, the mesh import,
  shader compilation and `wWinMain` take the `HRESULT`s as inputs and return the
  exception thrown.
* `float` and `double` arithmetic on coordinates and times is taken exact
  (rational numbers).
* The contents of a buffer are its bytes; a copy or a read that would leave the
  buffer (or the view it goes through) yields no result.
-/

namespace Box

/-! ## Dx12Common.hpp -/

/-- The function `CalcConstantBufferByteSize`: `(byteSize + 255) & ~255` on `UINT`.
The sum wraps at `2 ^ 32`; `~255` converted to `UINT` is `0xFFFFFF00`. -/
def CalcConstantBufferByteSize (byteSize : Nat) : Nat :=
  ((byteSize + 255) % 2 ^ 32) &&& 0xFFFFFF00

/-! ## RenderStructs.hpp -/

/-- Size of `float`. -/
def sizeof_float : Nat := 4
/-- Size of `DirectX::XMFLOAT3` (three floats). -/
def sizeof_XMFLOAT3 : Nat := 3 * sizeof_float
/-- Size of `DirectX::XMFLOAT4` (four floats). -/
def sizeof_XMFLOAT4 : Nat := 4 * sizeof_float
/-- Size of `DirectX::XMFLOAT4X4` (sixteen floats). -/
def sizeof_XMFLOAT4X4 : Nat := 16 * sizeof_float

/-- Size of a struct whose members all have alignment 4 (so that no padding is
inserted between them) and which is declared `alignas(align)`: the sum of the
member sizes rounded up to the alignment. -/
def structSize (members : List Nat) (align : Nat) : Nat :=
  (members.sum + align - 1) / align * align

/-- Size `sizeof(Vertex)`: `Pos`, `Normal`, `Color`. -/
def sizeof_Vertex : Nat :=
  structSize [sizeof_XMFLOAT3, sizeof_XMFLOAT3, sizeof_XMFLOAT4] 4

/-- Size `sizeof(ObjectConstants)`: `World`, `WorldInvTranspose`; `alignas(16)`. -/
def sizeof_ObjectConstants : Nat :=
  structSize [sizeof_XMFLOAT4X4, sizeof_XMFLOAT4X4] 16

/-- Size `sizeof(PassConstants)`: `ViewProj`, `EyePosW`, `_pad0`, `LightDirW`,
`_pad1`, `Ambient`, `Diffuse`, `Specular`, `SpecPower`, `_pad2`; `alignas(16)`. -/
def sizeof_PassConstants : Nat :=
  structSize [sizeof_XMFLOAT4X4, sizeof_XMFLOAT3, sizeof_float, sizeof_XMFLOAT3,
    sizeof_float, sizeof_XMFLOAT4, sizeof_XMFLOAT4, sizeof_XMFLOAT4, sizeof_float,
    sizeof_XMFLOAT3] 16

/-! ## UploadBuffer.hpp -/

/-- The call `std::memcpy(base + dst, src, n)` on a byte-addressed memory given as a map
from offsets (relative to `base`) to bytes. The map has no extent: whether the
`n` bytes lie inside the memory that was mapped is checked where the extent is
known (`UploadBuffer.inBounds`, `UploadBuffer.CopyData_checked`). -/
def memcpy (mem : Nat → Nat) (dst : Nat) (src : List Nat) (n : Nat) : Nat → Nat :=
  fun a => if dst ≤ a ∧ a < dst + n then src.getD (a - dst) 0 else mem a

/-- The `n` bytes of `mem` starting at offset `off`. -/
def readBytes (mem : Nat → Nat) (off n : Nat) : List Nat :=
  (List.range n).map (fun j => mem (off + j))

/-- The class `UploadBuffer<T>`. `sizeofT` is `sizeof(T)`; `bufferSize` is the width of the
committed resource behind `m_uploadBuffer`; `m_mappedData` gives the byte found at
each offset from the mapped pointer. -/
structure UploadBuffer where
  sizeofT : Nat
  m_elementByteSize : Nat
  m_isConstantBuffer : Bool
  bufferSize : Nat
  m_mappedData : Nat → Nat

/-- The constructor `UploadBuffer(device, elementCount, isConstantBuffer)`.
`m_elementByteSize = sizeof(T)` narrows `size_t` to `UINT`; the buffer width is
the `UINT64` product `(UINT64)m_elementByteSize * elementCount`. `mem` is the
content of the freshly mapped memory. -/
def UploadBuffer.create (sizeofT elementCount : Nat) (isConstantBuffer : Bool)
    (mem : Nat → Nat) : UploadBuffer :=
  let e0 := sizeofT % 2 ^ 32
  let e := if isConstantBuffer then CalcConstantBufferByteSize e0 else e0
  { sizeofT := sizeofT
    m_elementByteSize := e
    m_isConstantBuffer := isConstantBuffer
    bufferSize := (e * elementCount) % 2 ^ 64
    m_mappedData := mem }

/-- The offset `(size_t)elementIndex * m_elementByteSize` used by `CopyData`
(`int` converted to the 64-bit `size_t`, product taken in `size_t`). -/
def UploadBuffer.slotOffset (b : UploadBuffer) (elementIndex : Int) : Nat :=
  ((elementIndex % 2 ^ 64).toNat * b.m_elementByteSize) % 2 ^ 64

/-- The method `CopyData(elementIndex, data)`: `memcpy` of `sizeof(T)` bytes to the slot
offset. `data` is the object representation of the value. The method itself
checks neither the index nor the size against `bufferSize`; this function gives
the bytes that the copy writes, and `UploadBuffer.CopyData_checked` tells whether
they lie inside the mapped memory. -/
def UploadBuffer.CopyData (b : UploadBuffer) (elementIndex : Int) (data : List Nat) :
    UploadBuffer :=
  { b with m_mappedData := memcpy b.m_mappedData (b.slotOffset elementIndex) data b.sizeofT }

/-- Whether `CopyData(elementIndex, data)` stays inside the mapped memory: the
`sizeof(T)` bytes from the slot offset on lie within the `bufferSize` bytes of the
resource behind `m_mappedData`. Otherwise the `memcpy` runs past the mapped
memory and the behaviour is undefined. -/
def UploadBuffer.inBounds (b : UploadBuffer) (elementIndex : Int) : Bool :=
  decide (b.slotOffset elementIndex + b.sizeofT ≤ b.bufferSize)

/-- The method `CopyData(elementIndex, data)` with the extent of the mapped memory
taken into account: the buffer after the copy, or `none` when the copy leaves the
mapped memory (undefined behaviour). -/
def UploadBuffer.CopyData_checked (b : UploadBuffer) (elementIndex : Int) (data : List Nat) :
    Option UploadBuffer :=
  if b.inBounds elementIndex then some (b.CopyData elementIndex data) else none

/-- The `n` bytes of the mapped memory from offset `off` on, or `none` when they
do not all lie inside the mapped memory. -/
def UploadBuffer.readBack (b : UploadBuffer) (off n : Nat) : Option (List Nat) :=
  if off + n ≤ b.bufferSize then some (readBytes b.m_mappedData off n) else none

/-- The method `Framework::BuildConstantBuffers`: the two constant buffers, one element each. -/
def BuildConstantBuffers (memObj memPass : Nat → Nat) : UploadBuffer × UploadBuffer :=
  (UploadBuffer.create sizeof_ObjectConstants 1 true memObj,
   UploadBuffer.create sizeof_PassConstants 1 true memPass)

/-- The method `Framework::BuildCbvViews`: the `SizeInBytes` of the object and of the pass
constant-buffer view. -/
def BuildCbvViews_SizeInBytes : Nat × Nat :=
  (CalcConstantBufferByteSize sizeof_ObjectConstants,
   CalcConstantBufferByteSize sizeof_PassConstants)

/-! ## Direct3D 12 objects used by Framework.cpp

The device, the command queue and the swap chain are not part of the repository;
they are modelled by their documented behaviour: the queue executes what was
submitted in FIFO order and asynchronously to the CPU, a queued `Signal` sets
the fence to the signalled value, a transition barrier changes the state of a
resource, and a command that needs a resource in some state is counted as a
hazard when the resource is released or in another state. -/

/-- State `D3D12_RESOURCE_STATE_COMMON` (d3d12.h). -/
def D3D12_RESOURCE_STATE_COMMON : Nat := 0
/-- State `D3D12_RESOURCE_STATE_VERTEX_AND_CONSTANT_BUFFER` (d3d12.h). -/
def D3D12_RESOURCE_STATE_VERTEX_AND_CONSTANT_BUFFER : Nat := 0x1
/-- State `D3D12_RESOURCE_STATE_INDEX_BUFFER` (d3d12.h). -/
def D3D12_RESOURCE_STATE_INDEX_BUFFER : Nat := 0x2
/-- State `D3D12_RESOURCE_STATE_RENDER_TARGET` (d3d12.h). -/
def D3D12_RESOURCE_STATE_RENDER_TARGET : Nat := 0x4
/-- State `D3D12_RESOURCE_STATE_DEPTH_WRITE` (d3d12.h). -/
def D3D12_RESOURCE_STATE_DEPTH_WRITE : Nat := 0x10
/-- State `D3D12_RESOURCE_STATE_COPY_DEST` (d3d12.h). -/
def D3D12_RESOURCE_STATE_COPY_DEST : Nat := 0x400
/-- State `D3D12_RESOURCE_STATE_COPY_SOURCE` (d3d12.h). -/
def D3D12_RESOURCE_STATE_COPY_SOURCE : Nat := 0x800
/-- State `D3D12_RESOURCE_STATE_GENERIC_READ` (d3d12.h): the union of the read states
`0x1 | 0x2 | 0x40 | 0x80 | 0x200 | 0x800`. -/
def D3D12_RESOURCE_STATE_GENERIC_READ : Nat := 0xAC3
/-- State `D3D12_RESOURCE_STATE_PRESENT` (d3d12.h); the same value as `COMMON`. -/
def D3D12_RESOURCE_STATE_PRESENT : Nat := 0

/-- The constant `Framework::SwapChainBufferCount`. -/
def SwapChainBufferCount : Nat := 2

/-- The number of low bits that the conversion of `n` to `float` drops: the least
`e` from `e0` on with `n < 2 ^ (24 + e)`, searched for `fuel` steps (eight steps
cover every value of a 32-bit `int`). -/
def droppedBits (n : Nat) : Nat → Nat → Nat
  | 0, e0 => e0
  | fuel + 1, e0 => if n < 2 ^ (24 + e0) then e0 else droppedBits n fuel (e0 + 1)

/-- The conversion `static_cast<float>(n)` of a natural number below `2 ^ 32`: the
nearest value with a 24-bit significand, ties to even. Values below `2 ^ 24` are
kept as they are. -/
def natToFloat (n : Nat) : Nat :=
  if n < 2 ^ 24 then n
  else
    let e := droppedBits n 8 0
    let q := n / 2 ^ e
    let r := n % 2 ^ e
    let half := 2 ^ (e - 1)
    (if half < r ∨ (r = half ∧ q % 2 = 1) then q + 1 else q) * 2 ^ e

/-- The conversion `static_cast<float>(n)` of an `int`; the result is an integer. -/
def intToFloat (n : Int) : Int :=
  if 0 ≤ n then (natToFloat n.toNat : Int) else -(natToFloat (-n).toNat : Int)

/-- Structure `D3D12_VIEWPORT`. Its fields are `float`s; every value this program
stores in them is an integer. -/
structure D3D12_VIEWPORT where
  TopLeftX : Int
  TopLeftY : Int
  Width : Int
  Height : Int
  MinDepth : Int
  MaxDepth : Int
  deriving DecidableEq, Repr

/-- Structure `D3D12_RECT`. -/
structure D3D12_RECT where
  left : Int
  top : Int
  right : Int
  bottom : Int
  deriving DecidableEq, Repr

/-- Commands recorded into `m_commandList`. A resource argument is the handle that
was passed (`none` for a null pointer); a view argument is the descriptor handle
(byte offset from the heap start) together with the resource the descriptor
referred to when the command was recorded. -/
inductive Cmd where
  | ResourceBarrier (pResource : Option Nat) (StateBefore StateAfter : Nat)
  | CopyBufferRegion (dst src : Option Nat) (numBytes : Nat)
  | RSSetViewports (vp : D3D12_VIEWPORT)
  | RSSetScissorRects (rect : D3D12_RECT)
  | SetGraphicsRootSignature
  | SetDescriptorHeaps
  | SetGraphicsRootDescriptorTable
  | OMSetRenderTargets (rtv : Nat) (rtvResource : Option Nat) (dsv : Nat)
      (dsvResource : Option Nat)
  | ClearRenderTargetView (rtv : Nat) (rtvResource : Option Nat)
  | ClearDepthStencilView (dsv : Nat) (dsvResource : Option Nat)
  | IASetPrimitiveTopology
  | IASetVertexBuffers (vb : Option Nat)
  | IASetIndexBuffer (ib : Option Nat)
  | DrawInstanced (vertexCount : Nat)
  | DrawIndexedInstanced (indexCount : Nat)
  deriving DecidableEq, Repr

/-- Work items of the command queue. -/
inductive QueueItem where
  | ExecuteCommandLists (cmds : List Cmd)
  | Signal (value : Nat)
  | Present (buffer : Option Nat)
  deriving DecidableEq, Repr

/-- Calls made by the framework, in program order. -/
inductive Call where
  | FlushCommandQueue
  | Signal (value : Nat)
  | AllocatorReset
  | CommandListReset
  | CommandListClose
  | ExecuteCommandLists
  | Present
  | ReleaseBackBuffer (i : Nat)
  | ReleaseDepthStencilBuffer
  | ResizeBuffers (width height : Int)
  | GetBuffer (i : Nat)
  | CreateRenderTargetView (i : Nat) (handle : Nat)
  | CreateDepthStencilBuffer (width height : Int)
  | CreateDepthStencilView
  | SetViewport
  | SetScissorRect
  deriving DecidableEq, Repr

/-- Device-side state: the completed value of the fence, the current state of every
live resource (`none` for a resource that does not exist), the number of hazards
seen so far, and the output-merger / input-assembler bindings of the list being
executed. -/
structure Gpu where
  fenceValue : Nat
  resources : Nat → Option Nat
  hazards : Nat
  boundRT : Option Nat
  boundDS : Option Nat
  boundVB : Option Nat
  boundIB : Option Nat

/-- Whether resource `res` is live and usable in state `need`: equal to `need` for
the zero state (`PRESENT` / `COMMON`), containing all bits of `need` otherwise. -/
def Gpu.inState (g : Gpu) (res : Option Nat) (need : Nat) : Bool :=
  match res with
  | none => false
  | some r =>
    match g.resources r with
    | none => false
    | some st => if need = 0 then st == 0 else st &&& need == need

/-- Count a hazard unless `res` is usable in state `need`. -/
def Gpu.require (g : Gpu) (res : Option Nat) (need : Nat) : Gpu :=
  if g.inState res need then g else { g with hazards := g.hazards + 1 }

/-- Execution of one recorded command. A transition barrier needs the resource to be
live and exactly in `StateBefore`, and leaves it in `StateAfter`. -/
def Gpu.execCmd (g : Gpu) : Cmd → Gpu
  | Cmd.ResourceBarrier none _ _ => { g with hazards := g.hazards + 1 }
  | Cmd.ResourceBarrier (some r) before after =>
    match g.resources r with
    | none => { g with hazards := g.hazards + 1 }
    | some st =>
      { g with
        hazards := if st = before then g.hazards else g.hazards + 1
        resources := Function.update g.resources r (some after) }
  | Cmd.CopyBufferRegion dst src _ =>
    (g.require dst D3D12_RESOURCE_STATE_COPY_DEST).require src D3D12_RESOURCE_STATE_COPY_SOURCE
  | Cmd.OMSetRenderTargets _ rt _ ds => { g with boundRT := rt, boundDS := ds }
  | Cmd.ClearRenderTargetView _ rt => g.require rt D3D12_RESOURCE_STATE_RENDER_TARGET
  | Cmd.ClearDepthStencilView _ ds => g.require ds D3D12_RESOURCE_STATE_DEPTH_WRITE
  | Cmd.IASetVertexBuffers vb => { g with boundVB := vb }
  | Cmd.IASetIndexBuffer ib => { g with boundIB := ib }
  | Cmd.DrawInstanced _ =>
    ((g.require g.boundRT D3D12_RESOURCE_STATE_RENDER_TARGET).require g.boundDS
      D3D12_RESOURCE_STATE_DEPTH_WRITE).require g.boundVB
      D3D12_RESOURCE_STATE_VERTEX_AND_CONSTANT_BUFFER
  | Cmd.DrawIndexedInstanced _ =>
    (((g.require g.boundRT D3D12_RESOURCE_STATE_RENDER_TARGET).require g.boundDS
      D3D12_RESOURCE_STATE_DEPTH_WRITE).require g.boundVB
      D3D12_RESOURCE_STATE_VERTEX_AND_CONSTANT_BUFFER).require g.boundIB
      D3D12_RESOURCE_STATE_INDEX_BUFFER
  | _ => g

/-- Execution of one queue item. -/
def Gpu.exec (g : Gpu) : QueueItem → Gpu
  | QueueItem.ExecuteCommandLists cmds =>
    cmds.foldl Gpu.execCmd
      { g with boundRT := none, boundDS := none, boundVB := none, boundIB := none }
  | QueueItem.Signal v => { g with fenceValue := v }
  | QueueItem.Present buffer => g.require buffer D3D12_RESOURCE_STATE_PRESENT

/-- The GPU executes up to `k` items from the front of the queue. -/
def gpuRun : Nat → List QueueItem → Gpu → List QueueItem × Gpu
  | 0, q, g => (q, g)
  | _ + 1, [], g => ([], g)
  | k + 1, item :: q, g => gpuRun k q (g.exec item)

/-- The call `WaitForSingleObject(m_fenceEvent, INFINITE)` after
`SetEventOnCompletion(v, m_fenceEvent)`: the GPU keeps executing queue items and
the wait returns as soon as the fence has reached `v`; `none` when the queue
runs empty first (the wait never returns). -/
def gpuWait (v : Nat) : List QueueItem → Gpu → Option (List QueueItem × Gpu)
  | [], g => if v ≤ g.fenceValue then some ([], g) else none
  | item :: q, g =>
    if v ≤ g.fenceValue then some (item :: q, g) else gpuWait v q (g.exec item)

/-- The GPU executes the whole queue. -/
def gpuRunAll (q : List QueueItem) (g : Gpu) : Gpu :=
  q.foldl Gpu.exec g

/-! ## Framework.hpp / Framework.cpp: the submission and synchronisation engine -/

/-- Structure `D3D12_VERTEX_BUFFER_VIEW`; `BufferLocation` is kept as the resource
whose GPU address it holds. -/
structure D3D12_VERTEX_BUFFER_VIEW where
  BufferLocation : Option Nat
  SizeInBytes : Nat
  StrideInBytes : Nat
  deriving DecidableEq, Repr

/-- Structure `D3D12_INDEX_BUFFER_VIEW` (the format is always `R16_UINT`). -/
structure D3D12_INDEX_BUFFER_VIEW where
  BufferLocation : Option Nat
  SizeInBytes : Nat
  deriving DecidableEq, Repr

/-- The members of `Framework` that take part in submission and synchronisation,
followed by the objects behind its COM handles. A `Bool` member tells whether the
`ComPtr` (or `HANDLE`) is non-null; a resource handle is `some id`.

* `m_currentFence` is a `UINT64` that starts at 0 and only changes by `++`; it is
  kept as a natural number (a wrap needs `2 ^ 64` flushes).
* `rtvDescriptors` / `dsvDescriptors`: the resource each written descriptor refers
  to, by byte offset from the heap start.
* `swapChainBuffers`, `swapChainIndex`: the buffers owned by the swap chain and
  its `GetCurrentBackBufferIndex()`.
* `recording`: the commands recorded into `m_commandList` since its last `Reset`.
* `queue`: what was submitted to `m_commandQueue` and not yet executed.
* `resetsInFlight`: how often the allocator or the list was reset while a
  submitted command list had not been executed yet.
* `trace`: the calls made so far. -/
structure Framework where
  m_initWidth : Int
  m_initHeight : Int
  m_clientWidth : Int
  m_clientHeight : Int
  m_device : Bool
  m_commandQueue : Bool
  m_directCmdListAlloc : Bool
  m_commandList : Bool
  m_fence : Bool
  m_currentFence : Nat
  m_fenceEvent : Bool
  m_swapChain : Bool
  m_currBackBuffer : Int
  m_rtvHeap : Bool
  m_dsvHeap : Bool
  m_cbvHeap : Bool
  m_rtvDescriptorSize : Nat
  m_dsvDescriptorSize : Nat
  m_cbvSrvUavDescriptorSize : Nat
  m_swapChainBuffer : List (Option Nat)
  m_depthStencilBuffer : Option Nat
  m_screenViewport : D3D12_VIEWPORT
  m_scissorRect : D3D12_RECT
  m_boxVB : Option Nat
  m_boxIB : Option Nat
  m_boxVBUpload : Option Nat
  m_boxIBUpload : Option Nat
  m_boxVBView : D3D12_VERTEX_BUFFER_VIEW
  m_boxIBView : D3D12_INDEX_BUFFER_VIEW
  m_boxIndexCount : Nat
  m_modelVB : Option Nat
  m_modelVBV : D3D12_VERTEX_BUFFER_VIEW
  m_modelVertexCount : Nat
  rtvDescriptors : Nat → Option Nat
  dsvDescriptors : Nat → Option Nat
  swapChainBuffers : List Nat
  swapChainIndex : Nat
  recording : List Cmd
  queue : List QueueItem
  gpu : Gpu
  nextResource : Nat
  resetsInFlight : Nat
  trace : List Call

/-- What the platform answers during `Init`: the descriptor increments of the
device, whether `CreateEvent` returned a handle, whether `tinyobj::LoadObj`
succeeded and how many vertices its triangles expand to. -/
structure Env where
  rtvDescriptorSize : Nat
  dsvDescriptorSize : Nat
  cbvSrvUavDescriptorSize : Nat
  fenceEventCreated : Bool
  objLoadOk : Bool
  objVertexCount : Nat

/-- The constructor `Framework(width, height, title)` with the default member
initialisers; no device object exists yet. -/
def Framework.new (width height : Int) : Framework :=
  { m_initWidth := width
    m_initHeight := height
    m_clientWidth := width
    m_clientHeight := height
    m_device := false
    m_commandQueue := false
    m_directCmdListAlloc := false
    m_commandList := false
    m_fence := false
    m_currentFence := 0
    m_fenceEvent := false
    m_swapChain := false
    m_currBackBuffer := 0
    m_rtvHeap := false
    m_dsvHeap := false
    m_cbvHeap := false
    m_rtvDescriptorSize := 0
    m_dsvDescriptorSize := 0
    m_cbvSrvUavDescriptorSize := 0
    m_swapChainBuffer := List.replicate SwapChainBufferCount none
    m_depthStencilBuffer := none
    m_screenViewport := ⟨0, 0, 0, 0, 0, 0⟩
    m_scissorRect := ⟨0, 0, 0, 0⟩
    m_boxVB := none
    m_boxIB := none
    m_boxVBUpload := none
    m_boxIBUpload := none
    m_boxVBView := ⟨none, 0, 0⟩
    m_boxIBView := ⟨none, 0⟩
    m_boxIndexCount := 0
    m_modelVB := none
    m_modelVBV := ⟨none, 0, 0⟩
    m_modelVertexCount := 0
    rtvDescriptors := fun _ => none
    dsvDescriptors := fun _ => none
    swapChainBuffers := []
    swapChainIndex := 0
    recording := []
    queue := []
    gpu := ⟨0, fun _ => none, 0, none, none, none, none⟩
    nextResource := 0
    resetsInFlight := 0
    trace := [] }

/-- Append a call to the trace. -/
def Framework.call (s : Framework) (c : Call) : Framework :=
  { s with trace := s.trace ++ [c] }

/-- Record a command into `m_commandList`. -/
def Framework.record (s : Framework) (c : Cmd) : Framework :=
  { s with recording := s.recording ++ [c] }

/-- Whether a queue item is a submitted command list. -/
def QueueItem.isExecute : QueueItem → Bool
  | QueueItem.ExecuteCommandLists _ => true
  | _ => false

/-- The call `m_directCmdListAlloc->Reset()`. -/
def Framework.allocatorReset (s : Framework) : Framework :=
  { s with
    resetsInFlight :=
      if s.queue.any QueueItem.isExecute then s.resetsInFlight + 1 else s.resetsInFlight
    trace := s.trace ++ [Call.AllocatorReset] }

/-- The call `m_commandList->Reset(allocator, pso)`. -/
def Framework.commandListReset (s : Framework) : Framework :=
  { s with
    recording := []
    resetsInFlight :=
      if s.queue.any QueueItem.isExecute then s.resetsInFlight + 1 else s.resetsInFlight
    trace := s.trace ++ [Call.CommandListReset] }

/-- The call `m_commandList->Close()`. -/
def Framework.commandListClose (s : Framework) : Framework :=
  s.call Call.CommandListClose

/-- The call `m_commandQueue->ExecuteCommandLists(1, { m_commandList })`. -/
def Framework.executeCommandLists (s : Framework) : Framework :=
  { s with
    queue := s.queue ++ [QueueItem.ExecuteCommandLists s.recording]
    trace := s.trace ++ [Call.ExecuteCommandLists] }

/-- A successful `CreateCommittedResource` (or buffer creation by the swap chain):
the new resource gets the next free identity, `s.nextResource`, and starts in
`initialState`. -/
def Framework.createResource (s : Framework) (initialState : Nat) : Framework :=
  { s with
    nextResource := s.nextResource + 1
    gpu := { s.gpu with
      resources := Function.update s.gpu.resources s.nextResource (some initialState) } }

/-- Release of the last reference to a resource: the resource is destroyed at once. -/
def Framework.destroy (s : Framework) : Option Nat → Framework
  | none => s
  | some id =>
    { s with gpu := { s.gpu with resources := Function.update s.gpu.resources id none } }

/-- The method `Framework::FlushCommandQueue`. `k` is the number of queue items
the GPU happens to execute between the `Signal` and the read of
`GetCompletedValue()`. The result is `none` when the wait never returns. -/
def Framework.FlushCommandQueue (k : Nat) (s : Framework) : Option Framework :=
  if !s.m_commandQueue || !s.m_fence || !s.m_fenceEvent then
    some (s.call Call.FlushCommandQueue)
  else
    let s := s.call Call.FlushCommandQueue
    let s := { s with m_currentFence := s.m_currentFence + 1 }
    let s := { s with
      queue := s.queue ++ [QueueItem.Signal s.m_currentFence]
      trace := s.trace ++ [Call.Signal s.m_currentFence] }
    let (q, g) := gpuRun k s.queue s.gpu
    if g.fenceValue < s.m_currentFence then
      match gpuWait s.m_currentFence q g with
      | some (q', g') => some { s with queue := q', gpu := g' }
      | none => none
    else
      some { s with queue := q, gpu := g }

/-- The method `Framework::CurrentBackBuffer`: `m_swapChainBuffer[m_currBackBuffer]`
(null for an index outside the array). -/
def Framework.CurrentBackBuffer (s : Framework) : Option Nat :=
  if 0 ≤ s.m_currBackBuffer then s.m_swapChainBuffer.getD s.m_currBackBuffer.toNat none
  else none

/-- The method `Framework::CurrentBackBufferView`: the byte offset
`(SIZE_T)m_currBackBuffer * m_rtvDescriptorSize` from the start of the RTV heap. -/
def Framework.CurrentBackBufferView (s : Framework) : Nat :=
  (s.m_currBackBuffer % 2 ^ 64).toNat * s.m_rtvDescriptorSize

/-- The method `Framework::DepthStencilView`: the start of the DSV heap (offset 0). -/
def Framework.DepthStencilView (_s : Framework) : Nat :=
  0

/-- The call `m_swapChain->Present(0, 0)`: the present of the swap chain's current
buffer is queued and the swap chain moves to its next buffer. -/
def Framework.Present (s : Framework) : Framework :=
  { s with
    queue := s.queue ++ [QueueItem.Present s.swapChainBuffers[s.swapChainIndex]?]
    swapChainIndex := (s.swapChainIndex + 1) % SwapChainBufferCount
    trace := s.trace ++ [Call.Present] }

/-- The part of `Framework::Draw` from the allocator reset to
`ExecuteCommandLists`. -/
def Framework.Draw_record (s : Framework) : Framework :=
  let s := s.allocatorReset
  let s := s.commandListReset
  let s := s.record (Cmd.ResourceBarrier s.CurrentBackBuffer
    D3D12_RESOURCE_STATE_PRESENT D3D12_RESOURCE_STATE_RENDER_TARGET)
  let s := s.record (Cmd.RSSetViewports s.m_screenViewport)
  let s := s.record (Cmd.RSSetScissorRects s.m_scissorRect)
  let s := s.record Cmd.SetGraphicsRootSignature
  let s := s.record Cmd.SetDescriptorHeaps
  let s := s.record Cmd.SetGraphicsRootDescriptorTable
  let rtv := s.CurrentBackBufferView
  let dsv := s.DepthStencilView
  let s := s.record
    (Cmd.OMSetRenderTargets rtv (s.rtvDescriptors rtv) dsv (s.dsvDescriptors dsv))
  let s := s.record (Cmd.ClearRenderTargetView rtv (s.rtvDescriptors rtv))
  let s := s.record (Cmd.ClearDepthStencilView dsv (s.dsvDescriptors dsv))
  let s := s.record Cmd.IASetPrimitiveTopology
  let s :=
    if s.m_modelVB.isSome && decide (0 < s.m_modelVertexCount) then
      (s.record (Cmd.IASetVertexBuffers s.m_modelVBV.BufferLocation)).record
        (Cmd.DrawInstanced s.m_modelVertexCount)
    else
      ((s.record (Cmd.IASetVertexBuffers s.m_boxVBView.BufferLocation)).record
        (Cmd.IASetIndexBuffer s.m_boxIBView.BufferLocation)).record
        (Cmd.DrawIndexedInstanced s.m_boxIndexCount)
  let s := s.record (Cmd.ResourceBarrier s.CurrentBackBuffer
    D3D12_RESOURCE_STATE_RENDER_TARGET D3D12_RESOURCE_STATE_PRESENT)
  let s := s.commandListClose
  s.executeCommandLists

/-- The method `Framework::Draw`. It does not check its objects: with a null
allocator, list, queue, swap chain or descriptor heap the call does not complete
(`none`). The index update is the C++ expression
`(m_currBackBuffer + 1) % SwapChainBufferCount` on `int`. -/
def Framework.Draw (k : Nat) (s : Framework) : Option Framework :=
  if s.m_directCmdListAlloc && s.m_commandList && s.m_commandQueue && s.m_swapChain
      && s.m_rtvHeap && s.m_dsvHeap && s.m_cbvHeap then
    let s := s.Draw_record
    let s := s.Present
    let s := { s with
      m_currBackBuffer := Int.tmod (s.m_currBackBuffer + 1) (SwapChainBufferCount : Int) }
    s.FlushCommandQueue k
  else none

/-- The call `m_swapChain->ResizeBuffers(...)`: the swap chain destroys its buffers
and creates `SwapChainBufferCount` new ones in the `COMMON` state; its current
index restarts at 0. -/
def Framework.ResizeBuffers (s : Framework) : Framework :=
  let s := s.swapChainBuffers.foldl (fun s id => s.destroy (some id)) s
  let first := s.nextResource
  let s := (List.range SwapChainBufferCount).foldl
    (fun s _ => s.createResource D3D12_RESOURCE_STATE_COMMON) s
  { s with
    swapChainBuffers := (List.range SwapChainBufferCount).map (fun i => first + i)
    swapChainIndex := 0
    trace := s.trace ++ [Call.ResizeBuffers s.m_clientWidth s.m_clientHeight] }

/-- The part of `Framework::OnResize` between its two flushes: the allocator and
the list are reset, the back-buffer and depth-buffer handles are released, the
swap chain is resized, the render-target views and the new depth buffer with its
view are created, and the depth transition is recorded and submitted. -/
def Framework.OnResize_rebuild (s : Framework) : Framework :=
  let s := s.allocatorReset
  let s := s.commandListReset
  let s := (List.range SwapChainBufferCount).foldl
    (fun s i => { s with
      m_swapChainBuffer := s.m_swapChainBuffer.set i none
      trace := s.trace ++ [Call.ReleaseBackBuffer i] }) s
  let s := (s.destroy s.m_depthStencilBuffer).call Call.ReleaseDepthStencilBuffer
  let s := { s with m_depthStencilBuffer := none }
  let s := s.ResizeBuffers
  let s := { s with m_currBackBuffer := (s.swapChainIndex : Int) }
  let s := ((List.range SwapChainBufferCount).foldl
    (fun (p : Framework × Nat) i =>
      ({ p.1 with
        m_swapChainBuffer := p.1.m_swapChainBuffer.set i p.1.swapChainBuffers[i]?
        rtvDescriptors := Function.update p.1.rtvDescriptors p.2 p.1.swapChainBuffers[i]?
        trace := p.1.trace ++ [Call.GetBuffer i, Call.CreateRenderTargetView i p.2] },
       p.2 + p.1.m_rtvDescriptorSize)) (s, 0)).1
  let s := { (s.createResource D3D12_RESOURCE_STATE_COMMON).call
      (Call.CreateDepthStencilBuffer s.m_clientWidth s.m_clientHeight) with
    m_depthStencilBuffer := some s.nextResource }
  let s := { s with
    dsvDescriptors := Function.update s.dsvDescriptors s.DepthStencilView
      s.m_depthStencilBuffer
    trace := s.trace ++ [Call.CreateDepthStencilView] }
  let s := s.record (Cmd.ResourceBarrier s.m_depthStencilBuffer
    D3D12_RESOURCE_STATE_COMMON D3D12_RESOURCE_STATE_DEPTH_WRITE)
  let s := s.commandListClose
  s.executeCommandLists

/-- The end of `Framework::OnResize`: viewport and scissor rectangle. -/
def Framework.OnResize_viewport (s : Framework) : Framework :=
  let s := { s with
    m_screenViewport :=
      ⟨0, 0, intToFloat s.m_clientWidth, intToFloat s.m_clientHeight, 0, 1⟩
    trace := s.trace ++ [Call.SetViewport] }
  { s with
    m_scissorRect := ⟨0, 0, s.m_clientWidth, s.m_clientHeight⟩
    trace := s.trace ++ [Call.SetScissorRect] }

/-- The method `Framework::OnResize`. `k1`, `k2` are the GPU progress seen by its
two flushes. With a null RTV or DSV heap the call does not complete. -/
def Framework.OnResize (k1 k2 : Nat) (s : Framework) : Option Framework :=
  if !s.m_device || !s.m_swapChain || !s.m_commandQueue || !s.m_directCmdListAlloc
      || !s.m_commandList then
    some s
  else if !s.m_rtvHeap || !s.m_dsvHeap then none
  else
    ((s.FlushCommandQueue k1).bind
      (fun s => s.OnResize_rebuild.FlushCommandQueue k2)).map Framework.OnResize_viewport

/-- The size `vbByteSize` of the cube's 24 vertices in `BuildBoxGeometry`. -/
def boxVbByteSize : Nat := (24 * sizeof_Vertex) % 2 ^ 32

/-- The size `ibByteSize` of the cube's 36 16-bit indices in `BuildBoxGeometry`. -/
def boxIbByteSize : Nat := (36 * 2) % 2 ^ 32

/-- First part of `Framework::BuildBoxGeometry`: the four committed resources (the
vertex and index data themselves are not part of the engine state; what the
buffers hold is followed by `Framework.BuildBoxGeometry_memory`). -/
def Framework.BuildBoxGeometry_create (s : Framework) : Framework :=
  let s := { s with m_boxIndexCount := 36 }
  let s := { s.createResource D3D12_RESOURCE_STATE_COPY_DEST with
    m_boxVB := some s.nextResource }
  let s := { s.createResource D3D12_RESOURCE_STATE_COPY_DEST with
    m_boxIB := some s.nextResource }
  let s := { s.createResource D3D12_RESOURCE_STATE_GENERIC_READ with
    m_boxVBUpload := some s.nextResource }
  { s.createResource D3D12_RESOURCE_STATE_GENERIC_READ with
    m_boxIBUpload := some s.nextResource }

/-- Second part of `Framework::BuildBoxGeometry`: the copy commands and the two
barriers are recorded and submitted. -/
def Framework.BuildBoxGeometry_record (s : Framework) : Framework :=
  let s := s.allocatorReset
  let s := s.commandListReset
  let s := s.record (Cmd.CopyBufferRegion s.m_boxVB s.m_boxVBUpload boxVbByteSize)
  let s := s.record (Cmd.CopyBufferRegion s.m_boxIB s.m_boxIBUpload boxIbByteSize)
  let s := s.record (Cmd.ResourceBarrier s.m_boxVB
    D3D12_RESOURCE_STATE_COPY_DEST D3D12_RESOURCE_STATE_VERTEX_AND_CONSTANT_BUFFER)
  let s := s.record (Cmd.ResourceBarrier s.m_boxIB
    D3D12_RESOURCE_STATE_COPY_DEST D3D12_RESOURCE_STATE_INDEX_BUFFER)
  let s := s.commandListClose
  s.executeCommandLists

/-- Last part of `Framework::BuildBoxGeometry`: the views are filled in and the two
upload buffers are released. -/
def Framework.BuildBoxGeometry_finish (s : Framework) : Framework :=
  let s := { s with
    m_boxVBView := ⟨s.m_boxVB, boxVbByteSize, sizeof_Vertex⟩
    m_boxIBView := ⟨s.m_boxIB, boxIbByteSize⟩ }
  let s := { s.destroy s.m_boxVBUpload with m_boxVBUpload := none }
  { s.destroy s.m_boxIBUpload with m_boxIBUpload := none }

/-- The method `Framework::BuildBoxGeometry`. Without a command allocator, list or
queue the call does not complete. -/
def Framework.BuildBoxGeometry (k : Nat) (s : Framework) : Option Framework :=
  if !s.m_directCmdListAlloc || !s.m_commandList || !s.m_commandQueue then none
  else
    (s.BuildBoxGeometry_create.BuildBoxGeometry_record.FlushCommandQueue k).map
      Framework.BuildBoxGeometry_finish

/-- The part of `Framework::BuildObjVB_Upload` that touches the engine: it throws
when the OBJ file did not load or produced no vertex, and otherwise creates the
model vertex buffer in the upload heap (`GENERIC_READ`). -/
def Framework.BuildObjVB_Upload (env : Env) (s : Framework) : Option Framework :=
  if !env.objLoadOk then none
  else if env.objVertexCount = 0 then none
  else
    let s := { s with m_modelVertexCount := env.objVertexCount % 2 ^ 32 }
    let vbByteSize := (env.objVertexCount * sizeof_Vertex) % 2 ^ 32
    let id := s.nextResource
    let s := s.createResource D3D12_RESOURCE_STATE_GENERIC_READ
    some { s with
      m_modelVB := some id
      m_modelVBV := ⟨some id, vbByteSize, sizeof_Vertex⟩ }

/-- Success path of `InitDxgi` and `InitD3D12Device`: a device exists. -/
def Framework.InitDevice (s : Framework) : Framework :=
  { s with m_device := true }

/-- The method `Framework::CreateCommandObjects`: queue, allocator and list exist;
the list is created open and closed at once. -/
def Framework.CreateCommandObjects (s : Framework) : Framework :=
  { s with
    m_commandQueue := true
    m_directCmdListAlloc := true
    m_commandList := true
    recording := []
    trace := s.trace ++ [Call.CommandListClose] }

/-- The method `Framework::CreateFence`: a fence with initial value 0, the counter
set to 0, and the event; it throws when `CreateEvent` returned null. -/
def Framework.CreateFence (env : Env) (s : Framework) : Option Framework :=
  let s := { s with m_fence := true, gpu := { s.gpu with fenceValue := 0 } }
  let s := { s with m_currentFence := 0 }
  let s := { s with m_fenceEvent := env.fenceEventCreated }
  if s.m_fenceEvent then some s else none

/-- The method `Framework::CreateSwapChain`: a swap chain with
`SwapChainBufferCount` buffers in the `COMMON` state. -/
def Framework.CreateSwapChain (s : Framework) : Framework :=
  let first := s.nextResource
  let s := (List.range SwapChainBufferCount).foldl
    (fun s _ => s.createResource D3D12_RESOURCE_STATE_COMMON) s
  let s := { s with
    m_swapChain := true
    swapChainBuffers := (List.range SwapChainBufferCount).map (fun i => first + i)
    swapChainIndex := 0 }
  { s with m_currBackBuffer := (s.swapChainIndex : Int) }

/-- The method `Framework::CreateRtvAndDsvDescriptorHeaps`: the increments are
queried and both heaps are created empty. -/
def Framework.CreateRtvAndDsvDescriptorHeaps (env : Env) (s : Framework) : Framework :=
  { s with
    m_rtvDescriptorSize := env.rtvDescriptorSize
    m_dsvDescriptorSize := env.dsvDescriptorSize
    m_cbvSrvUavDescriptorSize := env.cbvSrvUavDescriptorSize
    m_rtvHeap := true
    rtvDescriptors := fun _ => none
    m_dsvHeap := true
    dsvDescriptors := fun _ => none }

/-- The first steps of `Framework::Init`, up to the creation of the pipeline
objects: device, command objects, fence, swap chain and descriptor heaps.
`BuildShaders`, `BuildConstantBuffers`, `BuildCbvHeap`, `BuildCbvViews`,
`BuildRootSignature` and `BuildPSO` only create the CBV heap as far as the engine
is concerned. -/
def Framework.Init_objects (env : Env) (s : Framework) : Option Framework :=
  let s := s.InitDevice
  let s := { s with m_cbvSrvUavDescriptorSize := env.cbvSrvUavDescriptorSize }
  let s := s.CreateCommandObjects
  (s.CreateFence env).map fun s =>
    let s := s.CreateSwapChain
    let s := s.CreateRtvAndDsvDescriptorHeaps env
    { s with m_cbvHeap := true }

/-- The method `Framework::Init` on a freshly constructed framework. `kBox`, `k1`,
`k2` are the GPU progress seen by the three flushes. -/
def Framework.Init (env : Env) (kBox k1 k2 : Nat) (s : Framework) : Option Framework :=
  (s.Init_objects env).bind fun s =>
  (s.BuildBoxGeometry kBox).bind fun s =>
  (s.BuildObjVB_Upload env).bind fun s =>
  s.OnResize k1 k2

/-- What can happen after `Init`: a frame is drawn, the window procedure stores a
new client size (`WM_SIZE`), or it calls `OnResize`. The numbers `k` are the GPU
progress seen by the flushes of the operation. -/
inductive Op where
  | Draw (k : Nat)
  | SetClientSize (width height : Int)
  | OnResize (k1 k2 : Nat)
  deriving DecidableEq, Repr

/-- One operation. -/
def Framework.step (s : Framework) : Op → Option Framework
  | Op.Draw k => s.Draw k
  | Op.SetClientSize w h => some { s with m_clientWidth := w, m_clientHeight := h }
  | Op.OnResize k1 k2 => s.OnResize k1 k2

/-- A sequence of operations; `none` when one of them does not complete. -/
def Framework.run (s : Framework) : List Op → Option Framework
  | [] => some s
  | op :: ops => (s.step op).bind (fun s' => s'.run ops)

/-- The tickets signalled in a trace, in order. -/
def signalsOf : List Call → List Nat
  | [] => []
  | Call.Signal v :: t => v :: signalsOf t
  | _ :: t => signalsOf t

/-- Scan of a trace for unflushed submissions: the first component stays `true` as
long as no allocator or list `Reset` happened after an `ExecuteCommandLists`
that no `FlushCommandQueue` has followed yet, the second tells whether such a
submission is pending at the end. -/
def scanTrace : List Call → Bool × Bool :=
  List.foldl
    (fun (st : Bool × Bool) c =>
      match c with
      | Call.ExecuteCommandLists => (st.1, true)
      | Call.FlushCommandQueue => (st.1, false)
      | Call.AllocatorReset => (st.1 && !st.2, st.2)
      | Call.CommandListReset => (st.1 && !st.2, st.2)
      | _ => st)
    (true, false)

/-- The commands that `Framework::Draw` records between the `Reset` and the `Close`
of the command list, in order (see `Framework.Draw_record`). -/
def Framework.drawCommands (s : Framework) : List Cmd :=
  [Cmd.ResourceBarrier s.CurrentBackBuffer D3D12_RESOURCE_STATE_PRESENT
      D3D12_RESOURCE_STATE_RENDER_TARGET,
    Cmd.RSSetViewports s.m_screenViewport,
    Cmd.RSSetScissorRects s.m_scissorRect,
    Cmd.SetGraphicsRootSignature,
    Cmd.SetDescriptorHeaps,
    Cmd.SetGraphicsRootDescriptorTable,
    Cmd.OMSetRenderTargets s.CurrentBackBufferView (s.rtvDescriptors s.CurrentBackBufferView)
      s.DepthStencilView (s.dsvDescriptors s.DepthStencilView),
    Cmd.ClearRenderTargetView s.CurrentBackBufferView
      (s.rtvDescriptors s.CurrentBackBufferView),
    Cmd.ClearDepthStencilView s.DepthStencilView (s.dsvDescriptors s.DepthStencilView),
    Cmd.IASetPrimitiveTopology] ++
  (if s.m_modelVB.isSome && decide (0 < s.m_modelVertexCount) then
    [Cmd.IASetVertexBuffers s.m_modelVBV.BufferLocation,
      Cmd.DrawInstanced s.m_modelVertexCount]
  else
    [Cmd.IASetVertexBuffers s.m_boxVBView.BufferLocation,
      Cmd.IASetIndexBuffer s.m_boxIBView.BufferLocation,
      Cmd.DrawIndexedInstanced s.m_boxIndexCount]) ++
  [Cmd.ResourceBarrier s.CurrentBackBuffer D3D12_RESOURCE_STATE_RENDER_TARGET
      D3D12_RESOURCE_STATE_PRESENT]

/-- The engine between two operations after a successful `Init`: every object
exists, nothing is queued and the fence has reached the counter, no hazard and no
reset in flight was seen, the signalled tickets are `1, ..., m_currentFence`, the
trace has no unflushed submission, both back buffers are live, distinct and in
the `PRESENT` state with their views at offsets `0` and `m_rtvDescriptorSize`,
the depth buffer is live in `DEPTH_WRITE` with its view, the application's
back-buffer index is 0 or 1 and agrees with the swap chain, the cube buffers are
in their vertex / index states and the model buffer is in `GENERIC_READ`. -/
structure Ready (s : Framework) : Prop where
  device : s.m_device = true
  swapChain : s.m_swapChain = true
  commandQueue : s.m_commandQueue = true
  allocator : s.m_directCmdListAlloc = true
  commandList : s.m_commandList = true
  fence : s.m_fence = true
  fenceEvent : s.m_fenceEvent = true
  rtvHeap : s.m_rtvHeap = true
  dsvHeap : s.m_dsvHeap = true
  cbvHeap : s.m_cbvHeap = true
  idle : s.queue = []
  reached : s.gpu.fenceValue = s.m_currentFence
  noHazard : s.gpu.hazards = 0
  noResetInFlight : s.resetsInFlight = 0
  tickets : signalsOf s.trace = List.range' 1 s.m_currentFence
  flushed : scanTrace s.trace = (true, false)
  rtvSize : 0 < s.m_rtvDescriptorSize
  index : s.m_currBackBuffer = 0 ∨ s.m_currBackBuffer = 1
  indexAgrees : (s.swapChainIndex : Int) = s.m_currBackBuffer
  buffers : ∃ b0 b1 d, s.swapChainBuffers = [b0, b1] ∧
    s.m_swapChainBuffer = [some b0, some b1] ∧ b0 ≠ b1 ∧
    s.m_depthStencilBuffer = some d ∧
    s.gpu.resources b0 = some D3D12_RESOURCE_STATE_PRESENT ∧
    s.gpu.resources b1 = some D3D12_RESOURCE_STATE_PRESENT ∧
    s.gpu.resources d = some D3D12_RESOURCE_STATE_DEPTH_WRITE ∧
    s.rtvDescriptors 0 = some b0 ∧
    s.rtvDescriptors s.m_rtvDescriptorSize = some b1 ∧
    s.dsvDescriptors 0 = some d ∧
    b0 < s.nextResource ∧ b1 < s.nextResource ∧ d < s.nextResource
  geometry : ∃ vb ib m, s.m_boxVB = some vb ∧ s.m_boxVBView.BufferLocation = some vb ∧
    s.m_boxIB = some ib ∧ s.m_boxIBView.BufferLocation = some ib ∧
    s.m_modelVB = some m ∧ s.m_modelVBV.BufferLocation = some m ∧
    s.gpu.resources vb = some D3D12_RESOURCE_STATE_VERTEX_AND_CONSTANT_BUFFER ∧
    s.gpu.resources ib = some D3D12_RESOURCE_STATE_INDEX_BUFFER ∧
    s.gpu.resources m = some D3D12_RESOURCE_STATE_GENERIC_READ ∧
    vb < s.nextResource ∧ ib < s.nextResource ∧ m < s.nextResource

/-- The synchronisation state of the engine between two operations after `Init`:
every object exists, nothing is queued and the fence has reached the counter, no
reset in flight was seen, the signalled tickets are `1, ..., m_currentFence`, the
trace has no unflushed submission, and the swap chain has two buffers. -/
structure Synced (s : Framework) : Prop where
  device : s.m_device = true
  swapChain : s.m_swapChain = true
  commandQueue : s.m_commandQueue = true
  allocator : s.m_directCmdListAlloc = true
  commandList : s.m_commandList = true
  fence : s.m_fence = true
  fenceEvent : s.m_fenceEvent = true
  rtvHeap : s.m_rtvHeap = true
  dsvHeap : s.m_dsvHeap = true
  cbvHeap : s.m_cbvHeap = true
  idle : s.queue = []
  reached : s.gpu.fenceValue = s.m_currentFence
  noResetInFlight : s.resetsInFlight = 0
  tickets : signalsOf s.trace = List.range' 1 s.m_currentFence
  flushed : scanTrace s.trace = (true, false)
  shape : ∃ b0 b1 a0 a1, s.swapChainBuffers = [b0, b1] ∧ s.m_swapChainBuffer = [a0, a1]

/-- What `OnResize` needs of the engine: every object exists, nothing is queued and
the fence has reached the counter, the swap chain owns two live buffers in the
`COMMON` / `PRESENT` state, the depth-buffer handle is null or a live buffer in
`DEPTH_WRITE`, and the geometry buffers are in place. A ready engine is of this
kind, and so is the engine on which `Init` calls `OnResize`. -/
structure Resizable (s : Framework) : Prop where
  device : s.m_device = true
  swapChain : s.m_swapChain = true
  commandQueue : s.m_commandQueue = true
  allocator : s.m_directCmdListAlloc = true
  commandList : s.m_commandList = true
  fence : s.m_fence = true
  fenceEvent : s.m_fenceEvent = true
  rtvHeap : s.m_rtvHeap = true
  dsvHeap : s.m_dsvHeap = true
  cbvHeap : s.m_cbvHeap = true
  idle : s.queue = []
  reached : s.gpu.fenceValue = s.m_currentFence
  noHazard : s.gpu.hazards = 0
  noResetInFlight : s.resetsInFlight = 0
  tickets : signalsOf s.trace = List.range' 1 s.m_currentFence
  flushed : scanTrace s.trace = (true, false)
  rtvSize : 0 < s.m_rtvDescriptorSize
  buffers : ∃ b0 b1 a0 a1, s.swapChainBuffers = [b0, b1] ∧ s.m_swapChainBuffer = [a0, a1] ∧
    s.gpu.resources b0 = some D3D12_RESOURCE_STATE_PRESENT ∧
    s.gpu.resources b1 = some D3D12_RESOURCE_STATE_PRESENT
  depth : s.m_depthStencilBuffer = none ∨
    ∃ d, s.m_depthStencilBuffer = some d ∧
      s.gpu.resources d = some D3D12_RESOURCE_STATE_DEPTH_WRITE
  geometry : ∃ vb ib m, s.m_boxVB = some vb ∧ s.m_boxVBView.BufferLocation = some vb ∧
    s.m_boxIB = some ib ∧ s.m_boxIBView.BufferLocation = some ib ∧
    s.m_modelVB = some m ∧ s.m_modelVBV.BufferLocation = some m ∧
    s.gpu.resources vb = some D3D12_RESOURCE_STATE_VERTEX_AND_CONSTANT_BUFFER ∧
    s.gpu.resources ib = some D3D12_RESOURCE_STATE_INDEX_BUFFER ∧
    s.gpu.resources m = some D3D12_RESOURCE_STATE_GENERIC_READ ∧
    vb < s.nextResource ∧ ib < s.nextResource ∧ m < s.nextResource

/-- A sample platform for concrete runs: descriptor increments 32, 8 and 32, the
fence event is created, and the OBJ file loads and expands to six vertices. -/
def sampleEnv : Env := ⟨32, 8, 32, true, true, 6⟩

/-- The engine right after `CreateFence` on a fresh framework: queue, fence and
event exist, the counter and the fence are 0 and nothing was submitted. -/
def fencedFramework : Framework :=
  { Framework.new 1280 720 with m_commandQueue := true, m_fence := true, m_fenceEvent := true }

/-- The engine after `Init` on the sample platform with a lazy GPU (the fresh
framework if `Init` did not complete). -/
def sampleReady : Framework :=
  ((Framework.new 1280 720).Init sampleEnv 0 0 0).getD (Framework.new 1280 720)

/-- A sample run: two frames, a resize to 1920 x 1080, one more frame. -/
def sampleOps : List Op :=
  [Op.Draw 0, Op.Draw 1, Op.SetClientSize 1920 1080, Op.OnResize 0 2, Op.Draw 3]

/-- The engine after the sample run (the engine after `Init` if the run did not
complete). -/
def sampleAfterRun : Framework :=
  (sampleReady.run sampleOps).getD sampleReady

/-- The macro `LOWORD` (minwindef.h): the low 16 bits. -/
def LOWORD (l : Nat) : Nat :=
  l % 2 ^ 16

/-- The macro `HIWORD` (minwindef.h): bits 16 to 31. -/
def HIWORD (l : Nat) : Nat :=
  (l / 2 ^ 16) % 2 ^ 16

/-- The first two statements of the `WM_SIZE` case of `Framework::MsgProc`:
`m_clientWidth = LOWORD(lParam); m_clientHeight = HIWORD(lParam);`. -/
def Framework.WM_SIZE_store (s : Framework) (lParam : Nat) : Framework :=
  { s with m_clientWidth := (LOWORD lParam : Int), m_clientHeight := (HIWORD lParam : Int) }

/-- The resources a recorded command refers to (`none` for a null pointer or an
unwritten descriptor). -/
def Cmd.resources : Cmd → List (Option Nat)
  | Cmd.ResourceBarrier r _ _ => [r]
  | Cmd.CopyBufferRegion dst src _ => [dst, src]
  | Cmd.OMSetRenderTargets _ rt _ ds => [rt, ds]
  | Cmd.ClearRenderTargetView _ rt => [rt]
  | Cmd.ClearDepthStencilView _ ds => [ds]
  | Cmd.IASetVertexBuffers vb => [vb]
  | Cmd.IASetIndexBuffer ib => [ib]
  | _ => []

/-- Two frames and a `WM_SIZE` that stores the client size 1920 x 1080. -/
def sampleResizeOps : List Op :=
  [Op.Draw 0, Op.Draw 1, Op.SetClientSize 1920 1080]

/-- The engine of the sample platform when `OnResize` is called for 1920 x 1080. -/
def sampleBeforeResize : Framework :=
  (sampleReady.run sampleResizeOps).getD sampleReady

/-- The engine of the sample platform after that `OnResize`. -/
def sampleResized : Framework :=
  (sampleBeforeResize.OnResize 0 2).getD sampleBeforeResize

/-! ## Error handling: `HRESULT`s and exceptions -/

/-- The exceptions this program throws. Both are `std::runtime_error`s: one built
from a message literal, the other by `ThrowIfFailed` from the `ErrorMessage()`
text of `_com_error(hr)`, kept here as the `HRESULT` itself. -/
inductive Exception where
  | runtime_error (what : String)
  | com_error (hr : Int)
  deriving DecidableEq, Repr

/-- The macro `FAILED(hr)` (winerror.h): the `HRESULT` is negative. -/
def FAILED (hr : Int) : Bool :=
  decide (hr < 0)

/-- The macro `SUCCEEDED(hr)` (winerror.h): the `HRESULT` is not negative. -/
def SUCCEEDED (hr : Int) : Bool :=
  decide (0 ≤ hr)

/-- The function `ThrowIfFailed`. -/
def ThrowIfFailed (hr : Int) : Except Exception Unit :=
  if FAILED hr then Except.error (Exception.com_error hr) else Except.ok ()

/-! ## Framework.cpp: adapter selection and device creation -/

/-- Flag `DXGI_ADAPTER_FLAG_SOFTWARE` (dxgi.h). -/
def DXGI_ADAPTER_FLAG_SOFTWARE : Nat := 2

/-- An adapter as the program sees it: the `Description` and `Flags` of its
`DXGI_ADAPTER_DESC1` (`GetDesc1` with a non-null argument succeeds), the
`HRESULT` of the test `D3D12CreateDevice` at feature level 12_0 in `PickAdapter`,
and the `HRESULT` of the `D3D12CreateDevice` in `InitD3D12Device`. -/
structure Adapter where
  Description : String
  Flags : Nat
  testDevice : Int
  device : Int
  deriving DecidableEq, Repr

/-- What the DXGI factory answers: whether it can be cast to `IDXGIFactory6`, the
adapters that `EnumAdapterByGpuPreference(i, HIGH_PERFORMANCE)` and
`EnumAdapters1(i)` return for `i = 0, 1, ...` before `DXGI_ERROR_NOT_FOUND`, the
`HRESULT` and the adapter of `EnumWarpAdapter`, and the `HRESULT` of
`D3D12CreateDevice` for a null adapter. -/
structure Factory where
  factory6 : Bool
  byGpuPreference : List Adapter
  adapters1 : List Adapter
  warpHr : Int
  warp : Adapter
  defaultDevice : Int

/-- Calls made by `InitD3D12Device`, in program order. -/
inductive DeviceCall where
  | D3D12CreateDevice (adapter : Option Adapter)
  | EnumWarpAdapter
  deriving DecidableEq, Repr

/-- The members of `Framework` that `PickAdapter` and `InitD3D12Device` write:
`m_dxgiAdapter`, `m_adapterName`, `m_device` (the adapter argument its device was
created with), and the calls made so far. -/
structure DeviceState where
  m_dxgiAdapter : Option Adapter
  m_adapterName : String
  m_device : Option (Option Adapter)
  calls : List DeviceCall
  deriving DecidableEq, Repr

/-- The test `desc.Flags & DXGI_ADAPTER_FLAG_SOFTWARE`. -/
def Adapter.isSoftware (a : Adapter) : Bool :=
  a.Flags &&& DXGI_ADAPTER_FLAG_SOFTWARE != 0

/-- One enumeration loop of `PickAdapter`: software adapters are skipped, the
first other adapter whose test device creation succeeds is taken, and the loop
ends without an adapter at `DXGI_ERROR_NOT_FOUND`. -/
def PickAdapter_loop : List Adapter → Option Adapter
  | [] => none
  | adapter :: rest =>
    if adapter.isSoftware then PickAdapter_loop rest
    else if SUCCEEDED adapter.testDevice then some adapter
    else PickAdapter_loop rest

/-- The method `Framework::PickAdapter`: the state at its end and the exception it
threw, if any. -/
def PickAdapter (f : Factory) (s : DeviceState) : DeviceState × Option Exception :=
  let s := { s with m_dxgiAdapter := none, m_adapterName := "" }
  let s :=
    if f.factory6 then
      match PickAdapter_loop f.byGpuPreference with
      | some a => { s with m_dxgiAdapter := some a, m_adapterName := a.Description }
      | none => s
    else s
  let s :=
    if s.m_dxgiAdapter.isNone then
      match PickAdapter_loop f.adapters1 with
      | some a => { s with m_dxgiAdapter := some a, m_adapterName := a.Description }
      | none => s
    else s
  if s.m_dxgiAdapter.isNone then
    (s, some (Exception.runtime_error "No suitable DXGI adapter found (D3D12-capable)."))
  else (s, none)

/-- The method `Framework::InitDxgi`; `factoryHr` is the `HRESULT` of
`CreateDXGIFactory2`. -/
def InitDxgi (factoryHr : Int) (f : Factory) (s : DeviceState) :
    DeviceState × Option Exception :=
  match ThrowIfFailed factoryHr with
  | Except.error e => (s, some e)
  | Except.ok _ => PickAdapter f s

/-- The `HRESULT` of `D3D12CreateDevice(adapter, D3D_FEATURE_LEVEL_12_0, &m_device)`. -/
def Factory.createDevice (f : Factory) : Option Adapter → Int
  | some a => a.device
  | none => f.defaultDevice

/-- The method `Framework::InitD3D12Device`: the state at its end and the exception
it threw, if any. `IID_PPV_ARGS(&m_dxgiAdapter)` releases the adapter held before
`EnumWarpAdapter` writes the new one. -/
def InitD3D12Device (f : Factory) (s : DeviceState) : DeviceState × Option Exception :=
  let hr := f.createDevice s.m_dxgiAdapter
  let s := { s with
    m_device := if SUCCEEDED hr then some s.m_dxgiAdapter else none
    calls := s.calls ++ [DeviceCall.D3D12CreateDevice s.m_dxgiAdapter] }
  if FAILED hr then
    let s := { s with m_dxgiAdapter := none, calls := s.calls ++ [DeviceCall.EnumWarpAdapter] }
    match ThrowIfFailed f.warpHr with
    | Except.error e => (s, some e)
    | Except.ok _ =>
      let s := { s with m_dxgiAdapter := some f.warp }
      let hr := f.createDevice s.m_dxgiAdapter
      let s := { s with
        m_device := if SUCCEEDED hr then some s.m_dxgiAdapter else none
        calls := s.calls ++ [DeviceCall.D3D12CreateDevice s.m_dxgiAdapter] }
      match ThrowIfFailed hr with
      | Except.error e => (s, some e)
      | Except.ok _ => (s, none)
  else (s, none)

/-- The first two steps of `Framework::Init`: `InitDxgi(); InitD3D12Device();`. -/
def Init_device (factoryHr : Int) (f : Factory) (s : DeviceState) :
    DeviceState × Option Exception :=
  match InitDxgi factoryHr f s with
  | (s, some e) => (s, some e)
  | (s, none) => InitD3D12Device f s

/-- The device members of a freshly constructed `Framework`. -/
def DeviceState.new : DeviceState :=
  ⟨none, "", none, []⟩

/-- A hardware adapter on which device creation at feature level 12_0 fails with
`E_FAIL`. -/
def sampleOldGpu : Adapter := ⟨"Old GPU", 0, -2147467259, -2147467259⟩

/-- A hardware adapter that passes the probe and creates a device. -/
def sampleGpu : Adapter := ⟨"GPU", 0, 0, 0⟩

/-- A hardware adapter that passes the probe but fails the device creation in
`InitD3D12Device`. -/
def sampleFlakyGpu : Adapter := ⟨"Flaky GPU", 0, 0, -2147467259⟩

/-- The software adapter (WARP): it can create a device. -/
def sampleWarp : Adapter := ⟨"Microsoft Basic Render Driver", 2, 0, 0⟩

/-- A platform without a usable hardware adapter: the only hardware adapter fails
the probe, the software adapter is enumerated as well and can create a device. -/
def sampleNoHardware : Factory :=
  ⟨true, [sampleOldGpu, sampleWarp], [sampleOldGpu, sampleWarp], 0, sampleWarp, 0⟩

/-- A platform with two hardware adapters, the second of which passes the probe. -/
def sampleTwoGpus : Factory :=
  ⟨true, [sampleOldGpu, sampleGpu, sampleWarp], [sampleGpu, sampleOldGpu, sampleWarp], 0,
    sampleWarp, 0⟩

/-- A platform whose hardware adapter passes the probe and then fails the device
creation. -/
def sampleFlaky : Factory :=
  ⟨false, [], [sampleFlakyGpu, sampleWarp], 0, sampleWarp, 0⟩

/-! ## Framework.cpp: the imported mesh (`BuildObjVB_Upload`, `Update`)

The coordinates are `float`s; their arithmetic is taken exact, so that they are
rational numbers here. Normals and colours of the vertices are left out. -/

/-- Structure `XMFLOAT3`. -/
structure XMFLOAT3 where
  x : ℚ
  y : ℚ
  z : ℚ
  deriving DecidableEq

/-- The constant `FLT_MAX` (float.h): `(2 ^ 24 - 1) * 2 ^ 104`. -/
def FLT_MAX : ℚ := 340282346638528859811704183484516925440

/-- The `float` literal `1e-6f`: the `float` nearest to one millionth,
`8796093 / 2 ^ 43`. -/
def scaleThreshold : ℚ := 8796093 / 8796093022208

/-- Structure `tinyobj::index_t`, of which only `vertex_index` is read here. -/
structure index_t where
  vertex_index : Int
  deriving DecidableEq, Repr

/-- Structure `tinyobj::mesh_t`: the flat index list and the number of vertices
of each face. -/
structure mesh_t where
  indices : List index_t
  num_face_vertices : List Nat

/-- Structure `tinyobj::shape_t`. -/
structure shape_t where
  mesh : mesh_t

/-- Structure `tinyobj::attrib_t`: the flat list of position coordinates. -/
structure attrib_t where
  vertices : List ℚ

/-- The lambda `ReadPos`: the three coordinates at `3 * vIdx`, or the origin for a
negative index. `LoadObj` returns indices inside `attrib.vertices`; a read past
its end is given the value 0 here. -/
def ReadPos (attrib : attrib_t) (vIdx : Int) : XMFLOAT3 :=
  if 0 ≤ vIdx then
    ⟨attrib.vertices.getD (3 * vIdx.toNat + 0) 0,
      attrib.vertices.getD (3 * vIdx.toNat + 1) 0,
      attrib.vertices.getD (3 * vIdx.toNat + 2) 0⟩
  else ⟨0, 0, 0⟩

/-- The locals of `BuildObjVB_Upload` that the face loop updates: the flattened
vertex positions and the bounds `minP`, `maxP`. -/
structure ImportState where
  vertices : List XMFLOAT3
  minP : XMFLOAT3
  maxP : XMFLOAT3

/-- The locals before the loop: no vertex, `minP = +FLT_MAX`, `maxP = -FLT_MAX`. -/
def ImportState.init : ImportState :=
  ⟨[], ⟨FLT_MAX, FLT_MAX, FLT_MAX⟩, ⟨-FLT_MAX, -FLT_MAX, -FLT_MAX⟩⟩

/-- The lambda `ExpandBounds`. -/
def ExpandBounds (st : ImportState) (p : XMFLOAT3) : ImportState :=
  let minP := st.minP
  let minP := if p.x < minP.x then { minP with x := p.x } else minP
  let minP := if p.y < minP.y then { minP with y := p.y } else minP
  let minP := if p.z < minP.z then { minP with z := p.z } else minP
  let maxP := st.maxP
  let maxP := if p.x > maxP.x then { maxP with x := p.x } else maxP
  let maxP := if p.y > maxP.y then { maxP with y := p.y } else maxP
  let maxP := if p.z > maxP.z then { maxP with z := p.z } else maxP
  { st with minP := minP, maxP := maxP }

/-- The inner loop of `BuildObjVB_Upload` over the faces of one shape, from the
face counts still to visit and the current `indexOffset`: a face that does not
have three vertices is skipped, a triangle appends its three positions and
expands the bounds. A read past the end of `indices` (which `LoadObj` does not
produce) is given the index `-1`. -/
def BuildObjVB_Upload_faces (attrib : attrib_t) (indices : List index_t) :
    List Nat → Nat → ImportState → ImportState
  | [], _, st => st
  | fv :: rest, indexOffset, st =>
    if fv ≠ 3 then BuildObjVB_Upload_faces attrib indices rest (indexOffset + fv) st
    else
      let p0 := ReadPos attrib (indices.getD (indexOffset + 0) ⟨-1⟩).vertex_index
      let p1 := ReadPos attrib (indices.getD (indexOffset + 1) ⟨-1⟩).vertex_index
      let p2 := ReadPos attrib (indices.getD (indexOffset + 2) ⟨-1⟩).vertex_index
      let st := { st with vertices := st.vertices ++ [p0, p1, p2] }
      let st := ExpandBounds st p0
      let st := ExpandBounds st p1
      let st := ExpandBounds st p2
      BuildObjVB_Upload_faces attrib indices rest (indexOffset + 3) st

/-- The outer loop of `BuildObjVB_Upload` over the shapes. -/
def BuildObjVB_Upload_shapes (attrib : attrib_t) (shapes : List shape_t) : ImportState :=
  shapes.foldl
    (fun st sh =>
      BuildObjVB_Upload_faces attrib sh.mesh.indices sh.mesh.num_face_vertices 0 st)
    ImportState.init

/-- The members of `Framework` that `BuildObjVB_Upload` writes: the centre and
the scale of the model, its vertex count, the width in bytes of the vertex buffer
`m_modelVB` (`none` while the handle is null), and the size and stride of
`m_modelVBV`. -/
structure ModelState where
  m_modelCenter : XMFLOAT3
  m_modelScale : ℚ
  m_modelVertexCount : Nat
  m_modelVB : Option Nat
  m_modelVBV_SizeInBytes : Nat
  m_modelVBV_StrideInBytes : Nat

/-- The default member initialisers of `Framework.hpp`. -/
def ModelState.new : ModelState :=
  ⟨⟨0, 0, 0⟩, 1, 0, none, 0, 0⟩

/-- The largest of the three extents, computed as in `BuildObjVB_Upload`. -/
def maxDimOf (minP maxP : XMFLOAT3) : ℚ :=
  let dx := maxP.x - minP.x
  let dy := maxP.y - minP.y
  let dz := maxP.z - minP.z
  let maxDim := dx
  let maxDim := if dy > maxDim then dy else maxDim
  if dz > maxDim then dz else maxDim

/-- The method `Framework::BuildObjVB_Upload` from the result of
`tinyobj::LoadObj` on: the state of the members at its end and the exception it
threw, if any. `ok`, `attrib` and `shapes` are what `LoadObj` returned, `createHr`
and `mapHr` the `HRESULT`s of `CreateCommittedResource` and `Map`. -/
def BuildObjVB_Upload_mesh (ok : Bool) (attrib : attrib_t) (shapes : List shape_t)
    (createHr mapHr : Int) (m : ModelState) : ModelState × Option Exception :=
  if !ok then
    (m, some (Exception.runtime_error "tinyobj::LoadObj failed (see Output window)."))
  else
    let st := BuildObjVB_Upload_shapes attrib shapes
    if st.vertices.isEmpty then
      (m, some (Exception.runtime_error "OBJ loaded but produced 0 vertices."))
    else
      let m := { m with
        m_modelCenter :=
          ⟨(1 / 2) * (st.minP.x + st.maxP.x), (1 / 2) * (st.minP.y + st.maxP.y),
            (1 / 2) * (st.minP.z + st.maxP.z)⟩ }
      let maxDim := maxDimOf st.minP st.maxP
      let m := { m with m_modelScale := if maxDim > scaleThreshold then 2 / maxDim else 1 }
      let m := { m with m_modelVertexCount := st.vertices.length % 2 ^ 32 }
      let vbByteSize := (st.vertices.length * sizeof_Vertex) % 2 ^ 64 % 2 ^ 32
      match ThrowIfFailed createHr with
      | Except.error e => (m, some e)
      | Except.ok _ =>
        let m := { m with m_modelVB := some vbByteSize }
        match ThrowIfFailed mapHr with
        | Except.error e => (m, some e)
        | Except.ok _ =>
          ({ m with
            m_modelVBV_StrideInBytes := sizeof_Vertex
            m_modelVBV_SizeInBytes := vbByteSize }, none)

/-- A 4 x 4 matrix of DirectXMath (`XMMATRIX`), by row and column. -/
abbrev XMMATRIX := Fin 4 → Fin 4 → ℚ

/-- The function `XMMatrixTranslation`: the identity with the offsets in row 3. -/
def XMMatrixTranslation (x y z : ℚ) : XMMATRIX :=
  fun i j =>
    if i = j then 1
    else if i = 3 then (if j = 0 then x else if j = 1 then y else z)
    else 0

/-- The function `XMMatrixScaling`: the diagonal matrix of the factors and 1. -/
def XMMatrixScaling (x y z : ℚ) : XMMATRIX :=
  fun i j =>
    if i = j then (if i = 0 then x else if i = 1 then y else if i = 2 then z else 1)
    else 0

/-- The product `A * B` of two `XMMATRIX` values. -/
def XMMatrixMultiply (A B : XMMATRIX) : XMMATRIX :=
  fun i j => A i 0 * B 0 j + A i 1 * B 1 j + A i 2 * B 2 j + A i 3 * B 3 j

/-- The matrix `world` of `Framework::Update`. -/
def Update_world (m : ModelState) : XMMATRIX :=
  XMMatrixMultiply
    (XMMatrixTranslation (-m.m_modelCenter.x) (-m.m_modelCenter.y) (-m.m_modelCenter.z))
    (XMMatrixScaling m.m_modelScale m.m_modelScale m.m_modelScale)

/-- The transformation of the point `p` by the matrix `M`: the row vector
`(p.x, p.y, p.z, 1)` times `M` (DirectXMath multiplies row vectors from the
left). -/
def transformPoint (M : XMMATRIX) (p : XMFLOAT3) : XMFLOAT3 :=
  ⟨p.x * M 0 0 + p.y * M 1 0 + p.z * M 2 0 + M 3 0,
    p.x * M 0 1 + p.y * M 1 1 + p.z * M 2 1 + M 3 1,
    p.x * M 0 2 + p.y * M 1 2 + p.z * M 2 2 + M 3 2⟩

/-- The number of faces with three vertices in the imported shapes. -/
def triangleCount (shapes : List shape_t) : Nat :=
  (shapes.map (fun sh => sh.mesh.num_face_vertices.count 3)).sum

/-- A sample import: one shape with a triangle, a quad that was not triangulated
and a second triangle. -/
def sampleAttrib : attrib_t :=
  ⟨[0, 0, 0, 4, 0, 0, 0, 2, 0, 4, 2, 1]⟩

/-- The shape of the sample import. -/
def sampleShapes : List shape_t :=
  [⟨⟨[⟨0⟩, ⟨1⟩, ⟨2⟩, ⟨0⟩, ⟨1⟩, ⟨3⟩, ⟨2⟩, ⟨1⟩, ⟨3⟩, ⟨2⟩], [3, 4, 3]⟩⟩]

/-- An import without a triangle: one shape with a line and a point. -/
def sampleNoTriangles : List shape_t :=
  [⟨⟨[⟨0⟩, ⟨1⟩, ⟨2⟩], [2, 1]⟩⟩]


/-- The bounds `lo`, `hi` of one axis are exact for the coordinates `xs` seen so
far: still the initial `+FLT_MAX`, `-FLT_MAX` when there is none, and otherwise
the least and the greatest of them. -/
def Tight (lo hi : ℚ) (xs : List ℚ) : Prop :=
  (xs = [] → lo = FLT_MAX ∧ hi = -FLT_MAX) ∧
  (xs ≠ [] → (∀ x ∈ xs, lo ≤ x ∧ x ≤ hi) ∧ lo ∈ xs ∧ hi ∈ xs)

/-- The bounds of the import state are exact on all three axes. -/
def ImportState.Exact (st : ImportState) : Prop :=
  Tight st.minP.x st.maxP.x (st.vertices.map XMFLOAT3.x) ∧
  Tight st.minP.y st.maxP.y (st.vertices.map XMFLOAT3.y) ∧
  Tight st.minP.z st.maxP.z (st.vertices.map XMFLOAT3.z)

/-! ## winMain.cpp and the exceptions of `Init` and `Run` -/

/-- The four members of `Framework` that decide what its destructor does: whether
`m_device`, `m_commandQueue`, `m_fence` and `m_fenceEvent` are non-null. -/
structure Members where
  m_device : Bool
  m_commandQueue : Bool
  m_fence : Bool
  m_fenceEvent : Bool
  deriving DecidableEq, Repr

/-- What one `FlushCommandQueue` call meets: the `HRESULT` of `Signal`, whether
`GetCompletedValue()` is still below the ticket, and the `HRESULT` of
`SetEventOnCompletion`. -/
structure FlushResults where
  signalHr : Int
  behind : Bool
  setEventHr : Int
  deriving DecidableEq, Repr

/-- The method `Framework::FlushCommandQueue` as far as exceptions go. -/
def FlushCommandQueue_throws (m : Members) (r : FlushResults) : Except Exception Unit :=
  if !m.m_commandQueue || !m.m_fence || !m.m_fenceEvent then Except.ok ()
  else
    match ThrowIfFailed r.signalHr with
    | Except.error e => Except.error e
    | Except.ok _ => if r.behind then ThrowIfFailed r.setEventHr else Except.ok ()

/-- The `HRESULT`s that one `Framework::Draw` call passes to `ThrowIfFailed`, in
program order, and what its flush meets. -/
structure DrawResults where
  allocatorResetHr : Int
  listResetHr : Int
  closeHr : Int
  presentHr : Int
  flush : FlushResults
  deriving DecidableEq, Repr

/-- The method `Framework::Draw` as far as exceptions go. -/
def Draw_throws (m : Members) (r : DrawResults) : Except Exception Unit :=
  match ThrowIfFailed r.allocatorResetHr with
  | Except.error e => Except.error e
  | Except.ok _ =>
    match ThrowIfFailed r.listResetHr with
    | Except.error e => Except.error e
    | Except.ok _ =>
      match ThrowIfFailed r.closeHr with
      | Except.error e => Except.error e
      | Except.ok _ =>
        match ThrowIfFailed r.presentHr with
        | Except.error e => Except.error e
        | Except.ok _ => FlushCommandQueue_throws m r.flush

/-- The method `Framework::Run`: one entry per iteration of its loop, `none` for
an iteration spent paused and the results of its `Draw` otherwise; the loop ends
when `ProcessMessages` returns false, and `Run` then returns 0. `Update` throws
nothing. An exception raised inside the window procedure would have to cross the
callback of `DispatchMessage` and is not part of this function. -/
def Run_throws (m : Members) : List (Option DrawResults) → Except Exception Int
  | [] => Except.ok 0
  | none :: rest => Run_throws m rest
  | some r :: rest =>
    match Draw_throws m r with
    | Except.error e => Except.error e
    | Except.ok _ => Run_throws m rest

/-- What `Framework::Init` meets: the `HRESULT` of `CreateDXGIFactory2` and the
factory's answers, the `HRESULT`s of the four calls of `CreateCommandObjects` and
of `CreateFence`, whether `CreateEvent` returned a handle, the exception (a
`std::runtime_error` in every case) that one of the remaining steps threw, if
any, and whether the window handle is non-null at the end. -/
structure InitResults where
  factoryHr : Int
  factory : Factory
  queueHr : Int
  allocatorHr : Int
  listHr : Int
  closeHr : Int
  fenceHr : Int
  fenceEventCreated : Bool
  rest : Option Exception
  mainWnd : Bool

/-- The method `Framework::CreateCommandObjects` as far as exceptions go. -/
def CreateCommandObjects_throws (r : InitResults) (m : Members) : Members × Option Exception :=
  match ThrowIfFailed r.queueHr with
  | Except.error e => (m, some e)
  | Except.ok _ =>
    let m := { m with m_commandQueue := true }
    match ThrowIfFailed r.allocatorHr with
    | Except.error e => (m, some e)
    | Except.ok _ =>
      match ThrowIfFailed r.listHr with
      | Except.error e => (m, some e)
      | Except.ok _ =>
        match ThrowIfFailed r.closeHr with
        | Except.error e => (m, some e)
        | Except.ok _ => (m, none)

/-- The method `Framework::CreateFence` as far as exceptions go. -/
def CreateFence_throws (r : InitResults) (m : Members) : Members × Option Exception :=
  match ThrowIfFailed r.fenceHr with
  | Except.error e => (m, some e)
  | Except.ok _ =>
    let m := { m with m_fence := true }
    let m := { m with m_fenceEvent := r.fenceEventCreated }
    if !m.m_fenceEvent then
      (m, some (Exception.runtime_error "CreateEvent failed for fence event."))
    else (m, none)

/-- The method `Framework::Init` as far as exceptions go: the members at its end
and what it threw or returned. -/
def Init_throws (r : InitResults) : Members × Except Exception Bool :=
  let m : Members := ⟨false, false, false, false⟩
  match Init_device r.factoryHr r.factory DeviceState.new with
  | (_, some e) => (m, Except.error e)
  | (d, none) =>
    let m := { m with m_device := d.m_device.isSome }
    match CreateCommandObjects_throws r m with
    | (m, some e) => (m, Except.error e)
    | (m, none) =>
      match CreateFence_throws r m with
      | (m, some e) => (m, Except.error e)
      | (m, none) =>
        match r.rest with
        | some e => (m, Except.error e)
        | none => (m, Except.ok r.mainWnd)

/-- The destructor `Framework::~Framework` as far as exceptions go. -/
def Framework_destructor (m : Members) (r : FlushResults) : Except Exception Unit :=
  if m.m_device then FlushCommandQueue_throws m r else Except.ok ()

/-- How the process ends: `wWinMain` returns a code after having shown the listed
error dialogs, or `std::terminate` is called. -/
inductive ProcessExit where
  | returned (code : Int) (dialogs : List Exception)
  | terminated
  deriving DecidableEq, Repr

/-- The function `wWinMain`. The object `app` is destroyed when control leaves the
`try` block, by `return` or by an exception on its way to the handler; an
exception that leaves the destructor, which is `noexcept`, ends the process in
`std::terminate`. -/
def wWinMain (init : InitResults) (frames : List (Option DrawResults))
    (atExit : FlushResults) : ProcessExit :=
  let body : Except Exception Int :=
    match (Init_throws init).2 with
    | Except.error e => Except.error e
    | Except.ok false => Except.ok 0
    | Except.ok true => Run_throws (Init_throws init).1 frames
  match Framework_destructor (Init_throws init).1 atExit with
  | Except.error _ => ProcessExit.terminated
  | Except.ok _ =>
    match body with
    | Except.ok code => ProcessExit.returned code []
    | Except.error e => ProcessExit.returned (-1) [e]

/-- The `HRESULT` `DXGI_ERROR_DEVICE_REMOVED` (`0x887A0005`) as a signed value. -/
def DXGI_ERROR_DEVICE_REMOVED : Int := -2005270523

/-- A platform on which `Init` completes: one hardware adapter, every call
succeeds, the window exists. -/
def sampleInit : InitResults :=
  ⟨0, ⟨true, [sampleGpu], [sampleGpu], 0, sampleWarp, 0⟩, 0, 0, 0, 0, 0, true, none, true⟩

/-- A flush on which every call succeeds. -/
def sampleFlushOk : FlushResults := ⟨0, true, 0⟩

/-- A flush whose `Signal` reports that the device was removed. -/
def sampleFlushRemoved : FlushResults := ⟨DXGI_ERROR_DEVICE_REMOVED, true, 0⟩

/-- A frame whose `Present` reports that the device was removed. -/
def sampleFrameRemoved : DrawResults :=
  ⟨0, 0, 0, DXGI_ERROR_DEVICE_REMOVED, sampleFlushOk⟩

/-! ## Dx12Common.hpp: `CompileShader` -/

/-- What the program shows to the operator: a line on the debug channel or a
modal message box with its text and caption. -/
inductive Shown where
  | OutputDebugStringA (text : String)
  | MessageBoxA (text caption : String)
  deriving DecidableEq, Repr

/-- What `D3DCompileFromFile` returns: the `HRESULT`, the bytecode blob and the
diagnostics blob (`none` for a null pointer). The diagnostics blob is kept as the
C string found at its buffer pointer. -/
structure CompileResult where
  hr : Int
  byteCode : Option (List Nat)
  errors : Option String
  deriving DecidableEq, Repr

/-- The function `CompileShader` from the return of `D3DCompileFromFile` on: what
it showed to the operator, and the blob it returned or the exception it threw. -/
def CompileShader (r : CompileResult) : List Shown × Except Exception (Option (List Nat)) :=
  let shown :=
    match r.errors with
    | some msg => [Shown.OutputDebugStringA msg, Shown.MessageBoxA msg "HLSL Compile Error"]
    | none => []
  if FAILED r.hr then
    match ThrowIfFailed r.hr with
    | Except.error e => (shown, Except.error e)
    | Except.ok _ => (shown, Except.ok r.byteCode)
  else (shown, Except.ok r.byteCode)

/-- A compilation that succeeds with a warning: `S_OK`, four bytes of bytecode and
a diagnostics blob. -/
def sampleWarning : CompileResult :=
  ⟨0, some [68, 88, 66, 67], some "warning X3206: implicit truncation of vector type"⟩

/-- A compilation that fails with `E_FAIL`: no bytecode, a diagnostics blob. -/
def sampleCompileError : CompileResult :=
  ⟨-2147467259, none, some "error X3000: syntax error"⟩

/-! ## Timer.hpp / Timer.cpp

The counter values are the `QuadPart` of `QueryPerformanceCounter`: signed 64-bit
integers, kept as integers (for counter values in `[0, 2 ^ 63)` that do not
decrease, the differences formed here stay in that range). The `double` values
are taken exact, so that they are rational numbers here. -/

/-- The class `Timer`. -/
structure Timer where
  m_secondsPerCount : ℚ
  m_deltaTime : ℚ
  m_baseTime : Int
  m_pausedTime : Int
  m_stopTime : Int
  m_prevTime : Int
  m_currTime : Int
  m_stopped : Bool

/-- The method `Timer::Reset`; `t` is the counter value it reads. -/
def Timer.Reset (tm : Timer) (t : Int) : Timer :=
  { tm with
    m_baseTime := t
    m_prevTime := t
    m_stopTime := 0
    m_pausedTime := 0
    m_stopped := false
    m_currTime := t
    m_deltaTime := 0 }

/-- The constructor `Timer()`: the default member initialisers,
`m_secondsPerCount = 1.0 / freq` for the counter frequency `freq`, then
`Reset()`, which reads the counter value `t`. -/
def Timer.new (freq t : Int) : Timer :=
  Timer.Reset ⟨1 / (freq : ℚ), 0, 0, 0, 0, 0, 0, false⟩ t

/-- The method `Timer::TotalTime`. -/
def Timer.TotalTime (tm : Timer) : ℚ :=
  let effectiveTime := if tm.m_stopped then tm.m_stopTime else tm.m_currTime
  (((effectiveTime - tm.m_pausedTime) - tm.m_baseTime : Int) : ℚ) * tm.m_secondsPerCount

/-- The method `Timer::DeltaTime`. -/
def Timer.DeltaTime (tm : Timer) : ℚ :=
  tm.m_deltaTime

/-- The method `Timer::Start`; `start` is the counter value it reads. -/
def Timer.Start (tm : Timer) (start : Int) : Timer :=
  if !tm.m_stopped then tm
  else
    { tm with
      m_pausedTime := tm.m_pausedTime + (start - tm.m_stopTime)
      m_prevTime := start
      m_stopTime := 0
      m_stopped := false }

/-- The method `Timer::Stop`; `t` is the counter value it reads. -/
def Timer.Stop (tm : Timer) (t : Int) : Timer :=
  if tm.m_stopped then tm
  else { tm with m_stopTime := t, m_stopped := true }

/-- The method `Timer::Tick`; `t` is the counter value it reads. -/
def Timer.Tick (tm : Timer) (t : Int) : Timer :=
  if tm.m_stopped then { tm with m_deltaTime := 0 }
  else
    let tm := { tm with m_currTime := t }
    let tm := { tm with
      m_deltaTime := ((tm.m_currTime - tm.m_prevTime : Int) : ℚ) * tm.m_secondsPerCount }
    let tm := { tm with m_prevTime := tm.m_currTime }
    if tm.m_deltaTime < 0 then { tm with m_deltaTime := 0 } else tm

/-- The three methods that the claims about the timer range over. -/
inductive TimerCall where
  | Tick
  | Stop
  | Start
  deriving DecidableEq, Repr

/-- One call, at the counter value `c.2`. -/
def Timer.call (tm : Timer) (c : TimerCall × Int) : Timer :=
  match c.1 with
  | TimerCall.Tick => tm.Tick c.2
  | TimerCall.Stop => tm.Stop c.2
  | TimerCall.Start => tm.Start c.2

/-- A sequence of calls, each at its counter value. -/
def Timer.calls (tm : Timer) (cs : List (TimerCall × Int)) : Timer :=
  cs.foldl Timer.call tm

/-- The counter does not decrease: from the value `t0` on, over the calls `cs`. -/
def counterMonotone (t0 : Int) : List (TimerCall × Int) → Prop
  | [] => True
  | c :: cs => t0 ≤ c.2 ∧ counterMonotone c.2 cs

/-- The counter value of the last call of `cs`, or `t0` when there is none. -/
def lastCounter (t0 : Int) : List (TimerCall × Int) → Int
  | [] => t0
  | c :: cs => lastCounter c.2 cs

/-- The timer is up to date at the counter value `now`: it is stopped, or its
`m_currTime` is `now` (as right after `Reset` or after a `Tick` while running). -/
def Timer.upToDate (tm : Timer) (now : Int) : Prop :=
  tm.m_stopped = true ∨ tm.m_currTime = now

/-- The counts during which the timer was running, at the counter value `now`:
up to the stop for a stopped timer, up to `now` for a running one, less the
counts spent in earlier pauses. -/
def Timer.active (tm : Timer) (now : Int) : Int :=
  ((if tm.m_stopped then tm.m_stopTime else now) - tm.m_pausedTime) - tm.m_baseTime

/-- A timer on a 10 MHz counter, constructed at the counter value 1000. -/
def sampleTimer : Timer :=
  Timer.new 10000000 1000

/-- A tick at 1010 and a stop at 1020. -/
def samplePause : List (TimerCall × Int) :=
  [(TimerCall.Tick, 1010), (TimerCall.Stop, 1020)]

/-- The same calls followed by a start at 1100. -/
def sampleResume : List (TimerCall × Int) :=
  samplePause ++ [(TimerCall.Start, 1100)]

/-! ## Framework.cpp: the window procedure `MsgProc` -/

/-- Message `WM_DESTROY` (winuser.h). -/
def WM_DESTROY : Nat := 0x0002
/-- Message `WM_SIZE` (winuser.h). -/
def WM_SIZE : Nat := 0x0005
/-- Message `WM_KILLFOCUS` (winuser.h). -/
def WM_KILLFOCUS : Nat := 0x0008
/-- Message `WM_CLOSE` (winuser.h). -/
def WM_CLOSE : Nat := 0x0010
/-- Message `WM_ACTIVATEAPP` (winuser.h). -/
def WM_ACTIVATEAPP : Nat := 0x001C
/-- Message `WM_KEYDOWN` (winuser.h). -/
def WM_KEYDOWN : Nat := 0x0100
/-- Message `WM_KEYUP` (winuser.h). -/
def WM_KEYUP : Nat := 0x0101
/-- Message `WM_SYSKEYDOWN` (winuser.h). -/
def WM_SYSKEYDOWN : Nat := 0x0104
/-- Message `WM_SYSKEYUP` (winuser.h). -/
def WM_SYSKEYUP : Nat := 0x0105
/-- Message `WM_MOUSEMOVE` (winuser.h). -/
def WM_MOUSEMOVE : Nat := 0x0200
/-- Message `WM_LBUTTONDOWN` (winuser.h). -/
def WM_LBUTTONDOWN : Nat := 0x0201
/-- Message `WM_LBUTTONUP` (winuser.h). -/
def WM_LBUTTONUP : Nat := 0x0202
/-- Message `WM_RBUTTONDOWN` (winuser.h). -/
def WM_RBUTTONDOWN : Nat := 0x0204
/-- Message `WM_RBUTTONUP` (winuser.h). -/
def WM_RBUTTONUP : Nat := 0x0205
/-- Message `WM_MBUTTONDOWN` (winuser.h). -/
def WM_MBUTTONDOWN : Nat := 0x0207
/-- Message `WM_MBUTTONUP` (winuser.h). -/
def WM_MBUTTONUP : Nat := 0x0208
/-- Message `WM_ENTERSIZEMOVE` (winuser.h). -/
def WM_ENTERSIZEMOVE : Nat := 0x0231
/-- Message `WM_EXITSIZEMOVE` (winuser.h). -/
def WM_EXITSIZEMOVE : Nat := 0x0232

/-- Size kind `SIZE_RESTORED` (winuser.h). -/
def SIZE_RESTORED : Nat := 0
/-- Size kind `SIZE_MINIMIZED` (winuser.h). -/
def SIZE_MINIMIZED : Nat := 1
/-- Size kind `SIZE_MAXIMIZED` (winuser.h). -/
def SIZE_MAXIMIZED : Nat := 2

/-- Key-state flag `MK_RBUTTON` (winuser.h). -/
def MK_RBUTTON : Nat := 0x0002

/-- The macro `GET_X_LPARAM` (windowsx.h): the low word as a signed 16-bit value. -/
def GET_X_LPARAM (lp : Nat) : Int :=
  if LOWORD lp < 2 ^ 15 then (LOWORD lp : Int) else (LOWORD lp : Int) - 2 ^ 16

/-- The macro `GET_Y_LPARAM` (windowsx.h): the high word as a signed 16-bit value. -/
def GET_Y_LPARAM (lp : Nat) : Int :=
  if HIWORD lp < 2 ^ 15 then (HIWORD lp : Int) else (HIWORD lp : Int) - 2 ^ 16

/-- Structure `POINT` (windef.h). -/
structure POINT where
  x : Int
  y : Int
  deriving DecidableEq, Repr

/-- Calls that `MsgProc` makes besides those on the timer. -/
inductive MsgCall where
  | DestroyWindow
  | PostQuitMessage (code : Int)
  | OnResize
  | SetCapture
  | ReleaseCapture
  | DefWindowProcW (msg wParam lParam : Nat)
  deriving DecidableEq, Repr

/-- The members of `Framework` that `MsgProc` reads and writes, and the calls it
made so far. `m_keyDown` is the `std::array<bool, 256>`. The camera angles
`m_yaw`, `m_pitch` and the point `m_camTarget`, which `OnMouseMove` computes in
`float` with `sinf` and `cosf`, are left out. -/
structure MsgState where
  m_clientWidth : Int
  m_clientHeight : Int
  m_appPaused : Bool
  m_minimized : Bool
  m_maximized : Bool
  m_resizing : Bool
  m_timer : Timer
  m_keyDown : List Bool
  m_rmbDown : Bool
  m_lastMousePos : POINT
  calls : List MsgCall

/-- The members after the constructor `Framework(width, height, title)`: the
default member initialisers of `Framework.hpp` and a timer constructed at the
counter value `t` of a counter with frequency `freq`. -/
def MsgState.new (width height freq t : Int) : MsgState :=
  { m_clientWidth := width
    m_clientHeight := height
    m_appPaused := false
    m_minimized := false
    m_maximized := false
    m_resizing := false
    m_timer := Timer.new freq t
    m_keyDown := List.replicate 256 false
    m_rmbDown := false
    m_lastMousePos := ⟨0, 0⟩
    calls := [] }

/-- Append a call. -/
def MsgState.call (st : MsgState) (c : MsgCall) : MsgState :=
  { st with calls := st.calls ++ [c] }

/-- The method `Framework::OnMouseDown`. -/
def MsgState.OnMouseDown (st : MsgState) (btnState : Nat) (x y : Int) : MsgState :=
  if btnState &&& MK_RBUTTON != 0 then
    ({ st with m_rmbDown := true, m_lastMousePos := ⟨x, y⟩ }).call MsgCall.SetCapture
  else st

/-- The method `Framework::OnMouseUp`. -/
def MsgState.OnMouseUp (st : MsgState) : MsgState :=
  if st.m_rmbDown then ({ st with m_rmbDown := false }).call MsgCall.ReleaseCapture
  else st

/-- The method `Framework::OnMouseMove`, as far as the members kept here go. -/
def MsgState.OnMouseMove (st : MsgState) (x y : Int) : MsgState :=
  { st with m_lastMousePos := ⟨x, y⟩ }

/-- The first two statements of the case `WM_SIZE` of `Framework::MsgProc`:
`m_clientWidth = LOWORD(lParam); m_clientHeight = HIWORD(lParam);`. -/
def MsgState.WM_SIZE_store (st : MsgState) (lParam : Nat) : MsgState :=
  { st with m_clientWidth := (LOWORD lParam : Int), m_clientHeight := (HIWORD lParam : Int) }

/-- The rest of the case `WM_SIZE` of `Framework::MsgProc`: the branches on the
size kind `wParam`. -/
def MsgProc_sizeKind (st : MsgState) (wParam : Nat) (now : Int) : MsgState :=
  if wParam = SIZE_MINIMIZED then
    { st with
      m_appPaused := true
      m_minimized := true
      m_maximized := false
      m_timer := st.m_timer.Stop now }
  else if wParam = SIZE_MAXIMIZED then
    ({ st with
      m_appPaused := false
      m_minimized := false
      m_maximized := true
      m_timer := st.m_timer.Start now }).call MsgCall.OnResize
  else if wParam = SIZE_RESTORED then
    if st.m_minimized then
      ({ st with
        m_appPaused := false
        m_minimized := false
        m_timer := st.m_timer.Start now }).call MsgCall.OnResize
    else if st.m_maximized then
      ({ st with
        m_appPaused := false
        m_maximized := false
        m_timer := st.m_timer.Start now }).call MsgCall.OnResize
    else if st.m_resizing then st
    else st.call MsgCall.OnResize
  else st

/-- The case `WM_SIZE` of `Framework::MsgProc`. -/
def MsgProc_size (st : MsgState) (wParam lParam : Nat) (now : Int) : MsgState :=
  MsgProc_sizeKind (st.WM_SIZE_store lParam) wParam now

/-- The case `WM_ACTIVATEAPP` of `Framework::MsgProc` (`FALSE` is 0). -/
def MsgProc_activateApp (st : MsgState) (wParam : Nat) (now : Int) : MsgState :=
  if wParam = 0 then
    { st with m_appPaused := true, m_timer := st.m_timer.Stop now }
  else
    { st with m_appPaused := false, m_timer := st.m_timer.Start now }

/-- The case `WM_ENTERSIZEMOVE` of `Framework::MsgProc`. -/
def MsgProc_enterSizeMove (st : MsgState) (now : Int) : MsgState :=
  { st with m_appPaused := true, m_resizing := true, m_timer := st.m_timer.Stop now }

/-- The case `WM_EXITSIZEMOVE` of `Framework::MsgProc`. -/
def MsgProc_exitSizeMove (st : MsgState) (now : Int) : MsgState :=
  ({ st with
    m_appPaused := false
    m_resizing := false
    m_timer := st.m_timer.Start now }).call MsgCall.OnResize

/-- The cases `WM_KEYDOWN`, `WM_SYSKEYDOWN` (`down = true`) and `WM_KEYUP`,
`WM_SYSKEYUP` (`down = false`) of `Framework::MsgProc`:
`vk = static_cast<uint8_t>(wParam)` and `m_keyDown[vk] = down`. -/
def MsgProc_key (st : MsgState) (wParam : Nat) (down : Bool) : MsgState :=
  let vk := wParam % 2 ^ 8
  { st with m_keyDown := st.m_keyDown.set vk down }

/-- The case `WM_KILLFOCUS` of `Framework::MsgProc`: `m_keyDown.fill(false)`. -/
def MsgProc_killFocus (st : MsgState) : MsgState :=
  { st with m_keyDown := List.replicate st.m_keyDown.length false }

/-- The method `Framework::MsgProc`: the `switch` over the message. `wParam` and
`lParam` are the 64-bit parameters read as unsigned values; `now` is the value
of the performance counter, which `Timer::Start` and `Timer::Stop` read when they
act. `OnResize` is recorded as a call; it writes none of the members kept here.
A message that `DestroyWindow` or `DefWindowProcW` sends to the window in turn is
a call of `MsgProc` of its own. -/
def MsgProc (st : MsgState) (msg wParam lParam : Nat) (now : Int) : MsgState :=
  if msg = WM_CLOSE then st.call MsgCall.DestroyWindow
  else if msg = WM_DESTROY then st.call (MsgCall.PostQuitMessage 0)
  else if msg = WM_SIZE then MsgProc_size st wParam lParam now
  else if msg = WM_ACTIVATEAPP then MsgProc_activateApp st wParam now
  else if msg = WM_ENTERSIZEMOVE then MsgProc_enterSizeMove st now
  else if msg = WM_EXITSIZEMOVE then MsgProc_exitSizeMove st now
  else if msg = WM_LBUTTONDOWN ∨ msg = WM_MBUTTONDOWN ∨ msg = WM_RBUTTONDOWN then
    st.OnMouseDown wParam (GET_X_LPARAM lParam) (GET_Y_LPARAM lParam)
  else if msg = WM_LBUTTONUP ∨ msg = WM_MBUTTONUP ∨ msg = WM_RBUTTONUP then
    st.OnMouseUp
  else if msg = WM_MOUSEMOVE then
    st.OnMouseMove (GET_X_LPARAM lParam) (GET_Y_LPARAM lParam)
  else if msg = WM_KEYDOWN ∨ msg = WM_SYSKEYDOWN then MsgProc_key st wParam true
  else if msg = WM_KEYUP ∨ msg = WM_SYSKEYUP then MsgProc_key st wParam false
  else if msg = WM_KILLFOCUS then MsgProc_killFocus st
  else st.call (MsgCall.DefWindowProcW msg wParam lParam)

/-- The invariant of the pause flag: `m_appPaused` is true exactly when the timer
is stopped. -/
def MsgState.pauseAgrees (st : MsgState) : Prop :=
  st.m_appPaused = st.m_timer.m_stopped

/-- The members after construction with 1280 x 720 on a 10 MHz counter at the
counter value 1000. -/
def sampleMsgState : MsgState :=
  MsgState.new 1280 720 10000000 1000

/-! ## Framework.cpp: the cube of `BuildBoxGeometry`, its draw and the rasterizer
state of `BuildPSO` -/

/-- Structure `XMFLOAT4`. -/
structure XMFLOAT4 where
  x : ℚ
  y : ℚ
  z : ℚ
  w : ℚ
  deriving DecidableEq

/-- Structure `Vertex` (RenderStructs.hpp). -/
structure Vertex where
  Pos : XMFLOAT3
  Normal : XMFLOAT3
  Color : XMFLOAT4
  deriving DecidableEq

/-- The lambda `ColorFromPos` of `BuildBoxGeometry`. -/
def ColorFromPos (x y z : ℚ) : XMFLOAT4 :=
  ⟨(x + 1) * (1 / 2), (y + 1) * (1 / 2), (z + 1) * (1 / 2), 1⟩

/-- The array `vertices` of `BuildBoxGeometry`. -/
def boxVertices : List Vertex :=
  [⟨⟨-1, -1, -1⟩, ⟨0, 0, -1⟩, ColorFromPos (-1) (-1) (-1)⟩,
    ⟨⟨-1, 1, -1⟩, ⟨0, 0, -1⟩, ColorFromPos (-1) 1 (-1)⟩,
    ⟨⟨1, 1, -1⟩, ⟨0, 0, -1⟩, ColorFromPos 1 1 (-1)⟩,
    ⟨⟨1, -1, -1⟩, ⟨0, 0, -1⟩, ColorFromPos 1 (-1) (-1)⟩,

    ⟨⟨1, -1, 1⟩, ⟨0, 0, 1⟩, ColorFromPos 1 (-1) 1⟩,
    ⟨⟨1, 1, 1⟩, ⟨0, 0, 1⟩, ColorFromPos 1 1 1⟩,
    ⟨⟨-1, 1, 1⟩, ⟨0, 0, 1⟩, ColorFromPos (-1) 1 1⟩,
    ⟨⟨-1, -1, 1⟩, ⟨0, 0, 1⟩, ColorFromPos (-1) (-1) 1⟩,

    ⟨⟨-1, -1, 1⟩, ⟨-1, 0, 0⟩, ColorFromPos (-1) (-1) 1⟩,
    ⟨⟨-1, 1, 1⟩, ⟨-1, 0, 0⟩, ColorFromPos (-1) 1 1⟩,
    ⟨⟨-1, 1, -1⟩, ⟨-1, 0, 0⟩, ColorFromPos (-1) 1 (-1)⟩,
    ⟨⟨-1, -1, -1⟩, ⟨-1, 0, 0⟩, ColorFromPos (-1) (-1) (-1)⟩,

    ⟨⟨1, -1, -1⟩, ⟨1, 0, 0⟩, ColorFromPos 1 (-1) (-1)⟩,
    ⟨⟨1, 1, -1⟩, ⟨1, 0, 0⟩, ColorFromPos 1 1 (-1)⟩,
    ⟨⟨1, 1, 1⟩, ⟨1, 0, 0⟩, ColorFromPos 1 1 1⟩,
    ⟨⟨1, -1, 1⟩, ⟨1, 0, 0⟩, ColorFromPos 1 (-1) 1⟩,

    ⟨⟨-1, 1, -1⟩, ⟨0, 1, 0⟩, ColorFromPos (-1) 1 (-1)⟩,
    ⟨⟨-1, 1, 1⟩, ⟨0, 1, 0⟩, ColorFromPos (-1) 1 1⟩,
    ⟨⟨1, 1, 1⟩, ⟨0, 1, 0⟩, ColorFromPos 1 1 1⟩,
    ⟨⟨1, 1, -1⟩, ⟨0, 1, 0⟩, ColorFromPos 1 1 (-1)⟩,

    ⟨⟨1, -1, -1⟩, ⟨0, -1, 0⟩, ColorFromPos 1 (-1) (-1)⟩,
    ⟨⟨1, -1, 1⟩, ⟨0, -1, 0⟩, ColorFromPos 1 (-1) 1⟩,
    ⟨⟨-1, -1, 1⟩, ⟨0, -1, 0⟩, ColorFromPos (-1) (-1) 1⟩,
    ⟨⟨-1, -1, -1⟩, ⟨0, -1, 0⟩, ColorFromPos (-1) (-1) (-1)⟩]

/-- The array `indices` of `BuildBoxGeometry` (`std::uint16_t` values). -/
def boxIndices : List Nat :=
  [0, 1, 2, 0, 2, 3,
    4, 5, 6, 4, 6, 7,
    8, 9, 10, 8, 10, 11,
    12, 13, 14, 12, 14, 15,
    16, 17, 18, 16, 18, 19,
    20, 21, 22, 20, 22, 23]

/-- The input layout of `BuildPSO`: `AlignedByteOffset` and size in bytes of the
elements `POSITION` (`R32G32B32_FLOAT`), `NORMAL` (`R32G32B32_FLOAT`) and `COLOR`
(`R32G32B32A32_FLOAT`). -/
def inputLayout : List (Nat × Nat) :=
  [(0, 12), (12, 12), (24, 16)]

/-- The bytes of the index buffer view that
`DrawIndexedInstanced(IndexCountPerInstance, 1, 0, 0, 0)` reads for its `k`-th
index, as first offset and offset past the last: two bytes per `R16_UINT` index,
from `StartIndexLocation = 0` on. -/
def indexBytes (k : Nat) : Nat × Nat :=
  (2 * k, 2 * k + 2)

/-- The bytes of the vertex buffer view that the input assembler reads for the
index value `v` (with `BaseVertexLocation = 0`), one range per element of the
input layout, as first offset and offset past the last. -/
def vertexBytes (StrideInBytes v : Nat) : List (Nat × Nat) :=
  inputLayout.map fun e => (v * StrideInBytes + e.1, v * StrideInBytes + e.1 + e.2)

/-- The members of `Framework` that say which geometry `Draw` draws: the cube
buffers, their views and index count, and the model buffer, its view and vertex
count. -/
def Framework.geometryMembers (s : Framework) :
    Option Nat × Option Nat × D3D12_VERTEX_BUFFER_VIEW × D3D12_INDEX_BUFFER_VIEW × Nat ×
      Option Nat × D3D12_VERTEX_BUFFER_VIEW × Nat :=
  (s.m_boxVB, s.m_boxIB, s.m_boxVBView, s.m_boxIBView, s.m_boxIndexCount,
    s.m_modelVB, s.m_modelVBV, s.m_modelVertexCount)

/-- The difference `a - b` of two vectors (`XMVectorSubtract`). -/
def XMVectorSubtract (a b : XMFLOAT3) : XMFLOAT3 :=
  ⟨a.x - b.x, a.y - b.y, a.z - b.z⟩

/-- The vector `a` times the number `k` (`XMVectorScale`). -/
def XMVectorScale (a : XMFLOAT3) (k : ℚ) : XMFLOAT3 :=
  ⟨a.x * k, a.y * k, a.z * k⟩

/-- The cross product of two vectors (`XMVector3Cross`). -/
def XMVector3Cross (a b : XMFLOAT3) : XMFLOAT3 :=
  ⟨a.y * b.z - a.z * b.y, a.z * b.x - a.x * b.z, a.x * b.y - a.y * b.x⟩

/-- The dot product of two vectors (`XMVector3Dot`). -/
def XMVector3Dot (a b : XMFLOAT3) : ℚ :=
  a.x * b.x + a.y * b.y + a.z * b.z

/-- The `t`-th triangle of the cube's indexed triangle list: the vertices at the
indices `3 t`, `3 t + 1` and `3 t + 2`. -/
def boxTriangle (t : Nat) : Option (Vertex × Vertex × Vertex) :=
  match boxIndices[3 * t]?, boxIndices[3 * t + 1]?, boxIndices[3 * t + 2]? with
  | some i0, some i1, some i2 =>
    match boxVertices[i0]?, boxVertices[i1]?, boxVertices[i2]? with
    | some v0, some v1, some v2 => some (v0, v1, v2)
    | _, _, _ => none
  | _, _, _ => none

/-- What holds of a cube triangle with the vertices `v0`, `v1`, `v2`: the three
stored normals are equal, the cross product of the edges from the first vertex
is four times the normal, the normal has length one, the three corners lie in
the plane at distance one from the centre in the direction of the normal, and no
vertex of the cube lies beyond that plane. -/
def FacesOutwards (v0 v1 v2 : Vertex) : Prop :=
  v1.Normal = v0.Normal ∧ v2.Normal = v0.Normal ∧
  XMVector3Cross (XMVectorSubtract v1.Pos v0.Pos) (XMVectorSubtract v2.Pos v0.Pos) =
    XMVectorScale v0.Normal 4 ∧
  XMVector3Dot v0.Normal v0.Normal = 1 ∧
  XMVector3Dot v0.Normal v0.Pos = 1 ∧ XMVector3Dot v0.Normal v1.Pos = 1 ∧
  XMVector3Dot v0.Normal v2.Pos = 1 ∧
  ∀ q ∈ boxVertices, XMVector3Dot v0.Normal q.Pos ≤ 1

/-- Value `D3D12_CULL_MODE_FRONT` (d3d12.h). -/
def D3D12_CULL_MODE_FRONT : Nat := 2
/-- Value `D3D12_CULL_MODE_BACK` (d3d12.h). -/
def D3D12_CULL_MODE_BACK : Nat := 3

/-- The fields of `D3D12_RASTERIZER_DESC` that decide which triangles are
discarded. -/
structure D3D12_RASTERIZER_DESC where
  CullMode : Nat
  FrontCounterClockwise : Bool
  deriving DecidableEq, Repr

/-- The rasterizer state that `BuildPSO` sets: `CullMode = D3D12_CULL_MODE_BACK`,
`FrontCounterClockwise = FALSE`. -/
def BuildPSO_rasterDesc : D3D12_RASTERIZER_DESC :=
  ⟨D3D12_CULL_MODE_BACK, false⟩

/-- The orientation of the triangle `p0 p1 p2` for a viewer at `eye`:
`((p1 - p0) x (p2 - p0)) . (eye - p0)`. In the left-handed coordinate system of
Direct3D the vertices appear in clockwise order exactly when it is positive and
in counter-clockwise order exactly when it is negative. -/
def orientationFrom (eye p0 p1 p2 : XMFLOAT3) : ℚ :=
  XMVector3Dot (XMVector3Cross (XMVectorSubtract p1 p0) (XMVectorSubtract p2 p0))
    (XMVectorSubtract eye p0)

/-- Whether the rasterizer discards the triangle `p0 p1 p2` seen from `eye`: a
triangle is front-facing when its vertices appear clockwise (counter-clockwise
with `FrontCounterClockwise`) and back-facing when they appear in the other
order; `D3D12_CULL_MODE_BACK` discards the back-facing and
`D3D12_CULL_MODE_FRONT` the front-facing triangles. -/
def culled (d : D3D12_RASTERIZER_DESC) (eye p0 p1 p2 : XMFLOAT3) : Bool :=
  let clockwise := decide (0 < orientationFrom eye p0 p1 p2)
  let counterClockwise := decide (orientationFrom eye p0 p1 p2 < 0)
  let front := if d.FrontCounterClockwise then counterClockwise else clockwise
  let back := if d.FrontCounterClockwise then clockwise else counterClockwise
  if d.CullMode = D3D12_CULL_MODE_BACK then back
  else if d.CullMode = D3D12_CULL_MODE_FRONT then front
  else false

/-- The capacity of the RTV heap: `rtvHeapDesc.NumDescriptors` in
`CreateRtvAndDsvDescriptorHeaps`. -/
def rtvHeapDesc_NumDescriptors : Nat :=
  SwapChainBufferCount

/-- A platform on which `tinyobj::LoadObj` fails; everything else as on the
sample platform. -/
def sampleEnvNoObj : Env := ⟨32, 8, 32, true, false, 0⟩

/-! ## Framework.cpp: the failing import and the contents of the cube's buffers -/

/-- What `Init` meets on a platform on which everything succeeds up to
`BuildObjVB_Upload` and `tinyobj::LoadObj` then fails. -/
def sampleInitNoObj : InitResults :=
  { sampleInit with
    rest := some (Exception.runtime_error "tinyobj::LoadObj failed (see Output window).") }

/-- The object representation of a `std::uint16_t` (little-endian, as on every
platform of Direct3D 12). -/
def uint16_bytes (n : Nat) : List Nat :=
  [n % 256, n / 256 % 256]

/-- The object representation of the array `indices` of `BuildBoxGeometry`: what
`indices.data()` points to. -/
def boxIndexData : List Nat :=
  boxIndices.flatMap uint16_bytes

/-- The contents of the buffer resources: the bytes of each live buffer, by
resource identity. -/
abbrev BufferMemory := Nat → Option (List Nat)

/-- A successful `CreateCommittedResource` for a buffer of `Width` bytes on the
resource `res`: its contents are unspecified, here byte `k` is `junk k`. -/
def createBuffer (mem : BufferMemory) (res : Option Nat) (Width : Nat) (junk : Nat → Nat) :
    Option BufferMemory :=
  match res with
  | none => none
  | some r => some (Function.update mem r (some ((List.range Width).map junk)))

/-- The block `Map(0, nullptr, &mapped); memcpy(mapped, data, n); Unmap(0, nullptr)`
on the buffer `res`: the first `n` bytes of the buffer become the first `n` bytes
of `data`; `none` when the buffer does not exist or one of the two is shorter
than `n` bytes (the `memcpy` would leave it). -/
def Map_memcpy (mem : BufferMemory) (res : Option Nat) (data : List Nat) (n : Nat) :
    Option BufferMemory :=
  match res with
  | none => none
  | some r =>
    match mem r with
    | none => none
    | some bytes =>
      if n ≤ bytes.length ∧ n ≤ data.length then
        some (Function.update mem r (some (data.take n ++ bytes.drop n)))
      else none

/-- What one recorded command does to the buffer contents when it is executed:
`CopyBufferRegion(dst, 0, src, 0, NumBytes)` replaces the first `NumBytes` bytes
of `dst` by those of `src` (`none` when a buffer is missing or shorter than
`NumBytes`); no other command of this program writes to a buffer. -/
def Cmd.execMemory (mem : BufferMemory) : Cmd → Option BufferMemory
  | Cmd.CopyBufferRegion (some dst) (some src) n =>
    match mem dst, mem src with
    | some d, some s =>
      if n ≤ d.length ∧ n ≤ s.length then
        some (Function.update mem dst (some (s.take n ++ d.drop n)))
      else none
    | _, _ => none
  | Cmd.CopyBufferRegion _ _ _ => none
  | _ => some mem

/-- What the execution of a command list does to the buffer contents. -/
def execMemory : List Cmd → BufferMemory → Option BufferMemory
  | [], mem => some mem
  | c :: cs, mem => (c.execMemory mem).bind (execMemory cs)

/-- The buffer contents that `Framework::BuildBoxGeometry` leaves behind, from
the contents `mem` before it: the four buffers are created (`vbByteSize` bytes
for the vertex buffer and its upload buffer, `ibByteSize` bytes for the index
buffer and its upload buffer), the vertex array (its object representation is
`vertexData`) and the index array are copied into the mapped upload buffers, the
recorded command list is executed, and the two upload buffers are released. -/
def Framework.BuildBoxGeometry_memory (s : Framework) (vertexData : List Nat)
    (junk : Nat → Nat) (mem : BufferMemory) : Option BufferMemory :=
  let s1 := s.BuildBoxGeometry_create
  (createBuffer mem s1.m_boxVB boxVbByteSize junk).bind fun mem =>
  (createBuffer mem s1.m_boxIB boxIbByteSize junk).bind fun mem =>
  (createBuffer mem s1.m_boxVBUpload boxVbByteSize junk).bind fun mem =>
  (createBuffer mem s1.m_boxIBUpload boxIbByteSize junk).bind fun mem =>
  (Map_memcpy mem s1.m_boxVBUpload vertexData boxVbByteSize).bind fun mem =>
  (Map_memcpy mem s1.m_boxIBUpload boxIndexData boxIbByteSize).bind fun mem =>
  (execMemory s1.BuildBoxGeometry_record.recording mem).bind fun mem =>
  match s1.m_boxVBUpload, s1.m_boxIBUpload with
  | some vbu, some ibu => some (Function.update (Function.update mem vbu none) ibu none)
  | _, _ => none

/-- The `k`-th index that the input assembler fetches from an index buffer with
the contents `bytes` through a view of `SizeInBytes` bytes in the format
`R16_UINT`: the two bytes at `indexBytes k`, or `none` when they do not lie inside
the view and the buffer. -/
def fetchIndex (bytes : List Nat) (SizeInBytes k : Nat) : Option Nat :=
  if (indexBytes k).2 ≤ SizeInBytes ∧ (indexBytes k).2 ≤ bytes.length then
    some (bytes.getD (indexBytes k).1 0 + 256 * bytes.getD ((indexBytes k).1 + 1) 0)
  else none

/-- The bytes in the range `r` (first offset, offset past the last) that the
input assembler fetches from a vertex buffer with the contents `bytes` through a
view of `SizeInBytes` bytes, or `none` when the range does not lie inside the
view and the buffer. -/
def fetchElement (bytes : List Nat) (SizeInBytes : Nat) (r : Nat × Nat) : Option (List Nat) :=
  if r.2 ≤ SizeInBytes ∧ r.2 ≤ bytes.length then some ((bytes.drop r.1).take (r.2 - r.1))
  else none

/-- The bytes of all the given ranges, or `none` when one of them does not lie
inside the view and the buffer. -/
def fetchElements (bytes : List Nat) (SizeInBytes : Nat) :
    List (Nat × Nat) → Option (List (List Nat))
  | [] => some []
  | r :: rs =>
    match fetchElement bytes SizeInBytes r, fetchElements bytes SizeInBytes rs with
    | some b, some bs => some (b :: bs)
    | _, _ => none

/-- The index that `DrawIndexedInstanced` reads for its `k`-th index through the
index buffer view `view`, with the buffer contents `mem`. -/
def readIndex (mem : BufferMemory) (view : D3D12_INDEX_BUFFER_VIEW) (k : Nat) : Option Nat :=
  match view.BufferLocation with
  | none => none
  | some r =>
    match mem r with
    | none => none
    | some bytes => fetchIndex bytes view.SizeInBytes k

/-- The elements of the vertex with the index value `v` that `DrawIndexedInstanced`
reads through the vertex buffer view `view`, with the buffer contents `mem`: one
list of bytes per element of the input layout. -/
def readVertex (mem : BufferMemory) (view : D3D12_VERTEX_BUFFER_VIEW) (v : Nat) :
    Option (List (List Nat)) :=
  match view.BufferLocation with
  | none => none
  | some r =>
    match mem r with
    | none => none
    | some bytes => fetchElements bytes view.SizeInBytes (vertexBytes view.StrideInBytes v)

/-- The engine after `Init_objects` on the sample platform, on which
`BuildBoxGeometry` runs. -/
def sampleBeforeBox : Framework :=
  ((Framework.new 1280 720).Init_objects sampleEnv).getD (Framework.new 1280 720)

/-- A sample object representation of the vertex array: byte `k` is `k % 256`. -/
def sampleVertexData : List Nat :=
  (List.range 960).map fun k => k % 256

/-! ## Theorems -/

/-- On `UINT` values the mask `0xFFFFFF00` clears the low eight bits. -/
theorem land_mask_eq (x : Nat) (hx : x < 2 ^ 32) : x &&& 0xFFFFFF00 = x / 256 * 256 := by
  apply Nat.eq_of_testBit_eq
  intro i
  have h1 : (0xFFFFFF00 : Nat) = 2 ^ 8 * (2 ^ 24 - 1) := by norm_num
  have h2 : x / 256 * 256 = 2 ^ 8 * (x >>> 8) := by
    rw [Nat.shiftRight_eq_div_pow]; norm_num [Nat.mul_comm]
  rw [Nat.testBit_and, h1, h2, Nat.testBit_mul_pow_two, Nat.testBit_mul_pow_two,
    Nat.testBit_two_pow_sub_one, Nat.testBit_shiftRight]
  by_cases h8 : 8 ≤ i
  · by_cases h32 : i < 32
    · have h24 : i - 8 < 24 := by omega
      have h3 : 8 + (i - 8) = i := by omega
      simp [h8, h24, h3]
    · have hlt : x < 2 ^ i :=
        lt_of_lt_of_le hx (Nat.pow_le_pow_right (by norm_num) (by omega))
      have h24 : ¬ (i - 8 < 24) := by omega
      have h3 : 8 + (i - 8) = i := by omega
      simp [h8, h24, h3, Nat.testBit_lt_two_pow hlt]
  · simp [h8]

/-- The value of `CalcConstantBufferByteSize` in terms of division. -/
theorem CalcConstantBufferByteSize_eq (S : Nat) :
    CalcConstantBufferByteSize S = (S + 255) % 2 ^ 32 / 256 * 256 := by
  unfold CalcConstantBufferByteSize
  exact land_mask_eq _ (Nat.mod_lt _ (by norm_num))

/-- The result of `CalcConstantBufferByteSize` is a `UINT`. -/
theorem CalcConstantBufferByteSize_lt (S : Nat) : CalcConstantBufferByteSize S < 2 ^ 32 := by
  rw [CalcConstantBufferByteSize_eq]
  have h : (S + 255) % 2 ^ 32 < 2 ^ 32 := Nat.mod_lt _ (by norm_num)
  omega

/-- Without wrap-around the result is the round-up to a multiple of 256. -/
theorem CalcConstantBufferByteSize_roundup (S : Nat) (hS : S ≤ 2 ^ 32 - 256) :
    CalcConstantBufferByteSize S = (S + 255) / 256 * 256 := by
  rw [CalcConstantBufferByteSize_eq, Nat.mod_eq_of_lt (by omega)]

/-- Counterexample to C3 as stated: at the `UINT` value `4294967295` the sum
`byteSize + 255` wraps and `CalcConstantBufferByteSize` returns 0, which is not
`ceil(S / 256) * 256 = 4294967296` and is below `S`. -/
theorem C3_counterexample :
    CalcConstantBufferByteSize 4294967295 = 0 ∧
    CalcConstantBufferByteSize 4294967295 ≠ (4294967295 + 255) / 256 * 256 ∧
    ¬ (4294967295 ≤ CalcConstantBufferByteSize 4294967295) := by
  have h : CalcConstantBufferByteSize 4294967295 = 0 := by
    rw [CalcConstantBufferByteSize_eq]; norm_num
  rw [h]
  exact ⟨rfl, by norm_num, by norm_num⟩

/-- C3 (amended): for every `UINT` size `S ≤ 2 ^ 32 - 256`,
`CalcConstantBufferByteSize S` is `ceil(S / 256) * 256`, the least multiple of
256 that is at least `S`, and it is the stride of an `UploadBuffer` of element
size `S` created with `isConstantBuffer = true`. -/
theorem C3_CalcConstantBufferByteSize_least_multiple (S : Nat) (hS : S ≤ 2 ^ 32 - 256) :
    CalcConstantBufferByteSize S = (S + 255) / 256 * 256 ∧
    256 ∣ CalcConstantBufferByteSize S ∧
    S ≤ CalcConstantBufferByteSize S ∧
    (∀ m : Nat, 256 ∣ m → S ≤ m → CalcConstantBufferByteSize S ≤ m) ∧
    (∀ (elementCount : Nat) (mem : Nat → Nat),
      (UploadBuffer.create S elementCount true mem).m_elementByteSize =
        (S + 255) / 256 * 256) := by
  have hr := CalcConstantBufferByteSize_roundup S hS
  refine ⟨hr, ?_, ?_, ?_, ?_⟩
  · rw [hr]; exact Dvd.intro_left _ rfl
  · rw [hr]; omega
  · intro m hm hSm
    rw [hr]
    obtain ⟨c, rfl⟩ := hm
    omega
  · intro elementCount mem
    have hlt : S % 2 ^ 32 = S := Nat.mod_eq_of_lt (by omega)
    simp only [UploadBuffer.create, if_true, hlt]
    exact hr

/-- Witness for C3 (amended) at `S = 160`. -/
theorem C3_witness :
    (160 : Nat) ≤ 2 ^ 32 - 256 ∧ CalcConstantBufferByteSize 160 = (160 + 255) / 256 * 256 :=
  ⟨by norm_num, (C3_CalcConstantBufferByteSize_least_multiple 160 (by norm_num)).1⟩


/-- The stride of a created buffer is a `UINT`. -/
theorem UploadBuffer.create_stride_lt (sizeofT elementCount : Nat) (isCB : Bool)
    (mem : Nat → Nat) :
    (UploadBuffer.create sizeofT elementCount isCB mem).m_elementByteSize < 2 ^ 32 := by
  cases isCB
  · simp only [UploadBuffer.create]
    exact Nat.mod_lt _ (by norm_num)
  · simp only [UploadBuffer.create, if_true]
    exact CalcConstantBufferByteSize_lt _

/-- For an `int` index `0 ≤ i` the `size_t` product of `CopyData` does not wrap. -/
theorem UploadBuffer.slotOffset_eq (b : UploadBuffer) (i : Int)
    (hb : b.m_elementByteSize < 2 ^ 32) (hi0 : 0 ≤ i) (hint : i < 2 ^ 31) :
    b.slotOffset i = i.toNat * b.m_elementByteSize := by
  unfold UploadBuffer.slotOffset
  have h1 : i % 2 ^ 64 = i := Int.emod_eq_of_lt hi0 (by omega)
  rw [h1]
  have h2 : i.toNat < 2 ^ 31 := by omega
  have h3 : i.toNat * b.m_elementByteSize < 2 ^ 31 * 2 ^ 32 :=
    Nat.mul_lt_mul'' h2 hb
  exact Nat.mod_eq_of_lt (lt_of_lt_of_le h3 (by norm_num))

/-- Reading back the destination range of a `memcpy` gives the source bytes. -/
theorem readBytes_memcpy (mem : Nat → Nat) (dst : Nat) (src : List Nat) :
    readBytes (memcpy mem dst src src.length) dst src.length = src := by
  apply List.ext_getElem
  · simp [readBytes]
  · intro j h1 h2
    have hj : j < src.length := h2
    simp [readBytes, memcpy, hj, List.getD_eq_getElem?_getD, List.getElem?_eq_getElem hj]

/-- Stride of a plain buffer whose element size fits a `UINT`. -/
theorem UploadBuffer.create_stride_plain (sizeofT elementCount : Nat) (mem : Nat → Nat)
    (hT : sizeofT < 2 ^ 32) :
    (UploadBuffer.create sizeofT elementCount false mem).m_elementByteSize = sizeofT := by
  have hlt : sizeofT % 2 ^ 32 = sizeofT := Nat.mod_eq_of_lt hT
  simp only [UploadBuffer.create, hlt]
  rfl

/-- Stride of a constant buffer when the round-up does not wrap. -/
theorem UploadBuffer.create_stride_constant (sizeofT elementCount : Nat) (mem : Nat → Nat)
    (hT : sizeofT ≤ 2 ^ 32 - 256) :
    (UploadBuffer.create sizeofT elementCount true mem).m_elementByteSize =
      (sizeofT + 255) / 256 * 256 := by
  have hlt : sizeofT % 2 ^ 32 = sizeofT := Nat.mod_eq_of_lt (by omega)
  simp only [UploadBuffer.create, if_true, hlt]
  exact CalcConstantBufferByteSize_roundup sizeofT hT

/-- The 64-bit width computed by the constructor is the exact product. -/
theorem UploadBuffer.create_bufferSize (sizeofT elementCount : Nat) (isCB : Bool)
    (mem : Nat → Nat) (hcount : elementCount < 2 ^ 32) :
    (UploadBuffer.create sizeofT elementCount isCB mem).bufferSize =
      (UploadBuffer.create sizeofT elementCount isCB mem).m_elementByteSize * elementCount := by
  have hs := UploadBuffer.create_stride_lt sizeofT elementCount isCB mem
  have hprod :
      (UploadBuffer.create sizeofT elementCount isCB mem).m_elementByteSize * elementCount
        < 2 ^ 32 * 2 ^ 32 := Nat.mul_lt_mul'' hs hcount
  have h64 : (2 : Nat) ^ 32 * 2 ^ 32 = 2 ^ 64 := by norm_num
  show ((UploadBuffer.create sizeofT elementCount isCB mem).m_elementByteSize * elementCount)
    % 2 ^ 64 = _
  exact Nat.mod_eq_of_lt (by omega)

/-- Counterexample to C4 as stated: for an element type of `4294967295` bytes the
constant-buffer stride computed by the constructor is 0, not the size rounded up
to a multiple of 256; for one of `4294967312` bytes the plain stride is 16, not
the size. -/
theorem C4_counterexample :
    (UploadBuffer.create 4294967295 1 true (fun _ => 0)).m_elementByteSize = 0 ∧
    (UploadBuffer.create 4294967295 1 true (fun _ => 0)).m_elementByteSize ≠
      (4294967295 + 255) / 256 * 256 ∧
    (UploadBuffer.create 4294967312 1 false (fun _ => 0)).m_elementByteSize = 16 ∧
    (UploadBuffer.create 4294967312 1 false (fun _ => 0)).m_elementByteSize ≠ 4294967312 := by
  have h : (UploadBuffer.create 4294967295 1 true (fun _ => 0)).m_elementByteSize = 0 := by
    simp only [UploadBuffer.create, if_true]
    rw [CalcConstantBufferByteSize_eq]; norm_num
  have h2 : (UploadBuffer.create 4294967312 1 false (fun _ => 0)).m_elementByteSize = 16 := by
    simp [UploadBuffer.create]
  rw [h, h2]
  exact ⟨rfl, by norm_num, rfl, by norm_num⟩

/-- C4 (amended): for every element type `T` with `sizeof(T) < 2 ^ 32` and every
`UINT` element count, the stride of `UploadBuffer<T>` is `sizeof(T)` when
`isConstantBuffer` is false and, when it is true and `sizeof(T) ≤ 2 ^ 32 - 256`,
`sizeof(T)` rounded up to a multiple of 256; the allocated width is exactly
`stride * elementCount` (the 64-bit product does not wrap); `ObjectConstants`
has 128 bytes and `PassConstants` 160, both constant buffers have stride 256,
and that is the `SizeInBytes` that `BuildCbvViews` puts in each view. -/
theorem C4_upload_buffer_stride (sizeofT elementCount : Nat) (mem : Nat → Nat)
    (hT : sizeofT < 2 ^ 32) (hcount : elementCount < 2 ^ 32) :
    (UploadBuffer.create sizeofT elementCount false mem).m_elementByteSize = sizeofT ∧
    (sizeofT ≤ 2 ^ 32 - 256 →
      (UploadBuffer.create sizeofT elementCount true mem).m_elementByteSize =
        (sizeofT + 255) / 256 * 256) ∧
    (∀ isCB : Bool,
      (UploadBuffer.create sizeofT elementCount isCB mem).bufferSize =
        (UploadBuffer.create sizeofT elementCount isCB mem).m_elementByteSize * elementCount) ∧
    sizeof_ObjectConstants = 128 ∧ sizeof_PassConstants = 160 ∧
    (∀ memObj memPass : Nat → Nat,
      (BuildConstantBuffers memObj memPass).1.m_elementByteSize = 256 ∧
      (BuildConstantBuffers memObj memPass).2.m_elementByteSize = 256 ∧
      (BuildConstantBuffers memObj memPass).1.bufferSize = 256 ∧
      (BuildConstantBuffers memObj memPass).2.bufferSize = 256 ∧
      BuildCbvViews_SizeInBytes.1 = (BuildConstantBuffers memObj memPass).1.m_elementByteSize ∧
      BuildCbvViews_SizeInBytes.2 = (BuildConstantBuffers memObj memPass).2.m_elementByteSize) := by
  have hobj : sizeof_ObjectConstants = 128 := by decide
  have hpass : sizeof_PassConstants = 160 := by decide
  have hc128 : CalcConstantBufferByteSize 128 = 256 := by
    rw [CalcConstantBufferByteSize_eq]; norm_num
  have hc160 : CalcConstantBufferByteSize 160 = 256 := by
    rw [CalcConstantBufferByteSize_eq]; norm_num
  refine ⟨UploadBuffer.create_stride_plain sizeofT elementCount mem hT,
    fun hCB => UploadBuffer.create_stride_constant sizeofT elementCount mem hCB,
    fun isCB => UploadBuffer.create_bufferSize sizeofT elementCount isCB mem hcount,
    hobj, hpass, ?_⟩
  intro memObj memPass
  simp [BuildConstantBuffers, BuildCbvViews_SizeInBytes, UploadBuffer.create, hobj, hpass,
    hc128, hc160]

/-- Witness for C4 (amended) at the 160-byte payload with one element. -/
theorem C4_witness :
    (160 : Nat) < 2 ^ 32 ∧ (1 : Nat) < 2 ^ 32 ∧ (160 : Nat) ≤ 2 ^ 32 - 256 ∧
    (UploadBuffer.create 160 1 true (fun _ => 0)).m_elementByteSize = (160 + 255) / 256 * 256 :=
  ⟨by norm_num, by norm_num, by norm_num,
    (C4_upload_buffer_stride 160 1 (fun _ => 0) (by norm_num) (by norm_num)).2.1
      (by norm_num)⟩

/-- Within the size bounds a copy to a slot inside the buffer ends inside that
slot, and the slot ends inside the buffer. -/
theorem UploadBuffer.CopyData_inside (sizeofT elementCount : Nat) (isCB : Bool)
    (mem : Nat → Nat) (i : Int)
    (hT : sizeofT < 2 ^ 32) (hCB : isCB = true → sizeofT ≤ 2 ^ 32 - 256)
    (hcount : elementCount < 2 ^ 32) (hi0 : 0 ≤ i) (hi : i < (elementCount : Int))
    (hint : i < 2 ^ 31) :
    (UploadBuffer.create sizeofT elementCount isCB mem).slotOffset i =
      i.toNat * (UploadBuffer.create sizeofT elementCount isCB mem).m_elementByteSize ∧
    i.toNat * (UploadBuffer.create sizeofT elementCount isCB mem).m_elementByteSize + sizeofT ≤
      (i.toNat + 1) * (UploadBuffer.create sizeofT elementCount isCB mem).m_elementByteSize ∧
    (i.toNat + 1) * (UploadBuffer.create sizeofT elementCount isCB mem).m_elementByteSize ≤
      (UploadBuffer.create sizeofT elementCount isCB mem).bufferSize := by
  set b := UploadBuffer.create sizeofT elementCount isCB mem with hb
  set stride := b.m_elementByteSize with hstride
  have hs : stride < 2 ^ 32 := UploadBuffer.create_stride_lt sizeofT elementCount isCB mem
  have hoff : b.slotOffset i = i.toNat * stride := UploadBuffer.slotOffset_eq b i hs hi0 hint
  have hsize : b.bufferSize = stride * elementCount :=
    UploadBuffer.create_bufferSize sizeofT elementCount isCB mem hcount
  have hle : sizeofT ≤ stride := by
    cases isCB
    · exact le_of_eq (UploadBuffer.create_stride_plain sizeofT elementCount mem hT).symm
    · have h2 : stride = (sizeofT + 255) / 256 * 256 :=
        UploadBuffer.create_stride_constant sizeofT elementCount mem (hCB rfl)
      omega
  have hin : i.toNat < elementCount := by omega
  refine ⟨hoff, ?_, ?_⟩
  · have : (i.toNat + 1) * stride = i.toNat * stride + stride := by ring
    omega
  · rw [hsize, Nat.mul_comm stride elementCount]
    exact Nat.mul_le_mul_right stride hin

/-- A copy of `2 ^ 32 + 16` bytes into the one-slot buffer of that element size
leaves the mapped memory, whatever the bytes are. -/
theorem UploadBuffer.CopyData_narrowed (v : List Nat) :
    (UploadBuffer.create 4294967312 1 false (fun _ => 0)).CopyData_checked 0 v = none ∧
    ((UploadBuffer.create 4294967312 1 false (fun _ => 0)).CopyData 0 v).readBack
      (0 * (UploadBuffer.create 4294967312 1 false (fun _ => 0)).m_elementByteSize)
      4294967312 = none := by
  have hoff : (UploadBuffer.create 4294967312 1 false (fun _ => 0)).slotOffset 0 = 0 := by
    simp [UploadBuffer.slotOffset]
  have hsz : (UploadBuffer.create 4294967312 1 false (fun _ => 0)).bufferSize = 16 := by
    simp [UploadBuffer.create]
  have hT : (UploadBuffer.create 4294967312 1 false (fun _ => 0)).sizeofT = 4294967312 := rfl
  have hsz2 : ((UploadBuffer.create 4294967312 1 false (fun _ => 0)).CopyData 0 v).bufferSize
      = 16 := hsz
  constructor
  · simp [UploadBuffer.CopyData_checked, UploadBuffer.inBounds, hoff, hsz, hT]
  · simp [UploadBuffer.readBack, hsz2]

/-- Counterexample to C5 as stated: for an element type of `4294967312` bytes
(`2 ^ 32 + 16`) the stride narrows to 16 and a one-slot buffer has 16 bytes of
mapped memory; `CopyData(0, v)` with the index 0 inside the one slot copies
`4294967312` bytes and leaves the mapped memory, and the `sizeof(T)` bytes from
offset `0 * stride` on are not bytes of the mapped memory. -/
theorem C5_counterexample :
    (0 : Int) < ((1 : Nat) : Int) ∧
    (UploadBuffer.create 4294967312 1 false (fun _ => 0)).m_elementByteSize = 16 ∧
    (UploadBuffer.create 4294967312 1 false (fun _ => 0)).bufferSize = 16 ∧
    (UploadBuffer.create 4294967312 1 false (fun _ => 0)).CopyData_checked 0
        (List.replicate 4294967312 1) = none ∧
    ((UploadBuffer.create 4294967312 1 false (fun _ => 0)).CopyData 0
        (List.replicate 4294967312 1)).readBack
      (0 * (UploadBuffer.create 4294967312 1 false (fun _ => 0)).m_elementByteSize)
      4294967312 = none :=
  ⟨by decide, by simp [UploadBuffer.create], by simp [UploadBuffer.create],
    (UploadBuffer.CopyData_narrowed _).1, (UploadBuffer.CopyData_narrowed _).2⟩

/-- C5 (amended): for every `UploadBuffer<T>` with `sizeof(T) < 2 ^ 32` (and
`sizeof(T) ≤ 2 ^ 32 - 256` when it is a constant buffer) and `elementCount`
slots, every `int` index `0 ≤ i < elementCount` and every value `v` of
`sizeof(T)` bytes, `CopyData(i, v)` stays inside the mapped memory, and after it
the `sizeof(T)` bytes of the mapped memory that start at byte offset
`i * stride` are the bytes of `v`. -/
theorem C5_CopyData_roundtrip (sizeofT elementCount : Nat) (isCB : Bool) (mem : Nat → Nat)
    (i : Int) (v : List Nat)
    (hT : sizeofT < 2 ^ 32) (hCB : isCB = true → sizeofT ≤ 2 ^ 32 - 256)
    (hcount : elementCount < 2 ^ 32)
    (hv : v.length = sizeofT) (hi0 : 0 ≤ i)
    (hi : i < (elementCount : Int)) (hint : i < 2 ^ 31) :
    (UploadBuffer.create sizeofT elementCount isCB mem).CopyData_checked i v =
      some ((UploadBuffer.create sizeofT elementCount isCB mem).CopyData i v) ∧
    i.toNat * (UploadBuffer.create sizeofT elementCount isCB mem).m_elementByteSize + sizeofT ≤
      (UploadBuffer.create sizeofT elementCount isCB mem).bufferSize ∧
    ((UploadBuffer.create sizeofT elementCount isCB mem).CopyData i v).readBack
      (i.toNat * (UploadBuffer.create sizeofT elementCount isCB mem).m_elementByteSize)
      sizeofT = some v ∧
    readBytes
      ((UploadBuffer.create sizeofT elementCount isCB mem).CopyData i v).m_mappedData
      (i.toNat * (UploadBuffer.create sizeofT elementCount isCB mem).m_elementByteSize)
      sizeofT = v := by
  obtain ⟨hoff, hslot, halloc⟩ :=
    UploadBuffer.CopyData_inside sizeofT elementCount isCB mem i hT hCB hcount hi0 hi hint
  have hin := le_trans hslot halloc
  have hread : readBytes
      ((UploadBuffer.create sizeofT elementCount isCB mem).CopyData i v).m_mappedData
      (i.toNat * (UploadBuffer.create sizeofT elementCount isCB mem).m_elementByteSize)
      sizeofT = v := by
    simp only [UploadBuffer.CopyData, hoff]
    have hsz : (UploadBuffer.create sizeofT elementCount isCB mem).sizeofT = v.length := by
      rw [hv]; rfl
    rw [hsz, ← hv]
    exact readBytes_memcpy _ _ _
  refine ⟨?_, hin, ?_, hread⟩
  · have hT2 : (UploadBuffer.create sizeofT elementCount isCB mem).sizeofT = sizeofT := rfl
    simp [UploadBuffer.CopyData_checked, UploadBuffer.inBounds, hoff, hT2, hin]
  · have hb2 : ((UploadBuffer.create sizeofT elementCount isCB mem).CopyData i v).bufferSize =
        (UploadBuffer.create sizeofT elementCount isCB mem).bufferSize := rfl
    unfold UploadBuffer.readBack
    rw [hb2, if_pos hin, hread]

/-- Witness for C5 (amended): slot 1 of a three-slot buffer of 4-byte elements. -/
theorem C5_witness :
    (4 : Nat) < 2 ^ 32 ∧ (3 : Nat) < 2 ^ 32 ∧ (1 : Int) < ((3 : Nat) : Int) ∧
    ((UploadBuffer.create 4 3 false (fun _ => 0)).CopyData 1 [7, 8, 9, 10]).readBack
      ((1 : Int).toNat * (UploadBuffer.create 4 3 false (fun _ => 0)).m_elementByteSize)
      4 = some [7, 8, 9, 10] :=
  ⟨by norm_num, by norm_num, by decide,
    (C5_CopyData_roundtrip 4 3 false (fun _ => 0) 1 [7, 8, 9, 10] (by norm_num)
      (fun h => Bool.noConfusion h) (by norm_num) rfl (by decide) (by decide)
      (by decide)).2.2.1⟩

/-- A `memcpy` from a constant source of more than 16 bytes to offset 0 writes
the byte at offset 16. -/
theorem memcpy_replicate_16 (mem : Nat → Nat) (n : Nat) (hn : 16 < n) :
    memcpy mem 0 (List.replicate n 1) n 16 = 1 := by
  simp [memcpy, hn, List.getD_eq_getElem?_getD, List.getElem?_replicate]

/-- Counterexample to C6 as stated: for an element type of `4294967312` bytes
(`2 ^ 32 + 16`) the stride narrows to 16, a one-slot buffer has 16 bytes, and
`CopyData(0, v)` writes the byte at offset 16, which lies outside slot 0 and
outside the buffer. -/
theorem C6_counterexample :
    (UploadBuffer.create 4294967312 1 false (fun _ => 0)).m_elementByteSize = 16 ∧
    (UploadBuffer.create 4294967312 1 false (fun _ => 0)).bufferSize = 16 ∧
    ((UploadBuffer.create 4294967312 1 false (fun _ => 0)).CopyData 0
        (List.replicate 4294967312 1)).m_mappedData 16 = 1 ∧
    (UploadBuffer.create 4294967312 1 false (fun _ => 0)).m_mappedData 16 = 0 := by
  have hoff : (UploadBuffer.create 4294967312 1 false (fun _ => 0)).slotOffset 0 = 0 := by
    simp [UploadBuffer.slotOffset]
  refine ⟨by simp [UploadBuffer.create], by simp [UploadBuffer.create], ?_, rfl⟩
  show memcpy (fun _ => 0)
    ((UploadBuffer.create 4294967312 1 false (fun _ => 0)).slotOffset 0)
    (List.replicate 4294967312 1) 4294967312 16 = 1
  rw [hoff]
  exact memcpy_replicate_16 _ 4294967312 (by norm_num)

/-- C6 (amended): for every `UploadBuffer<T>` with `sizeof(T) < 2 ^ 32` (and
`sizeof(T) ≤ 2 ^ 32 - 256` when it is a constant buffer) and every `int` index
`0 ≤ i < elementCount`, `CopyData(i, v)` overwrites exactly the
bytes at offsets `[i * stride, i * stride + sizeof(T))`; that range lies inside
slot `i`, slot `i` lies inside the `stride * elementCount` allocated bytes, and
no byte of another slot or beyond the buffer changes. -/
theorem C6_CopyData_stays_in_slot (sizeofT elementCount : Nat) (isCB : Bool)
    (mem : Nat → Nat) (i : Int) (v : List Nat)
    (hT : sizeofT < 2 ^ 32) (hCB : isCB = true → sizeofT ≤ 2 ^ 32 - 256)
    (hcount : elementCount < 2 ^ 32)
    (hv : v.length = sizeofT) (hi0 : 0 ≤ i) (hi : i < (elementCount : Int))
    (hint : i < 2 ^ 31) :
    (∀ a, i.toNat * (UploadBuffer.create sizeofT elementCount isCB mem).m_elementByteSize ≤ a →
      a < i.toNat * (UploadBuffer.create sizeofT elementCount isCB mem).m_elementByteSize
        + sizeofT →
      ((UploadBuffer.create sizeofT elementCount isCB mem).CopyData i v).m_mappedData a =
        v.getD (a - i.toNat *
          (UploadBuffer.create sizeofT elementCount isCB mem).m_elementByteSize) 0) ∧
    (∀ a, (a < i.toNat * (UploadBuffer.create sizeofT elementCount isCB mem).m_elementByteSize ∨
        i.toNat * (UploadBuffer.create sizeofT elementCount isCB mem).m_elementByteSize
          + sizeofT ≤ a) →
      ((UploadBuffer.create sizeofT elementCount isCB mem).CopyData i v).m_mappedData a =
        mem a) ∧
    i.toNat * (UploadBuffer.create sizeofT elementCount isCB mem).m_elementByteSize + sizeofT ≤
      (i.toNat + 1) * (UploadBuffer.create sizeofT elementCount isCB mem).m_elementByteSize ∧
    (i.toNat + 1) * (UploadBuffer.create sizeofT elementCount isCB mem).m_elementByteSize ≤
      (UploadBuffer.create sizeofT elementCount isCB mem).bufferSize ∧
    (UploadBuffer.create sizeofT elementCount isCB mem).bufferSize =
      (UploadBuffer.create sizeofT elementCount isCB mem).m_elementByteSize * elementCount ∧
    (∀ j : Nat, j ≠ i.toNat → ∀ a,
      j * (UploadBuffer.create sizeofT elementCount isCB mem).m_elementByteSize ≤ a →
      a < (j + 1) * (UploadBuffer.create sizeofT elementCount isCB mem).m_elementByteSize →
      ((UploadBuffer.create sizeofT elementCount isCB mem).CopyData i v).m_mappedData a =
        mem a) ∧
    (∀ a, (UploadBuffer.create sizeofT elementCount isCB mem).bufferSize ≤ a →
      ((UploadBuffer.create sizeofT elementCount isCB mem).CopyData i v).m_mappedData a =
        mem a) := by
  set b := UploadBuffer.create sizeofT elementCount isCB mem with hb
  set stride := b.m_elementByteSize with hstride
  set lo := i.toNat * stride with hlo
  set mem' := (b.CopyData i v).m_mappedData with hmem'
  have hs : stride < 2 ^ 32 := UploadBuffer.create_stride_lt sizeofT elementCount isCB mem
  have hoff : b.slotOffset i = lo := UploadBuffer.slotOffset_eq b i hs hi0 hint
  have hsize : b.bufferSize = stride * elementCount :=
    UploadBuffer.create_bufferSize sizeofT elementCount isCB mem hcount
  have hle : sizeofT ≤ stride := by
    cases isCB
    · exact le_of_eq (UploadBuffer.create_stride_plain sizeofT elementCount mem hT).symm
    · have h2 : stride = (sizeofT + 255) / 256 * 256 :=
        UploadBuffer.create_stride_constant sizeofT elementCount mem (hCB rfl)
      omega
  have hin : i.toNat < elementCount := by omega
  have hmem : ∀ a, mem' a =
      if lo ≤ a ∧ a < lo + sizeofT then v.getD (a - lo) 0 else mem a := by
    intro a
    show memcpy b.m_mappedData (b.slotOffset i) v b.sizeofT a = _
    rw [hoff]
    rfl
  have hslot : lo + sizeofT ≤ (i.toNat + 1) * stride := by
    have : (i.toNat + 1) * stride = lo + stride := by
      show (i.toNat + 1) * stride = i.toNat * stride + stride
      ring
    omega
  have halloc : (i.toNat + 1) * stride ≤ b.bufferSize := by
    rw [hsize, Nat.mul_comm stride elementCount]
    exact Nat.mul_le_mul_right stride hin
  have hout : ∀ a, (a < lo ∨ lo + sizeofT ≤ a) → mem' a = mem a := by
    intro a ha
    rw [hmem a, if_neg (by omega)]
  refine ⟨?_, hout, hslot, halloc, hsize, ?_, ?_⟩
  · intro a h1 h2
    rw [hmem a, if_pos ⟨h1, h2⟩]
  · intro j hj a h1 h2
    apply hout
    rcases Nat.lt_or_gt_of_ne hj with hlt | hgt
    · left
      have : (j + 1) * stride ≤ i.toNat * stride := Nat.mul_le_mul_right stride hlt
      exact lt_of_lt_of_le h2 this
    · right
      have : (i.toNat + 1) * stride ≤ j * stride := Nat.mul_le_mul_right stride hgt
      omega
  · intro a ha
    apply hout
    right
    omega

/-- Witness for C6 (amended): slot 1 of a three-slot constant buffer of
4-byte elements. -/
theorem C6_witness :
    (4 : Nat) < 2 ^ 32 ∧ (4 : Nat) ≤ 2 ^ 32 - 256 ∧ (3 : Nat) < 2 ^ 32 ∧
    (1 : Int).toNat * (UploadBuffer.create 4 3 true (fun _ => 0)).m_elementByteSize + 4 ≤
      ((1 : Int).toNat + 1) * (UploadBuffer.create 4 3 true (fun _ => 0)).m_elementByteSize ∧
    ((1 : Int).toNat + 1) * (UploadBuffer.create 4 3 true (fun _ => 0)).m_elementByteSize ≤
      (UploadBuffer.create 4 3 true (fun _ => 0)).bufferSize :=
  ⟨by norm_num, by norm_num, by norm_num,
    (C6_CopyData_stays_in_slot 4 3 true (fun _ => 0) 1 [7, 8, 9, 10] (by norm_num)
      (fun _ => by norm_num) (by norm_num) rfl (by decide) (by decide) (by decide)).2.2.1,
    (C6_CopyData_stays_in_slot 4 3 true (fun _ => 0) 1 [7, 8, 9, 10] (by norm_num)
      (fun _ => by norm_num) (by norm_num) rfl (by decide) (by decide) (by decide)).2.2.2.1⟩

/-! ### The queue and the fence -/

/-- The check `require` does not touch the fence. -/
theorem Gpu.require_fenceValue (g : Gpu) (res : Option Nat) (need : Nat) :
    (g.require res need).fenceValue = g.fenceValue := by
  unfold Gpu.require
  split <;> rfl

/-- A recorded command does not touch the fence. -/
theorem Gpu.execCmd_fenceValue (g : Gpu) (c : Cmd) :
    (g.execCmd c).fenceValue = g.fenceValue := by
  cases c with
  | ResourceBarrier r before after =>
    cases r with
    | none => rfl
    | some r =>
      simp only [Gpu.execCmd]
      split <;> rfl
  | _ => simp [Gpu.execCmd, Gpu.require_fenceValue]

/-- A command list does not touch the fence. -/
theorem Gpu.foldl_execCmd_fenceValue (cmds : List Cmd) (g : Gpu) :
    (cmds.foldl Gpu.execCmd g).fenceValue = g.fenceValue := by
  induction cmds generalizing g with
  | nil => rfl
  | cons c cs ih => rw [List.foldl_cons, ih, Gpu.execCmd_fenceValue]

/-- The fence after one queue item: the signalled value for a `Signal`, unchanged
otherwise. -/
theorem Gpu.exec_fenceValue (g : Gpu) (item : QueueItem) :
    (g.exec item).fenceValue =
      match item with
      | QueueItem.Signal v => v
      | _ => g.fenceValue := by
  cases item with
  | ExecuteCommandLists cmds => simp [Gpu.exec, Gpu.foldl_execCmd_fenceValue]
  | Signal v => rfl
  | Present b => simp [Gpu.exec, Gpu.require_fenceValue]

/-- With nothing queued the GPU does nothing. -/
theorem gpuRun_nil (k : Nat) (g : Gpu) : gpuRun k [] g = ([], g) := by
  cases k <;> rfl

/-- A wait for `v` on a queue that ends with `Signal v` returns, with the fence at
`v` or beyond. -/
theorem gpuWait_signal_last (v : Nat) (q : List QueueItem) (g : Gpu) :
    ∃ r, gpuWait v (q ++ [QueueItem.Signal v]) g = some r ∧ v ≤ r.2.fenceValue := by
  induction q generalizing g with
  | nil =>
    by_cases h : v ≤ g.fenceValue
    · exact ⟨([QueueItem.Signal v], g), by simp [gpuWait, h], h⟩
    · refine ⟨([], g.exec (QueueItem.Signal v)), ?_, ?_⟩
      · simp [gpuWait, h, Gpu.exec]
      · simp [Gpu.exec]
  | cons item q ih =>
    by_cases h : v ≤ g.fenceValue
    · exact ⟨(item :: (q ++ [QueueItem.Signal v]), g), by simp [gpuWait, h], h⟩
    · obtain ⟨r, hr, hv⟩ := ih (g.exec item)
      exact ⟨r, by simp [gpuWait, h, hr], hv⟩

/-- After any progress on a queue that ends with `Signal v`, either everything was
executed and the fence is at `v`, or the queue still ends with `Signal v`. -/
theorem gpuRun_signal_last (v : Nat) (k : Nat) (q : List QueueItem) (g : Gpu) :
    ((gpuRun k (q ++ [QueueItem.Signal v]) g).1 = [] ∧
      (gpuRun k (q ++ [QueueItem.Signal v]) g).2.fenceValue = v) ∨
    ∃ q2, (gpuRun k (q ++ [QueueItem.Signal v]) g).1 = q2 ++ [QueueItem.Signal v] := by
  induction k generalizing q g with
  | zero => exact Or.inr ⟨q, rfl⟩
  | succ k ih =>
    cases q with
    | nil =>
      left
      simp [gpuRun, gpuRun_nil, Gpu.exec]
    | cons item q =>
      simpa [gpuRun] using ih q (g.exec item)

/-- Executing a queue without tickets at or above `v` keeps the fence below `v`. -/
theorem gpuRunAll_fenceValue_lt (v : Nat) (q : List QueueItem) (g : Gpu)
    (hg : g.fenceValue < v) (hq : ∀ w, QueueItem.Signal w ∈ q → w < v) :
    (gpuRunAll q g).fenceValue < v := by
  induction q generalizing g with
  | nil => exact hg
  | cons item q ih =>
    have hstep : (g.exec item).fenceValue < v := by
      rw [Gpu.exec_fenceValue]
      cases item with
      | Signal w => exact hq w (List.mem_cons_self _ _)
      | ExecuteCommandLists cmds => exact hg
      | Present b => exact hg
    exact ih (g.exec item) hstep (fun w hw => hq w (List.mem_cons_of_mem _ hw))

/-- A wait for a ticket above everything queued before it drains the queue. -/
theorem gpuWait_drains (v : Nat) (q : List QueueItem) (g : Gpu)
    (hg : g.fenceValue < v) (hq : ∀ w, QueueItem.Signal w ∈ q → w < v) :
    gpuWait v (q ++ [QueueItem.Signal v]) g =
      some ([], gpuRunAll (q ++ [QueueItem.Signal v]) g) := by
  induction q generalizing g with
  | nil =>
    have h : ¬ v ≤ g.fenceValue := by omega
    simp [gpuWait, h, gpuRunAll, Gpu.exec]
  | cons item q ih =>
    have h : ¬ v ≤ g.fenceValue := by omega
    have hstep : (g.exec item).fenceValue < v := by
      rw [Gpu.exec_fenceValue]
      cases item with
      | Signal w => exact hq w (List.mem_cons_self _ _)
      | ExecuteCommandLists cmds => exact hg
      | Present b => exact hg
    have := ih (g.exec item) hstep (fun w hw => hq w (List.mem_cons_of_mem _ hw))
    simpa [gpuWait, h, gpuRunAll] using this

/-- Whatever progress the GPU made before the fence is read, progress followed by
the wait (when the fence is still below the ticket) ends with the queue drained. -/
theorem gpuRun_then_wait (v : Nat) (k : Nat) (q : List QueueItem) (g : Gpu)
    (hg : g.fenceValue < v) (hq : ∀ w, QueueItem.Signal w ∈ q → w < v) :
    (if (gpuRun k (q ++ [QueueItem.Signal v]) g).2.fenceValue < v then
        gpuWait v (gpuRun k (q ++ [QueueItem.Signal v]) g).1
          (gpuRun k (q ++ [QueueItem.Signal v]) g).2
      else some (gpuRun k (q ++ [QueueItem.Signal v]) g)) =
      some ([], gpuRunAll (q ++ [QueueItem.Signal v]) g) := by
  induction k generalizing q g with
  | zero =>
    simp only [gpuRun, if_pos hg]
    exact gpuWait_drains v q g hg hq
  | succ k ih =>
    cases q with
    | nil =>
      simp [gpuRun, gpuRun_nil, Gpu.exec, gpuRunAll]
    | cons item q =>
      have hstep : (g.exec item).fenceValue < v := by
        rw [Gpu.exec_fenceValue]
        cases item with
        | Signal w => exact hq w (List.mem_cons_self _ _)
        | ExecuteCommandLists cmds => exact hg
        | Present b => exact hg
      have := ih q (g.exec item) hstep (fun w hw => hq w (List.mem_cons_of_mem _ hw))
      simpa [gpuRun, gpuRunAll] using this

/-- The method `FlushCommandQueue` with all three objects present, in terms of the
GPU progress and the wait. -/
theorem Framework.FlushCommandQueue_eq (k : Nat) (s : Framework)
    (hq : s.m_commandQueue = true) (hf : s.m_fence = true) (he : s.m_fenceEvent = true) :
    s.FlushCommandQueue k =
      (if (gpuRun k (s.queue ++ [QueueItem.Signal (s.m_currentFence + 1)]) s.gpu).2.fenceValue
          < s.m_currentFence + 1 then
        gpuWait (s.m_currentFence + 1)
          (gpuRun k (s.queue ++ [QueueItem.Signal (s.m_currentFence + 1)]) s.gpu).1
          (gpuRun k (s.queue ++ [QueueItem.Signal (s.m_currentFence + 1)]) s.gpu).2
      else some (gpuRun k (s.queue ++ [QueueItem.Signal (s.m_currentFence + 1)]) s.gpu)).map
      (fun r => { s with
        m_currentFence := s.m_currentFence + 1
        queue := r.1
        gpu := r.2
        trace := s.trace ++ [Call.FlushCommandQueue, Call.Signal (s.m_currentFence + 1)] }) := by
  unfold Framework.FlushCommandQueue
  simp only [hq, hf, he, Bool.not_true, Bool.or_self, Bool.false_eq_true, if_false,
    Framework.call, List.append_assoc, List.singleton_append]
  rcases hrun : gpuRun k (s.queue ++ [QueueItem.Signal (s.m_currentFence + 1)]) s.gpu
    with ⟨q, g⟩
  simp only []
  by_cases hlt : g.fenceValue < s.m_currentFence + 1
  · simp only [hlt, if_true]
    cases hw : gpuWait (s.m_currentFence + 1) q g with
    | none => simp
    | some r => cases r; simp
  · simp only [hlt, if_false, Option.map_some']


/-- C1: every call of `FlushCommandQueue` made while queue, fence and event exist
returns, whatever the queue held and however far the GPU had got; it signals the
ticket `m_currentFence + 1`, and when it returns the completed value of the fence
is at least that ticket, the new `m_currentFence`. -/
theorem C1_flush_reaches_ticket (k : Nat) (s : Framework)
    (hq : s.m_commandQueue = true) (hf : s.m_fence = true) (he : s.m_fenceEvent = true) :
    ∃ s', s.FlushCommandQueue k = some s' ∧
      s'.m_currentFence = s.m_currentFence + 1 ∧
      s'.trace = s.trace ++ [Call.FlushCommandQueue, Call.Signal s'.m_currentFence] ∧
      s'.m_currentFence ≤ s'.gpu.fenceValue := by
  rw [Framework.FlushCommandQueue_eq k s hq hf he]
  by_cases hlt :
      (gpuRun k (s.queue ++ [QueueItem.Signal (s.m_currentFence + 1)]) s.gpu).2.fenceValue
        < s.m_currentFence + 1
  · rw [if_pos hlt]
    rcases gpuRun_signal_last (s.m_currentFence + 1) k s.queue s.gpu with ⟨_, hfv⟩ | ⟨q2, hq2⟩
    · omega
    · rw [hq2]
      obtain ⟨r, hr, hv⟩ := gpuWait_signal_last (s.m_currentFence + 1) q2
        (gpuRun k (s.queue ++ [QueueItem.Signal (s.m_currentFence + 1)]) s.gpu).2
      rw [hr]
      exact ⟨_, rfl, rfl, rfl, hv⟩
  · rw [if_neg hlt]
    exact ⟨_, rfl, rfl, rfl, by simpa using hlt⟩

/-- Witness for C1: the first flush after the fence was created, with a lazy GPU. -/
theorem C1_witness :
    ∃ s', fencedFramework.FlushCommandQueue 0 = some s' ∧
      s'.m_currentFence = fencedFramework.m_currentFence + 1 ∧
      s'.trace = fencedFramework.trace ++
        [Call.FlushCommandQueue, Call.Signal s'.m_currentFence] ∧
      s'.m_currentFence ≤ s'.gpu.fenceValue :=
  C1_flush_reaches_ticket 0 fencedFramework rfl rfl rfl

/-- A flush issued when the fence is not ahead of the counter and every queued
ticket is at most the counter has one outcome, whatever the GPU progress: the
counter grows by one, the whole queue and the new `Signal` have been executed. -/
theorem Framework.FlushCommandQueue_drains (k : Nat) (s : Framework)
    (hq : s.m_commandQueue = true) (hf : s.m_fence = true) (he : s.m_fenceEvent = true)
    (hfv : s.gpu.fenceValue ≤ s.m_currentFence)
    (hsig : ∀ w, QueueItem.Signal w ∈ s.queue → w ≤ s.m_currentFence) :
    s.FlushCommandQueue k =
      some { s with
        m_currentFence := s.m_currentFence + 1
        queue := []
        gpu := gpuRunAll (s.queue ++ [QueueItem.Signal (s.m_currentFence + 1)]) s.gpu
        trace := s.trace ++ [Call.FlushCommandQueue, Call.Signal (s.m_currentFence + 1)] } := by
  rw [Framework.FlushCommandQueue_eq k s hq hf he,
    gpuRun_then_wait (s.m_currentFence + 1) k s.queue s.gpu (by omega)
      (fun w hw => Nat.lt_succ_of_le (hsig w hw))]
  rfl


/-! ### Draw -/

/-- The recording part of `Draw` as one update of the engine. -/
theorem Framework.Draw_record_eq (s : Framework) :
    s.Draw_record = { s with
      recording := s.drawCommands
      queue := s.queue ++ [QueueItem.ExecuteCommandLists s.drawCommands]
      resetsInFlight :=
        if s.queue.any QueueItem.isExecute then
          (if s.queue.any QueueItem.isExecute then s.resetsInFlight + 1
            else s.resetsInFlight) + 1
        else
          (if s.queue.any QueueItem.isExecute then s.resetsInFlight + 1
            else s.resetsInFlight)
      trace := s.trace ++ [Call.AllocatorReset, Call.CommandListReset,
        Call.CommandListClose, Call.ExecuteCommandLists] } := by
  by_cases h : (s.m_modelVB.isSome && decide (0 < s.m_modelVertexCount)) = true
  · simp [Framework.Draw_record, Framework.drawCommands, Framework.record,
      Framework.allocatorReset, Framework.commandListReset, Framework.commandListClose,
      Framework.call, Framework.executeCommandLists, Framework.CurrentBackBuffer,
      Framework.CurrentBackBufferView, Framework.DepthStencilView, h]
  · simp [Framework.Draw_record, Framework.drawCommands, Framework.record,
      Framework.allocatorReset, Framework.commandListReset, Framework.commandListClose,
      Framework.call, Framework.executeCommandLists, Framework.CurrentBackBuffer,
      Framework.CurrentBackBufferView, Framework.DepthStencilView, h]

/-- Execution of the command list of a frame that draws the model: no hazard, and
every resource is left in the state it had. -/
theorem gpu_draw_model (g : Gpu) (b d m rtv n : Nat) (vp : D3D12_VIEWPORT) (rc : D3D12_RECT)
    (hb : g.resources b = some D3D12_RESOURCE_STATE_PRESENT)
    (hd : g.resources d = some D3D12_RESOURCE_STATE_DEPTH_WRITE)
    (hm : g.resources m = some D3D12_RESOURCE_STATE_GENERIC_READ) :
    g.exec (QueueItem.ExecuteCommandLists
      [Cmd.ResourceBarrier (some b) D3D12_RESOURCE_STATE_PRESENT
          D3D12_RESOURCE_STATE_RENDER_TARGET,
        Cmd.RSSetViewports vp, Cmd.RSSetScissorRects rc,
        Cmd.SetGraphicsRootSignature, Cmd.SetDescriptorHeaps,
        Cmd.SetGraphicsRootDescriptorTable,
        Cmd.OMSetRenderTargets rtv (some b) 0 (some d),
        Cmd.ClearRenderTargetView rtv (some b),
        Cmd.ClearDepthStencilView 0 (some d),
        Cmd.IASetPrimitiveTopology,
        Cmd.IASetVertexBuffers (some m),
        Cmd.DrawInstanced n,
        Cmd.ResourceBarrier (some b) D3D12_RESOURCE_STATE_RENDER_TARGET
          D3D12_RESOURCE_STATE_PRESENT]) =
      { g with boundRT := some b, boundDS := some d, boundVB := some m, boundIB := none } := by
  have hdb : d ≠ b := by
    rintro rfl; rw [hb] at hd; exact absurd hd (by decide)
  have hmb : m ≠ b := by
    rintro rfl; rw [hb] at hm; exact absurd hm (by decide)
  have hres : Function.update
      (Function.update g.resources b (some D3D12_RESOURCE_STATE_RENDER_TARGET)) b
      (some D3D12_RESOURCE_STATE_PRESENT) = g.resources := by
    rw [Function.update_idem, ← hb, Function.update_eq_self]
  simp [Gpu.exec, Gpu.execCmd, Gpu.require, Gpu.inState, hb, hd, hm, hdb, hmb, hres,
    Function.update_noteq, D3D12_RESOURCE_STATE_PRESENT, D3D12_RESOURCE_STATE_RENDER_TARGET,
    D3D12_RESOURCE_STATE_DEPTH_WRITE, D3D12_RESOURCE_STATE_VERTEX_AND_CONSTANT_BUFFER,
    D3D12_RESOURCE_STATE_GENERIC_READ]

/-- Execution of the command list of a frame that draws the cube: no hazard, and
every resource is left in the state it had. -/
theorem gpu_draw_box (g : Gpu) (b d vb ib rtv n : Nat) (vp : D3D12_VIEWPORT) (rc : D3D12_RECT)
    (hb : g.resources b = some D3D12_RESOURCE_STATE_PRESENT)
    (hd : g.resources d = some D3D12_RESOURCE_STATE_DEPTH_WRITE)
    (hvb : g.resources vb = some D3D12_RESOURCE_STATE_VERTEX_AND_CONSTANT_BUFFER)
    (hib : g.resources ib = some D3D12_RESOURCE_STATE_INDEX_BUFFER) :
    g.exec (QueueItem.ExecuteCommandLists
      [Cmd.ResourceBarrier (some b) D3D12_RESOURCE_STATE_PRESENT
          D3D12_RESOURCE_STATE_RENDER_TARGET,
        Cmd.RSSetViewports vp, Cmd.RSSetScissorRects rc,
        Cmd.SetGraphicsRootSignature, Cmd.SetDescriptorHeaps,
        Cmd.SetGraphicsRootDescriptorTable,
        Cmd.OMSetRenderTargets rtv (some b) 0 (some d),
        Cmd.ClearRenderTargetView rtv (some b),
        Cmd.ClearDepthStencilView 0 (some d),
        Cmd.IASetPrimitiveTopology,
        Cmd.IASetVertexBuffers (some vb),
        Cmd.IASetIndexBuffer (some ib),
        Cmd.DrawIndexedInstanced n,
        Cmd.ResourceBarrier (some b) D3D12_RESOURCE_STATE_RENDER_TARGET
          D3D12_RESOURCE_STATE_PRESENT]) =
      { g with boundRT := some b, boundDS := some d, boundVB := some vb,
               boundIB := some ib } := by
  have hdb : d ≠ b := by
    rintro rfl; rw [hb] at hd; exact absurd hd (by decide)
  have hvbb : vb ≠ b := by
    rintro rfl; rw [hb] at hvb; exact absurd hvb (by decide)
  have hibb : ib ≠ b := by
    rintro rfl; rw [hb] at hib; exact absurd hib (by decide)
  have hres : Function.update
      (Function.update g.resources b (some D3D12_RESOURCE_STATE_RENDER_TARGET)) b
      (some D3D12_RESOURCE_STATE_PRESENT) = g.resources := by
    rw [Function.update_idem, ← hb, Function.update_eq_self]
  simp [Gpu.exec, Gpu.execCmd, Gpu.require, Gpu.inState, hb, hd, hvb, hib, hdb, hvbb, hibb,
    hres, Function.update_noteq, D3D12_RESOURCE_STATE_PRESENT,
    D3D12_RESOURCE_STATE_RENDER_TARGET, D3D12_RESOURCE_STATE_DEPTH_WRITE,
    D3D12_RESOURCE_STATE_VERTEX_AND_CONSTANT_BUFFER, D3D12_RESOURCE_STATE_INDEX_BUFFER]

/-- In a ready engine the current back buffer, its view and the swap chain's
current buffer are one live resource in the `PRESENT` state. -/
theorem Ready.current {s : Framework} (h : Ready s) :
    ∃ b, s.CurrentBackBuffer = some b ∧
      s.rtvDescriptors s.CurrentBackBufferView = some b ∧
      s.swapChainBuffers[s.swapChainIndex]? = some b ∧
      s.gpu.resources b = some D3D12_RESOURCE_STATE_PRESENT := by
  obtain ⟨b0, b1, d, hsc, hbuf, hne, hd, hr0, hr1, hrd, hv0, hv1, hvd, _, _, _⟩ := h.buffers
  have hia := h.indexAgrees
  rcases h.index with hi | hi
  · rw [hi] at hia
    have hsi : s.swapChainIndex = 0 := by exact_mod_cast hia
    exact ⟨b0, by simp [Framework.CurrentBackBuffer, hi, hbuf],
      by simp [Framework.CurrentBackBufferView, hi, hv0], by simp [hsc, hsi], hr0⟩
  · rw [hi] at hia
    have hsi : s.swapChainIndex = 1 := by exact_mod_cast hia
    exact ⟨b1, by simp [Framework.CurrentBackBuffer, hi, hbuf],
      by simp [Framework.CurrentBackBufferView, hi, hv1], by simp [hsc, hsi], hr1⟩

/-- Tickets of a concatenated trace. -/
theorem signalsOf_append (t u : List Call) : signalsOf (t ++ u) = signalsOf t ++ signalsOf u := by
  induction t with
  | nil => rfl
  | cons c t ih => cases c <;> simp [signalsOf, ih]

/-- Scan of a concatenated trace. -/
theorem scanTrace_append (t u : List Call) :
    scanTrace (t ++ u) =
      List.foldl
        (fun (st : Bool × Bool) c =>
          match c with
          | Call.ExecuteCommandLists => (st.1, true)
          | Call.FlushCommandQueue => (st.1, false)
          | Call.AllocatorReset => (st.1 && !st.2, st.2)
          | Call.CommandListReset => (st.1 && !st.2, st.2)
          | _ => st)
        (scanTrace t) u := by
  simp [scanTrace, List.foldl_append]

/-- The fence after the GPU has executed a queue that ends with `Signal v`. -/
theorem gpuRunAll_signal_last (v : Nat) (q : List QueueItem) (g : Gpu) :
    (gpuRunAll (q ++ [QueueItem.Signal v]) g).fenceValue = v := by
  simp [gpuRunAll, List.foldl_append, Gpu.exec]

/-- A ready engine is synced. -/
theorem Ready.synced_of_ready {s : Framework} (h : Ready s) : Synced s := by
  obtain ⟨b0, b1, d, hsc, hbuf, -, -, -, -, -, -, -, -, -, -, -⟩ := h.buffers
  exact
    { device := h.device
      swapChain := h.swapChain
      commandQueue := h.commandQueue
      allocator := h.allocator
      commandList := h.commandList
      fence := h.fence
      fenceEvent := h.fenceEvent
      rtvHeap := h.rtvHeap
      dsvHeap := h.dsvHeap
      cbvHeap := h.cbvHeap
      idle := h.idle
      reached := h.reached
      noResetInFlight := h.noResetInFlight
      tickets := h.tickets
      flushed := h.flushed
      shape := ⟨b0, b1, some b0, some b1, hsc, hbuf⟩ }

/-- The state in which `Draw` leaves a synced engine, whatever the GPU progress. -/
theorem Framework.Draw_eq_of_synced (k : Nat) (s : Framework) (h : Synced s) :
    s.Draw k = some { s with
      recording := s.drawCommands
      m_currBackBuffer := Int.tmod (s.m_currBackBuffer + 1) (SwapChainBufferCount : Int)
      swapChainIndex := (s.swapChainIndex + 1) % SwapChainBufferCount
      m_currentFence := s.m_currentFence + 1
      queue := []
      gpu := gpuRunAll
        ([QueueItem.ExecuteCommandLists s.drawCommands,
          QueueItem.Present s.swapChainBuffers[s.swapChainIndex]?] ++
          [QueueItem.Signal (s.m_currentFence + 1)]) s.gpu
      trace := s.trace ++ [Call.AllocatorReset, Call.CommandListReset,
        Call.CommandListClose, Call.ExecuteCommandLists, Call.Present,
        Call.FlushCommandQueue, Call.Signal (s.m_currentFence + 1)] } := by
  obtain ⟨s3, hs3⟩ : ∃ s3 : Framework, s3 = { s.Draw_record.Present with
        m_currBackBuffer :=
          Int.tmod (s.Draw_record.Present.m_currBackBuffer + 1) (SwapChainBufferCount : Int) } :=
    ⟨_, rfl⟩
  have hDraw : s.Draw k = s3.FlushCommandQueue k := by
    simp [Framework.Draw, h.allocator, h.commandList, h.commandQueue, h.swapChain, h.rtvHeap,
      h.dsvHeap, h.cbvHeap, hs3]
  rw [Framework.Draw_record_eq] at hs3
  have e1 : s3.m_commandQueue = true := by rw [hs3]; exact h.commandQueue
  have e2 : s3.m_fence = true := by rw [hs3]; exact h.fence
  have e3 : s3.m_fenceEvent = true := by rw [hs3]; exact h.fenceEvent
  have e4 : s3.gpu.fenceValue ≤ s3.m_currentFence := by rw [hs3]; exact le_of_eq h.reached
  have e5 : ∀ w, QueueItem.Signal w ∈ s3.queue → w ≤ s3.m_currentFence := by
    intro w hw
    rw [hs3] at hw
    simp [Framework.Present, h.idle] at hw
  rw [hDraw, Framework.FlushCommandQueue_drains k s3 e1 e2 e3 e4 e5, hs3]
  simp [Framework.Present, h.idle]

/-- A synced engine stays synced over `Draw`, and `Draw` completes. -/
theorem Framework.Draw_synced (k : Nat) (s : Framework) (h : Synced s) :
    ∃ s', s.Draw k = some s' ∧ Synced s' ∧
      s'.m_currentFence = s.m_currentFence + 1 := by
  refine ⟨_, Framework.Draw_eq_of_synced k s h, ?_, rfl⟩
  exact
    { device := h.device
      swapChain := h.swapChain
      commandQueue := h.commandQueue
      allocator := h.allocator
      commandList := h.commandList
      fence := h.fence
      fenceEvent := h.fenceEvent
      rtvHeap := h.rtvHeap
      dsvHeap := h.dsvHeap
      cbvHeap := h.cbvHeap
      idle := rfl
      reached := gpuRunAll_signal_last _ _ _
      noResetInFlight := h.noResetInFlight
      tickets := by
        show signalsOf (s.trace ++ _) = _
        rw [signalsOf_append, h.tickets, List.range'_concat]
        simp [signalsOf, Nat.add_comm]
      flushed := by
        show scanTrace (s.trace ++ _) = _
        rw [scanTrace_append, h.flushed]
        rfl
      shape := h.shape }

/-- The state in which `Draw` leaves a ready engine. -/
theorem Framework.Draw_eq_of_ready (k : Nat) (s : Framework) (h : Ready s) :
    ∃ rt ds vbv ibv,
      s.Draw k = some { s with
        recording := s.drawCommands
        m_currBackBuffer := Int.tmod (s.m_currBackBuffer + 1) (SwapChainBufferCount : Int)
        swapChainIndex := (s.swapChainIndex + 1) % SwapChainBufferCount
        m_currentFence := s.m_currentFence + 1
        queue := []
        gpu := { s.gpu with
          fenceValue := s.m_currentFence + 1
          boundRT := rt, boundDS := ds, boundVB := vbv, boundIB := ibv }
        trace := s.trace ++ [Call.AllocatorReset, Call.CommandListReset,
          Call.CommandListClose, Call.ExecuteCommandLists, Call.Present,
          Call.FlushCommandQueue, Call.Signal (s.m_currentFence + 1)] } := by
  obtain ⟨b, hcb, hview, hsc, hrb⟩ := h.current
  obtain ⟨b0, b1, d, -, -, -, -, -, -, hrd, -, -, hvd, -, -, -⟩ := h.buffers
  obtain ⟨vb, ib, m, -, hvbv, -, hibv, hm, hmv, hrvb, hrib, hrm, -, -, -⟩ := h.geometry
  rw [Framework.Draw_eq_of_synced k s h.synced_of_ready]
  by_cases hbr : (s.m_modelVB.isSome && decide (0 < s.m_modelVertexCount)) = true
  · refine ⟨some b, some d, some m, none, ?_⟩
    simp only [Framework.drawCommands, hbr, hcb, hview, hsc,
      hvd, hmv, Framework.DepthStencilView, gpuRunAll, List.foldl, List.nil_append,
      List.cons_append, if_true, gpu_draw_model s.gpu b d m _ _ _ _ hrb hrd hrm]
    simp [Gpu.exec, Gpu.require, Gpu.inState, hrb, D3D12_RESOURCE_STATE_PRESENT]
  · refine ⟨some b, some d, some vb, some ib, ?_⟩
    have hbr' : (s.m_modelVB.isSome && decide (0 < s.m_modelVertexCount)) = false := by
      simpa using hbr
    simp only [Framework.drawCommands, hbr', hcb, hview, hsc,
      hvd, hvbv, hibv, Framework.DepthStencilView, gpuRunAll, List.foldl, List.nil_append,
      List.cons_append, Bool.false_eq_true, if_false,
      gpu_draw_box s.gpu b d vb ib _ _ _ _ hrb hrd hrvb hrib]
    simp [Gpu.exec, Gpu.require, Gpu.inState, hrb, D3D12_RESOURCE_STATE_PRESENT]

/-- A ready engine stays ready over `Draw`, and `Draw` completes. -/
theorem Framework.Draw_ready (k : Nat) (s : Framework) (h : Ready s) :
    ∃ s', s.Draw k = some s' ∧ Ready s' ∧
      s'.m_currBackBuffer = Int.tmod (s.m_currBackBuffer + 1) (SwapChainBufferCount : Int) ∧
      s'.m_currentFence = s.m_currentFence + 1 ∧
      s'.gpu.resources = s.gpu.resources ∧
      s'.trace = s.trace ++ [Call.AllocatorReset, Call.CommandListReset,
          Call.CommandListClose, Call.ExecuteCommandLists, Call.Present,
          Call.FlushCommandQueue, Call.Signal (s.m_currentFence + 1)] := by
  obtain ⟨rt, ds, vbv, ibv, hD⟩ := Framework.Draw_eq_of_ready k s h
  refine ⟨_, hD, ?_, rfl, rfl, rfl, rfl⟩
  have hidx : (((s.swapChainIndex + 1) % SwapChainBufferCount : Nat) : Int) =
      Int.tmod (s.m_currBackBuffer + 1) (SwapChainBufferCount : Int) := by
    have hia := h.indexAgrees
    rcases h.index with hi | hi
    · rw [hi] at hia
      have hsi : s.swapChainIndex = 0 := by exact_mod_cast hia
      rw [hi, hsi]; decide
    · rw [hi] at hia
      have hsi : s.swapChainIndex = 1 := by exact_mod_cast hia
      rw [hi, hsi]; decide
  exact
    { device := h.device
      swapChain := h.swapChain
      commandQueue := h.commandQueue
      allocator := h.allocator
      commandList := h.commandList
      fence := h.fence
      fenceEvent := h.fenceEvent
      rtvHeap := h.rtvHeap
      dsvHeap := h.dsvHeap
      cbvHeap := h.cbvHeap
      idle := rfl
      reached := rfl
      noHazard := h.noHazard
      noResetInFlight := h.noResetInFlight
      tickets := by
        show signalsOf (s.trace ++ _) = _
        rw [signalsOf_append, h.tickets, List.range'_concat]
        simp [signalsOf, Nat.add_comm]
      flushed := by
        show scanTrace (s.trace ++ _) = _
        rw [scanTrace_append, h.flushed]
        rfl
      rtvSize := h.rtvSize
      index := by
        show Int.tmod (s.m_currBackBuffer + 1) (SwapChainBufferCount : Int) = 0 ∨
          Int.tmod (s.m_currBackBuffer + 1) (SwapChainBufferCount : Int) = 1
        rcases h.index with hi | hi <;> rw [hi] <;> decide
      indexAgrees := hidx
      buffers := h.buffers
      geometry := h.geometry }

/-! ### OnResize -/

/-- The middle part of `OnResize` on an engine with two swap-chain buffers, as one
update of the engine. -/
theorem Framework.OnResize_rebuild_eq (s : Framework) (b0 b1 : Nat) (a0 a1 dopt : Option Nat)
    (hsc : s.swapChainBuffers = [b0, b1]) (hbuf : s.m_swapChainBuffer = [a0, a1])
    (hd : s.m_depthStencilBuffer = dopt) (hq : s.queue = []) :
    s.OnResize_rebuild = { s with
      m_swapChainBuffer := [some s.nextResource, some (s.nextResource + 1)]
      m_depthStencilBuffer := some (s.nextResource + 2)
      m_currBackBuffer := 0
      swapChainBuffers := [s.nextResource, s.nextResource + 1]
      swapChainIndex := 0
      rtvDescriptors :=
        Function.update (Function.update s.rtvDescriptors 0 (some s.nextResource))
          s.m_rtvDescriptorSize (some (s.nextResource + 1))
      dsvDescriptors := Function.update s.dsvDescriptors 0 (some (s.nextResource + 2))
      recording := [Cmd.ResourceBarrier (some (s.nextResource + 2))
        D3D12_RESOURCE_STATE_COMMON D3D12_RESOURCE_STATE_DEPTH_WRITE]
      queue := [QueueItem.ExecuteCommandLists [Cmd.ResourceBarrier (some (s.nextResource + 2))
        D3D12_RESOURCE_STATE_COMMON D3D12_RESOURCE_STATE_DEPTH_WRITE]]
      nextResource := s.nextResource + 3
      gpu := { s.gpu with
        resources :=
          Function.update (Function.update (Function.update
            (Function.update (Function.update (s.destroy dopt).gpu.resources
              b0 none) b1 none)
            s.nextResource (some D3D12_RESOURCE_STATE_COMMON))
            (s.nextResource + 1) (some D3D12_RESOURCE_STATE_COMMON))
            (s.nextResource + 2) (some D3D12_RESOURCE_STATE_COMMON) }
      trace := s.trace ++ [Call.AllocatorReset, Call.CommandListReset,
        Call.ReleaseBackBuffer 0, Call.ReleaseBackBuffer 1, Call.ReleaseDepthStencilBuffer,
        Call.ResizeBuffers s.m_clientWidth s.m_clientHeight,
        Call.GetBuffer 0, Call.CreateRenderTargetView 0 0,
        Call.GetBuffer 1, Call.CreateRenderTargetView 1 s.m_rtvDescriptorSize,
        Call.CreateDepthStencilBuffer s.m_clientWidth s.m_clientHeight,
        Call.CreateDepthStencilView, Call.CommandListClose, Call.ExecuteCommandLists] } := by
  have hr : List.range SwapChainBufferCount = [0, 1] := rfl
  cases dopt <;>
  simp [Framework.OnResize_rebuild, Framework.ResizeBuffers, Framework.allocatorReset,
    Framework.commandListReset, Framework.commandListClose, Framework.call,
    Framework.executeCommandLists, Framework.record, Framework.destroy,
    Framework.createResource, Framework.DepthStencilView, hr, hsc, hbuf, hd, hq,
    Nat.add_assoc]

/-- A ready engine can be resized. -/
theorem Ready.resizable {s : Framework} (h : Ready s) : Resizable s := by
  obtain ⟨b0, b1, d, hsc, hbuf, -, hd, hr0, hr1, hrd, -, -, -, -, -, -⟩ := h.buffers
  exact
    { device := h.device
      swapChain := h.swapChain
      commandQueue := h.commandQueue
      allocator := h.allocator
      commandList := h.commandList
      fence := h.fence
      fenceEvent := h.fenceEvent
      rtvHeap := h.rtvHeap
      dsvHeap := h.dsvHeap
      cbvHeap := h.cbvHeap
      idle := h.idle
      reached := h.reached
      noHazard := h.noHazard
      noResetInFlight := h.noResetInFlight
      tickets := h.tickets
      flushed := h.flushed
      rtvSize := h.rtvSize
      buffers := ⟨b0, b1, some b0, some b1, hsc, hbuf, hr0, hr1⟩
      depth := Or.inr ⟨d, hd, hrd⟩
      geometry := h.geometry }

/-- An engine that can be resized is synced. -/
theorem Resizable.synced_of_resizable {s : Framework} (h : Resizable s) : Synced s := by
  obtain ⟨b0, b1, a0, a1, hsc, hbuf, -, -⟩ := h.buffers
  exact
    { device := h.device
      swapChain := h.swapChain
      commandQueue := h.commandQueue
      allocator := h.allocator
      commandList := h.commandList
      fence := h.fence
      fenceEvent := h.fenceEvent
      rtvHeap := h.rtvHeap
      dsvHeap := h.dsvHeap
      cbvHeap := h.cbvHeap
      idle := h.idle
      reached := h.reached
      noResetInFlight := h.noResetInFlight
      tickets := h.tickets
      flushed := h.flushed
      shape := ⟨b0, b1, a0, a1, hsc, hbuf⟩ }

/-- The state in which `OnResize` leaves a synced engine, whatever the GPU
progress. -/
theorem Framework.OnResize_eq_of_synced (k1 k2 : Nat) (s : Framework) (h : Synced s)
    (b0 b1 : Nat) (a0 a1 dopt : Option Nat) (hsc : s.swapChainBuffers = [b0, b1])
    (hbuf : s.m_swapChainBuffer = [a0, a1])
    (hd : s.m_depthStencilBuffer = dopt) :
    s.OnResize k1 k2 = some { s with
      m_swapChainBuffer := [some s.nextResource, some (s.nextResource + 1)]
      m_depthStencilBuffer := some (s.nextResource + 2)
      m_currBackBuffer := 0
      m_currentFence := s.m_currentFence + 2
      m_screenViewport :=
        ⟨0, 0, intToFloat s.m_clientWidth, intToFloat s.m_clientHeight, 0, 1⟩
      m_scissorRect := ⟨0, 0, s.m_clientWidth, s.m_clientHeight⟩
      swapChainBuffers := [s.nextResource, s.nextResource + 1]
      swapChainIndex := 0
      rtvDescriptors :=
        Function.update (Function.update s.rtvDescriptors 0 (some s.nextResource))
          s.m_rtvDescriptorSize (some (s.nextResource + 1))
      dsvDescriptors := Function.update s.dsvDescriptors 0 (some (s.nextResource + 2))
      recording := [Cmd.ResourceBarrier (some (s.nextResource + 2))
        D3D12_RESOURCE_STATE_COMMON D3D12_RESOURCE_STATE_DEPTH_WRITE]
      queue := []
      nextResource := s.nextResource + 3
      gpu := { s.gpu with
        fenceValue := s.m_currentFence + 2
        resources :=
          Function.update (Function.update (Function.update (Function.update
            (Function.update (Function.update (s.destroy dopt).gpu.resources
              b0 none) b1 none)
            s.nextResource (some D3D12_RESOURCE_STATE_COMMON))
            (s.nextResource + 1) (some D3D12_RESOURCE_STATE_COMMON))
            (s.nextResource + 2) (some D3D12_RESOURCE_STATE_COMMON))
            (s.nextResource + 2) (some D3D12_RESOURCE_STATE_DEPTH_WRITE)
        boundRT := none, boundDS := none, boundVB := none, boundIB := none }
      trace := s.trace ++ [Call.FlushCommandQueue, Call.Signal (s.m_currentFence + 1),
        Call.AllocatorReset, Call.CommandListReset,
        Call.ReleaseBackBuffer 0, Call.ReleaseBackBuffer 1, Call.ReleaseDepthStencilBuffer,
        Call.ResizeBuffers s.m_clientWidth s.m_clientHeight,
        Call.GetBuffer 0, Call.CreateRenderTargetView 0 0,
        Call.GetBuffer 1, Call.CreateRenderTargetView 1 s.m_rtvDescriptorSize,
        Call.CreateDepthStencilBuffer s.m_clientWidth s.m_clientHeight,
        Call.CreateDepthStencilView, Call.CommandListClose, Call.ExecuteCommandLists,
        Call.FlushCommandQueue, Call.Signal (s.m_currentFence + 2),
        Call.SetViewport, Call.SetScissorRect] } := by
  have hguard : s.OnResize k1 k2 =
      ((s.FlushCommandQueue k1).bind
        (fun s => s.OnResize_rebuild.FlushCommandQueue k2)).map Framework.OnResize_viewport := by
    simp [Framework.OnResize, h.device, h.swapChain, h.commandQueue, h.allocator, h.commandList,
      h.rtvHeap, h.dsvHeap]
  have h1 := Framework.FlushCommandQueue_drains k1 s h.commandQueue h.fence h.fenceEvent
    (le_of_eq h.reached) (by simp [h.idle])
  obtain ⟨S1, hS1⟩ : ∃ S1 : Framework, S1 = { s with
        m_currentFence := s.m_currentFence + 1
        queue := []
        gpu := gpuRunAll (s.queue ++ [QueueItem.Signal (s.m_currentFence + 1)]) s.gpu
        trace := s.trace ++ [Call.FlushCommandQueue, Call.Signal (s.m_currentFence + 1)] } :=
    ⟨_, rfl⟩
  rw [← hS1] at h1
  have h2 := Framework.OnResize_rebuild_eq S1 b0 b1 a0 a1 dopt
    (by rw [hS1]; exact hsc) (by rw [hS1]; exact hbuf) (by rw [hS1]; exact hd) (by rw [hS1])
  obtain ⟨S2, hS2⟩ : ∃ S2 : Framework, S2 = S1.OnResize_rebuild := ⟨_, rfl⟩
  rw [← hS2] at h2
  have h3 := Framework.FlushCommandQueue_drains k2 S2
    (by rw [h2, hS1]; exact h.commandQueue) (by rw [h2, hS1]; exact h.fence)
    (by rw [h2, hS1]; exact h.fenceEvent)
    (by
      rw [h2, hS1]
      simp [gpuRunAll, h.idle, Gpu.exec])
    (by
      intro w hw
      rw [h2] at hw
      simp at hw)
  rw [hguard, h1, Option.some_bind, ← hS2, h3, Option.map_some', h2, hS1]
  cases dopt <;>
  simp [Framework.OnResize_viewport, gpuRunAll, h.idle, Gpu.exec, Gpu.execCmd,
    Framework.destroy, D3D12_RESOURCE_STATE_COMMON]

/-- A synced engine stays synced over `OnResize`, and `OnResize` completes. -/
theorem Framework.OnResize_synced (k1 k2 : Nat) (s : Framework) (h : Synced s) :
    ∃ s', s.OnResize k1 k2 = some s' ∧ Synced s' ∧
      s'.m_currentFence = s.m_currentFence + 2 := by
  obtain ⟨b0, b1, a0, a1, hsc, hbuf⟩ := h.shape
  refine ⟨_, Framework.OnResize_eq_of_synced k1 k2 s h b0 b1 a0 a1 _ hsc hbuf rfl, ?_, rfl⟩
  exact
    { device := h.device
      swapChain := h.swapChain
      commandQueue := h.commandQueue
      allocator := h.allocator
      commandList := h.commandList
      fence := h.fence
      fenceEvent := h.fenceEvent
      rtvHeap := h.rtvHeap
      dsvHeap := h.dsvHeap
      cbvHeap := h.cbvHeap
      idle := rfl
      reached := rfl
      noResetInFlight := h.noResetInFlight
      tickets := by
        show signalsOf (s.trace ++ _) = _
        rw [signalsOf_append, h.tickets, List.range'_concat, List.range'_concat]
        simp [signalsOf]
        omega
      flushed := by
        show scanTrace (s.trace ++ _) = _
        rw [scanTrace_append, h.flushed]
        rfl
      shape := ⟨_, _, _, _, rfl, rfl⟩ }

/-- An engine that can be resized is ready after `OnResize`, and `OnResize`
completes. -/
theorem Framework.OnResize_resizable (k1 k2 : Nat) (s : Framework) (h : Resizable s) :
    ∃ s', s.OnResize k1 k2 = some s' ∧ Ready s' ∧
      s'.m_currentFence = s.m_currentFence + 2 := by
  obtain ⟨b0, b1, a0, a1, hsc, hbuf, hr0, hr1⟩ := h.buffers
  obtain ⟨vb, ib, m, hvb, hvbv, hib, hibv, hm, hmv, hrvb, hrib, hrm, hvbn, hibn, hmn⟩ :=
    h.geometry
  refine ⟨_, Framework.OnResize_eq_of_synced k1 k2 s h.synced_of_resizable b0 b1 a0 a1 _ hsc hbuf rfl, ?_,
    rfl⟩
  have keep : ∀ x st, s.gpu.resources x = some st → x < s.nextResource →
      st ≠ D3D12_RESOURCE_STATE_PRESENT → st ≠ D3D12_RESOURCE_STATE_DEPTH_WRITE →
      Function.update (Function.update (Function.update (Function.update
            (Function.update (Function.update
              (s.destroy s.m_depthStencilBuffer).gpu.resources
              b0 none) b1 none)
            s.nextResource (some D3D12_RESOURCE_STATE_COMMON))
            (s.nextResource + 1) (some D3D12_RESOURCE_STATE_COMMON))
            (s.nextResource + 2) (some D3D12_RESOURCE_STATE_COMMON))
            (s.nextResource + 2) (some D3D12_RESOURCE_STATE_DEPTH_WRITE) x = some st := by
    intro x st hx hlt hp hdw
    have e1 : x ≠ s.nextResource + 2 := by omega
    have e2 : x ≠ s.nextResource + 1 := by omega
    have e3 : x ≠ s.nextResource := by omega
    have e4 : x ≠ b1 := by
      rintro rfl; rw [hr1] at hx; exact hp (Option.some.inj hx).symm
    have e5 : x ≠ b0 := by
      rintro rfl; rw [hr0] at hx; exact hp (Option.some.inj hx).symm
    have e6 : (s.destroy s.m_depthStencilBuffer).gpu.resources x = some st := by
      rcases h.depth with hnone | ⟨d, hd, hrd⟩
      · rw [hnone]; exact hx
      · have e7 : x ≠ d := by
          rintro rfl; rw [hrd] at hx; exact hdw (Option.some.inj hx).symm
        rw [hd]
        simp [Framework.destroy, Function.update_noteq, e7, hx]
    simp [Function.update_noteq, e1, e2, e3, e4, e5, e6]
  have e1 : s.nextResource ≠ s.nextResource + 2 := by omega
  have e2 : s.nextResource ≠ s.nextResource + 1 := by omega
  have e3 : s.nextResource + 1 ≠ s.nextResource + 2 := by omega
  have e4 : (0 : Nat) ≠ s.m_rtvDescriptorSize := Nat.ne_of_lt h.rtvSize
  exact
    { device := h.device
      swapChain := h.swapChain
      commandQueue := h.commandQueue
      allocator := h.allocator
      commandList := h.commandList
      fence := h.fence
      fenceEvent := h.fenceEvent
      rtvHeap := h.rtvHeap
      dsvHeap := h.dsvHeap
      cbvHeap := h.cbvHeap
      idle := rfl
      reached := rfl
      noHazard := h.noHazard
      noResetInFlight := h.noResetInFlight
      tickets := by
        show signalsOf (s.trace ++ _) = _
        rw [signalsOf_append, h.tickets, List.range'_concat, List.range'_concat]
        simp [signalsOf]
        omega
      flushed := by
        show scanTrace (s.trace ++ _) = _
        rw [scanTrace_append, h.flushed]
        rfl
      rtvSize := h.rtvSize
      index := Or.inl rfl
      indexAgrees := rfl
      buffers := by
        refine ⟨s.nextResource, s.nextResource + 1, s.nextResource + 2, rfl, rfl, by omega, rfl,
          ?_, ?_, ?_, ?_, ?_, ?_, ?_, ?_, ?_⟩
        · simp [Function.update_noteq, e1, e2, D3D12_RESOURCE_STATE_COMMON,
            D3D12_RESOURCE_STATE_PRESENT]
        · simp [Function.update_noteq, e3, D3D12_RESOURCE_STATE_COMMON,
            D3D12_RESOURCE_STATE_PRESENT]
        · simp
        · simp [Function.update_noteq, e4]
        · simp
        · simp
        · show s.nextResource < s.nextResource + 3
          omega
        · show s.nextResource + 1 < s.nextResource + 3
          omega
        · show s.nextResource + 2 < s.nextResource + 3
          omega
      geometry :=
        ⟨vb, ib, m, hvb, hvbv, hib, hibv, hm, hmv,
          keep vb _ hrvb hvbn (by decide) (by decide),
          keep ib _ hrib hibn (by decide) (by decide),
          keep m _ hrm hmn (by decide) (by decide),
          Nat.lt_add_right 3 hvbn, Nat.lt_add_right 3 hibn, Nat.lt_add_right 3 hmn⟩ }

/-! ### Init -/

/-- The state in which `BuildBoxGeometry` leaves an engine with a command queue,
allocator, list, fence and event, nothing queued and the fence not ahead of the
counter. -/
theorem Framework.BuildBoxGeometry_eq (k : Nat) (s : Framework)
    (halloc : s.m_directCmdListAlloc = true) (hlist : s.m_commandList = true)
    (hqueue : s.m_commandQueue = true) (hfence : s.m_fence = true)
    (hevent : s.m_fenceEvent = true) (hidle : s.queue = [])
    (hreach : s.gpu.fenceValue ≤ s.m_currentFence) :
    s.BuildBoxGeometry k = some { s with
      m_boxIndexCount := 36
      m_boxVB := some s.nextResource
      m_boxIB := some (s.nextResource + 1)
      m_boxVBUpload := none
      m_boxIBUpload := none
      m_boxVBView := ⟨some s.nextResource, boxVbByteSize, sizeof_Vertex⟩
      m_boxIBView := ⟨some (s.nextResource + 1), boxIbByteSize⟩
      m_currentFence := s.m_currentFence + 1
      recording :=
        [Cmd.CopyBufferRegion (some s.nextResource) (some (s.nextResource + 2)) boxVbByteSize,
          Cmd.CopyBufferRegion (some (s.nextResource + 1)) (some (s.nextResource + 3))
            boxIbByteSize,
          Cmd.ResourceBarrier (some s.nextResource) D3D12_RESOURCE_STATE_COPY_DEST
            D3D12_RESOURCE_STATE_VERTEX_AND_CONSTANT_BUFFER,
          Cmd.ResourceBarrier (some (s.nextResource + 1)) D3D12_RESOURCE_STATE_COPY_DEST
            D3D12_RESOURCE_STATE_INDEX_BUFFER]
      queue := []
      nextResource := s.nextResource + 4
      gpu := { s.gpu with
        fenceValue := s.m_currentFence + 1
        resources :=
          Function.update (Function.update (Function.update (Function.update
            (Function.update (Function.update (Function.update (Function.update
              s.gpu.resources
              s.nextResource (some D3D12_RESOURCE_STATE_COPY_DEST))
              (s.nextResource + 1) (some D3D12_RESOURCE_STATE_COPY_DEST))
              (s.nextResource + 2) (some D3D12_RESOURCE_STATE_GENERIC_READ))
              (s.nextResource + 3) (some D3D12_RESOURCE_STATE_GENERIC_READ))
              s.nextResource (some D3D12_RESOURCE_STATE_VERTEX_AND_CONSTANT_BUFFER))
              (s.nextResource + 1) (some D3D12_RESOURCE_STATE_INDEX_BUFFER))
              (s.nextResource + 2) none)
              (s.nextResource + 3) none
        boundRT := none, boundDS := none, boundVB := none, boundIB := none }
      trace := s.trace ++ [Call.AllocatorReset, Call.CommandListReset,
        Call.CommandListClose, Call.ExecuteCommandLists,
        Call.FlushCommandQueue, Call.Signal (s.m_currentFence + 1)] } := by
  have hguard : s.BuildBoxGeometry k =
      (s.BuildBoxGeometry_create.BuildBoxGeometry_record.FlushCommandQueue k).map
        Framework.BuildBoxGeometry_finish := by
    simp [Framework.BuildBoxGeometry, halloc, hlist, hqueue]
  obtain ⟨S1, hS1⟩ : ∃ S1 : Framework, S1 = s.BuildBoxGeometry_create.BuildBoxGeometry_record :=
    ⟨_, rfl⟩
  have hS1' : S1 = { s with
      m_boxIndexCount := 36
      m_boxVB := some s.nextResource
      m_boxIB := some (s.nextResource + 1)
      m_boxVBUpload := some (s.nextResource + 2)
      m_boxIBUpload := some (s.nextResource + 3)
      recording :=
        [Cmd.CopyBufferRegion (some s.nextResource) (some (s.nextResource + 2)) boxVbByteSize,
          Cmd.CopyBufferRegion (some (s.nextResource + 1)) (some (s.nextResource + 3))
            boxIbByteSize,
          Cmd.ResourceBarrier (some s.nextResource) D3D12_RESOURCE_STATE_COPY_DEST
            D3D12_RESOURCE_STATE_VERTEX_AND_CONSTANT_BUFFER,
          Cmd.ResourceBarrier (some (s.nextResource + 1)) D3D12_RESOURCE_STATE_COPY_DEST
            D3D12_RESOURCE_STATE_INDEX_BUFFER]
      queue := [QueueItem.ExecuteCommandLists
        [Cmd.CopyBufferRegion (some s.nextResource) (some (s.nextResource + 2)) boxVbByteSize,
          Cmd.CopyBufferRegion (some (s.nextResource + 1)) (some (s.nextResource + 3))
            boxIbByteSize,
          Cmd.ResourceBarrier (some s.nextResource) D3D12_RESOURCE_STATE_COPY_DEST
            D3D12_RESOURCE_STATE_VERTEX_AND_CONSTANT_BUFFER,
          Cmd.ResourceBarrier (some (s.nextResource + 1)) D3D12_RESOURCE_STATE_COPY_DEST
            D3D12_RESOURCE_STATE_INDEX_BUFFER]]
      nextResource := s.nextResource + 4
      gpu := { s.gpu with
        resources :=
          Function.update (Function.update (Function.update (Function.update
              s.gpu.resources
              s.nextResource (some D3D12_RESOURCE_STATE_COPY_DEST))
              (s.nextResource + 1) (some D3D12_RESOURCE_STATE_COPY_DEST))
              (s.nextResource + 2) (some D3D12_RESOURCE_STATE_GENERIC_READ))
              (s.nextResource + 3) (some D3D12_RESOURCE_STATE_GENERIC_READ) }
      trace := s.trace ++ [Call.AllocatorReset, Call.CommandListReset,
        Call.CommandListClose, Call.ExecuteCommandLists] } := by
    rw [hS1]
    simp [Framework.BuildBoxGeometry_create, Framework.BuildBoxGeometry_record,
      Framework.allocatorReset, Framework.commandListReset, Framework.commandListClose,
      Framework.call, Framework.executeCommandLists, Framework.record,
      Framework.createResource, hidle, Nat.add_assoc]
  have h3 := Framework.FlushCommandQueue_drains k S1
    (by rw [hS1']; exact hqueue) (by rw [hS1']; exact hfence) (by rw [hS1']; exact hevent)
    (by rw [hS1']; exact hreach)
    (by
      intro w hw
      rw [hS1'] at hw
      simp at hw)
  rw [hguard, ← hS1, h3, Option.map_some', hS1']
  have e1 : s.nextResource ≠ s.nextResource + 1 := by omega
  have e2 : s.nextResource ≠ s.nextResource + 2 := by omega
  have e3 : s.nextResource ≠ s.nextResource + 3 := by omega
  have e4 : s.nextResource + 1 ≠ s.nextResource + 2 := by omega
  have e5 : s.nextResource + 1 ≠ s.nextResource + 3 := by omega
  have e6 : s.nextResource + 2 ≠ s.nextResource + 3 := by omega
  have hread : (2755 : Nat) &&& 2048 = 2048 := by decide
  simp [Framework.BuildBoxGeometry_finish, Framework.destroy, gpuRunAll, Gpu.exec,
    Gpu.execCmd, Gpu.require, Gpu.inState, Function.update_noteq, e1, e2, e3, e4, e5, e6, hread,
    D3D12_RESOURCE_STATE_COPY_DEST, D3D12_RESOURCE_STATE_COPY_SOURCE,
    D3D12_RESOURCE_STATE_GENERIC_READ]

/-- The engine after the first steps of `Init`. -/
theorem Framework.Init_objects_eq (env : Env) (w h : Int)
    (hev : env.fenceEventCreated = true) :
    (Framework.new w h).Init_objects env = some { Framework.new w h with
      m_device := true
      m_commandQueue := true
      m_directCmdListAlloc := true
      m_commandList := true
      m_fence := true
      m_fenceEvent := true
      m_swapChain := true
      m_rtvHeap := true
      m_dsvHeap := true
      m_cbvHeap := true
      m_rtvDescriptorSize := env.rtvDescriptorSize
      m_dsvDescriptorSize := env.dsvDescriptorSize
      m_cbvSrvUavDescriptorSize := env.cbvSrvUavDescriptorSize
      swapChainBuffers := [0, 1]
      nextResource := 2
      gpu := ⟨0, Function.update (Function.update (fun _ => none) 0
        (some D3D12_RESOURCE_STATE_COMMON)) 1 (some D3D12_RESOURCE_STATE_COMMON),
        0, none, none, none, none⟩
      trace := [Call.CommandListClose] } := by
  have hr : List.range SwapChainBufferCount = [0, 1] := rfl
  simp [Framework.Init_objects, Framework.CreateFence, hev, Framework.new,
    Framework.InitDevice, Framework.CreateCommandObjects, Framework.CreateSwapChain,
    Framework.CreateRtvAndDsvDescriptorHeaps, Framework.createResource, hr]

/-- The method `Init` completes exactly when the fence event was created, the OBJ
file loaded and produced a vertex; it then runs `OnResize` on a synced engine
whose counter is 1 and which can be resized when the RTV increment is positive. -/
theorem Framework.Init_cases (env : Env) (kBox k1 k2 : Nat) (w h : Int) :
    (env.fenceEventCreated = true ∧ env.objLoadOk = true ∧ env.objVertexCount ≠ 0 ∧
      ∃ S, (Framework.new w h).Init env kBox k1 k2 = S.OnResize k1 k2 ∧ Synced S ∧
        S.m_currentFence = 1 ∧ (0 < env.rtvDescriptorSize → Resizable S)) ∨
    ((env.fenceEventCreated = false ∨ env.objLoadOk = false ∨ env.objVertexCount = 0) ∧
      (Framework.new w h).Init env kBox k1 k2 = none) := by
  by_cases hev : env.fenceEventCreated = true
  swap
  · right
    have hev' : env.fenceEventCreated = false := by simpa using hev
    exact ⟨Or.inl hev',
      by simp [Framework.Init, Framework.Init_objects, Framework.CreateFence, hev']⟩
  have hobjs := Framework.Init_objects_eq env w h hev
  obtain ⟨P0, hP0⟩ : ∃ P0 : Framework, P0 = { Framework.new w h with
      m_device := true
      m_commandQueue := true
      m_directCmdListAlloc := true
      m_commandList := true
      m_fence := true
      m_fenceEvent := true
      m_swapChain := true
      m_rtvHeap := true
      m_dsvHeap := true
      m_cbvHeap := true
      m_rtvDescriptorSize := env.rtvDescriptorSize
      m_dsvDescriptorSize := env.dsvDescriptorSize
      m_cbvSrvUavDescriptorSize := env.cbvSrvUavDescriptorSize
      swapChainBuffers := [0, 1]
      nextResource := 2
      gpu := ⟨0, Function.update (Function.update (fun _ => none) 0
        (some D3D12_RESOURCE_STATE_COMMON)) 1 (some D3D12_RESOURCE_STATE_COMMON),
        0, none, none, none, none⟩
      trace := [Call.CommandListClose] } := ⟨_, rfl⟩
  rw [← hP0] at hobjs
  have hInit : (Framework.new w h).Init env kBox k1 k2 =
      (P0.BuildBoxGeometry kBox).bind fun s =>
        (s.BuildObjVB_Upload env).bind fun s => s.OnResize k1 k2 := by
    simp [Framework.Init, hobjs]
  have hbox := Framework.BuildBoxGeometry_eq kBox P0 (by rw [hP0]) (by rw [hP0])
    (by rw [hP0]) (by rw [hP0]) (by rw [hP0]) (by rw [hP0]; rfl)
    (by rw [hP0]; exact Nat.le_refl _)
  rw [hbox, Option.some_bind] at hInit
  by_cases hobj : env.objLoadOk = true
  swap
  · right
    have hobj' : env.objLoadOk = false := by simpa using hobj
    exact ⟨Or.inr (Or.inl hobj'), by rw [hInit]; simp [Framework.BuildObjVB_Upload, hobj']⟩
  by_cases hn : env.objVertexCount = 0
  · right
    exact ⟨Or.inr (Or.inr hn), by rw [hInit]; simp [Framework.BuildObjVB_Upload, hobj, hn]⟩
  left
  refine ⟨hev, hobj, hn, ?_⟩
  simp only [Framework.BuildObjVB_Upload, hobj, hn, Bool.not_true, Bool.false_eq_true,
    if_false, Option.some_bind] at hInit
  refine ⟨_, hInit, ?_, ?_, ?_⟩
  · rw [hP0]
    exact
      { device := rfl
        swapChain := rfl
        commandQueue := rfl
        allocator := rfl
        commandList := rfl
        fence := rfl
        fenceEvent := rfl
        rtvHeap := rfl
        dsvHeap := rfl
        cbvHeap := rfl
        idle := rfl
        reached := rfl
        noResetInFlight := rfl
        tickets := rfl
        flushed := rfl
        shape := ⟨0, 1, none, none, rfl, rfl⟩ }
  · rw [hP0]
    rfl
  · intro hrtv
    rw [hP0]
    exact
      { device := rfl
        swapChain := rfl
        commandQueue := rfl
        allocator := rfl
        commandList := rfl
        fence := rfl
        fenceEvent := rfl
        rtvHeap := rfl
        dsvHeap := rfl
        cbvHeap := rfl
        idle := rfl
        reached := rfl
        noHazard := rfl
        noResetInFlight := rfl
        tickets := rfl
        flushed := rfl
        rtvSize := hrtv
        buffers := ⟨0, 1, none, none, rfl, rfl, by
          simp [Framework.createResource, Framework.new, D3D12_RESOURCE_STATE_COMMON,
            D3D12_RESOURCE_STATE_PRESENT], by
          simp [Framework.createResource, Framework.new, D3D12_RESOURCE_STATE_COMMON,
            D3D12_RESOURCE_STATE_PRESENT]⟩
        depth := Or.inl rfl
        geometry := ⟨2, 3, 6, rfl, rfl, rfl, rfl, rfl, rfl, by
          simp [Framework.createResource, Framework.new], by
          simp [Framework.createResource, Framework.new], by
          simp [Framework.createResource, Framework.new], by
          simp [Framework.createResource, Framework.new], by
          simp [Framework.createResource, Framework.new], by
          simp [Framework.createResource, Framework.new]⟩ }

/-! ### Runs -/

/-- Every run from a synced engine completes and ends synced, with a counter that
did not decrease. -/
theorem Framework.run_synced (ops : List Op) (s : Framework) (h : Synced s) :
    ∃ s', s.run ops = some s' ∧ Synced s' ∧ s.m_currentFence ≤ s'.m_currentFence := by
  induction ops generalizing s with
  | nil => exact ⟨s, rfl, h, Nat.le_refl _⟩
  | cons op ops ih =>
    have hstep : ∃ s1, s.step op = some s1 ∧ Synced s1 ∧
        s.m_currentFence ≤ s1.m_currentFence := by
      cases op with
      | Draw k =>
        obtain ⟨s1, h1, hs1, hc⟩ := Framework.Draw_synced k s h
        exact ⟨s1, h1, hs1, by omega⟩
      | SetClientSize w' h' =>
        exact ⟨_, rfl,
          { device := h.device, swapChain := h.swapChain, commandQueue := h.commandQueue,
            allocator := h.allocator, commandList := h.commandList, fence := h.fence,
            fenceEvent := h.fenceEvent, rtvHeap := h.rtvHeap, dsvHeap := h.dsvHeap,
            cbvHeap := h.cbvHeap, idle := h.idle, reached := h.reached,
            noResetInFlight := h.noResetInFlight, tickets := h.tickets,
            flushed := h.flushed, shape := h.shape }, Nat.le_refl _⟩
      | OnResize k1 k2 =>
        obtain ⟨s1, h1, hs1, hc⟩ := Framework.OnResize_synced k1 k2 s h
        exact ⟨s1, h1, hs1, by omega⟩
    obtain ⟨s1, h1, hs1, hc1⟩ := hstep
    obtain ⟨s', h', hs', hc'⟩ := ih s1 hs1
    exact ⟨s', by simp [Framework.run, h1, h'], hs', by omega⟩

/-- Every run from a ready engine completes and ends ready. -/
theorem Framework.run_ready (ops : List Op) (s : Framework) (h : Ready s) :
    ∃ s', s.run ops = some s' ∧ Ready s' := by
  induction ops generalizing s with
  | nil => exact ⟨s, rfl, h⟩
  | cons op ops ih =>
    have hstep : ∃ s1, s.step op = some s1 ∧ Ready s1 := by
      cases op with
      | Draw k =>
        obtain ⟨s1, h1, hs1, -⟩ := Framework.Draw_ready k s h
        exact ⟨s1, h1, hs1⟩
      | SetClientSize w' h' =>
        exact ⟨_, rfl,
          { device := h.device, swapChain := h.swapChain, commandQueue := h.commandQueue,
            allocator := h.allocator, commandList := h.commandList, fence := h.fence,
            fenceEvent := h.fenceEvent, rtvHeap := h.rtvHeap, dsvHeap := h.dsvHeap,
            cbvHeap := h.cbvHeap, idle := h.idle, reached := h.reached,
            noHazard := h.noHazard, noResetInFlight := h.noResetInFlight,
            tickets := h.tickets, flushed := h.flushed, rtvSize := h.rtvSize,
            index := h.index, indexAgrees := h.indexAgrees, buffers := h.buffers,
            geometry := h.geometry }⟩
      | OnResize k1 k2 =>
        obtain ⟨s1, h1, hs1, -⟩ := Framework.OnResize_resizable k1 k2 s h.resizable
        exact ⟨s1, h1, hs1⟩
    obtain ⟨s1, h1, hs1⟩ := hstep
    obtain ⟨s', h', hs'⟩ := ih s1 hs1
    exact ⟨s', by simp [Framework.run, h1, h'], hs'⟩

/-- A successful `Init` ends synced with the counter at 3. -/
theorem Framework.Init_synced (env : Env) (kBox k1 k2 : Nat) (w h : Int) (s0 : Framework)
    (hinit : (Framework.new w h).Init env kBox k1 k2 = some s0) :
    Synced s0 ∧ s0.m_currentFence = 3 := by
  rcases Framework.Init_cases env kBox k1 k2 w h with
    ⟨-, -, -, S, hS, hsync, hc, -⟩ | ⟨-, hnone⟩
  · obtain ⟨s1, h1, hs1, hc1⟩ := Framework.OnResize_synced k1 k2 S hsync
    rw [hS, h1] at hinit
    cases hinit
    exact ⟨hs1, by omega⟩
  · rw [hnone] at hinit
    cases hinit

/-- A successful `Init` on a device with a positive RTV increment ends ready. -/
theorem Framework.Init_ready (env : Env) (kBox k1 k2 : Nat) (w h : Int) (s0 : Framework)
    (hrtv : 0 < env.rtvDescriptorSize)
    (hinit : (Framework.new w h).Init env kBox k1 k2 = some s0) :
    Ready s0 := by
  rcases Framework.Init_cases env kBox k1 k2 w h with
    ⟨-, -, -, S, hS, -, -, hres⟩ | ⟨-, hnone⟩
  · obtain ⟨s1, h1, hs1, -⟩ := Framework.OnResize_resizable k1 k2 S (hres hrtv)
    rw [hS, h1] at hinit
    cases hinit
    exact hs1
  · rw [hnone] at hinit
    cases hinit

/-! ### The claims about frames, flushes and resource states -/

/-- The flush returns at once, without a ticket, when queue, fence or event is
missing. -/
theorem Framework.FlushCommandQueue_early (k : Nat) (s : Framework)
    (h : ¬ (s.m_commandQueue = true ∧ s.m_fence = true ∧ s.m_fenceEvent = true)) :
    s.FlushCommandQueue k = some (s.call Call.FlushCommandQueue) := by
  unfold Framework.FlushCommandQueue
  have hc : (!s.m_commandQueue || !s.m_fence || !s.m_fenceEvent) = true := by
    cases h1 : s.m_commandQueue <;> cases h2 : s.m_fence <;> cases h3 : s.m_fenceEvent <;>
      simp_all
  rw [if_pos hc]

/-- Any completed flush only changes the counter, the queue, the device state and
the trace; it adds its own call and at most one `Signal` to the trace. -/
theorem Framework.FlushCommandQueue_shape (k : Nat) (s s' : Framework)
    (h : s.FlushCommandQueue k = some s') :
    ∃ c q g t, s' = { s with m_currentFence := c, queue := q, gpu := g, trace := s.trace ++ t } ∧
      ((s.m_commandQueue = true ∧ s.m_fence = true ∧ s.m_fenceEvent = true) →
        c = s.m_currentFence + 1 ∧
        t = [Call.FlushCommandQueue, Call.Signal (s.m_currentFence + 1)]) ∧
      (¬ (s.m_commandQueue = true ∧ s.m_fence = true ∧ s.m_fenceEvent = true) →
        c = s.m_currentFence ∧ t = [Call.FlushCommandQueue]) := by
  by_cases hobj : s.m_commandQueue = true ∧ s.m_fence = true ∧ s.m_fenceEvent = true
  · rw [Framework.FlushCommandQueue_eq k s hobj.1 hobj.2.1 hobj.2.2] at h
    obtain ⟨r, -, hr⟩ := Option.map_eq_some'.mp h
    exact ⟨_, _, _, _, hr.symm, fun _ => ⟨rfl, rfl⟩, fun hn => absurd hobj hn⟩
  · rw [Framework.FlushCommandQueue_early k s hobj] at h
    cases h
    exact ⟨s.m_currentFence, s.queue, s.gpu, [Call.FlushCommandQueue], rfl,
      fun hy => absurd hy hobj, fun _ => ⟨rfl, rfl⟩⟩

/-- C2: for every `Draw` call that completes, `m_currBackBuffer` afterwards is
`(m_currBackBuffer + 1) % SwapChainBufferCount` (the C++ remainder, which for an
index that is not negative is the mathematical `mod`), with
`SwapChainBufferCount = 2`; recording, submission and `Present` leave the index
as it was, the one update follows the one `Present` call that `Draw` makes, and
the flush after it does not touch the index. -/
theorem C2_draw_advances_back_buffer (k : Nat) (s s' : Framework)
    (h : s.Draw k = some s') :
    s'.m_currBackBuffer = Int.tmod (s.m_currBackBuffer + 1) (SwapChainBufferCount : Int) ∧
    SwapChainBufferCount = 2 ∧
    (0 ≤ s.m_currBackBuffer → s'.m_currBackBuffer = (s.m_currBackBuffer + 1) % 2) ∧
    s.Draw_record.Present.m_currBackBuffer = s.m_currBackBuffer ∧
    (∃ calls, s'.trace = s.trace ++ calls ∧ calls.count Call.Present = 1) ∧
    (∀ (k' : Nat) (t t' : Framework), t.FlushCommandQueue k' = some t' →
      t'.m_currBackBuffer = t.m_currBackBuffer) := by
  have hflush : ∀ (k' : Nat) (t t' : Framework), t.FlushCommandQueue k' = some t' →
      t'.m_currBackBuffer = t.m_currBackBuffer := by
    intro k' t t' ht
    obtain ⟨c, q, g, tr, ht', -, -⟩ := Framework.FlushCommandQueue_shape k' t t' ht
    rw [ht']
  have hrec : s.Draw_record.Present.m_currBackBuffer = s.m_currBackBuffer := by
    rw [Framework.Draw_record_eq]; rfl
  by_cases hg : (s.m_directCmdListAlloc && s.m_commandList && s.m_commandQueue && s.m_swapChain
      && s.m_rtvHeap && s.m_dsvHeap && s.m_cbvHeap) = true
  swap
  · simp [Framework.Draw, hg] at h
  simp only [Framework.Draw, hg, if_true] at h
  obtain ⟨c, q, g, tr, hs', hyes, hno⟩ := Framework.FlushCommandQueue_shape k _ s' h
  have hidx : s'.m_currBackBuffer =
      Int.tmod (s.m_currBackBuffer + 1) (SwapChainBufferCount : Int) := by
    rw [hs']
    show Int.tmod (s.Draw_record.Present.m_currBackBuffer + 1) _ = _
    rw [hrec]
  refine ⟨hidx, rfl, ?_, hrec, ?_, hflush⟩
  · intro h0
    rw [hidx]
    show Int.tmod (s.m_currBackBuffer + 1) 2 = _
    exact Int.tmod_eq_emod (by omega) (by decide)
  · refine ⟨[Call.AllocatorReset, Call.CommandListReset, Call.CommandListClose,
      Call.ExecuteCommandLists, Call.Present] ++ tr, ?_, ?_⟩
    · rw [hs']
      show s.Draw_record.Present.trace ++ tr = _
      rw [Framework.Draw_record_eq]
      simp [Framework.Present]
    · by_cases hobj : s.Draw_record.Present.m_commandQueue = true ∧
          s.Draw_record.Present.m_fence = true ∧ s.Draw_record.Present.m_fenceEvent = true
      · rw [(hyes hobj).2]; rfl
      · rw [(hno hobj).2]; rfl


set_option maxRecDepth 8192

/-- Witness for C2: the first frame after `Init` on the sample platform moves the
index from 0 to 1. -/
theorem C2_witness :
    (sampleReady.Draw 0).map (fun s => s.m_currBackBuffer) =
      some (Int.tmod (sampleReady.m_currBackBuffer + 1) (SwapChainBufferCount : Int)) ∧
    (sampleReady.Draw 0).map (fun s => s.m_currBackBuffer) = some 1 := by
  cases hd : sampleReady.Draw 0 with
  | none =>
    have hsome : (sampleReady.Draw 0).isSome = true := rfl
    rw [hd] at hsome
    cases hsome
  | some s' =>
    have h1 := (C2_draw_advances_back_buffer 0 sampleReady s' hd).1
    exact ⟨congrArg some h1, congrArg some (h1.trans rfl)⟩

/-- Counterexample to C7 as stated: after `Init` on the sample platform nothing is
queued; one flush leaves the counter and the completed value at 4, two flushes in
a row leave them at 5. -/
theorem C7_counterexample :
    sampleReady.queue = [] ∧
    (sampleReady.FlushCommandQueue 0).map (fun s => (s.m_currentFence, s.gpu.fenceValue)) =
      some (4, 4) ∧
    ((sampleReady.FlushCommandQueue 0).bind (fun s => s.FlushCommandQueue 0)).map
      (fun s => (s.m_currentFence, s.gpu.fenceValue)) = some (5, 5) :=
  ⟨rfl, rfl, rfl⟩

/-- C7 (amended): in an engine with queue, fence and event, nothing queued and the
fence not ahead of the counter, two flushes in a row both return, and the second
changes nothing but the ticket: `m_currentFence` and the completed value of the
fence are one higher than after the first flush (and the trace has the second
call and its `Signal`); after either flush nothing is queued and the completed
value equals `m_currentFence`. -/
theorem C7_second_flush_only_advances_ticket (k1 k2 : Nat) (s : Framework)
    (hq : s.m_commandQueue = true) (hf : s.m_fence = true) (he : s.m_fenceEvent = true)
    (hidle : s.queue = []) (hreach : s.gpu.fenceValue ≤ s.m_currentFence) :
    ∃ s1 s2, s.FlushCommandQueue k1 = some s1 ∧ s1.FlushCommandQueue k2 = some s2 ∧
      s2 = { s1 with
        m_currentFence := s1.m_currentFence + 1
        gpu := { s1.gpu with fenceValue := s1.gpu.fenceValue + 1 }
        trace := s1.trace ++ [Call.FlushCommandQueue, Call.Signal (s1.m_currentFence + 1)] } ∧
      s1.queue = [] ∧ s1.gpu.fenceValue = s1.m_currentFence ∧
      s2.queue = [] ∧ s2.gpu.fenceValue = s2.m_currentFence ∧
      s2.m_currentFence = s.m_currentFence + 2 := by
  have h1 := Framework.FlushCommandQueue_drains k1 s hq hf he hreach (by simp [hidle])
  obtain ⟨S1, hS1⟩ : ∃ S1 : Framework, S1 = { s with
        m_currentFence := s.m_currentFence + 1
        queue := []
        gpu := gpuRunAll (s.queue ++ [QueueItem.Signal (s.m_currentFence + 1)]) s.gpu
        trace := s.trace ++ [Call.FlushCommandQueue, Call.Signal (s.m_currentFence + 1)] } :=
    ⟨_, rfl⟩
  rw [← hS1] at h1
  have hg1 : S1.gpu = { s.gpu with fenceValue := s.m_currentFence + 1 } := by
    rw [hS1]; simp [hidle, gpuRunAll, Gpu.exec]
  have h2 := Framework.FlushCommandQueue_drains k2 S1 (by rw [hS1]; exact hq)
    (by rw [hS1]; exact hf) (by rw [hS1]; exact he)
    (by rw [hg1, hS1]) (by rw [hS1]; simp)
  refine ⟨S1, _, h1, h2, ?_, by rw [hS1], by rw [hg1, hS1], rfl,
    gpuRunAll_signal_last _ _ _, by rw [hS1]⟩
  have hq1 : S1.queue = [] := by rw [hS1]
  have hc1 : S1.gpu.fenceValue = S1.m_currentFence := by rw [hg1, hS1]
  rw [hq1, hc1]
  simp [gpuRunAll, Gpu.exec]

/-- Witness for C7 (amended): the engine after `Init` on the sample platform. -/
theorem C7_witness :
    ∃ s1 s2, sampleReady.FlushCommandQueue 0 = some s1 ∧ s1.FlushCommandQueue 0 = some s2 ∧
      s2 = { s1 with
        m_currentFence := s1.m_currentFence + 1
        gpu := { s1.gpu with fenceValue := s1.gpu.fenceValue + 1 }
        trace := s1.trace ++ [Call.FlushCommandQueue, Call.Signal (s1.m_currentFence + 1)] } ∧
      s1.queue = [] ∧ s1.gpu.fenceValue = s1.m_currentFence ∧
      s2.queue = [] ∧ s2.gpu.fenceValue = s2.m_currentFence ∧
      s2.m_currentFence = sampleReady.m_currentFence + 2 :=
  C7_second_flush_only_advances_ticket 0 0 sampleReady rfl rfl rfl rfl (Nat.le_of_eq rfl)

/-- Releasing a resource does not change the counter. -/
theorem Framework.destroy_currentFence (s : Framework) (r : Option Nat) :
    (s.destroy r).m_currentFence = s.m_currentFence := by
  cases r <;> rfl

/-- Releasing a list of resources does not change the counter. -/
theorem Framework.foldl_destroy_currentFence (l : List Nat) (s : Framework) :
    (l.foldl (fun s id => s.destroy (some id)) s).m_currentFence = s.m_currentFence := by
  induction l generalizing s with
  | nil => rfl
  | cons id l ih => rw [List.foldl_cons, ih]; rfl

/-- The call `ResizeBuffers` does not change the counter. -/
theorem Framework.ResizeBuffers_currentFence (s : Framework) :
    s.ResizeBuffers.m_currentFence = s.m_currentFence := by
  have hr : List.range SwapChainBufferCount = [0, 1] := rfl
  simp only [Framework.ResizeBuffers, hr, List.foldl, Framework.createResource]
  exact Framework.foldl_destroy_currentFence _ _

/-- The rebuild in the middle of `OnResize` does not change the counter. -/
theorem Framework.OnResize_rebuild_currentFence (s : Framework) :
    s.OnResize_rebuild.m_currentFence = s.m_currentFence := by
  have hr : List.range SwapChainBufferCount = [0, 1] := rfl
  simp only [Framework.OnResize_rebuild, hr, List.foldl, Framework.executeCommandLists,
    Framework.commandListClose, Framework.call, Framework.record, Framework.createResource,
    Framework.ResizeBuffers_currentFence]
  exact Framework.destroy_currentFence _ _

/-- C8: `CreateFence` sets `m_currentFence` to 0; a `FlushCommandQueue` call that
does not take the early return adds exactly 1 to it and issues one `Signal` with
the new value, and one that takes the early return leaves it alone; recording,
submission, `Present` and the rebuild of `OnResize` do not change it. Hence after
`Init` and any run of frames and resizes the tickets signalled so far are exactly
`1, 2, ..., m_currentFence` in this order, and the counter never decreases as the
run goes on. -/
theorem C8_fence_counter_monotonic (env : Env) (kBox k1 k2 : Nat) (w h : Int)
    (s0 s : Framework) (ops : List Op)
    (hinit : (Framework.new w h).Init env kBox k1 k2 = some s0)
    (hrun : s0.run ops = some s) :
    signalsOf s.trace = List.range' 1 s.m_currentFence ∧
    s0.m_currentFence ≤ s.m_currentFence ∧
    (∀ (more : List Op) (s' : Framework), s.run more = some s' →
      s.m_currentFence ≤ s'.m_currentFence) ∧
    (∀ (env' : Env) (t t' : Framework), t.CreateFence env' = some t' → t'.m_currentFence = 0) ∧
    (∀ (k : Nat) (t t' : Framework), t.FlushCommandQueue k = some t' →
      (t.m_commandQueue = true ∧ t.m_fence = true ∧ t.m_fenceEvent = true →
        t'.m_currentFence = t.m_currentFence + 1 ∧
        t'.trace = t.trace ++ [Call.FlushCommandQueue, Call.Signal (t.m_currentFence + 1)]) ∧
      (¬ (t.m_commandQueue = true ∧ t.m_fence = true ∧ t.m_fenceEvent = true) →
        t'.m_currentFence = t.m_currentFence ∧
        t'.trace = t.trace ++ [Call.FlushCommandQueue])) ∧
    (∀ t : Framework, t.Draw_record.Present.m_currentFence = t.m_currentFence) ∧
    (∀ t : Framework, t.OnResize_rebuild.m_currentFence = t.m_currentFence) ∧
    (∀ t : Framework, t.OnResize_viewport.m_currentFence = t.m_currentFence) := by
  obtain ⟨hsync0, -⟩ := Framework.Init_synced env kBox k1 k2 w h s0 hinit
  obtain ⟨s1, hs1, hsync, hle⟩ := Framework.run_synced ops s0 hsync0
  rw [hrun] at hs1
  cases hs1
  refine ⟨hsync.tickets, hle, ?_, ?_, ?_, ?_, ?_, ?_⟩
  · intro more s' hmore
    obtain ⟨s2, hs2, -, hle2⟩ := Framework.run_synced more s hsync
    rw [hmore] at hs2
    cases hs2
    exact hle2
  · intro env' t t' ht
    unfold Framework.CreateFence at ht
    by_cases he : env'.fenceEventCreated = true
    · simp [he] at ht
      rw [← ht]
    · simp [he] at ht
  · intro k t t' ht
    obtain ⟨c, q, g, tr, ht', hyes, hno⟩ := Framework.FlushCommandQueue_shape k t t' ht
    constructor
    · intro hobj
      obtain ⟨hc, htr⟩ := hyes hobj
      subst hc htr
      rw [ht']
      exact ⟨rfl, rfl⟩
    · intro hobj
      obtain ⟨hc, htr⟩ := hno hobj
      subst hc htr
      rw [ht']
      exact ⟨rfl, rfl⟩
  · intro t
    rw [Framework.Draw_record_eq]
    rfl
  · exact Framework.OnResize_rebuild_currentFence
  · intro t
    rfl

/-- Witness for C8: the sample run after `Init` on the sample platform signals the
tickets 1 to 8. -/
theorem C8_witness :
    signalsOf sampleAfterRun.trace = List.range' 1 sampleAfterRun.m_currentFence ∧
    sampleReady.m_currentFence ≤ sampleAfterRun.m_currentFence ∧
    signalsOf sampleAfterRun.trace = [1, 2, 3, 4, 5, 6, 7, 8] :=
  ⟨(C8_fence_counter_monotonic sampleEnv 0 0 0 1280 720 sampleReady sampleAfterRun sampleOps
      rfl rfl).1,
    (C8_fence_counter_monotonic sampleEnv 0 0 0 1280 720 sampleReady sampleAfterRun sampleOps
      rfl rfl).2.1,
    rfl⟩

/-- C9: after a successful `Init`, every sequence of frames and resizes runs to
completion, whatever the GPU progress, and when the last operation returns
nothing submitted is still queued, the fence has reached the last ticket, no
`Reset` of the allocator or the list ever happened while a submitted list was
outstanding, and in the order of calls every `ExecuteCommandLists` (those of
`BuildBoxGeometry` and `OnResize` inside `Init` included) is followed by a
`FlushCommandQueue` before the next `Reset` and before the operation returns.
`BuildBoxGeometry` itself returns with an empty queue. -/
theorem C9_every_submission_flushed (env : Env) (kBox k1 k2 : Nat) (w h : Int)
    (s0 : Framework) (ops : List Op)
    (hinit : (Framework.new w h).Init env kBox k1 k2 = some s0) :
    ∃ s, s0.run ops = some s ∧
      s.queue = [] ∧
      s.gpu.fenceValue = s.m_currentFence ∧
      s.resetsInFlight = 0 ∧
      scanTrace s.trace = (true, false) ∧
      (∀ (k : Nat) (t : Framework), t.m_directCmdListAlloc = true → t.m_commandList = true →
        t.m_commandQueue = true → t.m_fence = true → t.m_fenceEvent = true → t.queue = [] →
        t.gpu.fenceValue ≤ t.m_currentFence →
        ∃ t', t.BuildBoxGeometry k = some t' ∧ t'.queue = [] ∧
          t'.resetsInFlight = t.resetsInFlight ∧
          t'.gpu.fenceValue = t'.m_currentFence) := by
  obtain ⟨hsync0, -⟩ := Framework.Init_synced env kBox k1 k2 w h s0 hinit
  obtain ⟨s, hs, hsync, -⟩ := Framework.run_synced ops s0 hsync0
  refine ⟨s, hs, hsync.idle, hsync.reached, hsync.noResetInFlight, hsync.flushed, ?_⟩
  intro k t h1 h2 h3 h4 h5 h6 h7
  refine ⟨_, Framework.BuildBoxGeometry_eq k t h1 h2 h3 h4 h5 h6 h7, rfl, ?_, rfl⟩
  simp [h6]

/-- Witness for C9: the sample run after `Init` on the sample platform. -/
theorem C9_witness :
    ∃ s, sampleReady.run sampleOps = some s ∧
      s.queue = [] ∧
      s.gpu.fenceValue = s.m_currentFence ∧
      s.resetsInFlight = 0 ∧
      scanTrace s.trace = (true, false) :=
  (C9_every_submission_flushed sampleEnv 0 0 0 1280 720 sampleReady sampleOps rfl).imp
    fun _ hs => ⟨hs.1, hs.2.1, hs.2.2.1, hs.2.2.2.1, hs.2.2.2.2.1⟩

/-- C10: after a successful `Init` on a device whose RTV increment is positive,
every sequence of frames and resizes runs to completion without a single hazard:
every executed transition barrier found its resource live and exactly in its
`StateBefore`, and every copy, clear, draw and present found its resources in the
state it needs. When the last operation returns, both back buffers are in the
`PRESENT` state, the depth buffer is in `DEPTH_WRITE`, the cube's vertex buffer
is in `VERTEX_AND_CONSTANT_BUFFER` and its index buffer in `INDEX_BUFFER`; the
next frame starts its command list with the `PRESENT -> RENDER_TARGET` barrier
of the current back buffer and ends it with the `RENDER_TARGET -> PRESENT` one,
and leaves every resource state as it found it. -/
theorem C10_resource_states_consistent (env : Env) (kBox k1 k2 : Nat) (w h : Int)
    (s0 : Framework) (ops : List Op)
    (hrtv : 0 < env.rtvDescriptorSize)
    (hinit : (Framework.new w h).Init env kBox k1 k2 = some s0) :
    ∃ s, s0.run ops = some s ∧
      s.gpu.hazards = 0 ∧
      (∃ b0 b1 d vb ib, s.m_swapChainBuffer = [some b0, some b1] ∧
        s.gpu.resources b0 = some D3D12_RESOURCE_STATE_PRESENT ∧
        s.gpu.resources b1 = some D3D12_RESOURCE_STATE_PRESENT ∧
        s.m_depthStencilBuffer = some d ∧
        s.gpu.resources d = some D3D12_RESOURCE_STATE_DEPTH_WRITE ∧
        s.m_boxVB = some vb ∧
        s.gpu.resources vb = some D3D12_RESOURCE_STATE_VERTEX_AND_CONSTANT_BUFFER ∧
        s.m_boxIB = some ib ∧
        s.gpu.resources ib = some D3D12_RESOURCE_STATE_INDEX_BUFFER) ∧
      (∀ k : Nat, ∃ s' b, s.Draw k = some s' ∧ s.CurrentBackBuffer = some b ∧
        s'.recording.head? = some (Cmd.ResourceBarrier (some b)
          D3D12_RESOURCE_STATE_PRESENT D3D12_RESOURCE_STATE_RENDER_TARGET) ∧
        s'.recording.getLast? = some (Cmd.ResourceBarrier (some b)
          D3D12_RESOURCE_STATE_RENDER_TARGET D3D12_RESOURCE_STATE_PRESENT) ∧
        s'.gpu.hazards = 0 ∧
        s'.gpu.resources = s.gpu.resources) := by
  have hready0 := Framework.Init_ready env kBox k1 k2 w h s0 hrtv hinit
  obtain ⟨s, hs, hready⟩ := Framework.run_ready ops s0 hready0
  refine ⟨s, hs, hready.noHazard, ?_, ?_⟩
  · obtain ⟨b0, b1, d, -, hbuf, -, hd, hr0, hr1, hrd, -, -, -, -, -, -⟩ := hready.buffers
    obtain ⟨vb, ib, m, hvb, -, hib, -, -, -, hrvb, hrib, -, -, -, -⟩ := hready.geometry
    exact ⟨b0, b1, d, vb, ib, hbuf, hr0, hr1, hd, hrd, hvb, hrvb, hib, hrib⟩
  · intro k
    obtain ⟨b, hcb, -, -, -⟩ := hready.current
    obtain ⟨rt, ds, vbv, ibv, hD⟩ := Framework.Draw_eq_of_ready k s hready
    refine ⟨_, b, hD, hcb, ?_, ?_, hready.noHazard, rfl⟩
    · show s.drawCommands.head? = _
      simp [Framework.drawCommands, hcb]
    · show s.drawCommands.getLast? = _
      by_cases hbr : (s.m_modelVB.isSome && decide (0 < s.m_modelVertexCount)) = true
      · simp [Framework.drawCommands, hcb, hbr]
      · have hbr' : (s.m_modelVB.isSome && decide (0 < s.m_modelVertexCount)) = false := by
          simpa using hbr
        simp only [Framework.drawCommands, hcb, hbr', Bool.false_eq_true, if_false]
        rfl

/-- Witness for C10: the sample run after `Init` on the sample platform ends
without a hazard. -/
theorem C10_witness :
    (0 < sampleEnv.rtvDescriptorSize) ∧
    ∃ s, sampleReady.run sampleOps = some s ∧ s.gpu.hazards = 0 :=
  ⟨by decide,
    (C10_resource_states_consistent sampleEnv 0 0 0 1280 720 sampleReady sampleOps
      (by decide) rfl).imp fun _ hs => ⟨hs.1, hs.2.1⟩⟩

/-! ### Resizing and the commands of a frame -/

/-- Releasing a list of resources only changes the resource table. -/
theorem Framework.foldl_destroy_eq (l : List Nat) (s : Framework) :
    l.foldl (fun s id => s.destroy (some id)) s =
      { s with gpu := { s.gpu with
          resources := l.foldl (fun r id => Function.update r id none) s.gpu.resources } } := by
  induction l generalizing s with
  | nil => rfl
  | cons a l ih =>
    rw [List.foldl_cons, ih]
    rfl

/-- The call `ResizeBuffers` as one update of the engine. -/
theorem Framework.ResizeBuffers_eq (s : Framework) :
    s.ResizeBuffers = { s with
      swapChainBuffers := [s.nextResource, s.nextResource + 1]
      swapChainIndex := 0
      nextResource := s.nextResource + 2
      gpu := { s.gpu with
        resources := Function.update (Function.update
          (s.swapChainBuffers.foldl (fun r id => Function.update r id none) s.gpu.resources)
          s.nextResource (some D3D12_RESOURCE_STATE_COMMON))
          (s.nextResource + 1) (some D3D12_RESOURCE_STATE_COMMON) }
      trace := s.trace ++ [Call.ResizeBuffers s.m_clientWidth s.m_clientHeight] } := by
  have hr : List.range SwapChainBufferCount = [0, 1] := rfl
  unfold Framework.ResizeBuffers
  rw [Framework.foldl_destroy_eq]
  simp [Framework.createResource, hr]

/-- The middle part of `OnResize` on any engine, as one update of the engine. -/
theorem Framework.OnResize_rebuild_shape (s : Framework) :
    ∃ g r, s.OnResize_rebuild = { s with
      m_swapChainBuffer :=
        (((s.m_swapChainBuffer.set 0 none).set 1 none).set 0 (some s.nextResource)).set 1
          (some (s.nextResource + 1))
      m_depthStencilBuffer := some (s.nextResource + 2)
      m_currBackBuffer := 0
      swapChainBuffers := [s.nextResource, s.nextResource + 1]
      swapChainIndex := 0
      rtvDescriptors :=
        Function.update (Function.update s.rtvDescriptors 0 (some s.nextResource))
          s.m_rtvDescriptorSize (some (s.nextResource + 1))
      dsvDescriptors := Function.update s.dsvDescriptors 0 (some (s.nextResource + 2))
      recording := [Cmd.ResourceBarrier (some (s.nextResource + 2))
        D3D12_RESOURCE_STATE_COMMON D3D12_RESOURCE_STATE_DEPTH_WRITE]
      queue := s.queue ++ [QueueItem.ExecuteCommandLists
        [Cmd.ResourceBarrier (some (s.nextResource + 2))
          D3D12_RESOURCE_STATE_COMMON D3D12_RESOURCE_STATE_DEPTH_WRITE]]
      nextResource := s.nextResource + 3
      resetsInFlight := r
      gpu := g
      trace := s.trace ++ [Call.AllocatorReset, Call.CommandListReset,
        Call.ReleaseBackBuffer 0, Call.ReleaseBackBuffer 1, Call.ReleaseDepthStencilBuffer,
        Call.ResizeBuffers s.m_clientWidth s.m_clientHeight,
        Call.GetBuffer 0, Call.CreateRenderTargetView 0 0,
        Call.GetBuffer 1, Call.CreateRenderTargetView 1 s.m_rtvDescriptorSize,
        Call.CreateDepthStencilBuffer s.m_clientWidth s.m_clientHeight,
        Call.CreateDepthStencilView, Call.CommandListClose, Call.ExecuteCommandLists] } := by
  have hr : List.range SwapChainBufferCount = [0, 1] := rfl
  refine ⟨s.OnResize_rebuild.gpu, s.OnResize_rebuild.resetsInFlight, ?_⟩
  simp only [Framework.OnResize_rebuild, Framework.ResizeBuffers_eq]
  rcases hd : s.m_depthStencilBuffer with _ | d <;>
  simp [Framework.allocatorReset,
    Framework.commandListReset, Framework.commandListClose, Framework.call,
    Framework.executeCommandLists, Framework.record, Framework.destroy,
    Framework.createResource, Framework.DepthStencilView, hr, hd, Nat.add_assoc]


/-- The null-object guard of `OnResize` fires when one of its five objects is
missing. -/
theorem guard_of_not (a b c d e : Bool)
    (hn : ¬ (a = true ∧ b = true ∧ c = true ∧ d = true ∧ e = true)) :
    (!a || !b || !c || !d || !e) = true := by
  revert hn
  cases a <;> cases b <;> cases c <;> cases d <;> cases e <;> simp

/-- A completed `OnResize` that passed its guard found both descriptor heaps and
is the first flush, the rebuild, the second flush and the viewport update. -/
theorem Framework.OnResize_some (k1 k2 : Nat) (s s' : Framework)
    (hdev : s.m_device = true) (hsc : s.m_swapChain = true) (hq : s.m_commandQueue = true)
    (ha : s.m_directCmdListAlloc = true) (hl : s.m_commandList = true)
    (h : s.OnResize k1 k2 = some s') :
    s.m_rtvHeap = true ∧ s.m_dsvHeap = true ∧
    ∃ S1 S2, s.FlushCommandQueue k1 = some S1 ∧
      S1.OnResize_rebuild.FlushCommandQueue k2 = some S2 ∧ s' = S2.OnResize_viewport := by
  unfold Framework.OnResize at h
  simp only [hdev, hsc, hq, ha, hl, Bool.not_true, Bool.or_self, Bool.false_eq_true,
    if_false] at h
  by_cases hh : (!s.m_rtvHeap || !s.m_dsvHeap) = true
  · rw [if_pos hh] at h
    cases h
  · rw [if_neg hh] at h
    have hh2 : s.m_rtvHeap = true ∧ s.m_dsvHeap = true := by
      cases h1 : s.m_rtvHeap <;> cases h2 : s.m_dsvHeap <;> simp_all
    obtain ⟨S2, hS2, hv⟩ := Option.map_eq_some'.mp h
    obtain ⟨S1, hS1, hS12⟩ := Option.bind_eq_some.mp hS2
    exact ⟨hh2.1, hh2.2, S1, S2, hS1, hS12, hv.symm⟩

/-- C11: an `OnResize` call whose null-object guard fails returns at once and
changes nothing. A call that passes the guard and completes makes exactly these
calls, in this order: (1) `FlushCommandQueue` (with its `Signal` when queue,
fence and event exist); the `Reset` of the allocator and of the list; (2) the
release of back buffer 0, of back buffer 1 and of the depth buffer; (3)
`ResizeBuffers` with the client size; (4) `GetBuffer` and
`CreateRenderTargetView` for buffer 0 and then for buffer 1, the creation of a
new depth resource and its `CreateDepthStencilView`; (5) `Close`,
`ExecuteCommandLists` and `FlushCommandQueue` for a list whose only command is
the `COMMON -> DEPTH_WRITE` transition of the new depth resource; (6) the
viewport and then the scissor rectangle. An engine that is synced (any engine
between two operations after `Init`) completes the call. -/
theorem C11_resize_steps_in_order (k1 k2 : Nat) (s s' : Framework)
    (hdev : s.m_device = true) (hsc : s.m_swapChain = true) (hq : s.m_commandQueue = true)
    (ha : s.m_directCmdListAlloc = true) (hl : s.m_commandList = true)
    (h : s.OnResize k1 k2 = some s') :
    (∃ t1 t2 : List Call,
      (t1 = [Call.FlushCommandQueue] ∨ ∃ v, t1 = [Call.FlushCommandQueue, Call.Signal v]) ∧
      (t2 = [Call.FlushCommandQueue] ∨ ∃ v, t2 = [Call.FlushCommandQueue, Call.Signal v]) ∧
      s'.trace = s.trace ++ t1 ++
        [Call.AllocatorReset, Call.CommandListReset,
          Call.ReleaseBackBuffer 0, Call.ReleaseBackBuffer 1, Call.ReleaseDepthStencilBuffer,
          Call.ResizeBuffers s.m_clientWidth s.m_clientHeight,
          Call.GetBuffer 0, Call.CreateRenderTargetView 0 0,
          Call.GetBuffer 1, Call.CreateRenderTargetView 1 s.m_rtvDescriptorSize,
          Call.CreateDepthStencilBuffer s.m_clientWidth s.m_clientHeight,
          Call.CreateDepthStencilView, Call.CommandListClose, Call.ExecuteCommandLists] ++
        t2 ++ [Call.SetViewport, Call.SetScissorRect]) ∧
    s'.m_depthStencilBuffer = some (s.nextResource + 2) ∧
    s'.recording = [Cmd.ResourceBarrier s'.m_depthStencilBuffer
      D3D12_RESOURCE_STATE_COMMON D3D12_RESOURCE_STATE_DEPTH_WRITE] ∧
    (∀ (j1 j2 : Nat) (t : Framework),
      ¬ (t.m_device = true ∧ t.m_swapChain = true ∧ t.m_commandQueue = true ∧
        t.m_directCmdListAlloc = true ∧ t.m_commandList = true) →
      t.OnResize j1 j2 = some t) ∧
    (∀ (j1 j2 : Nat) (t : Framework), Synced t → ∃ t', t.OnResize j1 j2 = some t') := by
  obtain ⟨-, -, S1, S2, hS1, hS2, hv⟩ := Framework.OnResize_some k1 k2 s s' hdev hsc hq ha hl h
  obtain ⟨c1, q1, g1, t1, e1, y1, n1⟩ := Framework.FlushCommandQueue_shape k1 s S1 hS1
  obtain ⟨g, r, hreb⟩ := Framework.OnResize_rebuild_shape S1
  obtain ⟨c2, q2, g2, t2, e2, y2, n2⟩ :=
    Framework.FlushCommandQueue_shape k2 S1.OnResize_rebuild S2 hS2
  have ht : ∀ (t : Framework) (c : Nat) (tr : List Call),
      ((t.m_commandQueue = true ∧ t.m_fence = true ∧ t.m_fenceEvent = true) →
        c = t.m_currentFence + 1 ∧
        tr = [Call.FlushCommandQueue, Call.Signal (t.m_currentFence + 1)]) →
      (¬ (t.m_commandQueue = true ∧ t.m_fence = true ∧ t.m_fenceEvent = true) →
        c = t.m_currentFence ∧ tr = [Call.FlushCommandQueue]) →
      (tr = [Call.FlushCommandQueue] ∨ ∃ v, tr = [Call.FlushCommandQueue, Call.Signal v]) := by
    intro t c tr hy hn
    by_cases hobj : t.m_commandQueue = true ∧ t.m_fence = true ∧ t.m_fenceEvent = true
    · exact Or.inr ⟨_, (hy hobj).2⟩
    · exact Or.inl (hn hobj).2
  refine ⟨⟨t1, t2, ht _ _ _ y1 n1, ht _ _ _ y2 n2, ?_⟩, ?_, ?_, ?_, ?_⟩
  · rw [hv, e2, hreb, e1]
    simp [Framework.OnResize_viewport]
  · rw [hv, e2, hreb, e1]
    rfl
  · rw [hv, e2, hreb, e1]
    rfl
  · intro j1 j2 t hn
    unfold Framework.OnResize
    rw [if_pos (guard_of_not _ _ _ _ _ hn)]
  · intro j1 j2 t hsync
    obtain ⟨t', ht', -, -⟩ := Framework.OnResize_synced j1 j2 t hsync
    exact ⟨t', ht'⟩


/-- The conversion to `float` keeps every integer of magnitude at most `2 ^ 24`. -/
theorem intToFloat_eq (n : Int) (h : n.natAbs ≤ 2 ^ 24) : intToFloat n = n := by
  have key : ∀ m : Nat, m ≤ 2 ^ 24 → natToFloat m = m := by
    intro m hm
    rcases Nat.lt_or_ge m (2 ^ 24) with hlt | hge
    · unfold natToFloat
      rw [if_pos hlt]
    · have : m = 2 ^ 24 := Nat.le_antisymm hm hge
      subst this
      decide
  unfold intToFloat
  by_cases h0 : 0 ≤ n
  · rw [if_pos h0, key n.toNat (by omega)]
    omega
  · rw [if_neg h0, key (-n).toNat (by omega)]
    omega

/-- Above `2 ^ 24` the conversion to `float` rounds: `16777217` becomes `16777216`. -/
theorem intToFloat_rounds : intToFloat 16777217 = 16777216 := by
  decide


/-- In a ready engine every resource that the commands of the next frame refer to
is a live resource. -/
theorem Ready.drawCommands_live {s : Framework} (h : Ready s) :
    ∀ c ∈ s.drawCommands, ∀ r ∈ c.resources, ∃ x, r = some x ∧ s.gpu.resources x ≠ none := by
  obtain ⟨b, hcb, hview, -, hrb⟩ := h.current
  obtain ⟨b0, b1, d, -, -, -, -, -, -, hrd, -, -, hvd, -, -, -⟩ := h.buffers
  obtain ⟨vb, ib, m, -, hvbv, -, hibv, hm, hmv, hrvb, hrib, hrm, -, -, -⟩ := h.geometry
  by_cases hbr : (s.m_modelVB.isSome && decide (0 < s.m_modelVertexCount)) = true
  · simp [Framework.drawCommands, hbr, hcb, hview, hvd, hmv, Framework.DepthStencilView,
      Cmd.resources, hrb, hrd, hrm]
  · have hbr' : (s.m_modelVB.isSome && decide (0 < s.m_modelVertexCount)) = false := by
      simpa using hbr
    simp only [Framework.drawCommands, hbr', Bool.false_eq_true, if_false]
    simp [hcb, hview, hvd, hvbv, hibv, Framework.DepthStencilView,
      Cmd.resources, hrb, hrd, hrvb, hrib]

/-- Witness for C11: the resize to 1920 x 1080 on the sample platform. -/
theorem C11_witness :
    ∃ t1 t2 : List Call,
      (t1 = [Call.FlushCommandQueue] ∨ ∃ v, t1 = [Call.FlushCommandQueue, Call.Signal v]) ∧
      (t2 = [Call.FlushCommandQueue] ∨ ∃ v, t2 = [Call.FlushCommandQueue, Call.Signal v]) ∧
      sampleResized.trace = sampleBeforeResize.trace ++ t1 ++
        [Call.AllocatorReset, Call.CommandListReset,
          Call.ReleaseBackBuffer 0, Call.ReleaseBackBuffer 1, Call.ReleaseDepthStencilBuffer,
          Call.ResizeBuffers sampleBeforeResize.m_clientWidth sampleBeforeResize.m_clientHeight,
          Call.GetBuffer 0, Call.CreateRenderTargetView 0 0,
          Call.GetBuffer 1,
          Call.CreateRenderTargetView 1 sampleBeforeResize.m_rtvDescriptorSize,
          Call.CreateDepthStencilBuffer sampleBeforeResize.m_clientWidth
            sampleBeforeResize.m_clientHeight,
          Call.CreateDepthStencilView, Call.CommandListClose, Call.ExecuteCommandLists] ++
        t2 ++ [Call.SetViewport, Call.SetScissorRect] :=
  (C11_resize_steps_in_order 0 2 sampleBeforeResize sampleResized rfl rfl rfl rfl rfl rfl).1

/-- What a completed `OnResize` that passed its guard leaves behind: the client
size is unchanged, the viewport holds the client size converted to `float`, the
scissor rectangle holds the client size, and the depth-buffer handle is a
resource created in this call. -/
theorem Framework.OnResize_client_size (k1 k2 : Nat) (s s' : Framework)
    (hdev : s.m_device = true) (hsc : s.m_swapChain = true) (hq : s.m_commandQueue = true)
    (ha : s.m_directCmdListAlloc = true) (hl : s.m_commandList = true)
    (h : s.OnResize k1 k2 = some s') :
    s'.m_clientWidth = s.m_clientWidth ∧ s'.m_clientHeight = s.m_clientHeight ∧
    s'.m_screenViewport =
      ⟨0, 0, intToFloat s.m_clientWidth, intToFloat s.m_clientHeight, 0, 1⟩ ∧
    (s.m_clientWidth.natAbs ≤ 2 ^ 24 → s.m_clientHeight.natAbs ≤ 2 ^ 24 →
      s'.m_screenViewport = ⟨0, 0, s.m_clientWidth, s.m_clientHeight, 0, 1⟩) ∧
    s'.m_scissorRect = ⟨0, 0, s.m_clientWidth, s.m_clientHeight⟩ ∧
    s'.m_depthStencilBuffer = some (s.nextResource + 2) ∧
    s.nextResource + 2 < s'.nextResource ∧
    Call.CreateDepthStencilBuffer s.m_clientWidth s.m_clientHeight ∈
      s'.trace.drop s.trace.length := by
  obtain ⟨-, -, S1, S2, hS1, hS2, hv⟩ := Framework.OnResize_some k1 k2 s s' hdev hsc hq ha hl h
  obtain ⟨c1, q1, g1, t1, e1, y1, n1⟩ := Framework.FlushCommandQueue_shape k1 s S1 hS1
  obtain ⟨g, r, hreb⟩ := Framework.OnResize_rebuild_shape S1
  obtain ⟨c2, q2, g2, t2, e2, y2, n2⟩ :=
    Framework.FlushCommandQueue_shape k2 S1.OnResize_rebuild S2 hS2
  have hvp : s'.m_screenViewport =
      ⟨0, 0, intToFloat s.m_clientWidth, intToFloat s.m_clientHeight, 0, 1⟩ := by
    rw [hv, e2, hreb, e1]
    rfl
  refine ⟨?_, ?_, hvp, ?_, ?_, ?_, ?_, ?_⟩
  · rw [hv, e2, hreb, e1]
    rfl
  · rw [hv, e2, hreb, e1]
    rfl
  · intro hw hh
    rw [hvp, intToFloat_eq _ hw, intToFloat_eq _ hh]
  · rw [hv, e2, hreb, e1]
    rfl
  · rw [hv, e2, hreb, e1]
    rfl
  · rw [hv, e2, hreb, e1]
    show s.nextResource + 2 < s.nextResource + 3
    omega
  · rw [hv, e2, hreb, e1]
    simp [Framework.OnResize_viewport]

/-- C12: after an `OnResize` that passed its guard and completed with the client
size `(w, h)`, the client size is unchanged, the viewport is
`{0, 0, (float)w, (float)h, 0, 1}`, which is exactly `{0, 0, w, h, 0, 1}` for
every size of magnitude at most `2 ^ 24`, the scissor rectangle is
`(0, 0, w, h)`, and the depth-buffer handle is a resource created in this call by
the `w x h` depth-buffer creation that the call made. Every client size that a
`WM_SIZE` message stores, `LOWORD(lParam)` by `HIWORD(lParam)`, is below
`2 ^ 16`, so that after the `OnResize` for it the viewport is exactly
`{0, 0, w, h, 0, 1}` and the scissor rectangle `(0, 0, w, h)`. -/
theorem C12_resize_viewport_and_scissor (k1 k2 : Nat) (s s' : Framework)
    (hdev : s.m_device = true) (hsc : s.m_swapChain = true) (hq : s.m_commandQueue = true)
    (ha : s.m_directCmdListAlloc = true) (hl : s.m_commandList = true)
    (h : s.OnResize k1 k2 = some s') :
    s'.m_clientWidth = s.m_clientWidth ∧ s'.m_clientHeight = s.m_clientHeight ∧
    s'.m_screenViewport =
      ⟨0, 0, intToFloat s.m_clientWidth, intToFloat s.m_clientHeight, 0, 1⟩ ∧
    (s.m_clientWidth.natAbs ≤ 2 ^ 24 → s.m_clientHeight.natAbs ≤ 2 ^ 24 →
      s'.m_screenViewport = ⟨0, 0, s.m_clientWidth, s.m_clientHeight, 0, 1⟩) ∧
    s'.m_scissorRect = ⟨0, 0, s.m_clientWidth, s.m_clientHeight⟩ ∧
    s'.m_depthStencilBuffer = some (s.nextResource + 2) ∧
    s.nextResource + 2 < s'.nextResource ∧
    Call.CreateDepthStencilBuffer s.m_clientWidth s.m_clientHeight ∈
      s'.trace.drop s.trace.length ∧
    (∀ (lParam j1 j2 : Nat) (t t' : Framework),
      t.m_device = true → t.m_swapChain = true → t.m_commandQueue = true →
      t.m_directCmdListAlloc = true → t.m_commandList = true →
      (t.WM_SIZE_store lParam).OnResize j1 j2 = some t' →
      t'.m_screenViewport = ⟨0, 0, (LOWORD lParam : Int), (HIWORD lParam : Int), 0, 1⟩ ∧
      t'.m_scissorRect = ⟨0, 0, (LOWORD lParam : Int), (HIWORD lParam : Int)⟩) := by
  obtain ⟨h1, h2, h3, h4, h5, h6, h7, h8⟩ :=
    Framework.OnResize_client_size k1 k2 s s' hdev hsc hq ha hl h
  refine ⟨h1, h2, h3, h4, h5, h6, h7, h8, ?_⟩
  intro lParam j1 j2 t t' tdev tsc tq ta tl ht
  obtain ⟨-, -, -, g4, g5, -, -, -⟩ :=
    Framework.OnResize_client_size j1 j2 (t.WM_SIZE_store lParam) t' tdev tsc tq ta tl ht
  have hlo : ((LOWORD lParam : Nat) : Int).natAbs ≤ 2 ^ 24 := by
    have : LOWORD lParam < 2 ^ 16 := Nat.mod_lt _ (by norm_num)
    rw [Int.natAbs_ofNat]
    exact le_trans (le_of_lt this) (by norm_num)
  have hhi : ((HIWORD lParam : Nat) : Int).natAbs ≤ 2 ^ 24 := by
    have : HIWORD lParam < 2 ^ 16 := Nat.mod_lt _ (by norm_num)
    rw [Int.natAbs_ofNat]
    exact le_trans (le_of_lt this) (by norm_num)
  exact ⟨g4 hlo hhi, g5⟩

/-- Witness for C12: constructed with 1280 x 720 and initialised on the sample
platform, then resized to 1920 x 1080: the viewport has width 1920, height 1080,
depth range 0 to 1, and the scissor rectangle is (0, 0, 1920, 1080). -/
theorem C12_witness :
    sampleReady = ((Framework.new 1280 720).Init sampleEnv 0 0 0).getD (Framework.new 1280 720) ∧
    sampleBeforeResize.m_clientWidth = 1920 ∧ sampleBeforeResize.m_clientHeight = 1080 ∧
    sampleBeforeResize.OnResize 0 2 = some sampleResized ∧
    sampleResized.m_screenViewport = ⟨0, 0, 1920, 1080, 0, 1⟩ ∧
    sampleResized.m_scissorRect = ⟨0, 0, 1920, 1080⟩ :=
  ⟨rfl, rfl, rfl, rfl,
    (C12_resize_viewport_and_scissor 0 2 sampleBeforeResize sampleResized rfl rfl rfl rfl rfl
      rfl).2.2.2.1 (by decide) (by decide),
    (C12_resize_viewport_and_scissor 0 2 sampleBeforeResize sampleResized rfl rfl rfl rfl rfl
      rfl).2.2.2.2.1⟩


/-- C13: after `Init` on a device with a positive RTV increment and any run of
frames and resizes, a completed `OnResize` leaves in both back-buffer slots and
in the depth-buffer slot resources created in this very call (the identities
`nextResource`, `nextResource + 1`, `nextResource + 2`); every handle held before
the call is an older resource, live before the call and released by it; in
the order of calls `GetBuffer` and the depth-buffer creation follow
`ResizeBuffers`; both render-target views and the depth-stencil view refer to the
new resources, which are live; and the next `Draw` completes without a hazard,
starts with the barrier on the new current back buffer, binds the new
render-target and depth-stencil views, and refers to live resources only. -/
theorem C13_resize_then_draw_uses_new_buffers (env : Env) (kBox k1 k2 : Nat) (w h : Int)
    (s0 s s' : Framework) (ops : List Op) (j1 j2 : Nat)
    (hrtv : 0 < env.rtvDescriptorSize)
    (hinit : (Framework.new w h).Init env kBox k1 k2 = some s0)
    (hrun : s0.run ops = some s)
    (hres : s.OnResize j1 j2 = some s') :
    s'.m_swapChainBuffer = [some s.nextResource, some (s.nextResource + 1)] ∧
    s'.m_depthStencilBuffer = some (s.nextResource + 2) ∧
    (∀ x, (some x ∈ s.m_swapChainBuffer ∨ s.m_depthStencilBuffer = some x) →
      x < s.nextResource ∧ s.gpu.resources x ≠ none ∧ s'.gpu.resources x = none) ∧
    s'.trace = s.trace ++ [Call.FlushCommandQueue, Call.Signal (s.m_currentFence + 1),
      Call.AllocatorReset, Call.CommandListReset,
      Call.ReleaseBackBuffer 0, Call.ReleaseBackBuffer 1, Call.ReleaseDepthStencilBuffer,
      Call.ResizeBuffers s.m_clientWidth s.m_clientHeight,
      Call.GetBuffer 0, Call.CreateRenderTargetView 0 0,
      Call.GetBuffer 1, Call.CreateRenderTargetView 1 s.m_rtvDescriptorSize,
      Call.CreateDepthStencilBuffer s.m_clientWidth s.m_clientHeight,
      Call.CreateDepthStencilView, Call.CommandListClose, Call.ExecuteCommandLists,
      Call.FlushCommandQueue, Call.Signal (s.m_currentFence + 2),
      Call.SetViewport, Call.SetScissorRect] ∧
    s'.rtvDescriptors 0 = some s.nextResource ∧
    s'.rtvDescriptors s'.m_rtvDescriptorSize = some (s.nextResource + 1) ∧
    s'.dsvDescriptors s'.DepthStencilView = some (s.nextResource + 2) ∧
    s'.gpu.resources s.nextResource = some D3D12_RESOURCE_STATE_PRESENT ∧
    s'.gpu.resources (s.nextResource + 1) = some D3D12_RESOURCE_STATE_PRESENT ∧
    s'.gpu.resources (s.nextResource + 2) = some D3D12_RESOURCE_STATE_DEPTH_WRITE ∧
    s'.CurrentBackBuffer = some s.nextResource ∧
    s'.CurrentBackBufferView = 0 ∧
    (∀ k : Nat, ∃ s'', s'.Draw k = some s'' ∧ s''.gpu.hazards = 0 ∧
      s''.recording = s'.Draw_record.recording ∧
      s''.recording.head? = some (Cmd.ResourceBarrier (some s.nextResource)
        D3D12_RESOURCE_STATE_PRESENT D3D12_RESOURCE_STATE_RENDER_TARGET) ∧
      Cmd.OMSetRenderTargets 0 (some s.nextResource) 0 (some (s.nextResource + 2)) ∈
        s''.recording ∧
      (∀ c ∈ s''.recording, ∀ r ∈ c.resources,
        ∃ x, r = some x ∧ s'.gpu.resources x ≠ none)) := by
  have hready0 := Framework.Init_ready env kBox k1 k2 w h s0 hrtv hinit
  obtain ⟨s1, hs1, hready⟩ := Framework.run_ready ops s0 hready0
  rw [hrun] at hs1
  cases hs1
  obtain ⟨b0, b1, d, hscb, hbuf, -, hd, hr0, hr1, hrd, -, -, -, hlt0, hlt1, hltd⟩ :=
    hready.buffers
  have heq := Framework.OnResize_eq_of_synced j1 j2 s hready.synced_of_ready b0 b1
    (some b0) (some b1) (some d) hscb hbuf hd
  obtain ⟨s1', h1', hready', -⟩ := Framework.OnResize_resizable j1 j2 s hready.resizable
  rw [hres] at h1'
  cases h1'
  rw [hres] at heq
  have hs' := Option.some.inj heq
  have hcb : s'.CurrentBackBuffer = some s.nextResource := by
    rw [hs']
    simp [Framework.CurrentBackBuffer]
  have hcv : s'.CurrentBackBufferView = 0 := by
    rw [hs']
    simp [Framework.CurrentBackBufferView]
  obtain ⟨-, -, d', -, -, -, hd', -, -, -, hv0, hv1, hvd, -, -, -⟩ := hready'.buffers
  have hdsv : s'.dsvDescriptors s'.DepthStencilView = some (s.nextResource + 2) := by
    rw [hs']
    simp [Framework.DepthStencilView]
  refine ⟨by rw [hs'], by rw [hs'], ?_, by rw [hs'], ?_, ?_, hdsv, ?_, ?_, ?_, hcb, hcv, ?_⟩
  · intro x hx
    have hx' : x = b0 ∨ x = b1 ∨ x = d := by
      rcases hx with hx | hx
      · rw [hbuf] at hx
        simp at hx
        rcases hx with hx | hx
        · exact Or.inl hx
        · exact Or.inr (Or.inl hx)
      · rw [hd] at hx
        exact Or.inr (Or.inr (Option.some.inj hx).symm)
    have hlt : x < s.nextResource := by
      rcases hx' with hx' | hx' | hx' <;> rw [hx'] <;> assumption
    have hlive : s.gpu.resources x ≠ none := by
      rcases hx' with hx' | hx' | hx' <;> rw [hx'] <;> simp [hr0, hr1, hrd]
    refine ⟨hlt, hlive, ?_⟩
    have e1 : x ≠ s.nextResource + 2 := by omega
    have e2 : x ≠ s.nextResource + 1 := by omega
    have e3 : x ≠ s.nextResource := by omega
    rw [hs']
    rcases hx' with hx' | hx' | hx' <;> subst hx' <;>
      simp [Function.update_apply, Framework.destroy, e1, e2, e3]
  · rw [hs']
    have e4 : (0 : Nat) ≠ s.m_rtvDescriptorSize := Nat.ne_of_lt hready.rtvSize
    simp [Function.update_apply, e4]
  · rw [hs']
    simp
  · rw [hs']
    simp [Function.update_apply, D3D12_RESOURCE_STATE_COMMON, D3D12_RESOURCE_STATE_PRESENT]
  · rw [hs']
    simp [Function.update_apply, D3D12_RESOURCE_STATE_COMMON, D3D12_RESOURCE_STATE_PRESENT]
  · rw [hs']
    simp [Function.update_apply]
  · intro k
    obtain ⟨rt, ds, vbv, ibv, hD⟩ := Framework.Draw_eq_of_ready k s' hready'
    refine ⟨_, hD, hready'.noHazard, ?_, ?_, ?_, hready'.drawCommands_live⟩
    · rw [Framework.Draw_record_eq]
    · show s'.drawCommands.head? = _
      simp [Framework.drawCommands, hcb]
    · show _ ∈ s'.drawCommands
      have hrv : s'.rtvDescriptors 0 = some s.nextResource := by
        rw [hs']
        have e4 : (0 : Nat) ≠ s.m_rtvDescriptorSize := Nat.ne_of_lt hready.rtvSize
        simp [Function.update_apply, e4]
      have hdsv0 : s'.dsvDescriptors 0 = some (s.nextResource + 2) := hdsv
      simp [Framework.drawCommands, hcv, hrv, hdsv0, Framework.DepthStencilView]


/-- Witness for C13: the resize to 1920 x 1080 on the sample platform; the new
back buffers are the resources 10 and 11 and the new depth buffer is 12. -/
theorem C13_witness :
    (0 < sampleEnv.rtvDescriptorSize) ∧
    sampleResized.m_swapChainBuffer =
      [some sampleBeforeResize.nextResource, some (sampleBeforeResize.nextResource + 1)] ∧
    sampleResized.m_depthStencilBuffer = some (sampleBeforeResize.nextResource + 2) ∧
    sampleBeforeResize.nextResource = 10 :=
  ⟨by decide,
    (C13_resize_then_draw_uses_new_buffers sampleEnv 0 0 0 1280 720 sampleReady
      sampleBeforeResize sampleResized sampleResizeOps 0 2 (by decide) rfl rfl rfl).1,
    (C13_resize_then_draw_uses_new_buffers sampleEnv 0 0 0 1280 720 sampleReady
      sampleBeforeResize sampleResized sampleResizeOps 0 2 (by decide) rfl rfl rfl).2.1,
    rfl⟩

/-- The commands of a frame that finds no model: the cube's vertex and index
buffers and one indexed draw. -/
theorem Framework.Draw_record_cube (s : Framework)
    (hm : ¬ (s.m_modelVB.isSome = true ∧ 0 < s.m_modelVertexCount)) :
    s.Draw_record.recording =
      [Cmd.ResourceBarrier s.CurrentBackBuffer D3D12_RESOURCE_STATE_PRESENT
          D3D12_RESOURCE_STATE_RENDER_TARGET,
        Cmd.RSSetViewports s.m_screenViewport,
        Cmd.RSSetScissorRects s.m_scissorRect,
        Cmd.SetGraphicsRootSignature,
        Cmd.SetDescriptorHeaps,
        Cmd.SetGraphicsRootDescriptorTable,
        Cmd.OMSetRenderTargets s.CurrentBackBufferView
          (s.rtvDescriptors s.CurrentBackBufferView)
          s.DepthStencilView (s.dsvDescriptors s.DepthStencilView),
        Cmd.ClearRenderTargetView s.CurrentBackBufferView
          (s.rtvDescriptors s.CurrentBackBufferView),
        Cmd.ClearDepthStencilView s.DepthStencilView (s.dsvDescriptors s.DepthStencilView),
        Cmd.IASetPrimitiveTopology,
        Cmd.IASetVertexBuffers s.m_boxVBView.BufferLocation,
        Cmd.IASetIndexBuffer s.m_boxIBView.BufferLocation,
        Cmd.DrawIndexedInstanced s.m_boxIndexCount,
        Cmd.ResourceBarrier s.CurrentBackBuffer D3D12_RESOURCE_STATE_RENDER_TARGET
          D3D12_RESOURCE_STATE_PRESENT] := by
  have hbr : (s.m_modelVB.isSome && decide (0 < s.m_modelVertexCount)) = false := by
    cases h1 : s.m_modelVB.isSome
    · rfl
    · simp only [Bool.true_and, decide_eq_false_iff_not]
      exact fun h2 => hm ⟨h1, h2⟩
  rw [Framework.Draw_record_eq]
  simp only [Framework.drawCommands, hbr, Bool.false_eq_true, if_false]
  rfl

/-- The commands of a frame that finds a model: its vertex buffer and one
non-indexed draw, and no indexed draw. -/
theorem Framework.Draw_record_model (s : Framework)
    (hm : s.m_modelVB.isSome = true ∧ 0 < s.m_modelVertexCount) :
    Cmd.DrawInstanced s.m_modelVertexCount ∈ s.Draw_record.recording ∧
    ∀ n, Cmd.DrawIndexedInstanced n ∉ s.Draw_record.recording := by
  have hbr : (s.m_modelVB.isSome && decide (0 < s.m_modelVertexCount)) = true := by
    simp [hm.1, hm.2]
  rw [Framework.Draw_record_eq]
  simp [Framework.drawCommands, hbr]

/-- C14: for every `Draw` call the commands recorded between the `Reset` and the
`Close` of the list are, in this order: the `PRESENT -> RENDER_TARGET` barrier of
the current back buffer, viewport, scissor rectangle, root signature, descriptor
heaps, root descriptor table, render-target and depth-stencil binding,
render-target clear, depth-stencil clear, primitive topology, then for the model
its vertex buffer and one `DrawInstanced`, or for the cube its vertex buffer, its
index buffer and one `DrawIndexedInstanced`, and last the
`RENDER_TARGET -> PRESENT` barrier of the current back buffer. The list is closed
and submitted once: recording makes the calls `Reset`, `Reset`, `Close`,
`ExecuteCommandLists`, the submitted item holds exactly these commands, and a
completed `Draw` has made exactly one `ExecuteCommandLists` call. On a synced
engine, which is every engine reached from a completed `Init` by any run, the
`Draw` call completes, whatever the GPU progress: its list holds exactly these
commands, it made exactly the calls `Reset`, `Reset`, `Close`,
`ExecuteCommandLists`, `Present`, `FlushCommandQueue`, `Signal`, and the queue has
executed the list, the present and the signal and is empty. -/
theorem C14_draw_command_sequence (s : Framework) :
    (s.m_modelVB.isSome = true ∧ 0 < s.m_modelVertexCount →
      s.Draw_record.recording =
        [Cmd.ResourceBarrier s.CurrentBackBuffer D3D12_RESOURCE_STATE_PRESENT
            D3D12_RESOURCE_STATE_RENDER_TARGET,
          Cmd.RSSetViewports s.m_screenViewport,
          Cmd.RSSetScissorRects s.m_scissorRect,
          Cmd.SetGraphicsRootSignature,
          Cmd.SetDescriptorHeaps,
          Cmd.SetGraphicsRootDescriptorTable,
          Cmd.OMSetRenderTargets s.CurrentBackBufferView
            (s.rtvDescriptors s.CurrentBackBufferView)
            s.DepthStencilView (s.dsvDescriptors s.DepthStencilView),
          Cmd.ClearRenderTargetView s.CurrentBackBufferView
            (s.rtvDescriptors s.CurrentBackBufferView),
          Cmd.ClearDepthStencilView s.DepthStencilView (s.dsvDescriptors s.DepthStencilView),
          Cmd.IASetPrimitiveTopology,
          Cmd.IASetVertexBuffers s.m_modelVBV.BufferLocation,
          Cmd.DrawInstanced s.m_modelVertexCount,
          Cmd.ResourceBarrier s.CurrentBackBuffer D3D12_RESOURCE_STATE_RENDER_TARGET
            D3D12_RESOURCE_STATE_PRESENT]) ∧
    (¬ (s.m_modelVB.isSome = true ∧ 0 < s.m_modelVertexCount) →
      s.Draw_record.recording =
        [Cmd.ResourceBarrier s.CurrentBackBuffer D3D12_RESOURCE_STATE_PRESENT
            D3D12_RESOURCE_STATE_RENDER_TARGET,
          Cmd.RSSetViewports s.m_screenViewport,
          Cmd.RSSetScissorRects s.m_scissorRect,
          Cmd.SetGraphicsRootSignature,
          Cmd.SetDescriptorHeaps,
          Cmd.SetGraphicsRootDescriptorTable,
          Cmd.OMSetRenderTargets s.CurrentBackBufferView
            (s.rtvDescriptors s.CurrentBackBufferView)
            s.DepthStencilView (s.dsvDescriptors s.DepthStencilView),
          Cmd.ClearRenderTargetView s.CurrentBackBufferView
            (s.rtvDescriptors s.CurrentBackBufferView),
          Cmd.ClearDepthStencilView s.DepthStencilView (s.dsvDescriptors s.DepthStencilView),
          Cmd.IASetPrimitiveTopology,
          Cmd.IASetVertexBuffers s.m_boxVBView.BufferLocation,
          Cmd.IASetIndexBuffer s.m_boxIBView.BufferLocation,
          Cmd.DrawIndexedInstanced s.m_boxIndexCount,
          Cmd.ResourceBarrier s.CurrentBackBuffer D3D12_RESOURCE_STATE_RENDER_TARGET
            D3D12_RESOURCE_STATE_PRESENT]) ∧
    s.Draw_record.queue =
      s.queue ++ [QueueItem.ExecuteCommandLists s.Draw_record.recording] ∧
    s.Draw_record.trace = s.trace ++ [Call.AllocatorReset, Call.CommandListReset,
      Call.CommandListClose, Call.ExecuteCommandLists] ∧
    (∀ (k : Nat) (s' : Framework), s.Draw k = some s' →
      s'.recording = s.Draw_record.recording ∧
      ∃ calls, s'.trace = s.trace ++ [Call.AllocatorReset, Call.CommandListReset,
          Call.CommandListClose, Call.ExecuteCommandLists, Call.Present] ++ calls ∧
        calls.count Call.ExecuteCommandLists = 0) ∧
    (Synced s → ∀ k : Nat, ∃ s', s.Draw k = some s' ∧
      s'.recording = s.Draw_record.recording ∧
      s'.trace = s.trace ++ [Call.AllocatorReset, Call.CommandListReset,
        Call.CommandListClose, Call.ExecuteCommandLists, Call.Present,
        Call.FlushCommandQueue, Call.Signal (s.m_currentFence + 1)] ∧
      (s'.trace.drop s.trace.length).count Call.ExecuteCommandLists = 1 ∧
      s'.queue = [] ∧
      s'.gpu = gpuRunAll
        [QueueItem.ExecuteCommandLists s.Draw_record.recording,
          QueueItem.Present s.swapChainBuffers[s.swapChainIndex]?,
          QueueItem.Signal (s.m_currentFence + 1)] s.gpu ∧
      Synced s') ∧
    (∀ (env : Env) (kBox k1 k2 : Nat) (w h : Int) (s0 : Framework) (ops : List Op),
      (Framework.new w h).Init env kBox k1 k2 = some s0 → s0.run ops = some s → Synced s) := by
  refine ⟨?_, ?_, ?_, ?_, ?_, ?_, ?_⟩
  · intro hm
    have hbr : (s.m_modelVB.isSome && decide (0 < s.m_modelVertexCount)) = true := by
      simp [hm.1, hm.2]
    rw [Framework.Draw_record_eq]
    simp [Framework.drawCommands, hbr]
  · exact Framework.Draw_record_cube s
  · rw [Framework.Draw_record_eq]
  · rw [Framework.Draw_record_eq]
  · intro k s' h
    by_cases hg : (s.m_directCmdListAlloc && s.m_commandList && s.m_commandQueue
        && s.m_swapChain && s.m_rtvHeap && s.m_dsvHeap && s.m_cbvHeap) = true
    swap
    · simp [Framework.Draw, hg] at h
    simp only [Framework.Draw, hg, if_true] at h
    obtain ⟨c, q, g, tr, hs', hyes, hno⟩ := Framework.FlushCommandQueue_shape k _ s' h
    refine ⟨?_, tr, ?_, ?_⟩
    · rw [hs']
      show s.Draw_record.Present.recording = _
      rfl
    · rw [hs']
      show s.Draw_record.Present.trace ++ tr = _
      rw [Framework.Draw_record_eq]
      simp [Framework.Present]
    · by_cases hobj : s.Draw_record.Present.m_commandQueue = true ∧
          s.Draw_record.Present.m_fence = true ∧ s.Draw_record.Present.m_fenceEvent = true
      · rw [(hyes hobj).2]; rfl
      · rw [(hno hobj).2]; rfl
  · intro hs k
    obtain ⟨s1, h1, hs1, -⟩ := Framework.Draw_synced k s hs
    have heq := Framework.Draw_eq_of_synced k s hs
    rw [h1] at heq
    have e := Option.some.inj heq
    refine ⟨s1, h1, ?_, ?_, ?_, ?_, ?_, hs1⟩
    · rw [e, Framework.Draw_record_eq]
    · rw [e]
    · rw [e]
      simp
    · rw [e]
    · rw [e, Framework.Draw_record_eq]
      rfl
  · intro env kBox k1 k2 w h s0 ops hinit hrun
    obtain ⟨hs0, -⟩ := Framework.Init_synced env kBox k1 k2 w h s0 hinit
    obtain ⟨s1, h1, hs1, -⟩ := Framework.run_synced ops s0 hs0
    rw [hrun] at h1
    cases h1
    exact hs1

/-- Witness for C14: `Init` completes on the sample platform and the first
`Draw` after it completes; its list holds the thirteen commands of a model frame on back buffer
7 with the depth buffer 9 and the model vertex buffer 6, and it made the calls
`Reset`, `Reset`, `Close`, `ExecuteCommandLists`, `Present`, `FlushCommandQueue`,
`Signal(4)`. -/
theorem C14_witness :
    (Framework.new 1280 720).Init sampleEnv 0 0 0 = some sampleReady ∧
    Synced sampleReady ∧
    ∃ s', sampleReady.Draw 0 = some s' ∧
      s'.recording =
        [Cmd.ResourceBarrier (some 7) D3D12_RESOURCE_STATE_PRESENT
            D3D12_RESOURCE_STATE_RENDER_TARGET,
          Cmd.RSSetViewports ⟨0, 0, 1280, 720, 0, 1⟩,
          Cmd.RSSetScissorRects ⟨0, 0, 1280, 720⟩,
          Cmd.SetGraphicsRootSignature,
          Cmd.SetDescriptorHeaps,
          Cmd.SetGraphicsRootDescriptorTable,
          Cmd.OMSetRenderTargets 0 (some 7) 0 (some 9),
          Cmd.ClearRenderTargetView 0 (some 7),
          Cmd.ClearDepthStencilView 0 (some 9),
          Cmd.IASetPrimitiveTopology,
          Cmd.IASetVertexBuffers (some 6),
          Cmd.DrawInstanced 6,
          Cmd.ResourceBarrier (some 7) D3D12_RESOURCE_STATE_RENDER_TARGET
            D3D12_RESOURCE_STATE_PRESENT] ∧
      s'.trace = sampleReady.trace ++ [Call.AllocatorReset, Call.CommandListReset,
        Call.CommandListClose, Call.ExecuteCommandLists, Call.Present,
        Call.FlushCommandQueue, Call.Signal 4] ∧
      s'.queue = [] :=
  ⟨rfl,
    (C14_draw_command_sequence sampleReady).2.2.2.2.2.2 sampleEnv 0 0 0 1280 720
      sampleReady [] rfl rfl,
    ((C14_draw_command_sequence sampleReady).2.2.2.2.2.1
      ((C14_draw_command_sequence sampleReady).2.2.2.2.2.2 sampleEnv 0 0 0 1280 720
        sampleReady [] rfl rfl) 0).imp
      fun _ h => ⟨h.1, h.2.1.trans rfl, h.2.2.1.trans rfl, h.2.2.2.2.1⟩⟩

/-! ### Adapter selection and device creation -/

/-- The loop of `PickAdapter` ends without an adapter exactly when every adapter
is software or fails the test device creation. -/
theorem PickAdapter_loop_eq_none (l : List Adapter) :
    PickAdapter_loop l = none ↔
      ∀ b ∈ l, ¬ (b.isSoftware = false ∧ SUCCEEDED b.testDevice = true) := by
  induction l with
  | nil => simp [PickAdapter_loop]
  | cons a l ih =>
    unfold PickAdapter_loop
    by_cases hs : a.isSoftware = true
    · simp [hs, ih]
    · by_cases ht : SUCCEEDED a.testDevice = true
      · simp [hs, ht]
      · simp [hs, ht, ih]

/-- The adapter that the loop of `PickAdapter` takes is the first one that is not
software and passes the test device creation. -/
theorem PickAdapter_loop_eq_some (l : List Adapter) (a : Adapter) :
    PickAdapter_loop l = some a ↔
      ∃ pre post, l = pre ++ a :: post ∧
        (∀ b ∈ pre, ¬ (b.isSoftware = false ∧ SUCCEEDED b.testDevice = true)) ∧
        a.isSoftware = false ∧ SUCCEEDED a.testDevice = true := by
  induction l with
  | nil => simp [PickAdapter_loop]
  | cons x l ih =>
    unfold PickAdapter_loop
    by_cases hx : x.isSoftware = false ∧ SUCCEEDED x.testDevice = true
    · have h1 : ¬ (x.isSoftware = true) := by simp [hx.1]
      rw [if_neg h1, if_pos hx.2]
      constructor
      · intro h
        cases h
        exact ⟨[], l, rfl, by simp, hx.1, hx.2⟩
      · rintro ⟨pre, post, hl, hpre, -, -⟩
        cases pre with
        | nil =>
          simp at hl
          rw [hl.1]
        | cons y pre =>
          simp at hl
          exact absurd hx (hl.1 ▸ hpre y (List.mem_cons_self _ _))
    · have hskip : (if x.isSoftware = true then PickAdapter_loop l
          else if SUCCEEDED x.testDevice = true then some x else PickAdapter_loop l) =
          PickAdapter_loop l := by
        by_cases h1 : x.isSoftware = true
        · rw [if_pos h1]
        · rw [if_neg h1]
          have h2 : ¬ (SUCCEEDED x.testDevice = true) := fun h2 => hx ⟨by simpa using h1, h2⟩
          rw [if_neg h2]
      rw [hskip, ih]
      constructor
      · rintro ⟨pre, post, hl, hpre, ha1, ha2⟩
        refine ⟨x :: pre, post, by rw [hl]; rfl, ?_, ha1, ha2⟩
        intro b hb
        rcases List.mem_cons.mp hb with hb | hb
        · rw [hb]; exact hx
        · exact hpre b hb
      · rintro ⟨pre, post, hl, hpre, ha1, ha2⟩
        cases pre with
        | nil =>
          simp at hl
          exact absurd ⟨ha1, ha2⟩ (hl.1 ▸ hx)
        | cons y pre =>
          simp at hl
          exact ⟨pre, post, hl.2, fun b hb => hpre b (List.mem_cons_of_mem _ hb), ha1, ha2⟩

/-- The method `PickAdapter` in terms of its two loops. -/
theorem PickAdapter_eq (f : Factory) (s : DeviceState) :
    PickAdapter f s =
      match (if f.factory6 then PickAdapter_loop f.byGpuPreference else none).orElse
          (fun _ => PickAdapter_loop f.adapters1) with
      | some a =>
        ({ s with m_dxgiAdapter := some a, m_adapterName := a.Description }, none)
      | none =>
        ({ s with m_dxgiAdapter := none, m_adapterName := "" },
          some (Exception.runtime_error "No suitable DXGI adapter found (D3D12-capable)."))
      := by
  unfold PickAdapter
  cases h6 : f.factory6 <;> simp only [if_true, if_false, Bool.false_eq_true]
  · cases h1 : PickAdapter_loop f.adapters1 <;> simp [Option.orElse]
  · cases h0 : PickAdapter_loop f.byGpuPreference
    · cases h1 : PickAdapter_loop f.adapters1 <;> simp [Option.orElse]
    · simp [Option.orElse]


/-- C15: for every enumeration, `PickAdapter` selects the first adapter of the
high-performance order that is not flagged software and whose test device
creation at feature level 12_0 succeeds; when that order has none, or the factory
is no `IDXGIFactory6`, it selects the first such adapter of the plain order; it
throws `No suitable DXGI adapter found (D3D12-capable).` exactly when neither
order has such an adapter, and it throws nothing else; the adapter it selects is
never flagged software. -/
theorem C15_pick_adapter_first_suitable (f : Factory) (s : DeviceState) :
    (∀ pre a post, f.factory6 = true → f.byGpuPreference = pre ++ a :: post →
      (∀ b ∈ pre, ¬ (b.isSoftware = false ∧ SUCCEEDED b.testDevice = true)) →
      a.isSoftware = false → SUCCEEDED a.testDevice = true →
      PickAdapter f s =
        ({ s with m_dxgiAdapter := some a, m_adapterName := a.Description }, none)) ∧
    (∀ pre a post,
      (f.factory6 = false ∨
        ∀ b ∈ f.byGpuPreference, ¬ (b.isSoftware = false ∧ SUCCEEDED b.testDevice = true)) →
      f.adapters1 = pre ++ a :: post →
      (∀ b ∈ pre, ¬ (b.isSoftware = false ∧ SUCCEEDED b.testDevice = true)) →
      a.isSoftware = false → SUCCEEDED a.testDevice = true →
      PickAdapter f s =
        ({ s with m_dxgiAdapter := some a, m_adapterName := a.Description }, none)) ∧
    ((PickAdapter f s).2 =
        some (Exception.runtime_error "No suitable DXGI adapter found (D3D12-capable).") ↔
      (f.factory6 = true →
        ∀ b ∈ f.byGpuPreference, ¬ (b.isSoftware = false ∧ SUCCEEDED b.testDevice = true)) ∧
      ∀ b ∈ f.adapters1, ¬ (b.isSoftware = false ∧ SUCCEEDED b.testDevice = true)) ∧
    ((PickAdapter f s).2 = none ∨ (PickAdapter f s).2 =
      some (Exception.runtime_error "No suitable DXGI adapter found (D3D12-capable).")) ∧
    ((PickAdapter f s).2 = none ↔ (PickAdapter f s).1.m_dxgiAdapter ≠ none) ∧
    (∀ a, (PickAdapter f s).1.m_dxgiAdapter = some a →
      a.Flags &&& DXGI_ADAPTER_FLAG_SOFTWARE = 0 ∧ 0 ≤ a.testDevice ∧
      (a ∈ f.byGpuPreference ∨ a ∈ f.adapters1)) := by
  have hsel : ∀ a, (if f.factory6 then PickAdapter_loop f.byGpuPreference else none).orElse
      (fun _ => PickAdapter_loop f.adapters1) = some a →
      PickAdapter f s =
        ({ s with m_dxgiAdapter := some a, m_adapterName := a.Description }, none) := by
    intro a ha
    rw [PickAdapter_eq, ha]
  refine ⟨?_, ?_, ?_, ?_, ?_, ?_⟩
  · intro pre a post h6 hl hpre ha1 ha2
    apply hsel
    rw [h6, if_pos rfl, (PickAdapter_loop_eq_some _ a).mpr ⟨pre, post, hl, hpre, ha1, ha2⟩]
    rfl
  · intro pre a post hno hl hpre ha1 ha2
    apply hsel
    have h0 : (if f.factory6 then PickAdapter_loop f.byGpuPreference else none) = none := by
      rcases hno with h6 | hall
      · rw [h6]; rfl
      · cases f.factory6
        · rfl
        · rw [if_pos rfl]; exact (PickAdapter_loop_eq_none _).mpr hall
    rw [h0, (PickAdapter_loop_eq_some _ a).mpr ⟨pre, post, hl, hpre, ha1, ha2⟩]
    rfl
  · have hnone : (if f.factory6 then PickAdapter_loop f.byGpuPreference else none).orElse
        (fun _ => PickAdapter_loop f.adapters1) = none ↔
        ((f.factory6 = true →
          ∀ b ∈ f.byGpuPreference, ¬ (b.isSoftware = false ∧ SUCCEEDED b.testDevice = true)) ∧
        ∀ b ∈ f.adapters1, ¬ (b.isSoftware = false ∧ SUCCEEDED b.testDevice = true)) := by
      rw [← PickAdapter_loop_eq_none, ← PickAdapter_loop_eq_none]
      cases f.factory6
      · simp [Option.orElse]
      · cases PickAdapter_loop f.byGpuPreference <;> simp [Option.orElse]
    rw [PickAdapter_eq, ← hnone]
    cases (if f.factory6 then PickAdapter_loop f.byGpuPreference else none).orElse
      (fun _ => PickAdapter_loop f.adapters1) <;> simp
  · rw [PickAdapter_eq]
    cases (if f.factory6 then PickAdapter_loop f.byGpuPreference else none).orElse
      (fun _ => PickAdapter_loop f.adapters1) <;> simp
  · rw [PickAdapter_eq]
    cases (if f.factory6 then PickAdapter_loop f.byGpuPreference else none).orElse
      (fun _ => PickAdapter_loop f.adapters1) <;> simp
  · intro a ha
    rw [PickAdapter_eq] at ha
    have hfrom : ∀ l, PickAdapter_loop l = some a →
        a.Flags &&& DXGI_ADAPTER_FLAG_SOFTWARE = 0 ∧ 0 ≤ a.testDevice ∧ a ∈ l := by
      intro l hl
      obtain ⟨pre, post, hl', -, ha1, ha2⟩ := (PickAdapter_loop_eq_some l a).mp hl
      refine ⟨by simpa [Adapter.isSoftware] using ha1, by simpa [SUCCEEDED] using ha2, ?_⟩
      rw [hl']
      simp
    cases h6 : f.factory6
    · rw [h6] at ha
      simp only [Bool.false_eq_true, if_false, Option.orElse] at ha
      cases h1 : PickAdapter_loop f.adapters1
      · rw [h1] at ha; simp at ha
      · rw [h1] at ha
        simp at ha
        subst ha
        obtain ⟨x1, x2, x3⟩ := hfrom _ h1
        exact ⟨x1, x2, Or.inr x3⟩
    · rw [h6] at ha
      simp only [if_true] at ha
      cases h0 : PickAdapter_loop f.byGpuPreference
      · rw [h0] at ha
        simp only [Option.orElse] at ha
        cases h1 : PickAdapter_loop f.adapters1
        · rw [h1] at ha; simp at ha
        · rw [h1] at ha
          simp at ha
          subst ha
          obtain ⟨x1, x2, x3⟩ := hfrom _ h1
          exact ⟨x1, x2, Or.inr x3⟩
      · rw [h0] at ha
        simp [Option.orElse] at ha
        subst ha
        obtain ⟨x1, x2, x3⟩ := hfrom _ h0
        exact ⟨x1, x2, Or.inl x3⟩


/-- Witness for C15: with a failing hardware adapter first in the high-performance
order, the second adapter is selected. -/
theorem C15_witness :
    PickAdapter sampleTwoGpus DeviceState.new =
      ({ DeviceState.new with
        m_dxgiAdapter := some sampleGpu, m_adapterName := sampleGpu.Description }, none) :=
  (C15_pick_adapter_first_suitable sampleTwoGpus DeviceState.new).1 [sampleOldGpu] sampleGpu
    [sampleWarp] rfl rfl (by decide) rfl rfl

/-- Counterexample to C16 as stated: the only hardware adapter fails the test
device creation, the software adapter is enumerated and can create a device, and
`EnumWarpAdapter` would succeed; yet `InitDxgi` throws
`No suitable DXGI adapter found (D3D12-capable).`, `InitD3D12Device` is not
reached, no adapter is selected and no device is created. -/
theorem C16_counterexample :
    (∀ b ∈ sampleNoHardware.byGpuPreference ++ sampleNoHardware.adapters1,
      b.isSoftware = false → SUCCEEDED b.testDevice = false) ∧
    SUCCEEDED sampleNoHardware.warpHr = true ∧
    SUCCEEDED sampleNoHardware.warp.device = true ∧
    Init_device 0 sampleNoHardware DeviceState.new =
      (DeviceState.new,
        some (Exception.runtime_error "No suitable DXGI adapter found (D3D12-capable).")) := by
  refine ⟨by decide, by decide, by decide, by decide⟩

/-- The method `InitD3D12Device` when the first device creation succeeds. -/
theorem InitD3D12Device_hardware (f : Factory) (s : DeviceState)
    (h : 0 ≤ f.createDevice s.m_dxgiAdapter) :
    InitD3D12Device f s =
      ({ s with
        m_device := some s.m_dxgiAdapter
        calls := s.calls ++ [DeviceCall.D3D12CreateDevice s.m_dxgiAdapter] }, none) := by
  have h1 : SUCCEEDED (f.createDevice s.m_dxgiAdapter) = true := by simpa [SUCCEEDED] using h
  have h2 : FAILED (f.createDevice s.m_dxgiAdapter) = false := by
    simp only [FAILED, decide_eq_false_iff_not]; omega
  simp [InitD3D12Device, h1, h2]

/-- The method `InitD3D12Device` when the first device creation fails. -/
theorem InitD3D12Device_fallback (f : Factory) (s : DeviceState)
    (h : f.createDevice s.m_dxgiAdapter < 0) :
    InitD3D12Device f s =
      if f.warpHr < 0 then
        ({ s with
          m_dxgiAdapter := none
          m_device := none
          calls := s.calls ++ [DeviceCall.D3D12CreateDevice s.m_dxgiAdapter,
            DeviceCall.EnumWarpAdapter] }, some (Exception.com_error f.warpHr))
      else if f.warp.device < 0 then
        ({ s with
          m_dxgiAdapter := some f.warp
          m_device := none
          calls := s.calls ++ [DeviceCall.D3D12CreateDevice s.m_dxgiAdapter,
            DeviceCall.EnumWarpAdapter, DeviceCall.D3D12CreateDevice (some f.warp)] },
          some (Exception.com_error f.warp.device))
      else
        ({ s with
          m_dxgiAdapter := some f.warp
          m_device := some (some f.warp)
          calls := s.calls ++ [DeviceCall.D3D12CreateDevice s.m_dxgiAdapter,
            DeviceCall.EnumWarpAdapter, DeviceCall.D3D12CreateDevice (some f.warp)] },
          none) := by
  have h1 : SUCCEEDED (f.createDevice s.m_dxgiAdapter) = false := by
    simp only [SUCCEEDED, decide_eq_false_iff_not]; omega
  have h2 : FAILED (f.createDevice s.m_dxgiAdapter) = true := by simpa [FAILED] using h
  have hc : f.createDevice (some f.warp) = f.warp.device := rfl
  by_cases hw : f.warpHr < 0
  · simp [InitD3D12Device, h1, ThrowIfFailed, FAILED, hw, h]
  · by_cases hd : f.warp.device < 0
    · have hd' : ¬ (0 ≤ f.warp.device) := by omega
      simp [InitD3D12Device, h1, ThrowIfFailed, FAILED, SUCCEEDED, hw, hd, hd', hc, h]
    · have hd' : 0 ≤ f.warp.device := by omega
      simp [InitD3D12Device, h1, ThrowIfFailed, FAILED, SUCCEEDED, hw, hd, hd', hc, h]


/-- The method `PickAdapter` throws its error exactly when neither order has a
suitable adapter, and then it leaves no adapter selected. -/
theorem PickAdapter_throws_iff (f : Factory) (s : DeviceState) :
    ((PickAdapter f s).2 =
        some (Exception.runtime_error "No suitable DXGI adapter found (D3D12-capable).") ↔
      (f.factory6 = true →
        ∀ b ∈ f.byGpuPreference, ¬ (b.isSoftware = false ∧ SUCCEEDED b.testDevice = true)) ∧
      ∀ b ∈ f.adapters1, ¬ (b.isSoftware = false ∧ SUCCEEDED b.testDevice = true)) ∧
    ((PickAdapter f s).2 =
        some (Exception.runtime_error "No suitable DXGI adapter found (D3D12-capable).") →
      PickAdapter f s = ({ s with m_dxgiAdapter := none, m_adapterName := "" },
        some (Exception.runtime_error "No suitable DXGI adapter found (D3D12-capable)."))) := by
  have hnone : (if f.factory6 then PickAdapter_loop f.byGpuPreference else none).orElse
      (fun _ => PickAdapter_loop f.adapters1) = none ↔
      ((f.factory6 = true →
        ∀ b ∈ f.byGpuPreference, ¬ (b.isSoftware = false ∧ SUCCEEDED b.testDevice = true)) ∧
      ∀ b ∈ f.adapters1, ¬ (b.isSoftware = false ∧ SUCCEEDED b.testDevice = true)) := by
    rw [← PickAdapter_loop_eq_none, ← PickAdapter_loop_eq_none]
    cases f.factory6
    · simp [Option.orElse]
    · cases PickAdapter_loop f.byGpuPreference <;> simp [Option.orElse]
  rw [PickAdapter_eq, ← hnone]
  cases (if f.factory6 then PickAdapter_loop f.byGpuPreference else none).orElse
    (fun _ => PickAdapter_loop f.adapters1) <;> simp

/-- The method `PickAdapter` throws nothing but its own error. -/
theorem PickAdapter_thrown (f : Factory) (s : DeviceState) :
    (PickAdapter f s).2 = none ∨ (PickAdapter f s).2 =
      some (Exception.runtime_error "No suitable DXGI adapter found (D3D12-capable).") := by
  rw [PickAdapter_eq]
  cases (if f.factory6 then PickAdapter_loop f.byGpuPreference else none).orElse
    (fun _ => PickAdapter_loop f.adapters1) <;> simp

/-- The method `PickAdapter` makes no device call and leaves `m_device` alone. -/
theorem PickAdapter_keeps_device (f : Factory) (s : DeviceState) :
    (PickAdapter f s).1.calls = s.calls ∧ (PickAdapter f s).1.m_device = s.m_device := by
  rw [PickAdapter_eq]
  cases (if f.factory6 then PickAdapter_loop f.byGpuPreference else none).orElse
    (fun _ => PickAdapter_loop f.adapters1) <;> simp

/-- C16 (amended): when no adapter that is not flagged software passes the test
device creation, `InitDxgi` throws `No suitable DXGI adapter found
(D3D12-capable).` whatever the WARP adapter could do: `InitD3D12Device` is not
reached, no device creation is attempted and no device exists. The WARP fallback
serves the other case: when `PickAdapter` has selected an adapter, the device
creation on it in `InitD3D12Device` fails, `EnumWarpAdapter` succeeds and the WARP
adapter can create a device, then initialisation completes, `m_dxgiAdapter` is the
WARP adapter and `m_device` is a device on it. -/
theorem C16_warp_fallback_only_after_pick (factoryHr : Int) (f : Factory) (s : DeviceState) :
    (0 ≤ factoryHr →
      (f.factory6 = true →
        ∀ b ∈ f.byGpuPreference, ¬ (b.isSoftware = false ∧ SUCCEEDED b.testDevice = true)) →
      (∀ b ∈ f.adapters1, ¬ (b.isSoftware = false ∧ SUCCEEDED b.testDevice = true)) →
      (Init_device factoryHr f s).2 =
        some (Exception.runtime_error "No suitable DXGI adapter found (D3D12-capable).") ∧
      (Init_device factoryHr f s).1.m_dxgiAdapter = none ∧
      (Init_device factoryHr f s).1.m_device = s.m_device ∧
      (Init_device factoryHr f s).1.calls = s.calls) ∧
    (∀ a, 0 ≤ factoryHr → (PickAdapter f s).1.m_dxgiAdapter = some a → a.device < 0 →
      0 ≤ f.warpHr → 0 ≤ f.warp.device →
      (Init_device factoryHr f s).2 = none ∧
      (Init_device factoryHr f s).1.m_dxgiAdapter = some f.warp ∧
      (Init_device factoryHr f s).1.m_device = some (some f.warp) ∧
      (Init_device factoryHr f s).1.calls = s.calls ++
        [DeviceCall.D3D12CreateDevice (some a), DeviceCall.EnumWarpAdapter,
          DeviceCall.D3D12CreateDevice (some f.warp)]) := by
  have hdxgi : 0 ≤ factoryHr → InitDxgi factoryHr f s = PickAdapter f s := by
    intro h0
    have : ¬ (factoryHr < 0) := by omega
    simp [InitDxgi, ThrowIfFailed, FAILED, this]
  constructor
  · intro h0 hpref hplain
    have hthrow := ((PickAdapter_throws_iff f s).1).mpr ⟨hpref, hplain⟩
    have hstate := (PickAdapter_throws_iff f s).2 hthrow
    have hI : Init_device factoryHr f s = PickAdapter f s := by
      unfold Init_device
      rw [hdxgi h0]
      rcases hp : PickAdapter f s with ⟨t, e⟩
      rw [hp] at hthrow
      simp only at hthrow
      rw [hthrow]
    rw [hI, hstate]
    exact ⟨rfl, rfl, rfl, rfl⟩
  · intro a h0 ha hdev hw hwd
    have hnothrow : (PickAdapter f s).2 = none := by
      rcases (PickAdapter_thrown f s) with h | h
      · exact h
      · have := (PickAdapter_throws_iff f s).2 h
        rw [this] at ha
        cases ha
    have hcalls : (PickAdapter f s).1.calls = s.calls ∧
        (PickAdapter f s).1.m_device = s.m_device := PickAdapter_keeps_device f s
    have hI : Init_device factoryHr f s = InitD3D12Device f (PickAdapter f s).1 := by
      unfold Init_device
      rw [hdxgi h0]
      rcases hp : PickAdapter f s with ⟨t, e⟩
      rw [hp] at hnothrow
      simp only at hnothrow
      rw [hnothrow]
    have hcd : f.createDevice (PickAdapter f s).1.m_dxgiAdapter < 0 := by
      rw [ha]; exact hdev
    rw [hI, InitD3D12Device_fallback f _ hcd, if_neg (by omega), if_neg (by omega)]
    refine ⟨rfl, rfl, rfl, ?_⟩
    show (PickAdapter f s).1.calls ++ _ = _
    rw [hcalls.1, ha]


/-- Witness for C16 (amended): the hardware adapter passes the probe, fails the
device creation, and the device is created on the WARP adapter. -/
theorem C16_witness :
    (PickAdapter sampleFlaky DeviceState.new).1.m_dxgiAdapter = some sampleFlakyGpu ∧
    sampleFlakyGpu.device < 0 ∧ 0 ≤ sampleFlaky.warpHr ∧ 0 ≤ sampleFlaky.warp.device ∧
    (Init_device 0 sampleFlaky DeviceState.new).2 = none ∧
    (Init_device 0 sampleFlaky DeviceState.new).1.m_dxgiAdapter = some sampleFlaky.warp ∧
    (Init_device 0 sampleFlaky DeviceState.new).1.m_device = some (some sampleFlaky.warp) :=
  ⟨by decide, by decide, by decide, by decide,
    ((C16_warp_fallback_only_after_pick 0 sampleFlaky DeviceState.new).2 sampleFlakyGpu
      (by decide) (by decide) (by decide) (by decide) (by decide)).1,
    ((C16_warp_fallback_only_after_pick 0 sampleFlaky DeviceState.new).2 sampleFlakyGpu
      (by decide) (by decide) (by decide) (by decide) (by decide)).2.1,
    ((C16_warp_fallback_only_after_pick 0 sampleFlaky DeviceState.new).2 sampleFlakyGpu
      (by decide) (by decide) (by decide) (by decide) (by decide)).2.2.1⟩

/-- C17: when the device creation on the picked adapter succeeds, `InitD3D12Device`
keeps that device and that adapter and makes no other call (`EnumWarpAdapter` is
not called). When it fails, `EnumWarpAdapter` is called exactly once and, if it
succeeds, the WARP adapter replaces `m_dxgiAdapter` and exactly one device
creation is attempted on it. The function throws exactly when the first creation
fails and `EnumWarpAdapter` or the creation on the WARP adapter fails as well,
and what it throws comes from `ThrowIfFailed` for the failing `HRESULT`; when it
does not throw a device exists. -/
theorem C17_device_creation_falls_back_once (f : Factory) (s : DeviceState) :
    (0 ≤ f.createDevice s.m_dxgiAdapter →
      InitD3D12Device f s =
        ({ s with
          m_device := some s.m_dxgiAdapter
          calls := s.calls ++ [DeviceCall.D3D12CreateDevice s.m_dxgiAdapter] }, none)) ∧
    (f.createDevice s.m_dxgiAdapter < 0 →
      (InitD3D12Device f s).1.calls =
        s.calls ++ [DeviceCall.D3D12CreateDevice s.m_dxgiAdapter, DeviceCall.EnumWarpAdapter] ++
          (if 0 ≤ f.warpHr then [DeviceCall.D3D12CreateDevice (some f.warp)] else []) ∧
      (0 ≤ f.warpHr → (InitD3D12Device f s).1.m_dxgiAdapter = some f.warp) ∧
      (f.warpHr < 0 → (InitD3D12Device f s).2 = some (Exception.com_error f.warpHr)) ∧
      (0 ≤ f.warpHr → f.warp.device < 0 →
        (InitD3D12Device f s).2 = some (Exception.com_error f.warp.device)) ∧
      (0 ≤ f.warpHr → 0 ≤ f.warp.device →
        (InitD3D12Device f s).2 = none ∧
        (InitD3D12Device f s).1.m_device = some (some f.warp))) ∧
    ((InitD3D12Device f s).2 ≠ none ↔
      f.createDevice s.m_dxgiAdapter < 0 ∧ (f.warpHr < 0 ∨ f.warp.device < 0)) ∧
    ((InitD3D12Device f s).2 = none → (InitD3D12Device f s).1.m_device ≠ none) ∧
    (∀ hr : Int, (ThrowIfFailed hr = Except.error (Exception.com_error hr) ↔ hr < 0) ∧
      (ThrowIfFailed hr = Except.ok () ↔ 0 ≤ hr)) := by
  have hthrow : ∀ hr : Int, (ThrowIfFailed hr = Except.error (Exception.com_error hr) ↔ hr < 0) ∧
      (ThrowIfFailed hr = Except.ok () ↔ 0 ≤ hr) := by
    intro hr
    by_cases h : hr < 0
    · have h' : ¬ (0 ≤ hr) := by omega
      simp [ThrowIfFailed, FAILED, h, h']
    · have h' : 0 ≤ hr := by omega
      simp [ThrowIfFailed, FAILED, h, h']
  refine ⟨InitD3D12Device_hardware f s, ?_, ?_, ?_, hthrow⟩
  · intro h
    rw [InitD3D12Device_fallback f s h]
    by_cases hw : f.warpHr < 0
    · have hw' : ¬ (0 ≤ f.warpHr) := by omega
      simp [hw, hw']
    · have hw' : 0 ≤ f.warpHr := by omega
      by_cases hd : f.warp.device < 0
      · have hd' : ¬ (0 ≤ f.warp.device) := by omega
        simp [hw, hw', hd, hd']
      · have hd' : 0 ≤ f.warp.device := by omega
        simp [hw, hw', hd, hd']
  · by_cases h : f.createDevice s.m_dxgiAdapter < 0
    · rw [InitD3D12Device_fallback f s h]
      by_cases hw : f.warpHr < 0
      · simp [hw, h]
      · by_cases hd : f.warp.device < 0
        · simp [hw, hd, h]
        · simp [hw, hd, h]
    · rw [InitD3D12Device_hardware f s (by omega)]
      simp [h]
  · by_cases h : f.createDevice s.m_dxgiAdapter < 0
    · rw [InitD3D12Device_fallback f s h]
      by_cases hw : f.warpHr < 0
      · simp [hw]
      · by_cases hd : f.warp.device < 0
        · simp [hw, hd]
        · simp [hw, hd]
    · rw [InitD3D12Device_hardware f s (by omega)]
      simp

/-- Witness for C17: the picked adapter fails the device creation, the WARP
adapter is requested once and the device is created on it. -/
theorem C17_witness :
    sampleFlaky.createDevice (some sampleFlakyGpu) < 0 ∧
    (InitD3D12Device sampleFlaky
        { DeviceState.new with m_dxgiAdapter := some sampleFlakyGpu }).1.calls =
      [DeviceCall.D3D12CreateDevice (some sampleFlakyGpu), DeviceCall.EnumWarpAdapter,
        DeviceCall.D3D12CreateDevice (some sampleWarp)] :=
  ⟨by decide,
    ((C17_device_creation_falls_back_once sampleFlaky
      { DeviceState.new with m_dxgiAdapter := some sampleFlakyGpu }).2.1 (by decide)).1⟩

/-! ### The imported mesh -/

/-- One more coordinate inside the `float` range keeps the bounds of an axis
exact. -/
theorem Tight.step {lo hi : ℚ} {xs : List ℚ} (h : Tight lo hi xs) (p : ℚ)
    (hp1 : -FLT_MAX ≤ p) (hp2 : p ≤ FLT_MAX) :
    Tight (if p < lo then p else lo) (if p > hi then p else hi) (xs ++ [p]) := by
  refine ⟨fun hnil => absurd hnil (by simp), fun _ => ?_⟩
  by_cases hxs : xs = []
  · obtain ⟨hlo, hhi⟩ := h.1 hxs
    subst hxs
    have e1 : (if p < lo then p else lo) = p := by
      rw [hlo]
      split_ifs with hc
      · rfl
      · exact le_antisymm (not_lt.mp hc) hp2
    have e2 : (if p > hi then p else hi) = p := by
      rw [hhi]
      split_ifs with hc
      · rfl
      · exact le_antisymm hp1 (not_lt.mp hc)
    rw [e1, e2]
    simp
  · obtain ⟨hall, hlo, hhi⟩ := h.2 hxs
    have hlohi : lo ≤ hi := (hall lo hlo).2
    refine ⟨?_, ?_, ?_⟩
    · intro x hx
      rcases List.mem_append.mp hx with hx | hx
      · obtain ⟨h1, h2⟩ := hall x hx
        constructor
        · split_ifs with hc
          · exact le_trans (le_of_lt hc) h1
          · exact h1
        · split_ifs with hc
          · exact le_trans h2 (le_of_lt hc)
          · exact h2
      · have hxp : x = p := by simpa using hx
        subst hxp
        constructor
        · split_ifs with hc
          · exact le_refl _
          · exact not_lt.mp hc
        · split_ifs with hc
          · exact le_refl _
          · exact not_lt.mp hc
    · split_ifs with hc
      · simp
      · exact List.mem_append_left _ hlo
    · split_ifs with hc
      · simp
      · exact List.mem_append_left _ hhi

/-- The lambda `ExpandBounds`, coordinate by coordinate. -/
theorem ExpandBounds_eq (st : ImportState) (p : XMFLOAT3) :
    ExpandBounds st p =
      { st with
        minP := ⟨if p.x < st.minP.x then p.x else st.minP.x,
          if p.y < st.minP.y then p.y else st.minP.y,
          if p.z < st.minP.z then p.z else st.minP.z⟩
        maxP := ⟨if p.x > st.maxP.x then p.x else st.maxP.x,
          if p.y > st.maxP.y then p.y else st.maxP.y,
          if p.z > st.maxP.z then p.z else st.maxP.z⟩ } := by
  unfold ExpandBounds
  simp only
  congr 1
  · split_ifs <;> rfl
  · split_ifs <;> rfl


/-- The constant `FLT_MAX` is positive. -/
theorem FLT_MAX_pos : (0 : ℚ) < FLT_MAX := by
  unfold FLT_MAX
  norm_num

/-- A coordinate read from a list of finite `float`s is a finite `float`. -/
theorem getD_range (l : List ℚ) (hfin : ∀ v ∈ l, -FLT_MAX ≤ v ∧ v ≤ FLT_MAX) (i : Nat) :
    -FLT_MAX ≤ l.getD i 0 ∧ l.getD i 0 ≤ FLT_MAX := by
  have h0 := FLT_MAX_pos
  rw [List.getD_eq_getElem?_getD]
  rcases hi : l[i]? with _ | v
  · simp only [Option.getD_none]
    constructor <;> linarith
  · simp only [Option.getD_some]
    exact hfin v (List.getElem?_mem hi)

/-- Every position that `ReadPos` returns has finite coordinates. -/
theorem ReadPos_range (attrib : attrib_t)
    (hfin : ∀ v ∈ attrib.vertices, -FLT_MAX ≤ v ∧ v ≤ FLT_MAX) (vIdx : Int) :
    (-FLT_MAX ≤ (ReadPos attrib vIdx).x ∧ (ReadPos attrib vIdx).x ≤ FLT_MAX) ∧
    (-FLT_MAX ≤ (ReadPos attrib vIdx).y ∧ (ReadPos attrib vIdx).y ≤ FLT_MAX) ∧
    (-FLT_MAX ≤ (ReadPos attrib vIdx).z ∧ (ReadPos attrib vIdx).z ≤ FLT_MAX) := by
  have h0 := FLT_MAX_pos
  unfold ReadPos
  split_ifs
  · exact ⟨getD_range _ hfin _, getD_range _ hfin _, getD_range _ hfin _⟩
  · simp only
    refine ⟨⟨?_, ?_⟩, ⟨?_, ?_⟩, ⟨?_, ?_⟩⟩ <;> linarith

/-- A vertex with finite coordinates keeps the bounds exact. -/
theorem ImportState.Exact.expand {st : ImportState} (h : st.Exact) (p : XMFLOAT3)
    (hx : -FLT_MAX ≤ p.x ∧ p.x ≤ FLT_MAX) (hy : -FLT_MAX ≤ p.y ∧ p.y ≤ FLT_MAX)
    (hz : -FLT_MAX ≤ p.z ∧ p.z ≤ FLT_MAX) :
    (ExpandBounds { st with vertices := st.vertices ++ [p] } p).Exact := by
  rw [ExpandBounds_eq]
  unfold ImportState.Exact
  simp only [List.map_append, List.map_cons, List.map_nil]
  exact ⟨h.1.step p.x hx.1 hx.2, h.2.1.step p.y hy.1 hy.2, h.2.2.step p.z hz.1 hz.2⟩

/-- Appending the three positions first and expanding the bounds afterwards, as
the loop body does, is the same as taking the vertices one at a time. -/
theorem ExpandBounds_three (st : ImportState) (p0 p1 p2 : XMFLOAT3) :
    ExpandBounds (ExpandBounds (ExpandBounds
        { st with vertices := st.vertices ++ [p0, p1, p2] } p0) p1) p2 =
      ExpandBounds
        { ExpandBounds
            { ExpandBounds { st with vertices := st.vertices ++ [p0] } p0 with
              vertices := (ExpandBounds { st with vertices := st.vertices ++ [p0] } p0).vertices
                ++ [p1] } p1 with
          vertices := (ExpandBounds
            { ExpandBounds { st with vertices := st.vertices ++ [p0] } p0 with
              vertices := (ExpandBounds { st with vertices := st.vertices ++ [p0] } p0).vertices
                ++ [p1] } p1).vertices ++ [p2] } p2 := by
  simp [ExpandBounds_eq]

/-- The face loop adds three vertices for every face with three vertices and
keeps the bounds exact. -/
theorem BuildObjVB_Upload_faces_spec (attrib : attrib_t)
    (hfin : ∀ v ∈ attrib.vertices, -FLT_MAX ≤ v ∧ v ≤ FLT_MAX) (indices : List index_t)
    (faces : List Nat) (indexOffset : Nat) (st : ImportState) :
    (BuildObjVB_Upload_faces attrib indices faces indexOffset st).vertices.length =
      st.vertices.length + 3 * faces.count 3 ∧
    (st.Exact → (BuildObjVB_Upload_faces attrib indices faces indexOffset st).Exact) := by
  induction faces generalizing indexOffset st with
  | nil => exact ⟨by simp [BuildObjVB_Upload_faces], fun h => h⟩
  | cons fv rest ih =>
    unfold BuildObjVB_Upload_faces
    by_cases h3 : fv = 3
    · subst h3
      simp only [ne_eq, not_true_eq_false, if_false]
      rw [ExpandBounds_three]
      obtain ⟨ihl, ihe⟩ := ih (indexOffset + 3)
        (ExpandBounds
        { ExpandBounds
            { ExpandBounds { st with vertices := st.vertices ++ [ReadPos attrib
                (indices.getD (indexOffset + 0) ⟨-1⟩).vertex_index] } (ReadPos attrib
                (indices.getD (indexOffset + 0) ⟨-1⟩).vertex_index) with
              vertices := (ExpandBounds { st with vertices := st.vertices ++ [ReadPos attrib
                (indices.getD (indexOffset + 0) ⟨-1⟩).vertex_index] } (ReadPos attrib
                (indices.getD (indexOffset + 0) ⟨-1⟩).vertex_index)).vertices
                ++ [ReadPos attrib (indices.getD (indexOffset + 1) ⟨-1⟩).vertex_index] }
              (ReadPos attrib (indices.getD (indexOffset + 1) ⟨-1⟩).vertex_index) with
          vertices := (ExpandBounds
            { ExpandBounds { st with vertices := st.vertices ++ [ReadPos attrib
                (indices.getD (indexOffset + 0) ⟨-1⟩).vertex_index] } (ReadPos attrib
                (indices.getD (indexOffset + 0) ⟨-1⟩).vertex_index) with
              vertices := (ExpandBounds { st with vertices := st.vertices ++ [ReadPos attrib
                (indices.getD (indexOffset + 0) ⟨-1⟩).vertex_index] } (ReadPos attrib
                (indices.getD (indexOffset + 0) ⟨-1⟩).vertex_index)).vertices
                ++ [ReadPos attrib (indices.getD (indexOffset + 1) ⟨-1⟩).vertex_index] }
              (ReadPos attrib (indices.getD (indexOffset + 1) ⟨-1⟩).vertex_index)).vertices
              ++ [ReadPos attrib (indices.getD (indexOffset + 2) ⟨-1⟩).vertex_index] }
          (ReadPos attrib (indices.getD (indexOffset + 2) ⟨-1⟩).vertex_index))
      constructor
      · rw [ihl]
        simp [ExpandBounds_eq]
        omega
      · intro hst
        apply ihe
        have r0 := ReadPos_range attrib hfin (indices.getD (indexOffset + 0) ⟨-1⟩).vertex_index
        have r1 := ReadPos_range attrib hfin (indices.getD (indexOffset + 1) ⟨-1⟩).vertex_index
        have r2 := ReadPos_range attrib hfin (indices.getD (indexOffset + 2) ⟨-1⟩).vertex_index
        exact ((hst.expand _ r0.1 r0.2.1 r0.2.2).expand _ r1.1 r1.2.1 r1.2.2).expand _
          r2.1 r2.2.1 r2.2.2
    · simp only [ne_eq, h3, not_false_eq_true, if_true]
      obtain ⟨ihl, ihe⟩ := ih (indexOffset + fv) st
      refine ⟨?_, ihe⟩
      rw [ihl, List.count_cons_of_ne (Ne.symm h3)]


/-- The loop over the shapes adds three vertices for every triangle and keeps the
bounds exact. -/
theorem BuildObjVB_Upload_shapes_fold (attrib : attrib_t)
    (hfin : ∀ v ∈ attrib.vertices, -FLT_MAX ≤ v ∧ v ≤ FLT_MAX) (shapes : List shape_t)
    (st : ImportState) :
    (shapes.foldl
        (fun st sh =>
          BuildObjVB_Upload_faces attrib sh.mesh.indices sh.mesh.num_face_vertices 0 st)
        st).vertices.length = st.vertices.length + 3 * triangleCount shapes ∧
    (st.Exact → (shapes.foldl
        (fun st sh =>
          BuildObjVB_Upload_faces attrib sh.mesh.indices sh.mesh.num_face_vertices 0 st)
        st).Exact) := by
  induction shapes generalizing st with
  | nil => exact ⟨by simp [triangleCount], fun h => h⟩
  | cons sh rest ih =>
    obtain ⟨hl, he⟩ := BuildObjVB_Upload_faces_spec attrib hfin sh.mesh.indices
      sh.mesh.num_face_vertices 0 st
    obtain ⟨ihl, ihe⟩ := ih
      (BuildObjVB_Upload_faces attrib sh.mesh.indices sh.mesh.num_face_vertices 0 st)
    rw [List.foldl_cons]
    refine ⟨?_, fun h => ihe (he h)⟩
    rw [ihl, hl]
    simp only [triangleCount, List.map_cons, List.sum_cons]
    omega

/-- The number of flattened vertices, whatever the coordinates are. -/
theorem BuildObjVB_Upload_shapes_length (attrib : attrib_t) (shapes : List shape_t) :
    (BuildObjVB_Upload_shapes attrib shapes).vertices.length = 3 * triangleCount shapes := by
  have key : ∀ (l : List shape_t) (st : ImportState),
      (l.foldl
        (fun st sh =>
          BuildObjVB_Upload_faces attrib sh.mesh.indices sh.mesh.num_face_vertices 0 st)
        st).vertices.length = st.vertices.length + 3 * triangleCount l := by
    intro l
    induction l with
    | nil => intro st; simp [triangleCount]
    | cons sh rest ih =>
      intro st
      have hfaces : ∀ (faces : List Nat) (off : Nat) (t : ImportState),
          (BuildObjVB_Upload_faces attrib sh.mesh.indices faces off t).vertices.length =
            t.vertices.length + 3 * faces.count 3 := by
        intro faces
        induction faces with
        | nil => intro off t; simp [BuildObjVB_Upload_faces]
        | cons fv more ihf =>
          intro off t
          unfold BuildObjVB_Upload_faces
          by_cases h3 : fv = 3
          · subst h3
            simp only [ne_eq, not_true_eq_false, if_false]
            rw [ihf]
            simp [ExpandBounds_eq]
            omega
          · simp only [ne_eq, h3, not_false_eq_true, if_true]
            rw [ihf, List.count_cons_of_ne (Ne.symm h3)]
      rw [List.foldl_cons, ih, hfaces]
      simp only [triangleCount, List.map_cons, List.sum_cons]
      omega
  have := key shapes ImportState.init
  simpa [BuildObjVB_Upload_shapes, ImportState.init] using this

/-- Before the loop the bounds are exact. -/
theorem ImportState.init_exact : ImportState.init.Exact := by
  refine ⟨⟨fun _ => ⟨rfl, rfl⟩, fun h => absurd rfl h⟩, ⟨fun _ => ⟨rfl, rfl⟩, fun h => absurd rfl h⟩,
    ⟨fun _ => ⟨rfl, rfl⟩, fun h => absurd rfl h⟩⟩

/-- After the loops the bounds are exact for finite coordinates. -/
theorem BuildObjVB_Upload_shapes_exact (attrib : attrib_t)
    (hfin : ∀ v ∈ attrib.vertices, -FLT_MAX ≤ v ∧ v ≤ FLT_MAX) (shapes : List shape_t) :
    (BuildObjVB_Upload_shapes attrib shapes).Exact :=
  (BuildObjVB_Upload_shapes_fold attrib hfin shapes ImportState.init).2 ImportState.init_exact

/-- The matrix `world` of `Update` maps `p` to `(p - m_modelCenter) * m_modelScale`. -/
theorem transformPoint_world (m : ModelState) (p : XMFLOAT3) :
    transformPoint (Update_world m) p =
      ⟨(p.x - m.m_modelCenter.x) * m.m_modelScale, (p.y - m.m_modelCenter.y) * m.m_modelScale,
        (p.z - m.m_modelCenter.z) * m.m_modelScale⟩ := by
  simp [transformPoint, Update_world, XMMatrixMultiply, XMMatrixTranslation, XMMatrixScaling]
  refine ⟨?_, ?_, ?_⟩ <;> ring


/-- The value `maxDim` is the largest extent and it is one of the three. -/
theorem maxDimOf_spec (minP maxP : XMFLOAT3) :
    maxP.x - minP.x ≤ maxDimOf minP maxP ∧ maxP.y - minP.y ≤ maxDimOf minP maxP ∧
    maxP.z - minP.z ≤ maxDimOf minP maxP ∧
    (maxDimOf minP maxP = maxP.x - minP.x ∨ maxDimOf minP maxP = maxP.y - minP.y ∨
      maxDimOf minP maxP = maxP.z - minP.z) := by
  unfold maxDimOf
  simp only
  split_ifs with h1 h2 h2
  · exact ⟨by linarith, by linarith, le_refl _, Or.inr (Or.inr rfl)⟩
  · exact ⟨by linarith, le_refl _, by linarith, Or.inr (Or.inl rfl)⟩
  · exact ⟨by linarith, by linarith, le_refl _, Or.inr (Or.inr rfl)⟩
  · exact ⟨le_refl _, by linarith, by linarith, Or.inl rfl⟩

/-- What `BuildObjVB_Upload` has written when the import produced a vertex,
whatever the two `HRESULT`s are. -/
theorem BuildObjVB_Upload_mesh_members (attrib : attrib_t) (shapes : List shape_t)
    (createHr mapHr : Int) (m : ModelState)
    (hne : (BuildObjVB_Upload_shapes attrib shapes).vertices ≠ []) :
    (BuildObjVB_Upload_mesh true attrib shapes createHr mapHr m).1.m_modelCenter =
      ⟨(1 / 2) * ((BuildObjVB_Upload_shapes attrib shapes).minP.x +
          (BuildObjVB_Upload_shapes attrib shapes).maxP.x),
        (1 / 2) * ((BuildObjVB_Upload_shapes attrib shapes).minP.y +
          (BuildObjVB_Upload_shapes attrib shapes).maxP.y),
        (1 / 2) * ((BuildObjVB_Upload_shapes attrib shapes).minP.z +
          (BuildObjVB_Upload_shapes attrib shapes).maxP.z)⟩ ∧
    (BuildObjVB_Upload_mesh true attrib shapes createHr mapHr m).1.m_modelScale =
      (if maxDimOf (BuildObjVB_Upload_shapes attrib shapes).minP
          (BuildObjVB_Upload_shapes attrib shapes).maxP > scaleThreshold then
        2 / maxDimOf (BuildObjVB_Upload_shapes attrib shapes).minP
          (BuildObjVB_Upload_shapes attrib shapes).maxP
      else 1) ∧
    (BuildObjVB_Upload_mesh true attrib shapes createHr mapHr m).1.m_modelVertexCount =
      (BuildObjVB_Upload_shapes attrib shapes).vertices.length % 2 ^ 32 ∧
    ((BuildObjVB_Upload_mesh true attrib shapes createHr mapHr m).2 = none ∨
      (BuildObjVB_Upload_mesh true attrib shapes createHr mapHr m).2 =
        some (Exception.com_error createHr) ∨
      (BuildObjVB_Upload_mesh true attrib shapes createHr mapHr m).2 =
        some (Exception.com_error mapHr)) ∧
    (0 ≤ createHr → 0 ≤ mapHr →
      (BuildObjVB_Upload_mesh true attrib shapes createHr mapHr m).2 = none ∧
      (BuildObjVB_Upload_mesh true attrib shapes createHr mapHr m).1.m_modelVB ≠ none) := by
  have he : (BuildObjVB_Upload_shapes attrib shapes).vertices.isEmpty = false := by
    cases hv : (BuildObjVB_Upload_shapes attrib shapes).vertices with
    | nil => exact absurd hv hne
    | cons a l => rfl
  unfold BuildObjVB_Upload_mesh
  simp only [Bool.not_true, Bool.false_eq_true, if_false, he]
  by_cases hc : createHr < 0
  · have hc' : ¬ (0 ≤ createHr) := by omega
    simp [ThrowIfFailed, FAILED, hc, hc']
  · have hc' : 0 ≤ createHr := by omega
    by_cases hm : mapHr < 0
    · have hm' : ¬ (0 ≤ mapHr) := by omega
      simp [ThrowIfFailed, FAILED, hc, hm, hm']
    · simp [ThrowIfFailed, FAILED, hc, hm]

/-- The engine part of `BuildObjVB_Upload` and its mesh part describe the same
call: with the vertex count of the import and successful `HRESULT`s, one
completes exactly when the other does not throw, and they agree on
`m_modelVertexCount` and on the size and stride of the vertex-buffer view. -/
theorem Framework.BuildObjVB_Upload_agrees (attrib : attrib_t) (shapes : List shape_t)
    (m : ModelState) (s : Framework) (env : Env) (hok : env.objLoadOk = true)
    (hn : env.objVertexCount = (BuildObjVB_Upload_shapes attrib shapes).vertices.length) :
    (s.BuildObjVB_Upload env = none ↔
      (BuildObjVB_Upload_mesh true attrib shapes 0 0 m).2 ≠ none) ∧
    (∀ s', s.BuildObjVB_Upload env = some s' →
      s'.m_modelVertexCount =
        (BuildObjVB_Upload_mesh true attrib shapes 0 0 m).1.m_modelVertexCount ∧
      s'.m_modelVBV.SizeInBytes =
        (BuildObjVB_Upload_mesh true attrib shapes 0 0 m).1.m_modelVBV_SizeInBytes ∧
      s'.m_modelVBV.StrideInBytes =
        (BuildObjVB_Upload_mesh true attrib shapes 0 0 m).1.m_modelVBV_StrideInBytes) := by
  have hmod : ∀ n : Nat, n % 2 ^ 64 % 2 ^ 32 = n % 2 ^ 32 :=
    fun n => Nat.mod_mod_of_dvd n (by norm_num)
  cases hv : (BuildObjVB_Upload_shapes attrib shapes).vertices with
  | nil =>
    rw [hv] at hn
    simp [Framework.BuildObjVB_Upload, BuildObjVB_Upload_mesh, hok, hn, hv]
  | cons a l =>
    rw [hv] at hn
    have hne : env.objVertexCount ≠ 0 := by rw [hn]; simp
    have hmod' : (l.length + 1) * sizeof_Vertex % 18446744073709551616 % 4294967296 =
        (l.length + 1) * sizeof_Vertex % 4294967296 := hmod _
    simp [Framework.BuildObjVB_Upload, BuildObjVB_Upload_mesh, hok, hn, hv, ThrowIfFailed,
      FAILED, hmod', Framework.createResource]

/-- C18: the flattened vertex list has three entries for every face with three
vertices and none for any other face. When a successful import has no face with
three vertices, `BuildObjVB_Upload` throws `OBJ loaded but produced 0 vertices.`
and `m_modelCenter`, `m_modelScale`, `m_modelVertexCount` and the vertex buffer
are as they were. When it has one, that error is not thrown, the vertex count is
three times the number of such faces (stored in the `UINT` `m_modelVertexCount`),
and with successful `CreateCommittedResource` and `Map` the function returns
with a vertex buffer. -/
theorem C18_zero_vertex_import_rejected (attrib : attrib_t) (shapes : List shape_t)
    (createHr mapHr : Int) (m : ModelState) :
    (BuildObjVB_Upload_shapes attrib shapes).vertices.length = 3 * triangleCount shapes ∧
    (triangleCount shapes = 0 →
      (BuildObjVB_Upload_shapes attrib shapes).vertices = [] ∧
      BuildObjVB_Upload_mesh true attrib shapes createHr mapHr m =
        (m, some (Exception.runtime_error "OBJ loaded but produced 0 vertices."))) ∧
    (0 < triangleCount shapes →
      (BuildObjVB_Upload_mesh true attrib shapes createHr mapHr m).2 ≠
        some (Exception.runtime_error "OBJ loaded but produced 0 vertices.") ∧
      (BuildObjVB_Upload_mesh true attrib shapes createHr mapHr m).1.m_modelVertexCount =
        (3 * triangleCount shapes) % 2 ^ 32 ∧
      (3 * triangleCount shapes < 2 ^ 32 →
        (BuildObjVB_Upload_mesh true attrib shapes createHr mapHr m).1.m_modelVertexCount =
          3 * triangleCount shapes) ∧
      (0 ≤ createHr → 0 ≤ mapHr →
        (BuildObjVB_Upload_mesh true attrib shapes createHr mapHr m).2 = none ∧
        (BuildObjVB_Upload_mesh true attrib shapes createHr mapHr m).1.m_modelVB ≠ none)) := by
  have hlen := BuildObjVB_Upload_shapes_length attrib shapes
  refine ⟨hlen, ?_, ?_⟩
  · intro h0
    have hnil : (BuildObjVB_Upload_shapes attrib shapes).vertices = [] := by
      apply List.eq_nil_of_length_eq_zero
      rw [hlen, h0]
    refine ⟨hnil, ?_⟩
    unfold BuildObjVB_Upload_mesh
    simp [hnil]
  · intro hpos
    have hne : (BuildObjVB_Upload_shapes attrib shapes).vertices ≠ [] := by
      intro hnil
      rw [hnil] at hlen
      simp at hlen
      omega
    obtain ⟨-, -, hcount, hthrown, hok⟩ :=
      BuildObjVB_Upload_mesh_members attrib shapes createHr mapHr m hne
    refine ⟨?_, ?_, ?_, hok⟩
    · rcases hthrown with h | h | h <;> rw [h] <;> simp
    · rw [hcount, hlen]
    · intro hlt
      rw [hcount, hlen]
      exact Nat.mod_eq_of_lt hlt

/-- Witness for C18: the sample import has two triangles and a quad, hence six
vertices; the import without a triangle is rejected. -/
theorem C18_witness :
    triangleCount sampleShapes = 2 ∧ triangleCount sampleNoTriangles = 0 ∧
    (BuildObjVB_Upload_mesh true sampleAttrib sampleShapes 0 0 ModelState.new).1.m_modelVertexCount
      = 3 * triangleCount sampleShapes ∧
    BuildObjVB_Upload_mesh true sampleAttrib sampleNoTriangles 0 0 ModelState.new =
      (ModelState.new, some (Exception.runtime_error "OBJ loaded but produced 0 vertices.")) :=
  ⟨by decide, by decide,
    ((C18_zero_vertex_import_rejected sampleAttrib sampleShapes 0 0 ModelState.new).2.2
      (by decide)).2.2.1 (by decide),
    ((C18_zero_vertex_import_rejected sampleAttrib sampleNoTriangles 0 0 ModelState.new).2.1
      (by decide)).2⟩


/-- A coordinate between the bounds of its axis lands in `[-1, 1]` under the
centre and the scale that `BuildObjVB_Upload` computes. -/
theorem scaled_coordinate_range (lo hi D v : ℚ) (hlo : lo ≤ v) (hhi : v ≤ hi)
    (hD : hi - lo ≤ D) :
    -1 ≤ (v - (1 / 2) * (lo + hi)) * (if D > scaleThreshold then 2 / D else 1) ∧
    (v - (1 / 2) * (lo + hi)) * (if D > scaleThreshold then 2 / D else 1) ≤ 1 := by
  have hthr : (0 : ℚ) < scaleThreshold ∧ scaleThreshold < 2 := by
    unfold scaleThreshold
    constructor <;> norm_num
  by_cases hc : D > scaleThreshold
  · have hpos : 0 < D := lt_trans hthr.1 hc
    rw [if_pos hc]
    have e : (v - (1 / 2) * (lo + hi)) * (2 / D) = (2 * v - (lo + hi)) / D := by
      field_simp
      ring
    rw [e]
    constructor
    · rw [le_div_iff₀ hpos]
      linarith
    · rw [div_le_one hpos]
      linarith
  · rw [if_neg hc]
    have hle : D ≤ scaleThreshold := not_lt.mp hc
    constructor <;> linarith [hthr.2]

/-- On an axis whose extent is the largest one and exceeds the threshold, the
lower bound is mapped to `-1` and the upper bound to `1`. -/
theorem scaled_bounds_exact (lo hi : ℚ) (hD : hi - lo > scaleThreshold) :
    (lo - (1 / 2) * (lo + hi)) * (if hi - lo > scaleThreshold then 2 / (hi - lo) else 1) = -1 ∧
    (hi - (1 / 2) * (lo + hi)) * (if hi - lo > scaleThreshold then 2 / (hi - lo) else 1) = 1 := by
  have hthr : (0 : ℚ) < scaleThreshold := by
    unfold scaleThreshold
    norm_num
  have hne : hi - lo ≠ 0 := ne_of_gt (lt_trans hthr hD)
  rw [if_pos hD]
  constructor <;> field_simp <;> ring


/-- Exact bounds of a non-empty list, read through the vertices. -/
theorem Tight.of_vertices {lo hi : ℚ} {V : List XMFLOAT3} (a : XMFLOAT3 → ℚ)
    (h : Tight lo hi (V.map a)) (hne : V ≠ []) :
    (∀ p ∈ V, lo ≤ a p ∧ a p ≤ hi) ∧ (∃ p ∈ V, a p = lo) ∧ (∃ p ∈ V, a p = hi) := by
  have hne' : V.map a ≠ [] := by simpa using hne
  obtain ⟨hall, hlo, hhi⟩ := h.2 hne'
  refine ⟨fun p hp => hall (a p) (List.mem_map_of_mem a hp), ?_, ?_⟩
  · obtain ⟨p, hp, hpe⟩ := List.mem_map.mp hlo
    exact ⟨p, hp, hpe⟩
  · obtain ⟨p, hp, hpe⟩ := List.mem_map.mp hhi
    exact ⟨p, hp, hpe⟩

/-- C19: for every import with finite coordinates and at least one triangle,
`minP` and `maxP` are the component-wise minimum and maximum of the vertex
positions (they bound every position and are attained), `m_modelCenter` is the
midpoint of that box, `m_modelScale` is `2 / maxDim` when the largest extent
`maxDim` exceeds `1e-6f` and 1 otherwise, the matrix `world` of `Update` maps `p`
to `(p - m_modelCenter) * m_modelScale`, every vertex position is mapped into
`[-1, 1]` on each axis, and when `maxDim` exceeds `1e-6f` there is an axis on
which some vertex is mapped to `-1` and some vertex to `1`. -/
theorem C19_world_transform_fits_cube (attrib : attrib_t) (shapes : List shape_t)
    (createHr mapHr : Int) (m m' : ModelState) (st : ImportState)
    (hfin : ∀ v ∈ attrib.vertices, -FLT_MAX ≤ v ∧ v ≤ FLT_MAX)
    (htri : 0 < triangleCount shapes)
    (hst : st = BuildObjVB_Upload_shapes attrib shapes)
    (hm : m' = (BuildObjVB_Upload_mesh true attrib shapes createHr mapHr m).1) :
    st.vertices ≠ [] ∧
    (∀ p ∈ st.vertices, st.minP.x ≤ p.x ∧ p.x ≤ st.maxP.x ∧ st.minP.y ≤ p.y ∧
      p.y ≤ st.maxP.y ∧ st.minP.z ≤ p.z ∧ p.z ≤ st.maxP.z) ∧
    ((∃ p ∈ st.vertices, p.x = st.minP.x) ∧ (∃ p ∈ st.vertices, p.x = st.maxP.x) ∧
      (∃ p ∈ st.vertices, p.y = st.minP.y) ∧ (∃ p ∈ st.vertices, p.y = st.maxP.y) ∧
      (∃ p ∈ st.vertices, p.z = st.minP.z) ∧ (∃ p ∈ st.vertices, p.z = st.maxP.z)) ∧
    m'.m_modelCenter =
      ⟨(1 / 2) * (st.minP.x + st.maxP.x), (1 / 2) * (st.minP.y + st.maxP.y),
        (1 / 2) * (st.minP.z + st.maxP.z)⟩ ∧
    m'.m_modelScale =
      (if maxDimOf st.minP st.maxP > scaleThreshold then 2 / maxDimOf st.minP st.maxP
        else 1) ∧
    (st.maxP.x - st.minP.x ≤ maxDimOf st.minP st.maxP ∧
      st.maxP.y - st.minP.y ≤ maxDimOf st.minP st.maxP ∧
      st.maxP.z - st.minP.z ≤ maxDimOf st.minP st.maxP ∧
      (maxDimOf st.minP st.maxP = st.maxP.x - st.minP.x ∨
        maxDimOf st.minP st.maxP = st.maxP.y - st.minP.y ∨
        maxDimOf st.minP st.maxP = st.maxP.z - st.minP.z)) ∧
    (∀ p, transformPoint (Update_world m') p =
      ⟨(p.x - m'.m_modelCenter.x) * m'.m_modelScale,
        (p.y - m'.m_modelCenter.y) * m'.m_modelScale,
        (p.z - m'.m_modelCenter.z) * m'.m_modelScale⟩) ∧
    (∀ p ∈ st.vertices,
      -1 ≤ (transformPoint (Update_world m') p).x ∧ (transformPoint (Update_world m') p).x ≤ 1 ∧
      -1 ≤ (transformPoint (Update_world m') p).y ∧ (transformPoint (Update_world m') p).y ≤ 1 ∧
      -1 ≤ (transformPoint (Update_world m') p).z ∧
      (transformPoint (Update_world m') p).z ≤ 1) ∧
    (maxDimOf st.minP st.maxP > scaleThreshold →
      ∃ a : XMFLOAT3 → ℚ, (a = XMFLOAT3.x ∨ a = XMFLOAT3.y ∨ a = XMFLOAT3.z) ∧
        ∃ pLo ∈ st.vertices, ∃ pHi ∈ st.vertices,
          a (transformPoint (Update_world m') pLo) = -1 ∧
          a (transformPoint (Update_world m') pHi) = 1) := by
  have hlen := BuildObjVB_Upload_shapes_length attrib shapes
  have hne : st.vertices ≠ [] := by
    intro hnil
    rw [hst] at hnil
    rw [hnil] at hlen
    simp at hlen
    omega
  have hex : st.Exact := by
    rw [hst]
    exact BuildObjVB_Upload_shapes_exact attrib hfin shapes
  obtain ⟨hxall, hxlo, hxhi⟩ := Tight.of_vertices XMFLOAT3.x hex.1 hne
  obtain ⟨hyall, hylo, hyhi⟩ := Tight.of_vertices XMFLOAT3.y hex.2.1 hne
  obtain ⟨hzall, hzlo, hzhi⟩ := Tight.of_vertices XMFLOAT3.z hex.2.2 hne
  obtain ⟨hc, hs, -, -, -⟩ := BuildObjVB_Upload_mesh_members attrib shapes createHr mapHr m
    (by rw [← hst]; exact hne)
  rw [← hm, ← hst] at hc hs
  obtain ⟨hdx, hdy, hdz, hD⟩ := maxDimOf_spec st.minP st.maxP
  have hT := transformPoint_world m'
  have hTx : ∀ p, (transformPoint (Update_world m') p).x =
      (p.x - (1 / 2) * (st.minP.x + st.maxP.x)) *
        (if maxDimOf st.minP st.maxP > scaleThreshold then 2 / maxDimOf st.minP st.maxP
          else 1) := by
    intro p
    rw [hT, hc, hs]
  have hTy : ∀ p, (transformPoint (Update_world m') p).y =
      (p.y - (1 / 2) * (st.minP.y + st.maxP.y)) *
        (if maxDimOf st.minP st.maxP > scaleThreshold then 2 / maxDimOf st.minP st.maxP
          else 1) := by
    intro p
    rw [hT, hc, hs]
  have hTz : ∀ p, (transformPoint (Update_world m') p).z =
      (p.z - (1 / 2) * (st.minP.z + st.maxP.z)) *
        (if maxDimOf st.minP st.maxP > scaleThreshold then 2 / maxDimOf st.minP st.maxP
          else 1) := by
    intro p
    rw [hT, hc, hs]
  refine ⟨hne, ?_, ⟨hxlo, hxhi, hylo, hyhi, hzlo, hzhi⟩, hc, hs, ⟨hdx, hdy, hdz, hD⟩, hT, ?_, ?_⟩
  · intro p hp
    exact ⟨(hxall p hp).1, (hxall p hp).2, (hyall p hp).1, (hyall p hp).2, (hzall p hp).1,
      (hzall p hp).2⟩
  · intro p hp
    rw [hTx, hTy, hTz]
    obtain ⟨x1, x2⟩ := scaled_coordinate_range _ _ _ p.x (hxall p hp).1 (hxall p hp).2 hdx
    obtain ⟨y1, y2⟩ := scaled_coordinate_range _ _ _ p.y (hyall p hp).1 (hyall p hp).2 hdy
    obtain ⟨z1, z2⟩ := scaled_coordinate_range _ _ _ p.z (hzall p hp).1 (hzall p hp).2 hdz
    exact ⟨x1, x2, y1, y2, z1, z2⟩
  · intro hbig
    rcases hD with hD | hD | hD
    · obtain ⟨pLo, hpLo, eLo⟩ := hxlo
      obtain ⟨pHi, hpHi, eHi⟩ := hxhi
      refine ⟨XMFLOAT3.x, Or.inl rfl, pLo, hpLo, pHi, hpHi, ?_, ?_⟩
      · rw [hTx, eLo, hD]
        rw [hD] at hbig
        exact (scaled_bounds_exact _ _ hbig).1
      · rw [hTx, eHi, hD]
        rw [hD] at hbig
        exact (scaled_bounds_exact _ _ hbig).2
    · obtain ⟨pLo, hpLo, eLo⟩ := hylo
      obtain ⟨pHi, hpHi, eHi⟩ := hyhi
      refine ⟨XMFLOAT3.y, Or.inr (Or.inl rfl), pLo, hpLo, pHi, hpHi, ?_, ?_⟩
      · rw [hTy, eLo, hD]
        rw [hD] at hbig
        exact (scaled_bounds_exact _ _ hbig).1
      · rw [hTy, eHi, hD]
        rw [hD] at hbig
        exact (scaled_bounds_exact _ _ hbig).2
    · obtain ⟨pLo, hpLo, eLo⟩ := hzlo
      obtain ⟨pHi, hpHi, eHi⟩ := hzhi
      refine ⟨XMFLOAT3.z, Or.inr (Or.inr rfl), pLo, hpLo, pHi, hpHi, ?_, ?_⟩
      · rw [hTz, eLo, hD]
        rw [hD] at hbig
        exact (scaled_bounds_exact _ _ hbig).1
      · rw [hTz, eHi, hD]
        rw [hD] at hbig
        exact (scaled_bounds_exact _ _ hbig).2


/-- Witness for C19: the sample import has finite coordinates and two triangles,
and every one of its vertices lands between -1 and 1 on the first axis. -/
theorem C19_witness :
    (∀ v ∈ sampleAttrib.vertices, -FLT_MAX ≤ v ∧ v ≤ FLT_MAX) ∧
    0 < triangleCount sampleShapes ∧
    (∀ p ∈ (BuildObjVB_Upload_shapes sampleAttrib sampleShapes).vertices,
      -1 ≤ (transformPoint (Update_world
        (BuildObjVB_Upload_mesh true sampleAttrib sampleShapes 0 0 ModelState.new).1) p).x ∧
      (transformPoint (Update_world
        (BuildObjVB_Upload_mesh true sampleAttrib sampleShapes 0 0 ModelState.new).1) p).x
        ≤ 1) := by
  have hfin : ∀ v ∈ sampleAttrib.vertices, -FLT_MAX ≤ v ∧ v ≤ FLT_MAX := by
    intro v hv
    simp only [sampleAttrib, List.mem_cons, List.mem_singleton, List.not_mem_nil,
      or_false] at hv
    rcases hv with h | h | h | h | h | h | h | h | h | h | h | h <;> subst h <;>
      constructor <;> norm_num [FLT_MAX]
  refine ⟨hfin, by decide, fun p hp => ?_⟩
  have h := (C19_world_transform_fits_cube sampleAttrib sampleShapes 0 0 ModelState.new _ _
    hfin (by decide) rfl rfl).2.2.2.2.2.2.2.1 p hp
  exact ⟨h.1, h.2.1⟩

/-! ### Exceptions and the exit code -/

/-- The function `ThrowIfFailed` throws exactly when the `HRESULT` is negative. -/
theorem ThrowIfFailed_iff (hr : Int) :
    (ThrowIfFailed hr = Except.error (Exception.com_error hr) ↔ hr < 0) ∧
    (ThrowIfFailed hr = Except.ok () ↔ 0 ≤ hr) := by
  by_cases h : hr < 0
  · have h' : ¬ (0 ≤ hr) := by omega
    simp [ThrowIfFailed, FAILED, h, h']
  · have h' : 0 ≤ hr := by omega
    simp [ThrowIfFailed, FAILED, h, h']

/-- The method `Run` returns 0 whenever it returns. -/
theorem Run_throws_ok (m : Members) (frames : List (Option DrawResults)) (c : Int)
    (h : Run_throws m frames = Except.ok c) : c = 0 := by
  induction frames with
  | nil =>
    simp only [Run_throws] at h
    cases h
    rfl
  | cons f rest ih =>
    cases f with
    | none => exact ih h
    | some r =>
      simp only [Run_throws] at h
      cases hd : Draw_throws m r with
      | error e => rw [hd] at h; cases h
      | ok u => rw [hd] at h; exact ih h

/-- The destructor throws nothing when there is no device, no queue, no fence or
no fence event. -/
theorem Framework_destructor_guard (m : Members) (r : FlushResults)
    (h : m.m_device = false ∨ m.m_commandQueue = false ∨ m.m_fence = false ∨
      m.m_fenceEvent = false) :
    Framework_destructor m r = Except.ok () := by
  unfold Framework_destructor FlushCommandQueue_throws
  rcases h with h | h | h | h <;> simp [h]

/-- When the destructor of `app` throws nothing, `wWinMain` shows one dialog with
the exception and returns -1 if `Init` or `Run` threw, and returns 0 without a
dialog if `Init` returned false or `Run` returned. -/
theorem wWinMain_of_destructor_ok (init : InitResults) (frames : List (Option DrawResults))
    (atExit : FlushResults)
    (hd : Framework_destructor (Init_throws init).1 atExit = Except.ok ()) :
    (∀ e, (Init_throws init).2 = Except.error e →
      wWinMain init frames atExit = ProcessExit.returned (-1) [e]) ∧
    (∀ e, (Init_throws init).2 = Except.ok true →
      Run_throws (Init_throws init).1 frames = Except.error e →
      wWinMain init frames atExit = ProcessExit.returned (-1) [e]) ∧
    ((Init_throws init).2 = Except.ok false →
      wWinMain init frames atExit = ProcessExit.returned 0 []) ∧
    (∀ c, (Init_throws init).2 = Except.ok true →
      Run_throws (Init_throws init).1 frames = Except.ok c →
      wWinMain init frames atExit = ProcessExit.returned 0 []) ∧
    (∀ ds, wWinMain init frames atExit = ProcessExit.returned 0 ds →
      ds = [] ∧ ((Init_throws init).2 = Except.ok false ∨
        ((Init_throws init).2 = Except.ok true ∧
          Run_throws (Init_throws init).1 frames = Except.ok 0))) := by
  refine ⟨?_, ?_, ?_, ?_, ?_⟩
  · intro e he
    simp [wWinMain, hd, he]
  · intro e he hr
    simp [wWinMain, hd, he, hr]
  · intro he
    simp [wWinMain, hd, he]
  · intro c he hr
    have hc := Run_throws_ok _ _ c hr
    subst hc
    simp [wWinMain, hd, he, hr]
  · intro ds h
    unfold wWinMain at h
    rw [hd] at h
    simp only at h
    rcases hi : (Init_throws init).2 with e | b
    · rw [hi] at h
      simp at h
    · cases b
      · rw [hi] at h
        simp at h
        exact ⟨h, Or.inl rfl⟩
      · rw [hi] at h
        simp only at h
        rcases hr : Run_throws (Init_throws init).1 frames with e | c
        · rw [hr] at h
          simp at h
        · rw [hr] at h
          simp at h
          have hc := Run_throws_ok _ _ c hr
          exact ⟨h.2, Or.inr ⟨rfl, by rw [hc]⟩⟩


/-- When `InitDxgi` or `InitD3D12Device` throws, `Init` throws the same exception
and no member is set. -/
theorem Init_throws_of_device_error (r : InitResults) (e : Exception)
    (h : (Init_device r.factoryHr r.factory DeviceState.new).2 = some e) :
    Init_throws r = (⟨false, false, false, false⟩, Except.error e) := by
  unfold Init_throws
  rcases hi : Init_device r.factoryHr r.factory DeviceState.new with ⟨d, o⟩
  rw [hi] at h
  simp only at h
  subst h
  rfl

/-- When `CreateEvent` returns no handle after everything before it succeeded,
`Init` throws `CreateEvent failed for fence event.` and the fence event is
null. -/
theorem Init_throws_of_no_event (r : InitResults)
    (hdev : (Init_device r.factoryHr r.factory DeviceState.new).2 = none)
    (hq : 0 ≤ r.queueHr) (ha : 0 ≤ r.allocatorHr) (hl : 0 ≤ r.listHr) (hc : 0 ≤ r.closeHr)
    (hf : 0 ≤ r.fenceHr) (he : r.fenceEventCreated = false) :
    (Init_throws r).2 =
      Except.error (Exception.runtime_error "CreateEvent failed for fence event.") ∧
    (Init_throws r).1.m_fenceEvent = false := by
  unfold Init_throws
  rcases hi : Init_device r.factoryHr r.factory DeviceState.new with ⟨d, o⟩
  rw [hi] at hdev
  simp only at hdev
  subst hdev
  simp [CreateCommandObjects_throws, CreateFence_throws, (ThrowIfFailed_iff _).2.mpr hq,
    (ThrowIfFailed_iff _).2.mpr ha, (ThrowIfFailed_iff _).2.mpr hl,
    (ThrowIfFailed_iff _).2.mpr hc, (ThrowIfFailed_iff _).2.mpr hf, he]

/-- Without a suitable adapter `InitDxgi` throws the error of `PickAdapter`. -/
theorem Init_device_of_no_adapter (factoryHr : Int) (f : Factory) (s : DeviceState)
    (h0 : 0 ≤ factoryHr)
    (hpref : f.factory6 = true →
      ∀ b ∈ f.byGpuPreference, ¬ (b.isSoftware = false ∧ SUCCEEDED b.testDevice = true))
    (hplain : ∀ b ∈ f.adapters1, ¬ (b.isSoftware = false ∧ SUCCEEDED b.testDevice = true)) :
    (Init_device factoryHr f s).2 =
      some (Exception.runtime_error "No suitable DXGI adapter found (D3D12-capable).") := by
  have hthrow := ((PickAdapter_throws_iff f s).1).mpr ⟨hpref, hplain⟩
  have hdxgi : InitDxgi factoryHr f s = PickAdapter f s := by
    have : ¬ (factoryHr < 0) := by omega
    simp [InitDxgi, ThrowIfFailed, FAILED, this]
  unfold Init_device
  rw [hdxgi]
  rcases hp : PickAdapter f s with ⟨t, e⟩
  rw [hp] at hthrow
  simp only at hthrow
  rw [hthrow]


/-- C20: `ThrowIfFailed` throws exactly when the `HRESULT` is negative. Whenever
the destructor of `app` throws nothing, an exception of `Init` or of `Run` gives
one error dialog and the exit code -1, and `wWinMain` returns 0 exactly when
`Init` returned false or `Run` returned; that is the case, whatever happens
afterwards, when `InitDxgi` or `InitD3D12Device` throws (no suitable adapter,
device creation failing after the fallback) and when the fence event cannot be
created, because the destructor then finds no device or no fence event. But the
destructor flushes the queue through `ThrowIfFailed` too: when `Present` reports
a removed device in the first frame and the `Signal` of the destructor's
`FlushCommandQueue` fails as well, the exception of `Run` never reaches the
handler: the process ends in `std::terminate`, without the dialog and without
the exit code -1. -/
theorem C20_destructor_flush_can_end_in_terminate :
    (∀ hr : Int, (ThrowIfFailed hr = Except.error (Exception.com_error hr) ↔ hr < 0) ∧
      (ThrowIfFailed hr = Except.ok () ↔ 0 ≤ hr)) ∧
    (∀ (init : InitResults) (frames : List (Option DrawResults)) (atExit : FlushResults),
      Framework_destructor (Init_throws init).1 atExit = Except.ok () →
      (∀ e, (Init_throws init).2 = Except.error e →
        wWinMain init frames atExit = ProcessExit.returned (-1) [e]) ∧
      (∀ e, (Init_throws init).2 = Except.ok true →
        Run_throws (Init_throws init).1 frames = Except.error e →
        wWinMain init frames atExit = ProcessExit.returned (-1) [e]) ∧
      ((Init_throws init).2 = Except.ok false →
        wWinMain init frames atExit = ProcessExit.returned 0 []) ∧
      (∀ c, (Init_throws init).2 = Except.ok true →
        Run_throws (Init_throws init).1 frames = Except.ok c →
        wWinMain init frames atExit = ProcessExit.returned 0 []) ∧
      (∀ ds, wWinMain init frames atExit = ProcessExit.returned 0 ds →
        ds = [] ∧ ((Init_throws init).2 = Except.ok false ∨
          ((Init_throws init).2 = Except.ok true ∧
            Run_throws (Init_throws init).1 frames = Except.ok 0)))) ∧
    (∀ (init : InitResults) (frames : List (Option DrawResults)) (atExit : FlushResults)
      (e : Exception),
      (Init_device init.factoryHr init.factory DeviceState.new).2 = some e →
      wWinMain init frames atExit = ProcessExit.returned (-1) [e]) ∧
    (∀ (init : InitResults) (frames : List (Option DrawResults)) (atExit : FlushResults),
      0 ≤ init.factoryHr →
      (init.factory.factory6 = true → ∀ b ∈ init.factory.byGpuPreference,
        ¬ (b.isSoftware = false ∧ SUCCEEDED b.testDevice = true)) →
      (∀ b ∈ init.factory.adapters1,
        ¬ (b.isSoftware = false ∧ SUCCEEDED b.testDevice = true)) →
      wWinMain init frames atExit = ProcessExit.returned (-1)
        [Exception.runtime_error "No suitable DXGI adapter found (D3D12-capable)."]) ∧
    (∀ (init : InitResults) (frames : List (Option DrawResults)) (atExit : FlushResults),
      (Init_device init.factoryHr init.factory DeviceState.new).2 = none →
      0 ≤ init.queueHr → 0 ≤ init.allocatorHr → 0 ≤ init.listHr → 0 ≤ init.closeHr →
      0 ≤ init.fenceHr → init.fenceEventCreated = false →
      wWinMain init frames atExit = ProcessExit.returned (-1)
        [Exception.runtime_error "CreateEvent failed for fence event."]) ∧
    ((Init_throws sampleInit).2 = Except.ok true ∧
      Run_throws (Init_throws sampleInit).1 [some sampleFrameRemoved] =
        Except.error (Exception.com_error DXGI_ERROR_DEVICE_REMOVED) ∧
      wWinMain sampleInit [some sampleFrameRemoved] sampleFlushOk =
        ProcessExit.returned (-1) [Exception.com_error DXGI_ERROR_DEVICE_REMOVED] ∧
      Framework_destructor (Init_throws sampleInit).1 sampleFlushRemoved =
        Except.error (Exception.com_error DXGI_ERROR_DEVICE_REMOVED) ∧
      wWinMain sampleInit [some sampleFrameRemoved] sampleFlushRemoved =
        ProcessExit.terminated) := by
  have hdev : ∀ (init : InitResults) (frames : List (Option DrawResults))
      (atExit : FlushResults) (e : Exception),
      (Init_device init.factoryHr init.factory DeviceState.new).2 = some e →
      wWinMain init frames atExit = ProcessExit.returned (-1) [e] := by
    intro init frames atExit e he
    have hI := Init_throws_of_device_error init e he
    have hd : Framework_destructor (Init_throws init).1 atExit = Except.ok () :=
      Framework_destructor_guard _ _ (Or.inl (by rw [hI]))
    exact (wWinMain_of_destructor_ok init frames atExit hd).1 e (by rw [hI])
  refine ⟨ThrowIfFailed_iff, wWinMain_of_destructor_ok, hdev, ?_, ?_, ?_⟩
  · intro init frames atExit h0 hpref hplain
    exact hdev init frames atExit _
      (Init_device_of_no_adapter init.factoryHr init.factory DeviceState.new h0 hpref hplain)
  · intro init frames atExit hd hq ha hl hc hf he
    obtain ⟨hthrow, hev⟩ := Init_throws_of_no_event init hd hq ha hl hc hf he
    have hdt : Framework_destructor (Init_throws init).1 atExit = Except.ok () :=
      Framework_destructor_guard _ _ (Or.inr (Or.inr (Or.inr hev)))
    exact (wWinMain_of_destructor_ok init frames atExit hdt).1 _ hthrow
  · exact ⟨rfl, rfl, by decide, rfl, by decide⟩

/-! ### Shader compilation -/

/-- C21: `CompileShader` throws exactly when the result code of
`D3DCompileFromFile` is a failure (negative), and then throws the error of that
code; with a success code it returns the bytecode blob, whether or not there is a
diagnostics blob; and whenever there is a diagnostics blob its text is written to
the debug channel and shown in a message box, before the result code is looked
at, and nothing is shown when there is none. -/
theorem C21_compile_shader_throws_iff_failed (r : CompileResult) :
    ((∃ e, (CompileShader r).2 = Except.error e) ↔ FAILED r.hr = true) ∧
    (FAILED r.hr = true ↔ r.hr < 0) ∧
    (FAILED r.hr = true → (CompileShader r).2 = Except.error (Exception.com_error r.hr)) ∧
    (FAILED r.hr = false → (CompileShader r).2 = Except.ok r.byteCode) ∧
    (∀ msg, r.errors = some msg →
      (CompileShader r).1 =
        [Shown.OutputDebugStringA msg, Shown.MessageBoxA msg "HLSL Compile Error"]) ∧
    (r.errors = none → (CompileShader r).1 = []) := by
  have hthrow : FAILED r.hr = true →
      (CompileShader r).2 = Except.error (Exception.com_error r.hr) := by
    intro h
    simp [CompileShader, ThrowIfFailed, h]
  have hok : FAILED r.hr = false → (CompileShader r).2 = Except.ok r.byteCode := by
    intro h
    simp [CompileShader, h]
  refine ⟨⟨?_, fun h => ⟨_, hthrow h⟩⟩, by simp [FAILED], hthrow, hok, ?_, ?_⟩
  · rintro ⟨e, he⟩
    cases hf : FAILED r.hr
    · rw [hok hf] at he
      cases he
    · rfl
  · intro msg hmsg
    unfold CompileShader
    rw [hmsg]
    by_cases hf : FAILED r.hr = true
    · simp [hf, ThrowIfFailed]
    · simp [hf]
  · intro hnone
    unfold CompileShader
    rw [hnone]
    by_cases hf : FAILED r.hr = true
    · simp [hf, ThrowIfFailed]
    · simp [hf]

/-- Witness for C21: a compilation that succeeds with a warning returns its
bytecode and shows the warning; one that fails with `E_FAIL` throws and shows
its error text. -/
theorem C21_witness :
    (CompileShader sampleWarning).2 = Except.ok (some [68, 88, 66, 67]) ∧
    (CompileShader sampleWarning).1 =
      [Shown.OutputDebugStringA "warning X3206: implicit truncation of vector type",
        Shown.MessageBoxA "warning X3206: implicit truncation of vector type"
          "HLSL Compile Error"] ∧
    (CompileShader sampleCompileError).2 = Except.error (Exception.com_error (-2147467259)) ∧
    (CompileShader sampleCompileError).1 =
      [Shown.OutputDebugStringA "error X3000: syntax error",
        Shown.MessageBoxA "error X3000: syntax error" "HLSL Compile Error"] :=
  ⟨(C21_compile_shader_throws_iff_failed sampleWarning).2.2.2.1 rfl,
    (C21_compile_shader_throws_iff_failed sampleWarning).2.2.2.2.1 _ rfl,
    (C21_compile_shader_throws_iff_failed sampleCompileError).2.2.1 rfl,
    (C21_compile_shader_throws_iff_failed sampleCompileError).2.2.2.2.1 _ rfl⟩


/-! ### The window procedure -/

/-- The case `WM_SIZE` leaves the key array as it is. -/
theorem MsgProc_size_keyDown (st : MsgState) (wParam lParam : Nat) (now : Int) :
    (MsgProc_size st wParam lParam now).m_keyDown = st.m_keyDown := by
  have key : ∀ t : MsgState, (MsgProc_sizeKind t wParam now).m_keyDown = t.m_keyDown := by
    intro t
    unfold MsgProc_sizeKind
    split_ifs <;> rfl
  unfold MsgProc_size
  rw [key]
  rfl

/-- The mouse handlers leave the key array as it is. -/
theorem MsgState.mouse_keyDown (st : MsgState) (b : Nat) (x y : Int) :
    (st.OnMouseDown b x y).m_keyDown = st.m_keyDown ∧
    st.OnMouseUp.m_keyDown = st.m_keyDown ∧
    (st.OnMouseMove x y).m_keyDown = st.m_keyDown := by
  refine ⟨?_, ?_, rfl⟩
  · unfold MsgState.OnMouseDown
    split_ifs <;> rfl
  · unfold MsgState.OnMouseUp
    split_ifs <;> rfl

/-- A message that is neither a key message nor `WM_KILLFOCUS` leaves the key
array as it is. -/
theorem MsgProc_keyDown_other (st : MsgState) (msg wParam lParam : Nat) (now : Int)
    (h1 : msg ≠ WM_KEYDOWN) (h2 : msg ≠ WM_SYSKEYDOWN) (h3 : msg ≠ WM_KEYUP)
    (h4 : msg ≠ WM_SYSKEYUP) (h5 : msg ≠ WM_KILLFOCUS) :
    (MsgProc st msg wParam lParam now).m_keyDown = st.m_keyDown := by
  unfold MsgProc
  simp only [h1, h2, h3, h4, h5, or_self, if_false]
  split_ifs
  · rfl
  · rfl
  · exact MsgProc_size_keyDown st wParam lParam now
  · unfold MsgProc_activateApp
    split_ifs <;> rfl
  · rfl
  · rfl
  · exact (st.mouse_keyDown wParam _ _).1
  · exact (st.mouse_keyDown wParam 0 0).2.1
  · rfl
  · rfl

/-- The key array after a key-down message. -/
theorem MsgProc_keyDown_down (st : MsgState) (msg wParam lParam : Nat) (now : Int)
    (h : msg = WM_KEYDOWN ∨ msg = WM_SYSKEYDOWN) :
    (MsgProc st msg wParam lParam now).m_keyDown = st.m_keyDown.set (wParam % 256) true := by
  rcases h with rfl | rfl <;>
    simp [MsgProc, MsgProc_key, WM_KEYDOWN, WM_SYSKEYDOWN, WM_CLOSE, WM_DESTROY, WM_SIZE,
      WM_ACTIVATEAPP, WM_ENTERSIZEMOVE, WM_EXITSIZEMOVE, WM_LBUTTONDOWN, WM_MBUTTONDOWN,
      WM_RBUTTONDOWN, WM_LBUTTONUP, WM_MBUTTONUP, WM_RBUTTONUP, WM_MOUSEMOVE]

/-- The key array after a key-up message. -/
theorem MsgProc_keyDown_up (st : MsgState) (msg wParam lParam : Nat) (now : Int)
    (h : msg = WM_KEYUP ∨ msg = WM_SYSKEYUP) :
    (MsgProc st msg wParam lParam now).m_keyDown = st.m_keyDown.set (wParam % 256) false := by
  rcases h with rfl | rfl <;>
    simp [MsgProc, MsgProc_key, WM_KEYUP, WM_SYSKEYUP, WM_KEYDOWN, WM_SYSKEYDOWN, WM_CLOSE,
      WM_DESTROY, WM_SIZE, WM_ACTIVATEAPP, WM_ENTERSIZEMOVE, WM_EXITSIZEMOVE, WM_LBUTTONDOWN,
      WM_MBUTTONDOWN, WM_RBUTTONDOWN, WM_LBUTTONUP, WM_MBUTTONUP, WM_RBUTTONUP, WM_MOUSEMOVE]

/-- The key array after `WM_KILLFOCUS`. -/
theorem MsgProc_keyDown_killfocus (st : MsgState) (wParam lParam : Nat) (now : Int) :
    (MsgProc st WM_KILLFOCUS wParam lParam now).m_keyDown =
      List.replicate st.m_keyDown.length false := by
  simp [MsgProc, MsgProc_killFocus, WM_KILLFOCUS, WM_KEYUP, WM_SYSKEYUP, WM_KEYDOWN,
    WM_SYSKEYDOWN, WM_CLOSE, WM_DESTROY, WM_SIZE, WM_ACTIVATEAPP, WM_ENTERSIZEMOVE,
    WM_EXITSIZEMOVE, WM_LBUTTONDOWN, WM_MBUTTONDOWN, WM_RBUTTONDOWN, WM_LBUTTONUP,
    WM_MBUTTONUP, WM_RBUTTONUP, WM_MOUSEMOVE]

/-- The key array keeps its length over every message. -/
theorem MsgProc_keyDown_length (st : MsgState) (msg wParam lParam : Nat) (now : Int) :
    (MsgProc st msg wParam lParam now).m_keyDown.length = st.m_keyDown.length := by
  by_cases hd : msg = WM_KEYDOWN ∨ msg = WM_SYSKEYDOWN
  · rw [MsgProc_keyDown_down st msg wParam lParam now hd, List.length_set]
  by_cases hu : msg = WM_KEYUP ∨ msg = WM_SYSKEYUP
  · rw [MsgProc_keyDown_up st msg wParam lParam now hu, List.length_set]
  by_cases hk : msg = WM_KILLFOCUS
  · rw [hk, MsgProc_keyDown_killfocus, List.length_replicate]
  · rw [MsgProc_keyDown_other st msg wParam lParam now (fun h => hd (Or.inl h))
      (fun h => hd (Or.inr h)) (fun h => hu (Or.inl h)) (fun h => hu (Or.inr h)) hk]

/-- C24: on a 256-entry key array, for every parameter `k` the index
`static_cast<uint8_t>(k) = k mod 256` is inside the array; a key-down message
(`WM_KEYDOWN` or `WM_SYSKEYDOWN`) sets entry `k mod 256` to true and a key-up
message (`WM_KEYUP` or `WM_SYSKEYUP`) sets it to false, both leaving every other
entry as it was; `WM_KILLFOCUS` sets all 256 entries to false; every other
message leaves the array unchanged; and the array keeps its 256 entries. -/
theorem C24_key_state_updates (st : MsgState) (msg k lParam : Nat) (now : Int)
    (hlen : st.m_keyDown.length = 256) :
    k % 256 < st.m_keyDown.length ∧
    (MsgProc st msg k lParam now).m_keyDown.length = 256 ∧
    (msg = WM_KEYDOWN ∨ msg = WM_SYSKEYDOWN →
      (MsgProc st msg k lParam now).m_keyDown[k % 256]? = some true ∧
      ∀ j, j ≠ k % 256 →
        (MsgProc st msg k lParam now).m_keyDown[j]? = st.m_keyDown[j]?) ∧
    (msg = WM_KEYUP ∨ msg = WM_SYSKEYUP →
      (MsgProc st msg k lParam now).m_keyDown[k % 256]? = some false ∧
      ∀ j, j ≠ k % 256 →
        (MsgProc st msg k lParam now).m_keyDown[j]? = st.m_keyDown[j]?) ∧
    (msg = WM_KILLFOCUS →
      ∀ j, j < 256 → (MsgProc st msg k lParam now).m_keyDown[j]? = some false) ∧
    (msg ≠ WM_KEYDOWN → msg ≠ WM_SYSKEYDOWN → msg ≠ WM_KEYUP → msg ≠ WM_SYSKEYUP →
      msg ≠ WM_KILLFOCUS → (MsgProc st msg k lParam now).m_keyDown = st.m_keyDown) := by
  have hk : k % 256 < st.m_keyDown.length := by
    rw [hlen]
    exact Nat.mod_lt _ (by norm_num)
  refine ⟨hk, ?_, ?_, ?_, ?_, ?_⟩
  · rw [MsgProc_keyDown_length, hlen]
  · intro h
    rw [MsgProc_keyDown_down st msg k lParam now h]
    refine ⟨?_, ?_⟩
    · rw [List.getElem?_set_self hk]
    · intro j hj
      rw [List.getElem?_set_ne (Ne.symm hj)]
  · intro h
    rw [MsgProc_keyDown_up st msg k lParam now h]
    refine ⟨?_, ?_⟩
    · rw [List.getElem?_set_self hk]
    · intro j hj
      rw [List.getElem?_set_ne (Ne.symm hj)]
  · intro h j hj
    rw [h, MsgProc_keyDown_killfocus, hlen, List.getElem?_replicate, if_pos hj]
  · intro h1 h2 h3 h4 h5
    exact MsgProc_keyDown_other st msg k lParam now h1 h2 h3 h4 h5

/-- Witness for C24: in the freshly constructed framework `WM_KEYDOWN` with the
parameter `0x157` sets entry `0x57` (the key W) and no other. -/
theorem C24_witness :
    sampleMsgState.m_keyDown.length = 256 ∧
    (MsgProc sampleMsgState WM_KEYDOWN 0x157 0 1000).m_keyDown[0x57]? = some true ∧
    (MsgProc sampleMsgState WM_KEYDOWN 0x157 0 1000).m_keyDown[0x58]? = some false :=
  ⟨List.length_replicate 256 false,
    ((C24_key_state_updates sampleMsgState WM_KEYDOWN 0x157 0 1000
      (List.length_replicate 256 false)).2.2.1 (Or.inl rfl)).1,
    (((C24_key_state_updates sampleMsgState WM_KEYDOWN 0x157 0 1000
      (List.length_replicate 256 false)).2.2.1 (Or.inl rfl)).2 0x58 (by decide)).trans
      ((List.getElem?_replicate).trans (if_pos (by decide)))⟩

/-- `Timer::Stop` leaves the timer stopped. -/
theorem Timer.Stop_stopped (tm : Timer) (t : Int) : (tm.Stop t).m_stopped = true := by
  unfold Timer.Stop
  cases h : tm.m_stopped <;> simp [h]

/-- `Timer::Start` leaves the timer running. -/
theorem Timer.Start_stopped (tm : Timer) (t : Int) : (tm.Start t).m_stopped = false := by
  unfold Timer.Start
  cases h : tm.m_stopped <;> simp [h]

/-- The case `WM_SIZE` keeps the pause flag in agreement with the timer. -/
theorem MsgProc_size_pauseAgrees (st : MsgState) (wParam lParam : Nat) (now : Int)
    (h : st.pauseAgrees) : (MsgProc_size st wParam lParam now).pauseAgrees := by
  have key : ∀ t : MsgState, t.pauseAgrees → (MsgProc_sizeKind t wParam now).pauseAgrees := by
    intro t ht
    unfold MsgProc_sizeKind
    split_ifs
    · exact (Timer.Stop_stopped _ _).symm
    · exact (Timer.Start_stopped _ _).symm
    · exact (Timer.Start_stopped _ _).symm
    · exact (Timer.Start_stopped _ _).symm
    · exact ht
    · exact ht
    · exact ht
  exact key _ h

/-- The case `WM_ACTIVATEAPP` leaves the pause flag in agreement with the timer. -/
theorem MsgProc_activateApp_pauseAgrees (st : MsgState) (wParam : Nat) (now : Int) :
    (MsgProc_activateApp st wParam now).pauseAgrees := by
  unfold MsgProc_activateApp
  by_cases c : wParam = 0
  · rw [if_pos c]
    exact (Timer.Stop_stopped _ _).symm
  · rw [if_neg c]
    exact (Timer.Start_stopped _ _).symm

/-- The mouse handlers keep the pause flag in agreement with the timer. -/
theorem MsgState.mouse_pauseAgrees (st : MsgState) (b : Nat) (x y : Int)
    (h : st.pauseAgrees) :
    (st.OnMouseDown b x y).pauseAgrees ∧ st.OnMouseUp.pauseAgrees := by
  refine ⟨?_, ?_⟩
  · unfold MsgState.OnMouseDown
    by_cases c : (b &&& MK_RBUTTON != 0) = true
    · rw [if_pos c]
      exact h
    · rw [if_neg c]
      exact h
  · unfold MsgState.OnMouseUp
    by_cases c : st.m_rmbDown = true
    · rw [if_pos c]
      exact h
    · rw [if_neg c]
      exact h

/-- Every message keeps the pause flag in agreement with the timer. -/
theorem MsgProc_pauseAgrees (st : MsgState) (msg wParam lParam : Nat) (now : Int)
    (h : st.pauseAgrees) : (MsgProc st msg wParam lParam now).pauseAgrees := by
  unfold MsgProc
  by_cases c0 : msg = WM_CLOSE
  · rw [if_pos c0]
    exact h
  rw [if_neg c0]
  by_cases c1 : msg = WM_DESTROY
  · rw [if_pos c1]
    exact h
  rw [if_neg c1]
  by_cases c2 : msg = WM_SIZE
  · rw [if_pos c2]
    exact MsgProc_size_pauseAgrees st wParam lParam now h
  rw [if_neg c2]
  by_cases c3 : msg = WM_ACTIVATEAPP
  · rw [if_pos c3]
    exact MsgProc_activateApp_pauseAgrees st wParam now
  rw [if_neg c3]
  by_cases c4 : msg = WM_ENTERSIZEMOVE
  · rw [if_pos c4]
    exact (Timer.Stop_stopped _ _).symm
  rw [if_neg c4]
  by_cases c5 : msg = WM_EXITSIZEMOVE
  · rw [if_pos c5]
    exact (Timer.Start_stopped _ _).symm
  rw [if_neg c5]
  by_cases c6 : msg = WM_LBUTTONDOWN ∨ msg = WM_MBUTTONDOWN ∨ msg = WM_RBUTTONDOWN
  · rw [if_pos c6]
    exact (st.mouse_pauseAgrees wParam _ _ h).1
  rw [if_neg c6]
  by_cases c7 : msg = WM_LBUTTONUP ∨ msg = WM_MBUTTONUP ∨ msg = WM_RBUTTONUP
  · rw [if_pos c7]
    exact (st.mouse_pauseAgrees wParam 0 0 h).2
  rw [if_neg c7]
  by_cases c8 : msg = WM_MOUSEMOVE
  · rw [if_pos c8]
    exact h
  rw [if_neg c8]
  by_cases c9 : msg = WM_KEYDOWN ∨ msg = WM_SYSKEYDOWN
  · rw [if_pos c9]
    exact h
  rw [if_neg c9]
  by_cases c10 : msg = WM_KEYUP ∨ msg = WM_SYSKEYUP
  · rw [if_pos c10]
    exact h
  rw [if_neg c10]
  by_cases c11 : msg = WM_KILLFOCUS
  · rw [if_pos c11]
    exact h
  rw [if_neg c11]
  exact h

/-- The pause flag of a constructed framework agrees with its timer. -/
theorem MsgState.new_pauseAgrees (width height freq t : Int) :
    (MsgState.new width height freq t).pauseAgrees :=
  rfl

/-- C27: in a constructed framework `m_appPaused` is false and the timer is
running; every message handled by `MsgProc`, whatever its kind and parameters and
whatever the counter shows, keeps `m_appPaused` true exactly when the timer is
stopped; so this holds after every sequence of messages to a constructed
framework. The messages that pause (`WM_SIZE` with `SIZE_MINIMIZED`,
`WM_ACTIVATEAPP` with `FALSE`, `WM_ENTERSIZEMOVE`) leave the flag set and the
timer stopped. -/
theorem C27_pause_flag_tracks_timer :
    (∀ width height freq t : Int,
      (MsgState.new width height freq t).m_appPaused = false ∧
      (MsgState.new width height freq t).m_timer.m_stopped = false ∧
      (MsgState.new width height freq t).pauseAgrees) ∧
    (∀ (st : MsgState) (msg wParam lParam : Nat) (now : Int),
      st.pauseAgrees → (MsgProc st msg wParam lParam now).pauseAgrees) ∧
    (∀ (width height freq t : Int) (msgs : List (Nat × Nat × Nat × Int)),
      (msgs.foldl (fun st m => MsgProc st m.1 m.2.1 m.2.2.1 m.2.2.2)
        (MsgState.new width height freq t)).pauseAgrees) ∧
    (∀ (st : MsgState) (lParam : Nat) (now : Int),
      (MsgProc st WM_SIZE SIZE_MINIMIZED lParam now).m_appPaused = true ∧
      (MsgProc st WM_SIZE SIZE_MINIMIZED lParam now).m_timer.m_stopped = true ∧
      (MsgProc st WM_ACTIVATEAPP 0 lParam now).m_appPaused = true ∧
      (MsgProc st WM_ACTIVATEAPP 0 lParam now).m_timer.m_stopped = true ∧
      (MsgProc st WM_ENTERSIZEMOVE 0 lParam now).m_appPaused = true ∧
      (MsgProc st WM_ENTERSIZEMOVE 0 lParam now).m_timer.m_stopped = true) := by
  refine ⟨fun w h f t => ⟨rfl, rfl, MsgState.new_pauseAgrees w h f t⟩, MsgProc_pauseAgrees,
    ?_, ?_⟩
  · intro w h f t msgs
    have key : ∀ (l : List (Nat × Nat × Nat × Int)) (st : MsgState), st.pauseAgrees →
        (l.foldl (fun st m => MsgProc st m.1 m.2.1 m.2.2.1 m.2.2.2) st).pauseAgrees := by
      intro l
      induction l with
      | nil => intro st hst; exact hst
      | cons m l ih =>
        intro st hst
        exact ih _ (MsgProc_pauseAgrees st _ _ _ _ hst)
    exact key msgs _ (MsgState.new_pauseAgrees w h f t)
  · intro st lParam now
    refine ⟨?_, ?_, ?_, ?_, ?_, ?_⟩ <;>
      simp [MsgProc, MsgProc_size, MsgProc_sizeKind, MsgProc_activateApp, MsgProc_enterSizeMove, WM_SIZE,
        WM_ACTIVATEAPP, WM_ENTERSIZEMOVE, WM_CLOSE, WM_DESTROY, SIZE_MINIMIZED,
        Timer.Stop_stopped]

/-- Witness for C27: the constructed framework loses the focus of the
application (`WM_ACTIVATEAPP` with `FALSE`) at the counter value 1500: the pause
flag is set, the timer is stopped, and they agree. -/
theorem C27_witness :
    sampleMsgState.pauseAgrees ∧
    (MsgProc sampleMsgState WM_ACTIVATEAPP 0 0 1500).pauseAgrees ∧
    (MsgProc sampleMsgState WM_ACTIVATEAPP 0 0 1500).m_appPaused = true :=
  ⟨(C27_pause_flag_tracks_timer.1 1280 720 10000000 1000).2.2,
    C27_pause_flag_tracks_timer.2.1 sampleMsgState WM_ACTIVATEAPP 0 0 1500
      (C27_pause_flag_tracks_timer.1 1280 720 10000000 1000).2.2,
    (C27_pause_flag_tracks_timer.2.2.2 sampleMsgState 0 1500).2.2.1⟩


/-! ### The timer -/

/-- No call changes `m_secondsPerCount` or `m_baseTime`. -/
theorem Timer.call_constants (tm : Timer) (c : TimerCall × Int) :
    (tm.call c).m_secondsPerCount = tm.m_secondsPerCount ∧
    (tm.call c).m_baseTime = tm.m_baseTime := by
  obtain ⟨k, t⟩ := c
  cases k <;> cases hs : tm.m_stopped
  · simp only [Timer.call, Timer.Tick, hs, Bool.false_eq_true, if_false]
    split_ifs <;> exact ⟨rfl, rfl⟩
  · simp [Timer.call, Timer.Tick, hs]
  · simp [Timer.call, Timer.Stop, hs]
  · simp [Timer.call, Timer.Stop, hs]
  · simp [Timer.call, Timer.Start, hs]
  · simp [Timer.call, Timer.Start, hs]

/-- A call at a counter value that is not below the current one does not lower
the active counts. -/
theorem Timer.active_call (tm : Timer) (now : Int) (c : TimerCall × Int) (h : now ≤ c.2) :
    tm.active now ≤ (tm.call c).active c.2 := by
  obtain ⟨k, t⟩ := c
  simp only at h
  cases k <;> cases hs : tm.m_stopped
  · have e : (tm.call (TimerCall.Tick, t)).m_stopped = false ∧
        (tm.call (TimerCall.Tick, t)).m_pausedTime = tm.m_pausedTime ∧
        (tm.call (TimerCall.Tick, t)).m_baseTime = tm.m_baseTime := by
      simp only [Timer.call, Timer.Tick, hs, Bool.false_eq_true, if_false]
      split_ifs <;> exact ⟨rfl, rfl, rfl⟩
    simp only [Timer.active, hs, e.1, e.2.1, e.2.2, Bool.false_eq_true, if_false]
    omega
  · simp only [Timer.call, Timer.Tick, Timer.active, hs, if_true]
    exact le_refl _
  · simp only [Timer.call, Timer.Stop, Timer.active, hs, Bool.false_eq_true, if_false, if_true]
    omega
  · simp only [Timer.call, Timer.Stop, Timer.active, hs, if_true]
    exact le_refl _
  · simp only [Timer.call, Timer.Start, Timer.active, hs, Bool.not_false, if_true,
      Bool.false_eq_true, if_false]
    omega
  · simp only [Timer.call, Timer.Start, Timer.active, hs, Bool.not_true, Bool.false_eq_true,
      if_false, if_true]
    omega

/-- Calls at counter values that do not decrease do not lower the active counts,
and change neither `m_secondsPerCount` nor `m_baseTime`. -/
theorem Timer.active_calls (cs : List (TimerCall × Int)) (tm : Timer) (t0 : Int)
    (h : counterMonotone t0 cs) :
    tm.active t0 ≤ (tm.calls cs).active (lastCounter t0 cs) ∧
    (tm.calls cs).m_secondsPerCount = tm.m_secondsPerCount := by
  induction cs generalizing tm t0 with
  | nil => exact ⟨le_refl _, rfl⟩
  | cons c cs ih =>
    obtain ⟨h1, h2⟩ := h
    obtain ⟨i1, i2⟩ := ih (tm.call c) c.2 h2
    exact ⟨le_trans (Timer.active_call tm t0 c h1) i1, i2.trans (Timer.call_constants tm c).1⟩

/-- A non-decreasing counter over `l1 ++ l2` is non-decreasing over `l1` and, from
the last value of `l1` on, over `l2`. -/
theorem counterMonotone_append (l1 l2 : List (TimerCall × Int)) (t0 : Int)
    (h : counterMonotone t0 (l1 ++ l2)) :
    counterMonotone t0 l1 ∧ counterMonotone (lastCounter t0 l1) l2 ∧
    lastCounter t0 (l1 ++ l2) = lastCounter (lastCounter t0 l1) l2 := by
  induction l1 generalizing t0 with
  | nil => exact ⟨trivial, h, rfl⟩
  | cons c l1 ih =>
    obtain ⟨h1, h2⟩ := h
    obtain ⟨i1, i2, i3⟩ := ih c.2 h2
    exact ⟨⟨h1, i1⟩, i2, i3⟩

/-- The value of `TotalTime()` on a timer that is up to date: the active counts
times `m_secondsPerCount`. -/
theorem Timer.TotalTime_of_upToDate (tm : Timer) (now : Int) (h : tm.upToDate now) :
    tm.TotalTime = (tm.active now : ℚ) * tm.m_secondsPerCount := by
  unfold Timer.TotalTime Timer.active
  cases hs : tm.m_stopped
  · rcases h with h | h
    · rw [hs] at h
      cases h
    · simp only [Bool.false_eq_true, if_false, h]
  · simp only [if_true]

/-- Between two readings of `TotalTime()` taken while the timer is up to date, on
a counter that does not decrease, the value is not negative and does not
decrease. -/
theorem Timer.TotalTime_mono_of_upToDate (freq t0 : Int) (l1 l2 : List (TimerCall × Int))
    (hf : 0 < freq) (hm : counterMonotone t0 (l1 ++ l2))
    (h1 : ((Timer.new freq t0).calls l1).upToDate (lastCounter t0 l1))
    (h2 : ((Timer.new freq t0).calls (l1 ++ l2)).upToDate (lastCounter t0 (l1 ++ l2))) :
    0 ≤ ((Timer.new freq t0).calls l1).TotalTime ∧
    ((Timer.new freq t0).calls l1).TotalTime ≤ ((Timer.new freq t0).calls (l1 ++ l2)).TotalTime := by
  obtain ⟨m1, m2, e⟩ := counterMonotone_append l1 l2 t0 hm
  obtain ⟨a1, s1⟩ := Timer.active_calls l1 (Timer.new freq t0) t0 m1
  obtain ⟨a2, s2⟩ := Timer.active_calls l2 ((Timer.new freq t0).calls l1) _ m2
  have hcalls : (Timer.new freq t0).calls (l1 ++ l2) = ((Timer.new freq t0).calls l1).calls l2 := by
    simp [Timer.calls, List.foldl_append]
  have hspc : (Timer.new freq t0).m_secondsPerCount = 1 / (freq : ℚ) := rfl
  have hpos : (0 : ℚ) ≤ 1 / (freq : ℚ) := by
    have : (0 : ℚ) < (freq : ℚ) := by exact_mod_cast hf
    positivity
  have h0 : (Timer.new freq t0).active t0 = 0 := by
    simp [Timer.new, Timer.Reset, Timer.active]
  rw [Timer.TotalTime_of_upToDate _ _ h1, Timer.TotalTime_of_upToDate _ _ h2, hcalls, s2, s1,
    hspc, e]
  rw [h0] at a1
  refine ⟨mul_nonneg (by exact_mod_cast a1) hpos, ?_⟩
  exact mul_le_mul_of_nonneg_right (by exact_mod_cast a2) hpos

/-- C28: read while the timer is up to date (stopped, or right after `Reset` or a
`Tick`), on a counter that does not decrease, `TotalTime()` is never negative and
never decreases. But `Start` adds the pause to `m_pausedTime` and leaves
`m_currTime` at the time of the last `Tick`: on a 10 MHz counter, after a reset
at 1000, a tick at 1010 and a stop at 1020, `TotalTime()` returns 20 counts (two
microseconds); after the start at 1100 it returns -70 counts, a negative value
below the earlier reading; the tick at 1110 brings it to 30 counts. -/
theorem C28_total_time_drops_after_start :
    (∀ (freq t0 : Int) (l1 l2 : List (TimerCall × Int)), 0 < freq →
      counterMonotone t0 (l1 ++ l2) →
      ((Timer.new freq t0).calls l1).upToDate (lastCounter t0 l1) →
      ((Timer.new freq t0).calls (l1 ++ l2)).upToDate (lastCounter t0 (l1 ++ l2)) →
      0 ≤ ((Timer.new freq t0).calls l1).TotalTime ∧
      ((Timer.new freq t0).calls l1).TotalTime ≤
        ((Timer.new freq t0).calls (l1 ++ l2)).TotalTime) ∧
    counterMonotone 1000 (sampleResume ++ [(TimerCall.Tick, 1110)]) ∧
    sampleTimer.TotalTime = 0 ∧
    (sampleTimer.calls samplePause).TotalTime = 20 / 10000000 ∧
    (sampleTimer.calls sampleResume).TotalTime = -70 / 10000000 ∧
    (sampleTimer.calls sampleResume).TotalTime < 0 ∧
    (sampleTimer.calls sampleResume).TotalTime < (sampleTimer.calls samplePause).TotalTime ∧
    (sampleTimer.calls (sampleResume ++ [(TimerCall.Tick, 1110)])).TotalTime =
      30 / 10000000 := by
  have e0 : sampleTimer.TotalTime = 0 := by
    simp [sampleTimer, Timer.new, Timer.Reset, Timer.TotalTime]
  have e1 : (sampleTimer.calls samplePause).TotalTime = 20 / 10000000 := by
    norm_num [sampleTimer, samplePause, Timer.new, Timer.Reset, Timer.calls, Timer.call,
      Timer.Tick, Timer.Stop, Timer.TotalTime]
  have e2 : (sampleTimer.calls sampleResume).TotalTime = -70 / 10000000 := by
    norm_num [sampleTimer, sampleResume, samplePause, Timer.new, Timer.Reset, Timer.calls,
      Timer.call, Timer.Tick, Timer.Stop, Timer.Start, Timer.TotalTime]
  have e3 : (sampleTimer.calls (sampleResume ++ [(TimerCall.Tick, 1110)])).TotalTime =
      30 / 10000000 := by
    norm_num [sampleTimer, sampleResume, samplePause, Timer.new, Timer.Reset, Timer.calls,
      Timer.call, Timer.Tick, Timer.Stop, Timer.Start, Timer.TotalTime]
  refine ⟨Timer.TotalTime_mono_of_upToDate, ?_, e0, e1, e2, ?_, ?_, e3⟩
  · simp [counterMonotone, sampleResume, samplePause]
  · rw [e2]
    norm_num
  · rw [e1, e2]
    norm_num

/-! ### The cube -/

/-- The size of `Vertex` is 40 bytes, the cube's vertex data takes 960 bytes and
its index data 72 bytes. -/
theorem box_sizes :
    sizeof_Vertex = 40 ∧ boxVbByteSize = 960 ∧ boxIbByteSize = 72 := by
  decide

/-- Every flush leaves the geometry members as they are. -/
theorem Framework.FlushCommandQueue_geometry (k : Nat) (s s' : Framework)
    (h : s.FlushCommandQueue k = some s') : s'.geometryMembers = s.geometryMembers := by
  obtain ⟨c, q, g, t, e, -, -⟩ := Framework.FlushCommandQueue_shape k s s' h
  rw [e]
  rfl

/-- Every `OnResize` leaves the geometry members as they are. -/
theorem Framework.OnResize_geometry (k1 k2 : Nat) (s s' : Framework)
    (h : s.OnResize k1 k2 = some s') : s'.geometryMembers = s.geometryMembers := by
  by_cases hg : s.m_device = true ∧ s.m_swapChain = true ∧ s.m_commandQueue = true ∧
      s.m_directCmdListAlloc = true ∧ s.m_commandList = true
  · obtain ⟨hdev, hsc, hq, ha, hl⟩ := hg
    obtain ⟨-, -, S1, S2, hS1, hS2, hv⟩ :=
      Framework.OnResize_some k1 k2 s s' hdev hsc hq ha hl h
    obtain ⟨c1, q1, g1, t1, e1, -, -⟩ := Framework.FlushCommandQueue_shape k1 s S1 hS1
    obtain ⟨g, r, hreb⟩ := Framework.OnResize_rebuild_shape S1
    obtain ⟨c2, q2, g2, t2, e2, -, -⟩ :=
      Framework.FlushCommandQueue_shape k2 S1.OnResize_rebuild S2 hS2
    rw [hv, e2, hreb, e1]
    rfl
  · unfold Framework.OnResize at h
    rw [if_pos (guard_of_not _ _ _ _ _ hg)] at h
    cases h
    rfl

/-- Every `Draw` leaves the geometry members as they are. -/
theorem Framework.Draw_geometry (k : Nat) (s s' : Framework)
    (h : s.Draw k = some s') : s'.geometryMembers = s.geometryMembers := by
  by_cases hg : (s.m_directCmdListAlloc && s.m_commandList && s.m_commandQueue
      && s.m_swapChain && s.m_rtvHeap && s.m_dsvHeap && s.m_cbvHeap) = true
  swap
  · simp [Framework.Draw, hg] at h
  simp only [Framework.Draw, hg, if_true] at h
  rw [Framework.FlushCommandQueue_geometry k _ s' h, Framework.Draw_record_eq]
  rfl

/-- Every run leaves the geometry members as they are. -/
theorem Framework.run_geometry (ops : List Op) (s s' : Framework)
    (h : s.run ops = some s') : s'.geometryMembers = s.geometryMembers := by
  induction ops generalizing s with
  | nil =>
    cases h
    rfl
  | cons op ops ih =>
    obtain ⟨s1, h1, h2⟩ := Option.bind_eq_some.mp h
    rw [ih s1 h2]
    cases op with
    | Draw k => exact Framework.Draw_geometry k s s1 h1
    | SetClientSize w h =>
      cases h1
      rfl
    | OnResize k1 k2 => exact Framework.OnResize_geometry k1 k2 s s1 h1

/-- What a completed `BuildBoxGeometry` leaves in the cube members: 36 indices, a
vertex buffer view of `vbByteSize` bytes with the stride `sizeof(Vertex)` on the
vertex buffer, and an index buffer view of `ibByteSize` bytes on the index
buffer. -/
theorem Framework.BuildBoxGeometry_views (k : Nat) (s s' : Framework)
    (h : s.BuildBoxGeometry k = some s') :
    s'.m_boxIndexCount = 36 ∧
    s'.m_boxVBView = ⟨s'.m_boxVB, boxVbByteSize, sizeof_Vertex⟩ ∧
    s'.m_boxIBView = ⟨s'.m_boxIB, boxIbByteSize⟩ ∧
    s'.m_boxVB = some s.nextResource ∧ s'.m_boxIB = some (s.nextResource + 1) := by
  unfold Framework.BuildBoxGeometry at h
  by_cases hg : (!s.m_directCmdListAlloc || !s.m_commandList || !s.m_commandQueue) = true
  · rw [if_pos hg] at h
    cases h
  · rw [if_neg hg] at h
    obtain ⟨S, hS, hf⟩ := Option.map_eq_some'.mp h
    obtain ⟨c, q, g, t, e, -, -⟩ := Framework.FlushCommandQueue_shape k _ S hS
    rw [← hf, e]
    exact ⟨rfl, rfl, rfl, rfl, rfl⟩

/-- What a completed `Init` leaves in the geometry members: the cube members of
`BuildBoxGeometry`, a model vertex buffer, and the vertex count of the import,
which had succeeded with at least one vertex. -/
theorem Framework.Init_geometry (env : Env) (kBox k1 k2 : Nat) (s s0 : Framework)
    (h : s.Init env kBox k1 k2 = some s0) :
    s0.m_boxIndexCount = 36 ∧
    s0.m_boxVBView = ⟨s0.m_boxVB, boxVbByteSize, sizeof_Vertex⟩ ∧
    s0.m_boxIBView = ⟨s0.m_boxIB, boxIbByteSize⟩ ∧
    s0.m_modelVB.isSome = true ∧ s0.m_modelVBV.BufferLocation = s0.m_modelVB ∧
    s0.m_modelVertexCount = env.objVertexCount % 2 ^ 32 ∧
    env.objLoadOk = true ∧ env.objVertexCount ≠ 0 := by
  unfold Framework.Init at h
  obtain ⟨S1, -, h⟩ := Option.bind_eq_some.mp h
  obtain ⟨S2, hbox, h⟩ := Option.bind_eq_some.mp h
  obtain ⟨S3, hobj, hres⟩ := Option.bind_eq_some.mp h
  obtain ⟨b1, b2, b3, -, -⟩ := Framework.BuildBoxGeometry_views kBox S1 S2 hbox
  have hgeo := Framework.OnResize_geometry k1 k2 S3 s0 hres
  unfold Framework.BuildObjVB_Upload at hobj
  by_cases hok : env.objLoadOk = true
  swap
  · simp [hok] at hobj
  by_cases hcount : env.objVertexCount = 0
  · simp [hok, hcount] at hobj
  simp only [hok, hcount, Bool.not_true, Bool.false_eq_true, if_false] at hobj
  cases hobj
  simp only [Framework.geometryMembers, Prod.mk.injEq] at hgeo
  obtain ⟨g1, g2, g3, g4, g5, g6, g7, g8⟩ := hgeo
  rw [g1, g2, g3, g4, g5, g6, g7, g8]
  exact ⟨b1, b2, b3, rfl, rfl, rfl, hok, hcount⟩

/-- The resources that `BuildBoxGeometry` creates and the command list that it
records and submits. -/
theorem Framework.BuildBoxGeometry_recorded (s : Framework) :
    s.BuildBoxGeometry_create.m_boxVB = some s.nextResource ∧
    s.BuildBoxGeometry_create.m_boxIB = some (s.nextResource + 1) ∧
    s.BuildBoxGeometry_create.m_boxVBUpload = some (s.nextResource + 2) ∧
    s.BuildBoxGeometry_create.m_boxIBUpload = some (s.nextResource + 3) ∧
    s.BuildBoxGeometry_create.BuildBoxGeometry_record.recording =
      [Cmd.CopyBufferRegion (some s.nextResource) (some (s.nextResource + 2)) boxVbByteSize,
        Cmd.CopyBufferRegion (some (s.nextResource + 1)) (some (s.nextResource + 3))
          boxIbByteSize,
        Cmd.ResourceBarrier (some s.nextResource) D3D12_RESOURCE_STATE_COPY_DEST
          D3D12_RESOURCE_STATE_VERTEX_AND_CONSTANT_BUFFER,
        Cmd.ResourceBarrier (some (s.nextResource + 1)) D3D12_RESOURCE_STATE_COPY_DEST
          D3D12_RESOURCE_STATE_INDEX_BUFFER] ∧
    s.BuildBoxGeometry_create.BuildBoxGeometry_record.queue =
      s.queue ++ [QueueItem.ExecuteCommandLists
        s.BuildBoxGeometry_create.BuildBoxGeometry_record.recording] := by
  simp [Framework.BuildBoxGeometry_create, Framework.BuildBoxGeometry_record,
    Framework.allocatorReset, Framework.commandListReset, Framework.commandListClose,
    Framework.call, Framework.executeCommandLists, Framework.record,
    Framework.createResource, Nat.add_assoc]

/-- The buffer contents after `BuildBoxGeometry`: the vertex buffer holds the
vertex array, the index buffer holds the index array, the upload buffers are
gone and no other buffer has changed. -/
theorem Framework.BuildBoxGeometry_memory_eq (s : Framework) (vertexData : List Nat)
    (junk : Nat → Nat) (mem0 : BufferMemory) (hlen : vertexData.length = boxVbByteSize) :
    ∃ mem, s.BuildBoxGeometry_memory vertexData junk mem0 = some mem ∧
      mem s.nextResource = some vertexData ∧
      mem (s.nextResource + 1) = some boxIndexData ∧
      mem (s.nextResource + 2) = none ∧ mem (s.nextResource + 3) = none ∧
      ∀ r, r < s.nextResource ∨ s.nextResource + 4 ≤ r → mem r = mem0 r := by
  obtain ⟨h1, h2, h3, h4, hrec, -⟩ := Framework.BuildBoxGeometry_recorded s
  have e1 : s.nextResource ≠ s.nextResource + 1 := by omega
  have e2 : s.nextResource ≠ s.nextResource + 2 := by omega
  have e3 : s.nextResource ≠ s.nextResource + 3 := by omega
  have e4 : s.nextResource + 1 ≠ s.nextResource + 2 := by omega
  have e5 : s.nextResource + 1 ≠ s.nextResource + 3 := by omega
  have e6 : s.nextResource + 2 ≠ s.nextResource + 3 := by omega
  have hib : boxIndexData.length = boxIbByteSize := rfl
  have hvb : boxVbByteSize = 960 := box_sizes.2.1
  have hib2 : boxIbByteSize = 72 := box_sizes.2.2
  have hj1 : ((List.range boxVbByteSize).map junk).length = boxVbByteSize := by simp
  have hj2 : ((List.range boxIbByteSize).map junk).length = boxIbByteSize := by simp
  have ht1 : vertexData.take boxVbByteSize = vertexData :=
    List.take_of_length_le (le_of_eq hlen)
  have ht2 : boxIndexData.take boxIbByteSize = boxIndexData :=
    List.take_of_length_le (le_of_eq hib)
  have hd1 : ((List.range boxVbByteSize).map junk).drop boxVbByteSize = [] :=
    List.drop_eq_nil_of_le (le_of_eq hj1)
  have hd2 : ((List.range boxIbByteSize).map junk).drop boxIbByteSize = [] :=
    List.drop_eq_nil_of_le (le_of_eq hj2)
  refine ⟨Function.update (Function.update (Function.update (Function.update
    (Function.update (Function.update (Function.update (Function.update (Function.update
      (Function.update mem0
      s.nextResource (some ((List.range boxVbByteSize).map junk)))
      (s.nextResource + 1) (some ((List.range boxIbByteSize).map junk)))
      (s.nextResource + 2) (some ((List.range boxVbByteSize).map junk)))
      (s.nextResource + 3) (some ((List.range boxIbByteSize).map junk)))
      (s.nextResource + 2) (some vertexData))
      (s.nextResource + 3) (some boxIndexData))
      s.nextResource (some vertexData))
      (s.nextResource + 1) (some boxIndexData))
      (s.nextResource + 2) none)
      (s.nextResource + 3) none, ?_, ?_, ?_, ?_, ?_, ?_⟩
  · unfold Framework.BuildBoxGeometry_memory
    simp only [h1, h2, h3, h4, hrec]
    simp only [createBuffer, Map_memcpy, Option.some_bind,
      Function.update_same, Function.update_noteq, ne_eq, e1, e2, e3, e4, e5, e6,
      e1.symm, e2.symm, e3.symm, e4.symm, e5.symm, e6.symm, not_false_eq_true,
      hj1, hj2, hlen, hib, le_refl, and_self, if_true, ht1, ht2, hd1, hd2, List.append_nil,
      execMemory, Cmd.execMemory]
  · simp [Function.update_noteq, e1, e2, e3]
  · simp [Function.update_noteq, e4, e5]
  · simp [Function.update_noteq, e6]
  · simp
  · intro r hr
    have r0 : r ≠ s.nextResource := by omega
    have r1 : r ≠ s.nextResource + 1 := by omega
    have r2 : r ≠ s.nextResource + 2 := by omega
    have r3 : r ≠ s.nextResource + 3 := by omega
    simp [Function.update_noteq, r0, r1, r2, r3]

/-- Through a view of `ibByteSize` bytes, the input assembler fetches the index
`indices[j]` for `j` below 36 and leaves the view for every other `j`. -/
theorem fetchIndex_boxIndexData (j : Nat) :
    (j < 36 → fetchIndex boxIndexData boxIbByteSize j = boxIndices[j]?) ∧
    (36 ≤ j → fetchIndex boxIndexData boxIbByteSize j = none) := by
  constructor
  · intro hj
    interval_cases j <;> rfl
  · intro hj
    have hib2 : boxIbByteSize = 72 := box_sizes.2.2
    unfold fetchIndex
    rw [if_neg]
    rw [hib2]
    simp only [indexBytes]
    omega

/-- Through a view of 960 bytes with stride 40 on a buffer of 960 bytes, the
input assembler fetches the three elements of the vertex `v` for `v` below 24 and
leaves the view for every other `v`. -/
theorem fetchElements_vertex (bytes : List Nat) (hlen : bytes.length = 960) (v : Nat) :
    (v < 24 → fetchElements bytes 960 (vertexBytes 40 v) =
      some [(bytes.drop (v * 40)).take 12, (bytes.drop (v * 40 + 12)).take 12,
        (bytes.drop (v * 40 + 24)).take 16]) ∧
    (24 ≤ v → fetchElements bytes 960 (vertexBytes 40 v) = none) := by
  constructor
  · intro hv
    have c1 : v * 40 + 0 + 12 ≤ 960 ∧ v * 40 + 0 + 12 ≤ bytes.length := by omega
    have c2 : v * 40 + 12 + 12 ≤ 960 ∧ v * 40 + 12 + 12 ≤ bytes.length := by omega
    have c3 : v * 40 + 24 + 16 ≤ 960 ∧ v * 40 + 24 + 16 ≤ bytes.length := by omega
    simp only [vertexBytes, inputLayout, List.map_cons, List.map_nil, fetchElements,
      fetchElement, if_pos c1, if_pos c2, if_pos c3]
    simp
  · intro hv
    have c3 : ¬ (v * 40 + 24 + 16 ≤ 960 ∧ v * 40 + 24 + 16 ≤ bytes.length) := by omega
    simp only [vertexBytes, inputLayout, List.map_cons, List.map_nil, fetchElements,
      fetchElement, if_neg c3]
    split <;> simp_all

/-- No command that `Draw` or `OnResize` records writes to a buffer. -/
theorem Framework.frame_keeps_memory (s : Framework) (mem : BufferMemory) :
    execMemory s.Draw_record.recording mem = some mem ∧
    execMemory s.OnResize_rebuild.recording mem = some mem := by
  constructor
  · rw [Framework.Draw_record_eq]
    simp only [Framework.drawCommands]
    split <;> rfl
  · obtain ⟨g, r, h⟩ := Framework.OnResize_rebuild_shape s
    rw [h]
    rfl

/-- What a completed `Init` leaves in the cube members: those of its
`BuildBoxGeometry`, which ran on the engine after `Init_objects`. -/
theorem Framework.Init_box (env : Env) (kBox k1 k2 : Nat) (s s0 : Framework)
    (h : s.Init env kBox k1 k2 = some s0) :
    ∃ S1 S2, s.Init_objects env = some S1 ∧ S1.BuildBoxGeometry kBox = some S2 ∧
      s0.m_boxVBView = S2.m_boxVBView ∧ s0.m_boxIBView = S2.m_boxIBView ∧
      s0.m_boxIndexCount = S2.m_boxIndexCount := by
  unfold Framework.Init at h
  obtain ⟨S1, hobjs, h⟩ := Option.bind_eq_some.mp h
  obtain ⟨S2, hbox, h⟩ := Option.bind_eq_some.mp h
  obtain ⟨S3, hobj, hres⟩ := Option.bind_eq_some.mp h
  have hgeo := Framework.OnResize_geometry k1 k2 S3 s0 hres
  refine ⟨S1, S2, hobjs, hbox, ?_⟩
  unfold Framework.BuildObjVB_Upload at hobj
  by_cases hok : env.objLoadOk = true
  swap
  · simp [hok] at hobj
  by_cases hcount : env.objVertexCount = 0
  · simp [hok, hcount] at hobj
  simp only [hok, hcount, Bool.not_true, Bool.false_eq_true, if_false] at hobj
  cases hobj
  simp only [Framework.geometryMembers, Prod.mk.injEq] at hgeo
  obtain ⟨-, -, g3, g4, g5, -⟩ := hgeo
  rw [g3, g4, g5]
  exact ⟨rfl, rfl, rfl⟩

/-- What the cube's `DrawIndexedInstanced` reads through views of 72 and 960
bytes (stride 40) on an index buffer that holds the index array and a vertex
buffer of 960 bytes. -/
theorem readIndex_readVertex_box (mem : BufferMemory) (vb ib : Nat) (vertexData : List Nat)
    (hlen : vertexData.length = 960)
    (hvb : mem vb = some vertexData) (hib : mem ib = some boxIndexData) :
    (∀ j, j < 36 → ∃ v, readIndex mem ⟨some ib, boxIbByteSize⟩ j = some v ∧
      boxIndices[j]? = some v ∧ v < 24 ∧
      readVertex mem ⟨some vb, boxVbByteSize, sizeof_Vertex⟩ v =
        some [(vertexData.drop (v * 40)).take 12, (vertexData.drop (v * 40 + 12)).take 12,
          (vertexData.drop (v * 40 + 24)).take 16]) ∧
    (∀ j, 36 ≤ j → readIndex mem ⟨some ib, boxIbByteSize⟩ j = none) ∧
    (∀ v, 24 ≤ v → readVertex mem ⟨some vb, boxVbByteSize, sizeof_Vertex⟩ v = none) := by
  obtain ⟨hV, hvbs, -⟩ := box_sizes
  have hidx : ∀ i ∈ boxIndices, i < 24 := by decide
  refine ⟨?_, ?_, ?_⟩
  · intro j hj
    have hlt : j < boxIndices.length := hj
    refine ⟨boxIndices[j], ?_, List.getElem?_eq_getElem hlt, hidx _ (List.getElem_mem hlt), ?_⟩
    · simp only [readIndex, hib]
      rw [(fetchIndex_boxIndexData j).1 hj, List.getElem?_eq_getElem hlt]
    · simp only [readVertex, hvb, hvbs, hV]
      exact (fetchElements_vertex vertexData hlen _).1 (hidx _ (List.getElem_mem hlt))
  · intro j hj
    simp only [readIndex, hib]
    exact (fetchIndex_boxIndexData j).2 hj
  · intro v hv
    simp only [readVertex, hvb, hvbs, hV]
    exact (fetchElements_vertex vertexData hlen v).2 hv

/-- What a completed `BuildBoxGeometry` leaves behind: the views on the two new
buffers, 36 indices, and the command list with the two copies from the upload
buffers. -/
theorem Framework.BuildBoxGeometry_box (k : Nat) (s s' : Framework)
    (h : s.BuildBoxGeometry k = some s') :
    s'.m_boxIndexCount = 36 ∧
    s'.m_boxVBView = ⟨some s.nextResource, boxVbByteSize, sizeof_Vertex⟩ ∧
    s'.m_boxIBView = ⟨some (s.nextResource + 1), boxIbByteSize⟩ ∧
    s'.recording = s.BuildBoxGeometry_create.BuildBoxGeometry_record.recording := by
  obtain ⟨b1, b2, b3, b4, b5⟩ := Framework.BuildBoxGeometry_views k s s' h
  rw [b4] at b2
  rw [b5] at b3
  refine ⟨b1, b2, b3, ?_⟩
  unfold Framework.BuildBoxGeometry at h
  by_cases hg : (!s.m_directCmdListAlloc || !s.m_commandList || !s.m_commandQueue) = true
  · rw [if_pos hg] at h
    cases h
  · rw [if_neg hg] at h
    obtain ⟨S, hS, hf⟩ := Option.map_eq_some'.mp h
    obtain ⟨c, q, g, t, e, -, -⟩ := Framework.FlushCommandQueue_shape k _ S hS
    rw [← hf, e]
    rfl

/-- C25: the cube of `BuildBoxGeometry` has 24 vertices and 36 indices, each index
below 24 (and a 16-bit value); `sizeof(Vertex)` is 40, the vertex data takes
`24 * 40 = 960` bytes and the index data `36 * 2 = 72` bytes. A completed
`BuildBoxGeometry` sets `m_boxIndexCount = 36`, the vertex buffer view to 960
bytes with stride 40 and the index buffer view to 72 bytes, and after a completed
`Init` and any run these members still have these values. The buffers behind the
views hold what `BuildBoxGeometry` put there: it creates the vertex and the index
buffer with 960 and 72 bytes, copies the two arrays into the mapped upload
buffers and records the two `CopyBufferRegion` commands whose execution leaves
the vertex array in the vertex buffer and the index array in the index buffer;
no command that a later `Draw` or `OnResize` records writes to a buffer. Hence
for each of the 36 indices that the cube's `DrawIndexedInstanced` reads, the two
bytes are read inside the index buffer view and the index buffer and give the
value `indices[j]`, which is below 24, and the three elements of the vertex it
names are read inside the vertex buffer view and the vertex buffer; an index
position from 36 on or an index value from 24 on would leave the views. -/
theorem C25_cube_draw_stays_inside_views :
    boxVertices.length = 24 ∧ boxIndices.length = 36 ∧
    (∀ i ∈ boxIndices, i < 24 ∧ i < 2 ^ 16) ∧
    sizeof_Vertex = 40 ∧
    boxVbByteSize = boxVertices.length * sizeof_Vertex ∧ boxVbByteSize = 960 ∧
    boxIbByteSize = boxIndices.length * 2 ∧ boxIbByteSize = 72 ∧
    (∀ (k : Nat) (s s' : Framework), s.BuildBoxGeometry k = some s' →
      s'.m_boxIndexCount = boxIndices.length ∧
      s'.m_boxVBView = ⟨s'.m_boxVB, 960, 40⟩ ∧ s'.m_boxIBView = ⟨s'.m_boxIB, 72⟩) ∧
    (∀ (env : Env) (kBox k1 k2 : Nat) (w h : Int) (s0 s : Framework) (ops : List Op),
      (Framework.new w h).Init env kBox k1 k2 = some s0 → s0.run ops = some s →
      s.m_boxIndexCount = 36 ∧
      s.m_boxVBView = ⟨s.m_boxVB, 960, 40⟩ ∧ s.m_boxIBView = ⟨s.m_boxIB, 72⟩ ∧
      (¬ (s.m_modelVB.isSome = true ∧ 0 < s.m_modelVertexCount) →
        Cmd.DrawIndexedInstanced 36 ∈ s.Draw_record.recording)) ∧
    (∀ k, k < 36 →
      (indexBytes k).1 < (indexBytes k).2 ∧ (indexBytes k).2 ≤ boxIbByteSize ∧
      ∃ v, boxIndices[k]? = some v ∧
        ∀ r ∈ vertexBytes sizeof_Vertex v, r.1 < r.2 ∧ r.2 ≤ boxVbByteSize) ∧
    (∀ (k : Nat) (s s' : Framework) (vertexData : List Nat) (junk : Nat → Nat)
      (mem0 : BufferMemory),
      s.BuildBoxGeometry k = some s' →
      vertexData.length = boxVertices.length * sizeof_Vertex →
      s'.m_boxVBView = ⟨some s.nextResource, 960, 40⟩ ∧
      s'.m_boxIBView = ⟨some (s.nextResource + 1), 72⟩ ∧
      s'.recording =
        [Cmd.CopyBufferRegion (some s.nextResource) (some (s.nextResource + 2)) 960,
          Cmd.CopyBufferRegion (some (s.nextResource + 1)) (some (s.nextResource + 3)) 72,
          Cmd.ResourceBarrier (some s.nextResource) D3D12_RESOURCE_STATE_COPY_DEST
            D3D12_RESOURCE_STATE_VERTEX_AND_CONSTANT_BUFFER,
          Cmd.ResourceBarrier (some (s.nextResource + 1)) D3D12_RESOURCE_STATE_COPY_DEST
            D3D12_RESOURCE_STATE_INDEX_BUFFER] ∧
      ∃ mem, s.BuildBoxGeometry_memory vertexData junk mem0 = some mem ∧
        mem s.nextResource = some vertexData ∧
        mem (s.nextResource + 1) = some boxIndexData ∧
        (∀ j, j < s'.m_boxIndexCount →
          ∃ v, readIndex mem s'.m_boxIBView j = some v ∧ boxIndices[j]? = some v ∧
            v < boxVertices.length ∧
            readVertex mem s'.m_boxVBView v =
              some [(vertexData.drop (v * 40)).take 12,
                (vertexData.drop (v * 40 + 12)).take 12,
                (vertexData.drop (v * 40 + 24)).take 16]) ∧
        (∀ j, s'.m_boxIndexCount ≤ j → readIndex mem s'.m_boxIBView j = none) ∧
        (∀ v, boxVertices.length ≤ v → readVertex mem s'.m_boxVBView v = none)) ∧
    (∀ (s : Framework) (mem : BufferMemory),
      execMemory s.Draw_record.recording mem = some mem ∧
      execMemory s.OnResize_rebuild.recording mem = some mem) ∧
    (∀ (env : Env) (kBox k1 k2 : Nat) (w h : Int) (s0 s : Framework) (ops : List Op)
      (vertexData : List Nat) (junk : Nat → Nat) (mem0 : BufferMemory),
      (Framework.new w h).Init env kBox k1 k2 = some s0 → s0.run ops = some s →
      vertexData.length = boxVertices.length * sizeof_Vertex →
      ∃ S1 mem, (Framework.new w h).Init_objects env = some S1 ∧
        S1.BuildBoxGeometry_memory vertexData junk mem0 = some mem ∧
        execMemory s.Draw_record.recording mem = some mem ∧
        ∀ j, j < s.m_boxIndexCount →
          ∃ v, readIndex mem s.m_boxIBView j = some v ∧ boxIndices[j]? = some v ∧
            v < boxVertices.length ∧
            readVertex mem s.m_boxVBView v =
              some [(vertexData.drop (v * 40)).take 12,
                (vertexData.drop (v * 40 + 12)).take 12,
                (vertexData.drop (v * 40 + 24)).take 16]) := by
  obtain ⟨hV, hvb, hib⟩ := box_sizes
  have hidx : ∀ i ∈ boxIndices, i < 24 ∧ i < 2 ^ 16 := by decide
  have hbuild : ∀ (k : Nat) (s s' : Framework) (vertexData : List Nat) (junk : Nat → Nat)
      (mem0 : BufferMemory),
      s.BuildBoxGeometry k = some s' →
      vertexData.length = boxVertices.length * sizeof_Vertex →
      s'.m_boxIndexCount = 36 ∧
      s'.m_boxVBView = ⟨some s.nextResource, boxVbByteSize, sizeof_Vertex⟩ ∧
      s'.m_boxIBView = ⟨some (s.nextResource + 1), boxIbByteSize⟩ ∧
      ∃ mem, s.BuildBoxGeometry_memory vertexData junk mem0 = some mem ∧
        mem s.nextResource = some vertexData ∧
        mem (s.nextResource + 1) = some boxIndexData ∧
        (∀ j, j < 36 →
          ∃ v, readIndex mem s'.m_boxIBView j = some v ∧ boxIndices[j]? = some v ∧
            v < 24 ∧
            readVertex mem s'.m_boxVBView v =
              some [(vertexData.drop (v * 40)).take 12,
                (vertexData.drop (v * 40 + 12)).take 12,
                (vertexData.drop (v * 40 + 24)).take 16]) ∧
        (∀ j, 36 ≤ j → readIndex mem s'.m_boxIBView j = none) ∧
        (∀ v, 24 ≤ v → readVertex mem s'.m_boxVBView v = none) := by
    intro k s s' vertexData junk mem0 h hlen
    have hlen1 : vertexData.length = boxVbByteSize := by
      rw [hlen, hvb, hV]
      rfl
    have hlen2 : vertexData.length = 960 := by rw [hlen1, hvb]
    obtain ⟨b1, b2, b3, -⟩ := Framework.BuildBoxGeometry_box k s s' h
    obtain ⟨mem, hmem, m1, m2, -⟩ :=
      Framework.BuildBoxGeometry_memory_eq s vertexData junk mem0 hlen1
    refine ⟨b1, b2, b3, mem, hmem, m1, m2, ?_⟩
    rw [b2, b3]
    exact readIndex_readVertex_box mem _ _ vertexData hlen2 m1 m2
  refine ⟨rfl, rfl, hidx, hV, by decide, hvb, by decide, hib, ?_, ?_, ?_, ?_,
    Framework.frame_keeps_memory, ?_⟩
  · intro k s s' h
    obtain ⟨b1, b2, b3, -, -⟩ := Framework.BuildBoxGeometry_views k s s' h
    rw [hvb, hV] at b2
    rw [hib] at b3
    exact ⟨b1, b2, b3⟩
  · intro env kBox k1 k2 w h s0 s ops hinit hrun
    obtain ⟨b1, b2, b3, -⟩ := Framework.Init_geometry env kBox k1 k2 _ s0 hinit
    have hgeo := Framework.run_geometry ops s0 s hrun
    simp only [Framework.geometryMembers, Prod.mk.injEq] at hgeo
    obtain ⟨g1, g2, g3, g4, g5, -⟩ := hgeo
    rw [hvb, hV] at b2
    rw [hib] at b3
    refine ⟨g5.trans b1, ?_, ?_, ?_⟩
    · rw [g3, g1, b2]
    · rw [g4, g2, b3]
    · intro hm
      have hbr : (s.m_modelVB.isSome && decide (0 < s.m_modelVertexCount)) = false := by
        cases h1 : s.m_modelVB.isSome
        · rfl
        · simp only [Bool.true_and, decide_eq_false_iff_not]
          exact fun h2 => hm ⟨h1, h2⟩
      rw [Framework.Draw_record_eq]
      simp only [Framework.drawCommands, hbr, Bool.false_eq_true, if_false, g5.trans b1]
      simp
  · intro k hk
    have hlen : k < boxIndices.length := hk
    refine ⟨by simp [indexBytes], ?_, boxIndices[k], List.getElem?_eq_getElem hlen, ?_⟩
    · rw [hib]
      simp only [indexBytes]
      omega
    · have hv := (hidx _ (List.getElem_mem hlen)).1
      intro r hr
      simp only [vertexBytes, inputLayout, List.map_cons, List.map_nil, List.mem_cons,
        List.mem_singleton, List.not_mem_nil, or_false] at hr
      rw [hvb, hV] at *
      rcases hr with rfl | rfl | rfl <;> constructor <;> simp only <;> omega
  · intro k s s' vertexData junk mem0 h hlen
    obtain ⟨b1, b2, b3, mem, hmem, m1, m2, r1, r2, r3⟩ :=
      hbuild k s s' vertexData junk mem0 h hlen
    obtain ⟨-, -, -, b4⟩ := Framework.BuildBoxGeometry_box k s s' h
    rw [(Framework.BuildBoxGeometry_recorded s).2.2.2.2.1, hvb, hib] at b4
    rw [hvb, hV] at b2
    rw [hib] at b3
    refine ⟨b2, b3, b4, mem, hmem, m1, m2, ?_, ?_, r3⟩
    · rw [b1]
      exact r1
    · rw [b1]
      exact r2
  · intro env kBox k1 k2 w h s0 s ops vertexData junk mem0 hinit hrun hlen
    obtain ⟨S1, S2, hobjs, hbox, i1, i2, i3⟩ :=
      Framework.Init_box env kBox k1 k2 _ s0 hinit
    have hgeo := Framework.run_geometry ops s0 s hrun
    simp only [Framework.geometryMembers, Prod.mk.injEq] at hgeo
    obtain ⟨-, -, g3, g4, g5, -⟩ := hgeo
    obtain ⟨b1, -, -, mem, hmem, -, -, r1, -, -⟩ :=
      hbuild kBox S1 S2 vertexData junk mem0 hbox hlen
    refine ⟨S1, mem, hobjs, hmem, (Framework.frame_keeps_memory s mem).1, ?_⟩
    rw [g5, i3, b1, g4, i2, g3, i1]
    exact r1

/-- Witness for C25: on the engine that `Init` has prepared on the sample
platform, `BuildBoxGeometry` completes; through its views the last index
position, 35, reads the index 23, whose vertex is read from the last 40 bytes of
the vertex buffer, and position 36 would leave the index buffer view. -/
theorem C25_witness :
    sampleVertexData.length = boxVertices.length * sizeof_Vertex ∧
    ∃ s' mem, sampleBeforeBox.BuildBoxGeometry 0 = some s' ∧
      sampleBeforeBox.BuildBoxGeometry_memory sampleVertexData (fun _ => 0) (fun _ => none) =
        some mem ∧
      mem 2 = some sampleVertexData ∧ mem 3 = some boxIndexData ∧
      readIndex mem s'.m_boxIBView 35 = some 23 ∧
      readVertex mem s'.m_boxVBView 23 =
        some [(sampleVertexData.drop 920).take 12, (sampleVertexData.drop 932).take 12,
          (sampleVertexData.drop 944).take 16] ∧
      readIndex mem s'.m_boxIBView 36 = none := by
  have hs : sampleBeforeBox.BuildBoxGeometry 0 =
      some ((sampleBeforeBox.BuildBoxGeometry 0).getD sampleBeforeBox) := rfl
  obtain ⟨-, -, -, mem, hmem, m1, m2, r1, r2, -⟩ :=
    C25_cube_draw_stays_inside_views.2.2.2.2.2.2.2.2.2.2.2.1 0 sampleBeforeBox _
      sampleVertexData (fun _ => 0) (fun _ => none) hs rfl
  obtain ⟨v, hv1, hv2, -, hv4⟩ := r1 35 (by decide)
  have hv : v = 23 := by
    have h35 : boxIndices[35]? = some 23 := rfl
    rw [h35] at hv2
    exact (Option.some.inj hv2).symm
  subst hv
  exact ⟨rfl, _, mem, hs, hmem, m1, m2, hv1, hv4, r2 36 (by decide)⟩

/-- Every coordinate of every cube vertex lies between -1 and 1. -/
theorem boxVertices_range (q : Vertex) (hq : q ∈ boxVertices) :
    (-1 ≤ q.Pos.x ∧ q.Pos.x ≤ 1) ∧ (-1 ≤ q.Pos.y ∧ q.Pos.y ≤ 1) ∧
    (-1 ≤ q.Pos.z ∧ q.Pos.z ≤ 1) := by
  simp only [boxVertices, List.mem_cons, List.mem_singleton, List.not_mem_nil, or_false] at hq
  rcases hq with rfl | rfl | rfl | rfl | rfl | rfl | rfl | rfl | rfl | rfl | rfl | rfl | rfl |
    rfl | rfl | rfl | rfl | rfl | rfl | rfl | rfl | rfl | rfl | rfl <;> norm_num

/-- A triangle whose cross product `(p1 - p0) x (p2 - p0)` is four times the
vector `n` is kept by the rasterizer state of `BuildPSO` for every viewer on the
side that `n` points to, and discarded for every viewer on the other side. -/
theorem BuildPSO_culled_of_normal (eye p0 p1 p2 n : XMFLOAT3)
    (h : XMVector3Cross (XMVectorSubtract p1 p0) (XMVectorSubtract p2 p0) =
      XMVectorScale n 4) :
    (0 < XMVector3Dot n (XMVectorSubtract eye p0) →
      culled BuildPSO_rasterDesc eye p0 p1 p2 = false) ∧
    (XMVector3Dot n (XMVectorSubtract eye p0) < 0 →
      culled BuildPSO_rasterDesc eye p0 p1 p2 = true) := by
  have ho : orientationFrom eye p0 p1 p2 = 4 * XMVector3Dot n (XMVectorSubtract eye p0) := by
    unfold orientationFrom
    rw [h]
    simp only [XMVector3Dot, XMVectorScale]
    ring
  have hc : culled BuildPSO_rasterDesc eye p0 p1 p2 =
      decide (orientationFrom eye p0 p1 p2 < 0) := by
    simp [culled, BuildPSO_rasterDesc, D3D12_CULL_MODE_BACK]
  rw [hc, ho]
  constructor
  · intro hpos
    rw [decide_eq_false_iff_not]
    linarith
  · intro hneg
    rw [decide_eq_true_iff]
    linarith

/-- Each of the twelve triangles of the cube faces outwards. -/
theorem boxTriangle_facesOutwards (t : Nat) (ht : t < 12) :
    ∃ v0 v1 v2 : Vertex, boxTriangle t = some (v0, v1, v2) ∧ FacesOutwards v0 v1 v2 := by
  interval_cases t <;>
    (refine ⟨_, _, _, rfl, ?_⟩
     simp only [boxVertices, boxIndices, List.getElem_cons_succ, List.getElem_cons_zero]
     refine ⟨rfl, rfl, ?_, ?_, ?_, ?_, ?_, ?_⟩
     · simp only [XMVector3Cross, XMVectorSubtract, XMVectorScale]
       norm_num
     · norm_num [XMVector3Dot]
     · norm_num [XMVector3Dot]
     · norm_num [XMVector3Dot]
     · norm_num [XMVector3Dot]
     · intro q hq
       obtain ⟨⟨x1, x2⟩, ⟨y1, y2⟩, ⟨z1, z2⟩⟩ := boxVertices_range q hq
       simp only [XMVector3Dot]
       norm_num
       first | exact x2 | exact y2 | exact z2 | linarith)

/-- C26: the index list holds twelve triangles. For each of them the three
vertices carry the same stored normal `n`, and the cross product
`(p1 - p0) x (p2 - p0)` of their positions is `4 n`; `n` is a unit vector, the
three corners lie in the plane `n . p = 1` and no cube vertex lies beyond it, so
`n` is the outward normal of the face. With the rasterizer state of `BuildPSO`
(back faces culled, clockwise triangles front-facing) the triangle is therefore
kept for every viewer in front of its face and discarded for every viewer behind
it. -/
theorem C26_cube_triangles_wound_outwards (t : Nat) (ht : t < 12) :
    boxIndices.length = 3 * 12 ∧
    BuildPSO_rasterDesc.CullMode = D3D12_CULL_MODE_BACK ∧
    BuildPSO_rasterDesc.FrontCounterClockwise = false ∧
    ∃ v0 v1 v2 : Vertex, boxTriangle t = some (v0, v1, v2) ∧
      v1.Normal = v0.Normal ∧ v2.Normal = v0.Normal ∧
      XMVector3Cross (XMVectorSubtract v1.Pos v0.Pos) (XMVectorSubtract v2.Pos v0.Pos) =
        XMVectorScale v0.Normal 4 ∧
      XMVector3Dot v0.Normal v0.Normal = 1 ∧
      XMVector3Dot v0.Normal v0.Pos = 1 ∧ XMVector3Dot v0.Normal v1.Pos = 1 ∧
      XMVector3Dot v0.Normal v2.Pos = 1 ∧
      (∀ q ∈ boxVertices, XMVector3Dot v0.Normal q.Pos ≤ 1) ∧
      (∀ eye : XMFLOAT3, 0 < XMVector3Dot v0.Normal (XMVectorSubtract eye v0.Pos) →
        culled BuildPSO_rasterDesc eye v0.Pos v1.Pos v2.Pos = false) ∧
      (∀ eye : XMFLOAT3, XMVector3Dot v0.Normal (XMVectorSubtract eye v0.Pos) < 0 →
        culled BuildPSO_rasterDesc eye v0.Pos v1.Pos v2.Pos = true) := by
  obtain ⟨v0, v1, v2, htri, h1, h2, hcross, hn, hp0, hp1, hp2, hall⟩ :=
    boxTriangle_facesOutwards t ht
  exact ⟨rfl, rfl, rfl, v0, v1, v2, htri, h1, h2, hcross, hn, hp0, hp1, hp2, hall,
    fun eye => (BuildPSO_culled_of_normal eye v0.Pos v1.Pos v2.Pos v0.Normal hcross).1,
    fun eye => (BuildPSO_culled_of_normal eye v0.Pos v1.Pos v2.Pos v0.Normal hcross).2⟩


/-- Witness for C26: the first triangle of the cube, `(0, 1, 2)` on the face
`z = -1`, has the normal `(0, 0, -1)` on its three vertices and is kept for a
viewer at `(2, 2, -5)`, the initial camera position. -/
theorem C26_witness :
    (0 < 12) ∧
    ∃ v0 v1 v2 : Vertex, boxTriangle 0 = some (v0, v1, v2) ∧
      v1.Normal = v0.Normal ∧ v2.Normal = v0.Normal ∧
      XMVector3Cross (XMVectorSubtract v1.Pos v0.Pos) (XMVectorSubtract v2.Pos v0.Pos) =
        XMVectorScale v0.Normal 4 :=
  ⟨by decide,
    (C26_cube_triangles_wound_outwards 0 (by decide)).2.2.2.imp fun _ h =>
      h.imp fun _ h => h.imp fun _ h => ⟨h.1, h.2.1, h.2.2.1, h.2.2.2.1⟩⟩


/-! ### The import that fails -/

/-- When a step of `Init` after `CreateFence` throws, `Init` throws (that
exception, or the one of an earlier step). -/
theorem Init_throws_of_rest (r : InitResults) (e : Exception) (h : r.rest = some e) :
    ∃ e', (Init_throws r).2 = Except.error e' := by
  unfold Init_throws
  rcases Init_device r.factoryHr r.factory DeviceState.new with ⟨d, _ | e1⟩
  swap
  · exact ⟨e1, rfl⟩
  simp only
  rcases CreateCommandObjects_throws r _ with ⟨m1, _ | e2⟩
  swap
  · exact ⟨e2, rfl⟩
  simp only
  rcases CreateFence_throws r m1 with ⟨m2, _ | e3⟩
  swap
  · exact ⟨e3, rfl⟩
  simp only
  rw [h]
  exact ⟨e, rfl⟩

/-- When `Init` throws, `wWinMain` never calls `Run`: whatever the frames would
have been, it shows the exception and returns -1, unless the destructor throws
in turn. -/
theorem wWinMain_of_init_error (init : InitResults) (frames : List (Option DrawResults))
    (atExit : FlushResults) (e : Exception) (h : (Init_throws init).2 = Except.error e) :
    wWinMain init frames atExit = ProcessExit.returned (-1) [e] ∨
    wWinMain init frames atExit = ProcessExit.terminated := by
  unfold wWinMain
  rw [h]
  rcases Framework_destructor (Init_throws init).1 atExit with e1 | u
  · exact Or.inr rfl
  · exact Or.inl rfl

/-- When everything before the remaining steps of `Init` succeeded and one of the
remaining steps throws, `Init` throws that exception. -/
theorem Init_throws_of_rest_after_fence (r : InitResults) (e : Exception)
    (hdev : (Init_device r.factoryHr r.factory DeviceState.new).2 = none)
    (hq : 0 ≤ r.queueHr) (ha : 0 ≤ r.allocatorHr) (hl : 0 ≤ r.listHr) (hc : 0 ≤ r.closeHr)
    (hf : 0 ≤ r.fenceHr) (he : r.fenceEventCreated = true) (h : r.rest = some e) :
    (Init_throws r).2 = Except.error e := by
  unfold Init_throws
  rcases hi : Init_device r.factoryHr r.factory DeviceState.new with ⟨d, o⟩
  rw [hi] at hdev
  simp only at hdev
  subst hdev
  simp [CreateCommandObjects_throws, CreateFence_throws, (ThrowIfFailed_iff _).2.mpr hq,
    (ThrowIfFailed_iff _).2.mpr ha, (ThrowIfFailed_iff _).2.mpr hl,
    (ThrowIfFailed_iff _).2.mpr hc, (ThrowIfFailed_iff _).2.mpr hf, he, h]

/-- `BuildObjVB_Upload` throws when the file did not load or gave no vertex. -/
theorem BuildObjVB_Upload_mesh_throws (ok : Bool) (attrib : attrib_t) (shapes : List shape_t)
    (createHr mapHr : Int) (m : ModelState)
    (h : ok = false ∨ (BuildObjVB_Upload_shapes attrib shapes).vertices = []) :
    BuildObjVB_Upload_mesh ok attrib shapes createHr mapHr m =
      (m, some (Exception.runtime_error
        (if ok = false then "tinyobj::LoadObj failed (see Output window)."
          else "OBJ loaded but produced 0 vertices."))) := by
  cases ok
  · rfl
  · rcases h with h | h
    · cases h
    · simp [BuildObjVB_Upload_mesh, h]

/-- C22: the claim does not hold of the code. When the OBJ model did not load, or
loaded without a triangle, `BuildObjVB_Upload` throws its explicit error
(`tinyobj::LoadObj failed (see Output window).` or
`OBJ loaded but produced 0 vertices.`) and leaves every model member as it was;
`Init` does not complete. When the steps of `Init` before it succeeded, `Init`
throws exactly that error, and `wWinMain` never calls `Run`, so that no `Draw`
follows: it shows that error and returns -1 whenever the destructor throws
nothing, and ends in `std::terminate` otherwise. The fallback that the comment in
`Draw` announces exists only as a branch of `Draw`: it binds the box vertex and
index buffers and issues exactly one indexed draw of `m_boxIndexCount` indices and
no model draw, and is taken in exactly the engine states whose `m_modelVB` is
null or whose `m_modelVertexCount` is 0; after a completed `Init` and any run
the import had succeeded, `m_modelVB` is not null and the count is that of
the import, so that for an import of fewer than `2 ^ 32` vertices every `Draw`
issues the model draw and no indexed draw. On the sample platform with a failing
`tinyobj::LoadObj`, `Init` returns nothing and `wWinMain` returns -1 after
showing the error of the import, while with the file in place `Init`
completes. -/
theorem C22_failed_import_aborts_init :
    (∀ (attrib : attrib_t) (shapes : List shape_t) (createHr mapHr : Int) (m : ModelState),
      BuildObjVB_Upload_mesh false attrib shapes createHr mapHr m =
        (m, some (Exception.runtime_error "tinyobj::LoadObj failed (see Output window)."))) ∧
    (∀ (attrib : attrib_t) (shapes : List shape_t) (createHr mapHr : Int) (m : ModelState),
      (BuildObjVB_Upload_shapes attrib shapes).vertices = [] →
      BuildObjVB_Upload_mesh true attrib shapes createHr mapHr m =
        (m, some (Exception.runtime_error "OBJ loaded but produced 0 vertices."))) ∧
    (∀ (env : Env) (kBox k1 k2 : Nat) (s : Framework),
      env.objLoadOk = false ∨ env.objVertexCount = 0 → s.Init env kBox k1 k2 = none) ∧
    (∀ (init : InitResults) (frames : List (Option DrawResults)) (atExit : FlushResults)
      (ok : Bool) (attrib : attrib_t) (shapes : List shape_t) (createHr mapHr : Int)
      (m : ModelState),
      init.rest = (BuildObjVB_Upload_mesh ok attrib shapes createHr mapHr m).2 →
      ok = false ∨ (BuildObjVB_Upload_shapes attrib shapes).vertices = [] →
      ∃ e, (Init_throws init).2 = Except.error e ∧
        (wWinMain init frames atExit = ProcessExit.returned (-1) [e] ∨
          wWinMain init frames atExit = ProcessExit.terminated)) ∧
    (∀ (init : InitResults) (frames : List (Option DrawResults)) (atExit : FlushResults)
      (ok : Bool) (attrib : attrib_t) (shapes : List shape_t) (createHr mapHr : Int)
      (m : ModelState),
      (Init_device init.factoryHr init.factory DeviceState.new).2 = none →
      0 ≤ init.queueHr → 0 ≤ init.allocatorHr → 0 ≤ init.listHr → 0 ≤ init.closeHr →
      0 ≤ init.fenceHr → init.fenceEventCreated = true →
      init.rest = (BuildObjVB_Upload_mesh ok attrib shapes createHr mapHr m).2 →
      ok = false ∨ (BuildObjVB_Upload_shapes attrib shapes).vertices = [] →
      init.rest = some (Exception.runtime_error
        (if ok = false then "tinyobj::LoadObj failed (see Output window)."
          else "OBJ loaded but produced 0 vertices.")) ∧
      (Init_throws init).2 = Except.error (Exception.runtime_error
        (if ok = false then "tinyobj::LoadObj failed (see Output window)."
          else "OBJ loaded but produced 0 vertices.")) ∧
      (Framework_destructor (Init_throws init).1 atExit = Except.ok () →
        wWinMain init frames atExit = ProcessExit.returned (-1) [Exception.runtime_error
          (if ok = false then "tinyobj::LoadObj failed (see Output window)."
            else "OBJ loaded but produced 0 vertices.")]) ∧
      ((∃ e, Framework_destructor (Init_throws init).1 atExit = Except.error e) →
        wWinMain init frames atExit = ProcessExit.terminated)) ∧
    (∀ s : Framework, ¬ (s.m_modelVB.isSome = true ∧ 0 < s.m_modelVertexCount) →
      s.Draw_record.recording =
        [Cmd.ResourceBarrier s.CurrentBackBuffer D3D12_RESOURCE_STATE_PRESENT
            D3D12_RESOURCE_STATE_RENDER_TARGET,
          Cmd.RSSetViewports s.m_screenViewport,
          Cmd.RSSetScissorRects s.m_scissorRect,
          Cmd.SetGraphicsRootSignature,
          Cmd.SetDescriptorHeaps,
          Cmd.SetGraphicsRootDescriptorTable,
          Cmd.OMSetRenderTargets s.CurrentBackBufferView
            (s.rtvDescriptors s.CurrentBackBufferView)
            s.DepthStencilView (s.dsvDescriptors s.DepthStencilView),
          Cmd.ClearRenderTargetView s.CurrentBackBufferView
            (s.rtvDescriptors s.CurrentBackBufferView),
          Cmd.ClearDepthStencilView s.DepthStencilView (s.dsvDescriptors s.DepthStencilView),
          Cmd.IASetPrimitiveTopology,
          Cmd.IASetVertexBuffers s.m_boxVBView.BufferLocation,
          Cmd.IASetIndexBuffer s.m_boxIBView.BufferLocation,
          Cmd.DrawIndexedInstanced s.m_boxIndexCount,
          Cmd.ResourceBarrier s.CurrentBackBuffer D3D12_RESOURCE_STATE_RENDER_TARGET
            D3D12_RESOURCE_STATE_PRESENT]) ∧
    (∀ s : Framework, s.m_modelVB.isSome = true ∧ 0 < s.m_modelVertexCount →
      Cmd.DrawInstanced s.m_modelVertexCount ∈ s.Draw_record.recording ∧
      ∀ n, Cmd.DrawIndexedInstanced n ∉ s.Draw_record.recording) ∧
    (∀ (env : Env) (kBox k1 k2 : Nat) (w h : Int) (s0 s : Framework) (ops : List Op),
      (Framework.new w h).Init env kBox k1 k2 = some s0 → s0.run ops = some s →
      env.objLoadOk = true ∧ env.objVertexCount ≠ 0 ∧
      s.m_boxIndexCount = 36 ∧
      s.m_modelVB.isSome = true ∧ s.m_modelVertexCount = env.objVertexCount % 2 ^ 32 ∧
      (env.objVertexCount < 2 ^ 32 →
        Cmd.DrawInstanced env.objVertexCount ∈ s.Draw_record.recording ∧
        ∀ n, Cmd.DrawIndexedInstanced n ∉ s.Draw_record.recording)) ∧
    (sampleEnvNoObj.objLoadOk = false ∧
      (Framework.new 1280 720).Init sampleEnvNoObj 0 0 0 = none ∧
      (Framework.new 1280 720).Init sampleEnv 0 0 0 = some sampleReady ∧
      BuildObjVB_Upload_mesh false sampleAttrib sampleShapes 0 0 ModelState.new =
        (ModelState.new,
          some (Exception.runtime_error "tinyobj::LoadObj failed (see Output window).")) ∧
      (BuildObjVB_Upload_shapes sampleAttrib sampleNoTriangles).vertices = [] ∧
      BuildObjVB_Upload_mesh true sampleAttrib sampleNoTriangles 0 0 ModelState.new =
        (ModelState.new, some (Exception.runtime_error "OBJ loaded but produced 0 vertices.")) ∧
      sampleInitNoObj.rest =
        (BuildObjVB_Upload_mesh false sampleAttrib sampleShapes 0 0 ModelState.new).2 ∧
      (Init_throws sampleInitNoObj).2 = Except.error
        (Exception.runtime_error "tinyobj::LoadObj failed (see Output window).") ∧
      wWinMain sampleInitNoObj [none, none] sampleFlushOk = ProcessExit.returned (-1)
        [Exception.runtime_error "tinyobj::LoadObj failed (see Output window)."] ∧
      wWinMain sampleInit [none, none] sampleFlushOk = ProcessExit.returned 0 []) := by
  have hload : ∀ (attrib : attrib_t) (shapes : List shape_t) (createHr mapHr : Int)
      (m : ModelState),
      BuildObjVB_Upload_mesh false attrib shapes createHr mapHr m =
        (m, some (Exception.runtime_error "tinyobj::LoadObj failed (see Output window).")) :=
    fun _ _ _ _ _ => rfl
  have hempty : ∀ (attrib : attrib_t) (shapes : List shape_t) (createHr mapHr : Int)
      (m : ModelState),
      (BuildObjVB_Upload_shapes attrib shapes).vertices = [] →
      BuildObjVB_Upload_mesh true attrib shapes createHr mapHr m =
        (m, some (Exception.runtime_error "OBJ loaded but produced 0 vertices.")) := by
    intro attrib shapes createHr mapHr m hv
    simp [BuildObjVB_Upload_mesh, hv]
  have hnone : ∀ (env : Env) (kBox k1 k2 : Nat) (s : Framework),
      env.objLoadOk = false ∨ env.objVertexCount = 0 → s.Init env kBox k1 k2 = none := by
    intro env kBox k1 k2 s hfail
    rcases hi : s.Init env kBox k1 k2 with _ | s0
    · rfl
    · obtain ⟨-, -, -, -, -, -, hok, hcount⟩ := Framework.Init_geometry env kBox k1 k2 s s0 hi
      rcases hfail with hf | hf
      · rw [hf] at hok
        cases hok
      · exact absurd hf hcount
  refine ⟨hload, hempty, hnone, ?_, ?_, Framework.Draw_record_cube,
    Framework.Draw_record_model, ?_, ?_⟩
  · intro init frames atExit ok attrib shapes createHr mapHr m hrest hfail
    rw [BuildObjVB_Upload_mesh_throws ok attrib shapes createHr mapHr m hfail] at hrest
    obtain ⟨e', he'⟩ := Init_throws_of_rest init _ hrest
    exact ⟨e', he', wWinMain_of_init_error init frames atExit e' he'⟩
  · intro init frames atExit ok attrib shapes createHr mapHr m hdev hq ha hl hc hf he hrest hfail
    rw [BuildObjVB_Upload_mesh_throws ok attrib shapes createHr mapHr m hfail] at hrest
    have hthrow := Init_throws_of_rest_after_fence init _ hdev hq ha hl hc hf he hrest
    refine ⟨hrest, hthrow, ?_, ?_⟩
    · intro hd
      exact (wWinMain_of_destructor_ok init frames atExit hd).1 _ hthrow
    · rintro ⟨e, hd⟩
      simp [wWinMain, hd]
  · intro env kBox k1 k2 w h s0 s ops hinit hrun
    obtain ⟨b1, -, -, m1, -, m3, hok, hcount⟩ :=
      Framework.Init_geometry env kBox k1 k2 _ s0 hinit
    have hgeo := Framework.run_geometry ops s0 s hrun
    simp only [Framework.geometryMembers, Prod.mk.injEq] at hgeo
    obtain ⟨-, -, -, -, g5, g6, -, g8⟩ := hgeo
    refine ⟨hok, hcount, g5.trans b1, by rw [g6]; exact m1, g8.trans m3, ?_⟩
    intro hlt
    have hcnt : s.m_modelVertexCount = env.objVertexCount := by
      rw [g8, m3, Nat.mod_eq_of_lt hlt]
    have := Framework.Draw_record_model s ⟨by rw [g6]; exact m1, by rw [hcnt]; omega⟩
    rw [hcnt] at this
    exact this
  · exact ⟨rfl, hnone _ _ _ _ _ (Or.inl rfl), rfl, rfl, rfl, rfl, rfl, rfl, rfl, rfl⟩

/-! ### The render-target views -/

/-- The handle of `CurrentBackBufferView()` for a back-buffer index that is 0
or 1. -/
theorem Framework.CurrentBackBufferView_of_index (s : Framework) (i : Nat)
    (hi : i < SwapChainBufferCount) (h : s.m_currBackBuffer = (i : Int)) :
    s.CurrentBackBufferView = i * s.m_rtvDescriptorSize := by
  unfold Framework.CurrentBackBufferView
  rw [h]
  have h2 : i < 2 := hi
  interval_cases i <;> rfl

/-- C23: after `Init` on a device with a positive RTV increment and any run of
frames and resizes, `OnResize` completes and creates the view of swap-chain
buffer 0 at offset `0 * m_rtvDescriptorSize` and that of buffer 1 at offset
`1 * m_rtvDescriptorSize` from the heap start, and no other render-target view;
for `i` in `{0, 1}` the descriptor at `i * m_rtvDescriptorSize` then refers to
the resource in `m_swapChainBuffer[i]`, this offset is the handle that
`CurrentBackBufferView()` returns when `m_currBackBuffer = i`, for which
`CurrentBackBuffer()` is that resource, and the descriptor ends inside the heap
of `SwapChainBufferCount` descriptors. At every `Draw` the index is 0 or 1, and
the barriers, the render-target binding and the clear all refer to the same
resource, the current back buffer, through a view inside the heap. -/
theorem C23_rtv_views_match_back_buffers (env : Env) (kBox k1 k2 : Nat) (w h : Int)
    (s0 s : Framework) (ops : List Op)
    (hrtv : 0 < env.rtvDescriptorSize)
    (hinit : (Framework.new w h).Init env kBox k1 k2 = some s0)
    (hrun : s0.run ops = some s) :
    rtvHeapDesc_NumDescriptors = SwapChainBufferCount ∧
    (∀ j1 j2 : Nat, ∃ s', s.OnResize j1 j2 = some s' ∧
      s'.m_rtvDescriptorSize = s.m_rtvDescriptorSize ∧
      (∀ i off, Call.CreateRenderTargetView i off ∈ s'.trace.drop s.trace.length ↔
        i < SwapChainBufferCount ∧ off = i * s.m_rtvDescriptorSize) ∧
      ∀ i, i < SwapChainBufferCount →
        ∃ b, s'.m_swapChainBuffer[i]? = some (some b) ∧
          s'.rtvDescriptors (i * s'.m_rtvDescriptorSize) = some b ∧
          ({ s' with m_currBackBuffer := (i : Int) }).CurrentBackBufferView =
            i * s'.m_rtvDescriptorSize ∧
          ({ s' with m_currBackBuffer := (i : Int) }).CurrentBackBuffer = some b ∧
          i * s'.m_rtvDescriptorSize + s'.m_rtvDescriptorSize ≤
            rtvHeapDesc_NumDescriptors * s'.m_rtvDescriptorSize) ∧
    (s.m_currBackBuffer = 0 ∨ s.m_currBackBuffer = 1) ∧
    (∃ b, s.CurrentBackBuffer = some b ∧
      s.rtvDescriptors s.CurrentBackBufferView = some b ∧
      s.Draw_record.recording.head? =
        some (Cmd.ResourceBarrier (some b) D3D12_RESOURCE_STATE_PRESENT
          D3D12_RESOURCE_STATE_RENDER_TARGET) ∧
      Cmd.OMSetRenderTargets s.CurrentBackBufferView (some b) s.DepthStencilView
        (s.dsvDescriptors s.DepthStencilView) ∈ s.Draw_record.recording ∧
      Cmd.ClearRenderTargetView s.CurrentBackBufferView (some b) ∈ s.Draw_record.recording ∧
      s.Draw_record.recording.getLast? =
        some (Cmd.ResourceBarrier (some b) D3D12_RESOURCE_STATE_RENDER_TARGET
          D3D12_RESOURCE_STATE_PRESENT) ∧
      (∀ v r, Cmd.ClearRenderTargetView v r ∈ s.Draw_record.recording →
        v = s.CurrentBackBufferView ∧ r = some b) ∧
      (∀ v r d dr, Cmd.OMSetRenderTargets v r d dr ∈ s.Draw_record.recording →
        v = s.CurrentBackBufferView ∧ r = some b)) ∧
    s.CurrentBackBufferView + s.m_rtvDescriptorSize ≤
      rtvHeapDesc_NumDescriptors * s.m_rtvDescriptorSize := by
  have hr0 : Ready s0 := Framework.Init_ready env kBox k1 k2 w h s0 hrtv hinit
  obtain ⟨s1, hs1, hr⟩ := Framework.run_ready ops s0 hr0
  rw [hrun] at hs1
  cases hs1
  have hsize := hr.rtvSize
  refine ⟨rfl, ?_, hr.index, ?_, ?_⟩
  · intro j1 j2
    obtain ⟨b0, b1, d, hsc, hbuf, -, hd, -⟩ := hr.buffers
    have hres := Framework.OnResize_eq_of_synced j1 j2 s hr.synced_of_ready b0 b1 (some b0)
      (some b1) (some d) hsc hbuf hd
    refine ⟨_, hres, rfl, ?_, ?_⟩
    · intro i off
      simp only [List.drop_left, List.mem_cons, Call.CreateRenderTargetView.injEq,
        List.mem_singleton, List.not_mem_nil, or_false, reduceCtorEq, false_or]
      have hcnt : SwapChainBufferCount = 2 := rfl
      rw [hcnt]
      constructor
      · rintro (⟨rfl, rfl⟩ | ⟨rfl, rfl⟩)
        · exact ⟨by norm_num, by simp⟩
        · exact ⟨by norm_num, by simp⟩
      · rintro ⟨hi, rfl⟩
        interval_cases i
        · left
          simp
        · right
          simp
    · intro i hi
      have hi2 : i < 2 := hi
      have hne : s.m_rtvDescriptorSize ≠ 0 := by omega
      interval_cases i
      · refine ⟨s.nextResource, rfl, ?_, ?_, rfl, ?_⟩
        · show Function.update (Function.update s.rtvDescriptors 0 (some s.nextResource))
            s.m_rtvDescriptorSize (some (s.nextResource + 1)) (0 * s.m_rtvDescriptorSize) = _
          rw [Nat.zero_mul, Function.update_noteq (Ne.symm hne), Function.update_same]
        · exact Framework.CurrentBackBufferView_of_index _ 0 hi rfl
        · show 0 * s.m_rtvDescriptorSize + s.m_rtvDescriptorSize ≤ 2 * s.m_rtvDescriptorSize
          omega
      · refine ⟨s.nextResource + 1, rfl, ?_, ?_, rfl, ?_⟩
        · show Function.update (Function.update s.rtvDescriptors 0 (some s.nextResource))
            s.m_rtvDescriptorSize (some (s.nextResource + 1)) (1 * s.m_rtvDescriptorSize) = _
          rw [Nat.one_mul, Function.update_same]
        · exact Framework.CurrentBackBufferView_of_index _ 1 hi rfl
        · show 1 * s.m_rtvDescriptorSize + s.m_rtvDescriptorSize ≤ 2 * s.m_rtvDescriptorSize
          omega
  · obtain ⟨b, hb, hview, -, -⟩ := hr.current
    refine ⟨b, hb, hview, ?_, ?_, ?_, ?_, ?_, ?_⟩
    · rw [Framework.Draw_record_eq]
      simp [Framework.drawCommands, hb]
    · rw [Framework.Draw_record_eq]
      simp [Framework.drawCommands, hview]
    · rw [Framework.Draw_record_eq]
      simp [Framework.drawCommands, hview]
    · rw [Framework.Draw_record_eq]
      by_cases hbr : (s.m_modelVB.isSome && decide (0 < s.m_modelVertexCount)) = true
      · simp [Framework.drawCommands, hb, hbr]
      · simp [Framework.drawCommands, hb, hbr]
    · intro v r hmem
      rw [Framework.Draw_record_eq] at hmem
      by_cases hbr : (s.m_modelVB.isSome && decide (0 < s.m_modelVertexCount)) = true
      · simpa [Framework.drawCommands, hview, hbr] using hmem
      · simpa [Framework.drawCommands, hview, hbr] using hmem
    · intro v r d dr hmem
      rw [Framework.Draw_record_eq] at hmem
      by_cases hbr : (s.m_modelVB.isSome && decide (0 < s.m_modelVertexCount)) = true
      · have := hmem
        simp [Framework.drawCommands, hview, hbr] at this
        exact ⟨this.1, this.2.1⟩
      · have := hmem
        simp [Framework.drawCommands, hview, hbr] at this
        exact ⟨this.1, this.2.1⟩
  · show s.CurrentBackBufferView + s.m_rtvDescriptorSize ≤ 2 * s.m_rtvDescriptorSize
    rcases hr.index with h0 | h1
    · rw [Framework.CurrentBackBufferView_of_index s 0 (by decide) h0]
      omega
    · rw [Framework.CurrentBackBufferView_of_index s 1 (by decide) h1]
      omega

/-- Witness for C23: on the sample platform (RTV increment 32), before the resize
of the sample run the current back buffer is buffer 0 and its view is at the heap
start; the resize writes the views at the offsets 0 and 32. -/
theorem C23_witness :
    (0 < sampleEnv.rtvDescriptorSize) ∧
    sampleBeforeResize.CurrentBackBufferView + sampleBeforeResize.m_rtvDescriptorSize ≤
      rtvHeapDesc_NumDescriptors * sampleBeforeResize.m_rtvDescriptorSize ∧
    (sampleBeforeResize.m_currBackBuffer = 0 ∨ sampleBeforeResize.m_currBackBuffer = 1) ∧
    sampleBeforeResize.m_rtvDescriptorSize = 32 ∧
    sampleResized.rtvDescriptors 0 = sampleResized.m_swapChainBuffer.getD 0 none ∧
    sampleResized.rtvDescriptors 32 = sampleResized.m_swapChainBuffer.getD 1 none :=
  ⟨by decide,
    (C23_rtv_views_match_back_buffers sampleEnv 0 0 0 1280 720 sampleReady sampleBeforeResize
      sampleResizeOps (by decide) rfl rfl).2.2.2.2,
    (C23_rtv_views_match_back_buffers sampleEnv 0 0 0 1280 720 sampleReady sampleBeforeResize
      sampleResizeOps (by decide) rfl rfl).2.2.1,
    rfl, rfl, rfl⟩

end Box
